import Mathlib

/-!
# Spin integrators: a shallow embedding

The Suzuki-Trotter spin-lattice integrator (`src/spinlattice/suzuki-trotter.cpp`) with its
field kernels (`src/spinlattice/fields.cpp`), the rotational anisotropies of order 4-3 and
6-1 odd (`src/anisotropy/rotational_order_4_3.cpp`, `rotational_order_6_1_odd.cpp`), the
anisotropy basis vectors (`src/anisotropy/initialize.cpp`) and input keywords
(`src/anisotropy/interface.cpp`), the distributed LSF Runge-Kutta integrator
(`src/mpi/lsf_rk4_mpi.cpp`) and the serial LSF field (`src/simulate/LSF.cpp`).

Conventions of the embedding.

* A C++ `double` is an element of an arbitrary field `K` (exact arithmetic); theorems are
  stated over a linearly ordered field, so they hold over the reals and can be evaluated over
  the rationals.  The library function `sqrt` is a parameter `sqrt : K → K`.
* A `std::vector<double>` indexed by atom is a total function `Nat → K`.
* A `for (int i = start; i < stop; ++i)` loop is `for_range start stop body`.
* Global arrays mutated by a routine are fields of a state record that the routine maps to a new
  state record; read-only globals are fields of `Env`.
* A routine that can end the program (`err::vexit()`, a failed input check) returns an
  `Option`, with `none` for the end of the program.
-/

namespace Vampire

/-! ## Loops -/

/-- Run `body i`, `body (i+1)`, ... for `count` consecutive indices starting at `i`. -/
def loop_from {σ : Type} (body : Nat → σ → σ) : Nat → Nat → σ → σ
  | 0, _, s => s
  | count + 1, i, s => loop_from body count (i + 1) (body i s)

/-- The loop `for (int i = start; i < stop; ++i) body(i);`. -/
def for_range {σ : Type} (start stop : Nat) (body : Nat → σ → σ) (s : σ) : σ :=
  loop_from body (stop - start) start s

/-! ## Three-vectors (used to state properties; the code works on components) -/

/-- A three-vector. -/
@[ext] structure Vec3 (K : Type) where
  x : K
  y : K
  z : K

namespace Vec3

variable {K : Type} [Field K]

/-- Componentwise sum. -/
def add (a b : Vec3 K) : Vec3 K := ⟨a.x + b.x, a.y + b.y, a.z + b.z⟩

/-- Scalar multiple `c a`. -/
def smul (c : K) (a : Vec3 K) : Vec3 K := ⟨c * a.x, c * a.y, c * a.z⟩

/-- Scalar product `a . b`. -/
def dot (a b : Vec3 K) : K := a.x * b.x + a.y * b.y + a.z * b.z

/-- Vector product `a x b`. -/
def cross (a b : Vec3 K) : Vec3 K :=
  ⟨a.y * b.z - a.z * b.y, a.z * b.x - a.x * b.z, a.x * b.y - a.y * b.x⟩

/-- Squared length. -/
def normSq (a : Vec3 K) : K := dot a a

end Vec3

/-! ## State and environment of the spin-lattice integrator -/

/-- Entry of `mp::material[imat]` as far as the integrators read it. -/
structure Material (K : Type) where
  alpha : K
  alpha_eq : K
  H_th_sigma : K
  H_th_sigma_eq : K
  mu_s_SI : K

/-- Entry of `sld::internal::mp[imat]` (the values returned by `.get()`) read by the lattice
sub-steps. -/
structure SldMaterial (K : Type) where
  mass : K
  damp_lat : K
  eq_damp_lat : K
  F_th_sigma : K
  F_th_sigma_eq : K

/-- Read-only globals of one integration step (`sim::`, `mp::`, `atoms::type_array`,
`vmpi::`). -/
structure Env (K : Type) where
  time : Nat
  equilibration_time : Nat
  temperature : K
  dt : K
  dt_SI : K
  gamma_SI : K
  num_atoms : Nat
  num_core_atoms : Nat
  num_bdry_atoms : Nat
  type_array : Nat → Nat
  material : Nat → Material K
  sld_mp : Nat → SldMaterial K
  lsf_second_order_coefficient : Nat → K
  lsf_fourth_order_coefficient : Nat → K
  lsf_sixth_order_coefficient : Nat → K

/-- Arrays mutated by `sld::suzuki_trotter` and its primitives: the `atoms::` spin, coordinate
and velocity arrays, the `sld::internal::` field and force arrays, the step-local noise
vectors `Hx_th..Fz_th`, the `sld::internal::` per-atom sums and energies written by the field
and force kernels, and the number of Gaussian variates drawn so far. -/
@[ext] structure SLD (K : Type) where
  x_spin_array : Nat → K
  y_spin_array : Nat → K
  z_spin_array : Nat → K
  fields_array_x : Nat → K
  fields_array_y : Nat → K
  fields_array_z : Nat → K
  forces_array_x : Nat → K
  forces_array_y : Nat → K
  forces_array_z : Nat → K
  x_coord_array : Nat → K
  y_coord_array : Nat → K
  z_coord_array : Nat → K
  x_velo_array : Nat → K
  y_velo_array : Nat → K
  z_velo_array : Nat → K
  Hx_th : Nat → K
  Hy_th : Nat → K
  Hz_th : Nat → K
  Fx_th : Nat → K
  Fy_th : Nat → K
  Fz_th : Nat → K
  sumJ : Nat → K
  exch_eng : Nat → K
  sumC : Nat → K
  coupl_eng : Nat → K
  potential_eng : Nat → K
  gaussian_count : Nat

namespace SLD

variable {K : Type}

/-- Spin of atom `i`. -/
def spin (st : SLD K) (i : Nat) : Vec3 K :=
  ⟨st.x_spin_array i, st.y_spin_array i, st.z_spin_array i⟩

/-- Field of atom `i`. -/
def field (st : SLD K) (i : Nat) : Vec3 K :=
  ⟨st.fields_array_x i, st.fields_array_y i, st.fields_array_z i⟩

/-- Spin-noise triple of atom `i`. -/
def H_th (st : SLD K) (i : Nat) : Vec3 K := ⟨st.Hx_th i, st.Hy_th i, st.Hz_th i⟩

/-- Velocity of atom `i`. -/
def velo (st : SLD K) (i : Nat) : Vec3 K :=
  ⟨st.x_velo_array i, st.y_velo_array i, st.z_velo_array i⟩

/-- Position of atom `i`. -/
def coord (st : SLD K) (i : Nat) : Vec3 K :=
  ⟨st.x_coord_array i, st.y_coord_array i, st.z_coord_array i⟩

/-- Force on atom `i`. -/
def force (st : SLD K) (i : Nat) : Vec3 K :=
  ⟨st.forces_array_x i, st.forces_array_y i, st.forces_array_z i⟩

/-- Force-noise triple of atom `i`. -/
def F_th (st : SLD K) (i : Nat) : Vec3 K := ⟨st.Fx_th i, st.Fy_th i, st.Fz_th i⟩

end SLD

/-! ## `sld::internal::cayley_update` (suzuki-trotter.cpp, lines 543-578) -/

section Cayley

variable {K : Type} [Field K]

/-- Body of the loop of `cayley_update` for atom `i`. -/
def cayley_update_atom (dt : K) (i : Nat) (st : SLD K) : SLD K :=
  let Sx := st.x_spin_array i
  let Sy := st.y_spin_array i
  let Sz := st.z_spin_array i
  let Ax := st.fields_array_x i * dt
  let Ay := st.fields_array_y i * dt
  let Az := st.fields_array_z i * dt
  let AS := Ax * Sx + Ay * Sy + Az * Sz
  let A2 := Ax * Ax + Ay * Ay + Az * Az
  let AxSx := Ay * Sz - Az * Sy
  let AxSy := Az * Sx - Ax * Sz
  let AxSz := Ax * Sy - Ay * Sx
  let factor := 1.0 / (1.0 + 0.25 * A2)
  { st with
    x_spin_array := Function.update st.x_spin_array i
      ((Sx * (1.0 - 0.25 * A2) + AxSx + 0.5 * Ax * AS) * factor)
    y_spin_array := Function.update st.y_spin_array i
      ((Sy * (1.0 - 0.25 * A2) + AxSy + 0.5 * Ay * AS) * factor)
    z_spin_array := Function.update st.z_spin_array i
      ((Sz * (1.0 - 0.25 * A2) + AxSz + 0.5 * Az * AS) * factor) }

/-- The routine `cayley_update(start_index, end_index, dt, spins, fields)`. -/
def cayley_update (start_index end_index : Nat) (dt : K) (st : SLD K) : SLD K :=
  for_range start_index end_index (cayley_update_atom dt) st

/-- The closed form of the specification, in its words:
`S' = (S(1 − A²/4) + A×S + (A·S)A/2) / (1 + A²/4)`. -/
def cayley_closed_form (A S : Vec3 K) : Vec3 K :=
  Vec3.smul (1 / (1 + Vec3.normSq A / 4))
    (Vec3.add (Vec3.add (Vec3.smul (1 - Vec3.normSq A / 4) S) (Vec3.cross A S))
      (Vec3.smul (Vec3.dot A S / 2) A))

end Cayley

/-! ## `sld::internal::add_spin_noise` (suzuki-trotter.cpp, lines 580-632) -/

section SpinNoise

variable {K : Type} [Field K]

/-- Body of the loop of `add_spin_noise` for atom `i`. -/
def add_spin_noise_atom (sqrt : K → K) (env : Env K) (i : Nat) (st : SLD K) : SLD K :=
  let imat := env.type_array i
  let lambda := (env.material imat).alpha
  let spin_noise := (env.material imat).H_th_sigma * sqrt env.temperature
  -- if during equilibration
  let lambda := if env.time < env.equilibration_time then (env.material imat).alpha_eq else lambda
  let spin_noise := if env.time < env.equilibration_time then
    (env.material imat).H_th_sigma_eq * sqrt env.temperature else spin_noise
  let Sx := st.x_spin_array i
  let Sy := st.y_spin_array i
  let Sz := st.z_spin_array i
  let Fx := st.fields_array_x i + spin_noise * st.Hx_th i
  let Fy := st.fields_array_y i + spin_noise * st.Hy_th i
  let Fz := st.fields_array_z i + spin_noise * st.Hz_th i
  let FxSx := Fy * Sz - Fz * Sy
  let FxSy := Fz * Sx - Fx * Sz
  let FxSz := Fx * Sy - Fy * Sx
  let inv_l2 := 1.0 / (1.0 + lambda * lambda)
  { st with
    fields_array_x := Function.update st.fields_array_x i ((Fx + lambda * FxSx) * inv_l2)
    fields_array_y := Function.update st.fields_array_y i ((Fy + lambda * FxSy) * inv_l2)
    fields_array_z := Function.update st.fields_array_z i ((Fz + lambda * FxSz) * inv_l2) }

/-- The routine `add_spin_noise(start_index, end_index, dt, type_array, spins, fields, H_th)`;
the argument `dt` is not read by the body. -/
def add_spin_noise (sqrt : K → K) (env : Env K) (start_index end_index : Nat) (_dt : K)
    (st : SLD K) : SLD K :=
  for_range start_index end_index (add_spin_noise_atom sqrt env) st

/-- The renormalised field of the specification, in its words:
`F' = (G + λ G×S) / (1 + λ²)` with `G = F + H_th` and `H_th = noise * h` the scaled noise. -/
def spin_noise_closed_form (lambda noise : K) (F h S : Vec3 K) : Vec3 K :=
  Vec3.smul (1 / (1 + lambda ^ 2))
    (Vec3.add (Vec3.add F (Vec3.smul noise h))
      (Vec3.smul lambda (Vec3.cross (Vec3.add F (Vec3.smul noise h)) S)))

end SpinNoise

/-! ## Lattice sub-steps of `sld::suzuki_trotter` (suzuki-trotter.cpp, lines 286-307, 356-376) -/

section Lattice

variable {K : Type} [Field K]

/-- Body of the first lattice loop ("update position, Velocity") for one atom: velocity kick,
then position drift with the new velocity. -/
def update_position_velocity_atom (sqrt : K → K) (env : Env K) (atom : Nat) (st : SLD K) :
    SLD K :=
  let dt2 := 0.5 * env.dt_SI * 1e12
  let imat := env.type_array atom
  let dt2_m := 0.5 * env.dt_SI * 1e12 / (env.sld_mp imat).mass
  let f_eta := 1.0 - 0.5 * (env.sld_mp imat).damp_lat * env.dt_SI * 1e12
  let velo_noise := (env.sld_mp imat).F_th_sigma * sqrt env.temperature
  -- if during equilibration
  let f_eta := if env.time < env.equilibration_time then
    1.0 - 0.5 * (env.sld_mp imat).eq_damp_lat * env.dt_SI * 1e12 else f_eta
  let velo_noise := if env.time < env.equilibration_time then
    (env.sld_mp imat).F_th_sigma_eq * sqrt env.temperature else velo_noise
  let vx := f_eta * st.x_velo_array atom + dt2_m * st.forces_array_x atom
    + dt2 * velo_noise * st.Fx_th atom
  let vy := f_eta * st.y_velo_array atom + dt2_m * st.forces_array_y atom
    + dt2 * velo_noise * st.Fy_th atom
  let vz := f_eta * st.z_velo_array atom + dt2_m * st.forces_array_z atom
    + dt2 * velo_noise * st.Fz_th atom
  { st with
    x_velo_array := Function.update st.x_velo_array atom vx
    y_velo_array := Function.update st.y_velo_array atom vy
    z_velo_array := Function.update st.z_velo_array atom vz
    x_coord_array := Function.update st.x_coord_array atom
      (st.x_coord_array atom + env.dt_SI * 1e12 * vx)
    y_coord_array := Function.update st.y_coord_array atom
      (st.y_coord_array atom + env.dt_SI * 1e12 * vy)
    z_coord_array := Function.update st.z_coord_array atom
      (st.z_coord_array atom + env.dt_SI * 1e12 * vz) }

/-- The first lattice loop of `suzuki_trotter` over all atoms. -/
def update_position_velocity (sqrt : K → K) (env : Env K) (st : SLD K) : SLD K :=
  for_range 0 env.num_atoms (update_position_velocity_atom sqrt env) st

/-- Body of the second lattice loop for one atom: velocity kick only. -/
def update_velocity_atom (sqrt : K → K) (env : Env K) (atom : Nat) (st : SLD K) : SLD K :=
  let dt2 := 0.5 * env.dt_SI * 1e12
  let imat := env.type_array atom
  let dt2_m := 0.5 * env.dt_SI * 1e12 / (env.sld_mp imat).mass
  let f_eta := 1.0 - 0.5 * (env.sld_mp imat).damp_lat * env.dt_SI * 1e12
  let velo_noise := (env.sld_mp imat).F_th_sigma * sqrt env.temperature
  -- if during equilibration
  let f_eta := if env.time < env.equilibration_time then
    1.0 - 0.5 * (env.sld_mp imat).eq_damp_lat * env.dt_SI * 1e12 else f_eta
  let velo_noise := if env.time < env.equilibration_time then
    (env.sld_mp imat).F_th_sigma_eq * sqrt env.temperature else velo_noise
  { st with
    x_velo_array := Function.update st.x_velo_array atom
      (f_eta * st.x_velo_array atom + dt2_m * st.forces_array_x atom
        + dt2 * velo_noise * st.Fx_th atom)
    y_velo_array := Function.update st.y_velo_array atom
      (f_eta * st.y_velo_array atom + dt2_m * st.forces_array_y atom
        + dt2 * velo_noise * st.Fy_th atom)
    z_velo_array := Function.update st.z_velo_array atom
      (f_eta * st.z_velo_array atom + dt2_m * st.forces_array_z atom
        + dt2 * velo_noise * st.Fz_th atom) }

/-- The second lattice loop of `suzuki_trotter` over all atoms. -/
def update_velocity (sqrt : K → K) (env : Env K) (st : SLD K) : SLD K :=
  for_range 0 env.num_atoms (update_velocity_atom sqrt env) st

/-- The velocity after a kick, in the words of the specification: damping factor
`1 - damp dt / 2`, force term `dt/(2m)` and thermal term `dt/2 * noise`, with `dt` in
picoseconds. -/
def kick_closed_form (dt_ps mass damp noise : K) (v force F_th : Vec3 K) : Vec3 K :=
  Vec3.add (Vec3.add (Vec3.smul (1 - damp * dt_ps / 2) v) (Vec3.smul (dt_ps / (2 * mass)) force))
    (Vec3.smul (dt_ps / 2 * noise) F_th)

end Lattice

/-! ## State and collaborators of the distributed LSF Runge-Kutta integrator -/

/-- Events of one integration step, in program order: the halo-exchange calls, the barrier, and
the array passes over an atom range `[start, stop)`. -/
inductive Event where
  | init_halo_swap
  | complete_halo_swap
  | barrier
  | spin_fields (start stop : Nat)
  | lsf_field (start stop : Nat)
  | external_fields (start stop : Nat)
  | store_initial (start stop : Nat)
  | noise (start stop : Nat)
  | stage (k start stop : Nat)
  | combine (start stop : Nat)
  deriving DecidableEq

/-- Arrays and flags mutated by `sim::LSF_RK4_mpi`: the `atoms::` spin and field arrays, the
`LSF_RK4_arrays::` scratch arrays, the initialisation flag, the number of Gaussian variates
drawn so far, the number of completed halo exchanges and the event log. -/
structure LSF (K : Type) where
  x_spin_array : Nat → K
  y_spin_array : Nat → K
  z_spin_array : Nat → K
  x_total_spin_field_array : Nat → K
  y_total_spin_field_array : Nat → K
  z_total_spin_field_array : Nat → K
  x_total_external_field_array : Nat → K
  y_total_external_field_array : Nat → K
  z_total_external_field_array : Nat → K
  x_lsf_array : Nat → K
  y_lsf_array : Nat → K
  z_lsf_array : Nat → K
  x_initial_spin_array : Nat → K
  y_initial_spin_array : Nat → K
  z_initial_spin_array : Nat → K
  x_k1_array : Nat → K
  y_k1_array : Nat → K
  z_k1_array : Nat → K
  x_k2_array : Nat → K
  y_k2_array : Nat → K
  z_k2_array : Nat → K
  x_k3_array : Nat → K
  y_k3_array : Nat → K
  z_k3_array : Nat → K
  x_k4_array : Nat → K
  y_k4_array : Nat → K
  z_k4_array : Nat → K
  tx : Nat → K
  ty : Nat → K
  tz : Nat → K
  LSF_RK4_set : Bool
  gaussian_count : Nat
  halo_count : Nat
  trace : List Event

namespace LSF

variable {K : Type}

/-- Spin of atom `i`. -/
def spin (st : LSF K) (i : Nat) : Vec3 K :=
  ⟨st.x_spin_array i, st.y_spin_array i, st.z_spin_array i⟩

/-- Spin-dependent field of atom `i`. -/
def spin_field (st : LSF K) (i : Nat) : Vec3 K :=
  ⟨st.x_total_spin_field_array i, st.y_total_spin_field_array i,
   st.z_total_spin_field_array i⟩

/-- External field of atom `i`. -/
def external_field (st : LSF K) (i : Nat) : Vec3 K :=
  ⟨st.x_total_external_field_array i, st.y_total_external_field_array i,
   st.z_total_external_field_array i⟩

/-- LSF field of atom `i`. -/
def lsf (st : LSF K) (i : Nat) : Vec3 K := ⟨st.x_lsf_array i, st.y_lsf_array i, st.z_lsf_array i⟩

/-- Snapshot of the spin of atom `i`. -/
def initial_spin (st : LSF K) (i : Nat) : Vec3 K :=
  ⟨st.x_initial_spin_array i, st.y_initial_spin_array i, st.z_initial_spin_array i⟩

/-- Noise triple of atom `i`. -/
def t (st : LSF K) (i : Nat) : Vec3 K := ⟨st.tx i, st.ty i, st.tz i⟩

/-- Stage increment `k1` of atom `i`. -/
def k1 (st : LSF K) (i : Nat) : Vec3 K := ⟨st.x_k1_array i, st.y_k1_array i, st.z_k1_array i⟩

/-- Stage increment `k2` of atom `i`. -/
def k2 (st : LSF K) (i : Nat) : Vec3 K := ⟨st.x_k2_array i, st.y_k2_array i, st.z_k2_array i⟩

/-- Stage increment `k3` of atom `i`. -/
def k3 (st : LSF K) (i : Nat) : Vec3 K := ⟨st.x_k3_array i, st.y_k3_array i, st.z_k3_array i⟩

/-- Stage increment `k4` of atom `i`. -/
def k4 (st : LSF K) (i : Nat) : Vec3 K := ⟨st.x_k4_array i, st.y_k4_array i, st.z_k4_array i⟩

/-- Append an event to the log. -/
def log (ev : Event) (st : LSF K) : LSF K := { st with trace := st.trace ++ [ev] }

end LSF

/-- The collaborators of the integrator whose code is outside the repository sources: the field
accumulator, the Gaussian generator and the data delivered by the halo exchange. -/
structure Collab (K : Type) where
  /-- Spin-dependent field on atom `i`, a function of the three spin arrays. -/
  spin_field_x : (Nat → K) → (Nat → K) → (Nat → K) → Nat → K
  spin_field_y : (Nat → K) → (Nat → K) → (Nat → K) → Nat → K
  spin_field_z : (Nat → K) → (Nat → K) → (Nat → K) → Nat → K
  /-- External field on atom `i`. -/
  external_field_x : Nat → K
  external_field_y : Nat → K
  external_field_z : Nat → K
  /-- The `n`-th variate returned by `mtrandom::gaussian` (counted from `0`). -/
  gaussian : Nat → K
  /-- Spin of halo atom `j` delivered by the `n`-th completed halo exchange. -/
  halo_x : Nat → Nat → K
  halo_y : Nat → Nat → K
  halo_z : Nat → Nat → K

section LSFCollaborators

variable {K : Type} [Field K]

/-- Modelled from the spec: the Field Accumulator for one atom, "a pure function of its inputs"
that "must not mutate spins": the spin-field entry of `atom` is overwritten with the field
computed from the current spin arrays. -/
def calculate_spin_fields_atom (c : Collab K) (atom : Nat) (s : LSF K) : LSF K :=
  { s with
    x_total_spin_field_array := Function.update s.x_total_spin_field_array atom
      (c.spin_field_x s.x_spin_array s.y_spin_array s.z_spin_array atom)
    y_total_spin_field_array := Function.update s.y_total_spin_field_array atom
      (c.spin_field_y s.x_spin_array s.y_spin_array s.z_spin_array atom)
    z_total_spin_field_array := Function.update s.z_total_spin_field_array atom
      (c.spin_field_z s.x_spin_array s.y_spin_array s.z_spin_array atom) }

/-- Modelled from the spec: `calculate_spin_fields(start, end)` (declared, not defined, in
`lsf_rk4_mpi.cpp`), the Field Accumulator over the index range `[start, end)`. -/
def calculate_spin_fields (c : Collab K) (start_index end_index : Nat) (st : LSF K) : LSF K :=
  LSF.log (Event.spin_fields start_index end_index)
    (for_range start_index end_index (calculate_spin_fields_atom c) st)

/-- Modelled from the spec: the external field of one atom, which does not depend on the spins,
is written to its external-field entry. -/
def calculate_external_fields_atom (c : Collab K) (atom : Nat) (s : LSF K) : LSF K :=
  { s with
    x_total_external_field_array := Function.update s.x_total_external_field_array atom
      (c.external_field_x atom)
    y_total_external_field_array := Function.update s.y_total_external_field_array atom
      (c.external_field_y atom)
    z_total_external_field_array := Function.update s.z_total_external_field_array atom
      (c.external_field_z atom) }

/-- Modelled from the spec: `calculate_external_fields(start, end)` (declared, not defined, in
`lsf_rk4_mpi.cpp`) over the index range `[start, end)`. -/
def calculate_external_fields (c : Collab K) (start_index end_index : Nat) (st : LSF K) :
    LSF K :=
  LSF.log (Event.external_fields start_index end_index)
    (for_range start_index end_index (calculate_external_fields_atom c) st)

/-- Modelled from the spec: `vmpi::mpi_init_halo_swap()` is the non-blocking `init_exchange()`;
it "returns immediately" and makes no received data visible. -/
def mpi_init_halo_swap (st : LSF K) : LSF K := LSF.log Event.init_halo_swap st

/-- Modelled from the spec: `vmpi::mpi_complete_halo_swap()` is `complete_exchange()`, which
"blocks until all boundary data for this process is current": the spins of the halo atoms, stored
after the `num_core_atoms + num_bdry_atoms` local atoms, are replaced by the received values. -/
def mpi_complete_halo_swap (c : Collab K) (env : Env K) (st : LSF K) : LSF K :=
  LSF.log Event.complete_halo_swap
    { st with
      x_spin_array := fun j => if env.num_core_atoms + env.num_bdry_atoms ≤ j
        then c.halo_x st.halo_count j else st.x_spin_array j
      y_spin_array := fun j => if env.num_core_atoms + env.num_bdry_atoms ≤ j
        then c.halo_y st.halo_count j else st.y_spin_array j
      z_spin_array := fun j => if env.num_core_atoms + env.num_bdry_atoms ≤ j
        then c.halo_z st.halo_count j else st.z_spin_array j
      halo_count := st.halo_count + 1 }

/-- Modelled from the spec: `vmpi::barrier()`, the global barrier that ends the step; it changes
no array. -/
def barrier (st : LSF K) : LSF K := LSF.log Event.barrier st

/-- Modelled from the spec: one call of `mtrandom::gaussian` stored in `tx[atom]`; the Noise
Generator "supplies independent Gaussian random variates per atom per call", consumed in call
order. -/
def generate_tx_atom (c : Collab K) (atom : Nat) (s : LSF K) : LSF K :=
  { s with tx := Function.update s.tx atom (c.gaussian s.gaussian_count)
           gaussian_count := s.gaussian_count + 1 }

/-- Modelled from the spec: one call of `mtrandom::gaussian` stored in `ty[atom]`. -/
def generate_ty_atom (c : Collab K) (atom : Nat) (s : LSF K) : LSF K :=
  { s with ty := Function.update s.ty atom (c.gaussian s.gaussian_count)
           gaussian_count := s.gaussian_count + 1 }

/-- Modelled from the spec: one call of `mtrandom::gaussian` stored in `tz[atom]`. -/
def generate_tz_atom (c : Collab K) (atom : Nat) (s : LSF K) : LSF K :=
  { s with tz := Function.update s.tz atom (c.gaussian s.gaussian_count)
           gaussian_count := s.gaussian_count + 1 }

/-- The three calls `generate(t.begin()+start, t.begin()+end, mtrandom::gaussian)` for `tx`,
`ty`, `tz`, in this order. -/
def generate_noise (c : Collab K) (start_index end_index : Nat) (st : LSF K) : LSF K :=
  LSF.log (Event.noise start_index end_index)
    (for_range start_index end_index (generate_tz_atom c)
      (for_range start_index end_index (generate_ty_atom c)
        (for_range start_index end_index (generate_tx_atom c) st)))

/-- Modelled from the spec: `sim::LSF_RK4_init()` (not in the repository sources) allocates the
scratch arrays "once (lazily, on first use)"; as in the serial `sim::LSFinit` the new entries
are `0.0`, and the flag is set. -/
def LSF_RK4_init (st : LSF K) : LSF K :=
  { st with
    x_lsf_array := fun _ => 0
    y_lsf_array := fun _ => 0
    z_lsf_array := fun _ => 0
    x_initial_spin_array := fun _ => 0
    y_initial_spin_array := fun _ => 0
    z_initial_spin_array := fun _ => 0
    x_k1_array := fun _ => 0
    y_k1_array := fun _ => 0
    z_k1_array := fun _ => 0
    x_k2_array := fun _ => 0
    y_k2_array := fun _ => 0
    z_k2_array := fun _ => 0
    x_k3_array := fun _ => 0
    y_k3_array := fun _ => 0
    z_k3_array := fun _ => 0
    x_k4_array := fun _ => 0
    y_k4_array := fun _ => 0
    z_k4_array := fun _ => 0
    tx := fun _ => 0
    ty := fun _ => 0
    tz := fun _ => 0
    LSF_RK4_set := true }

end LSFCollaborators

/-! ## `sim::calculate_lsf_rk4_field` and `sim::LSF_RK4_mpi` (lsf_rk4_mpi.cpp) -/

section LSFRK4

variable {K : Type} [Field K]

/-- Body of the loop of `calculate_lsf_rk4_field` for one atom. -/
def calculate_lsf_rk4_field_atom (env : Env K) (atom : Nat) (st : LSF K) : LSF K :=
  let imaterial := env.type_array atom
  let sx := st.x_spin_array atom
  let sy := st.y_spin_array atom
  let sz := st.z_spin_array atom
  let imu_S := -1.0 / (env.material imaterial).mu_s_SI
  let L2 := 2.0 * env.lsf_second_order_coefficient imaterial * imu_S
  let L4 := 4.0 * env.lsf_fourth_order_coefficient imaterial * imu_S
  let L6 := 6.0 * env.lsf_sixth_order_coefficient imaterial * imu_S
  let ss2 := sx * sx + sy * sy + sz * sz
  { st with
    x_lsf_array := Function.update st.x_lsf_array atom (L2 * sx + L4 * sx * ss2 + L6 * sx * ss2 * ss2)
    y_lsf_array := Function.update st.y_lsf_array atom (L2 * sy + L4 * sy * ss2 + L6 * sy * ss2 * ss2)
    z_lsf_array := Function.update st.z_lsf_array atom (L2 * sz + L4 * sz * ss2 + L6 * sz * ss2 * ss2) }

/-- The value written by `calculate_lsf_rk4_field` for an atom with spin `S`. -/
def lsf_field_value (env : Env K) (atom : Nat) (S : Vec3 K) : Vec3 K :=
  let imaterial := env.type_array atom
  let imu_S := -1.0 / (env.material imaterial).mu_s_SI
  let L2 := 2.0 * env.lsf_second_order_coefficient imaterial * imu_S
  let L4 := 4.0 * env.lsf_fourth_order_coefficient imaterial * imu_S
  let L6 := 6.0 * env.lsf_sixth_order_coefficient imaterial * imu_S
  let ss2 := S.x * S.x + S.y * S.y + S.z * S.z
  ⟨L2 * S.x + L4 * S.x * ss2 + L6 * S.x * ss2 * ss2,
   L2 * S.y + L4 * S.y * ss2 + L6 * S.y * ss2 * ss2,
   L2 * S.z + L4 * S.z * ss2 + L6 * S.z * ss2 * ss2⟩

/-- The routine `calculate_lsf_rk4_field(start_index, end_index)`. -/
def calculate_lsf_rk4_field (env : Env K) (start_index end_index : Nat) (st : LSF K) : LSF K :=
  LSF.log (Event.lsf_field start_index end_index)
    (for_range start_index end_index (calculate_lsf_rk4_field_atom env) st)

/-- "Store initial spin positions" for one atom. -/
def store_initial_spin_atom (atom : Nat) (st : LSF K) : LSF K :=
  { st with
    x_initial_spin_array := Function.update st.x_initial_spin_array atom (st.x_spin_array atom)
    y_initial_spin_array := Function.update st.y_initial_spin_array atom (st.y_spin_array atom)
    z_initial_spin_array := Function.update st.z_initial_spin_array atom (st.z_spin_array atom) }

/-- The local arrays `S[3]` and `H[3]` of a stage loop: the spin of the atom and the sum of its
spin field, external field and LSF field. -/
def local_S (atom : Nat) (st : LSF K) : Vec3 K :=
  ⟨st.x_spin_array atom, st.y_spin_array atom, st.z_spin_array atom⟩

/-- The local array `H[3]` of a stage loop. -/
def local_H (atom : Nat) (st : LSF K) : Vec3 K :=
  ⟨st.x_total_spin_field_array atom + st.x_total_external_field_array atom
      + st.x_lsf_array atom,
   st.y_total_spin_field_array atom + st.y_total_external_field_array atom
      + st.y_lsf_array atom,
   st.z_total_spin_field_array atom + st.z_total_external_field_array atom
      + st.z_lsf_array atom⟩

/-- "Calculate Delta S": the three components `xyz[0..2]` computed by every stage loop of
`LSF_RK4_mpi` from `S`, `H` and the noise entries `tx[atom]`, `ty[atom]`, `tz[atom]`. -/
def delta_S (sqrt : K → K) (env : Env K) (sigma : K) (atom : Nat) (S H : Vec3 K)
    (tx ty tz : K) : Vec3 K :=
  let imaterial := env.type_array atom
  let alpha := (env.material imaterial).alpha
  let mu := (env.material imaterial).mu_s_SI
  ⟨(-env.gamma_SI * (S.y * H.z - S.z * H.y)) + (env.gamma_SI * alpha * H.x)
      + (tx * (sigma * sqrt (alpha / mu))),
   (-env.gamma_SI * (S.z * H.x - S.x * H.z)) + (env.gamma_SI * alpha * H.y)
      + (ty * (sigma * sqrt (alpha / mu))),
   (-env.gamma_SI * (S.x * H.y - S.y * H.x)) + (env.gamma_SI * alpha * H.z)
      + (tz * (sigma * sqrt (alpha / mu)))⟩

/-- The stage increment `k = ΔS * Δt` of one atom: `xyz[0..2] * mp::dt_SI`. -/
def RK4_increment (sqrt : K → K) (env : Env K) (sigma : K) (atom : Nat) (S H : Vec3 K)
    (tx ty tz : K) : Vec3 K :=
  let xyz := delta_S sqrt env sigma atom S H tx ty tz
  ⟨xyz.x * env.dt_SI, xyz.y * env.dt_SI, xyz.z * env.dt_SI⟩

/-- Body of the "Calculate K1" loops (core and boundary) for one atom; the spin is advanced by `0.5*k1`. -/
def K1_atom (sqrt : K → K) (env : Env K) (sigma : K) (atom : Nat) (st : LSF K) : LSF K :=
  let k := RK4_increment sqrt env sigma atom (local_S atom st) (local_H atom st)
    (st.tx atom) (st.ty atom) (st.tz atom)
  { st with
    x_k1_array := Function.update st.x_k1_array atom k.x
    y_k1_array := Function.update st.y_k1_array atom k.y
    z_k1_array := Function.update st.z_k1_array atom k.z
    x_spin_array := Function.update st.x_spin_array atom (st.x_spin_array atom + 0.5 * k.x)
    y_spin_array := Function.update st.y_spin_array atom (st.y_spin_array atom + 0.5 * k.y)
    z_spin_array := Function.update st.z_spin_array atom (st.z_spin_array atom + 0.5 * k.z) }

/-- Body of the "Calculate K2" loops (core and boundary) for one atom; the spin is advanced by `0.5*k2`. -/
def K2_atom (sqrt : K → K) (env : Env K) (sigma : K) (atom : Nat) (st : LSF K) : LSF K :=
  let k := RK4_increment sqrt env sigma atom (local_S atom st) (local_H atom st)
    (st.tx atom) (st.ty atom) (st.tz atom)
  { st with
    x_k2_array := Function.update st.x_k2_array atom k.x
    y_k2_array := Function.update st.y_k2_array atom k.y
    z_k2_array := Function.update st.z_k2_array atom k.z
    x_spin_array := Function.update st.x_spin_array atom (st.x_spin_array atom + 0.5 * k.x)
    y_spin_array := Function.update st.y_spin_array atom (st.y_spin_array atom + 0.5 * k.y)
    z_spin_array := Function.update st.z_spin_array atom (st.z_spin_array atom + 0.5 * k.z) }

/-- Body of the "Calculate K3" loops (core and boundary) for one atom; the spin is advanced by `k3`. -/
def K3_atom (sqrt : K → K) (env : Env K) (sigma : K) (atom : Nat) (st : LSF K) : LSF K :=
  let k := RK4_increment sqrt env sigma atom (local_S atom st) (local_H atom st)
    (st.tx atom) (st.ty atom) (st.tz atom)
  { st with
    x_k3_array := Function.update st.x_k3_array atom k.x
    y_k3_array := Function.update st.y_k3_array atom k.y
    z_k3_array := Function.update st.z_k3_array atom k.z
    x_spin_array := Function.update st.x_spin_array atom (st.x_spin_array atom + k.x)
    y_spin_array := Function.update st.y_spin_array atom (st.y_spin_array atom + k.y)
    z_spin_array := Function.update st.z_spin_array atom (st.z_spin_array atom + k.z) }

/-- Body of the "Calculate K4" loops (core and boundary) for one atom; the spin is not advanced. -/
def K4_atom (sqrt : K → K) (env : Env K) (sigma : K) (atom : Nat) (st : LSF K) : LSF K :=
  let k := RK4_increment sqrt env sigma atom (local_S atom st) (local_H atom st)
    (st.tx atom) (st.ty atom) (st.tz atom)
  { st with
    x_k4_array := Function.update st.x_k4_array atom k.x
    y_k4_array := Function.update st.y_k4_array atom k.y
    z_k4_array := Function.update st.z_k4_array atom k.z }

/-- Body of the "Calculate RK4 Step" loop for one atom. -/
def RK4_step_atom (atom : Nat) (st : LSF K) : LSF K :=
  { st with
    x_spin_array := Function.update st.x_spin_array atom
      (st.x_initial_spin_array atom + (1.0 / 6.0) * (st.x_k1_array atom
        + (2.0 * st.x_k2_array atom) + (2.0 * st.x_k3_array atom) + st.x_k4_array atom))
    y_spin_array := Function.update st.y_spin_array atom
      (st.y_initial_spin_array atom + (1.0 / 6.0) * (st.y_k1_array atom
        + (2.0 * st.y_k2_array atom) + (2.0 * st.y_k3_array atom) + st.y_k4_array atom))
    z_spin_array := Function.update st.z_spin_array atom
      (st.z_initial_spin_array atom + (1.0 / 6.0) * (st.z_k1_array atom
        + (2.0 * st.z_k2_array atom) + (2.0 * st.z_k3_array atom) + st.z_k4_array atom)) }

/-- The loop "Store initial spin positions" over `[start, stop)`. -/
def store_initial_spins (start stop : Nat) (st : LSF K) : LSF K :=
  LSF.log (Event.store_initial start stop) (for_range start stop store_initial_spin_atom st)

/-- The loop "Calculate RK4 Step" over `[start, stop)`. -/
def RK4_step (start stop : Nat) (st : LSF K) : LSF K :=
  LSF.log (Event.combine start stop) (for_range start stop RK4_step_atom st)

/-- A stage loop over `[start, stop)`, logged as stage `k`. -/
def stage_loop (k start stop : Nat) (body : Nat → LSF K → LSF K) (st : LSF K) : LSF K :=
  LSF.log (Event.stage k start stop) (for_range start stop body st)

/-- The constant `kB` of `LSF_RK4_mpi`. -/
def kB : K := 1.3806503e-23

/-- The noise amplitude `sigma` of `LSF_RK4_mpi`. -/
def LSF_RK4_sigma (sqrt : K → K) (env : Env K) : K :=
  sqrt ((2.0 * kB * env.temperature * env.gamma_SI) / env.dt_SI)

/-- "Check for initialisation of LSF integration arrays". -/
def LSF_RK4_check_init (st : LSF K) : LSF K :=
  if st.LSF_RK4_set = false then LSF_RK4_init st else st

/-- `LSF_RK4_mpi`, from its entry to the end of "Calculate K1 (boundary)"
(lsf_rk4_mpi.cpp, lines 75-209); `pre_comm_si = 0`, `pre_comm_ei = post_comm_si =
num_core_atoms`, `post_comm_ei = num_core_atoms + num_bdry_atoms`. -/
def LSF_RK4_mpi_K1 (sqrt : K → K) (c : Collab K) (env : Env K) (st : LSF K) : LSF K :=
  -- Check for initialisation of LSF integration arrays
  let st := LSF_RK4_check_init st
  let pre_comm_si := 0
  let pre_comm_ei := env.num_core_atoms
  let post_comm_si := env.num_core_atoms
  let post_comm_ei := env.num_core_atoms + env.num_bdry_atoms
  -- Initiate halo swap
  let st := mpi_init_halo_swap st
  -- Calculate fields (core)
  let st := calculate_spin_fields c pre_comm_si pre_comm_ei st
  let st := calculate_lsf_rk4_field env pre_comm_si pre_comm_ei st
  let st := calculate_external_fields c pre_comm_si pre_comm_ei st
  -- Store initial spin positions (all)
  let st := store_initial_spins pre_comm_si post_comm_ei st
  -- Generate random temperature fluctuations
  let sigma := LSF_RK4_sigma sqrt env
  let st := generate_noise c pre_comm_si pre_comm_ei st
  -- Calculate K1 (Core)
  let st := stage_loop 1 pre_comm_si pre_comm_ei (K1_atom sqrt env sigma) st
  -- Complete halo swap
  let st := mpi_complete_halo_swap c env st
  -- Calculate fields (boundary)
  let st := calculate_spin_fields c post_comm_si post_comm_ei st
  let st := calculate_lsf_rk4_field env post_comm_si post_comm_ei st
  let st := calculate_external_fields c post_comm_si post_comm_ei st
  -- Generate random temperature fluctuations
  let st := generate_noise c post_comm_si post_comm_ei st
  -- Calculate K1 (boundary)
  stage_loop 1 post_comm_si post_comm_ei (K1_atom sqrt env sigma) st

/-- `LSF_RK4_mpi`, from "Initiate second halo swap" to the end of "Calculate K2 (boundary)"
(lines 211-299). -/
def LSF_RK4_mpi_K2 (sqrt : K → K) (c : Collab K) (env : Env K) (st : LSF K) : LSF K :=
  let pre_comm_si := 0
  let pre_comm_ei := env.num_core_atoms
  let post_comm_si := env.num_core_atoms
  let post_comm_ei := env.num_core_atoms + env.num_bdry_atoms
  let sigma := LSF_RK4_sigma sqrt env
  -- Initiate second halo swap
  let st := mpi_init_halo_swap st
  -- Recalculate spin dependent fields (core)
  let st := calculate_spin_fields c pre_comm_si pre_comm_ei st
  let st := calculate_lsf_rk4_field env pre_comm_si pre_comm_ei st
  -- Calculate K2 (core)
  let st := stage_loop 2 pre_comm_si pre_comm_ei (K2_atom sqrt env sigma) st
  -- Complete second halo swap
  let st := mpi_complete_halo_swap c env st
  -- Recalculate spin dependent fields (boundary)
  let st := calculate_spin_fields c post_comm_si post_comm_ei st
  let st := calculate_lsf_rk4_field env post_comm_si post_comm_ei st
  -- Calculate K2 (boundary)
  stage_loop 2 post_comm_si post_comm_ei (K2_atom sqrt env sigma) st

/-- `LSF_RK4_mpi`, from "Initiate third halo swap" to the end of "Calculate K3 (boundary)"
(lines 301-375); no field is recomputed in this part. -/
def LSF_RK4_mpi_K3 (sqrt : K → K) (c : Collab K) (env : Env K) (st : LSF K) : LSF K :=
  let pre_comm_si := 0
  let pre_comm_ei := env.num_core_atoms
  let post_comm_si := env.num_core_atoms
  let post_comm_ei := env.num_core_atoms + env.num_bdry_atoms
  let sigma := LSF_RK4_sigma sqrt env
  -- Initiate third halo swap
  let st := mpi_init_halo_swap st
  -- Calculate K3 (core)
  let st := stage_loop 3 pre_comm_si pre_comm_ei (K3_atom sqrt env sigma) st
  -- Complete third halo swap
  let st := mpi_complete_halo_swap c env st
  -- Calculate K3 (boundary)
  stage_loop 3 post_comm_si post_comm_ei (K3_atom sqrt env sigma) st

/-- `LSF_RK4_mpi`, from "Initiate fourth halo swap" to the end of "Calculate K4 (boundary)"
(lines 377-455). -/
def LSF_RK4_mpi_K4 (sqrt : K → K) (c : Collab K) (env : Env K) (st : LSF K) : LSF K :=
  let pre_comm_si := 0
  let pre_comm_ei := env.num_core_atoms
  let post_comm_si := env.num_core_atoms
  let post_comm_ei := env.num_core_atoms + env.num_bdry_atoms
  let sigma := LSF_RK4_sigma sqrt env
  -- Initiate fourth halo swap
  let st := mpi_init_halo_swap st
  -- Recalculate spin dependent fields (core)
  let st := calculate_spin_fields c pre_comm_si pre_comm_ei st
  let st := calculate_lsf_rk4_field env pre_comm_si pre_comm_ei st
  -- Calculate K4 (core)
  let st := stage_loop 4 pre_comm_si pre_comm_ei (K4_atom sqrt env sigma) st
  -- Complete fourth halo swap
  let st := mpi_complete_halo_swap c env st
  -- Recalculate spin dependent fields (boundary)
  let st := calculate_spin_fields c post_comm_si post_comm_ei st
  let st := calculate_lsf_rk4_field env post_comm_si post_comm_ei st
  -- Calculate K4 (boundary)
  stage_loop 4 post_comm_si post_comm_ei (K4_atom sqrt env sigma) st

/-- `LSF_RK4_mpi`, "Calculate RK4 Step" and the final barrier (lines 457-476). -/
def LSF_RK4_mpi_step (env : Env K) (st : LSF K) : LSF K :=
  let pre_comm_si := 0
  let post_comm_ei := env.num_core_atoms + env.num_bdry_atoms
  -- Calculate RK4 Step
  let st := RK4_step pre_comm_si post_comm_ei st
  -- Wait for other processors
  barrier st

/-- The routine `sim::LSF_RK4_mpi()`: one integration step of the local atoms, as the sequence
of its five parts. -/
def LSF_RK4_mpi (sqrt : K → K) (c : Collab K) (env : Env K) (st : LSF K) : LSF K :=
  LSF_RK4_mpi_step env
    (LSF_RK4_mpi_K4 sqrt c env
      (LSF_RK4_mpi_K3 sqrt c env
        (LSF_RK4_mpi_K2 sqrt c env
          (LSF_RK4_mpi_K1 sqrt c env st))))

end LSFRK4

/-! ## The classical Runge-Kutta step, in the words of the specification -/

section ClassicalRK4

variable {K : Type} [Field K]

/-- One step of the classical fourth-order Runge-Kutta scheme for `dS/dt = f S` with step `h`:
stage derivatives taken at `S0`, `S0 + k1/2`, `S0 + k2/2` and `S0 + k3`, combined as
`S0 + (k1 + 2 k2 + 2 k3 + k4)/6`. -/
def classical_rk4_step (f : Vec3 K → Vec3 K) (h : K) (S0 : Vec3 K) : Vec3 K :=
  let k1 := Vec3.smul h (f S0)
  let k2 := Vec3.smul h (f (Vec3.add S0 (Vec3.smul (1 / 2) k1)))
  let k3 := Vec3.smul h (f (Vec3.add S0 (Vec3.smul (1 / 2) k2)))
  let k4 := Vec3.smul h (f (Vec3.add S0 k3))
  Vec3.add S0 (Vec3.smul (1 / 6)
    (Vec3.add (Vec3.add (Vec3.add k1 (Vec3.smul 2 k2)) (Vec3.smul 2 k3)) k4))

/-- The precession generator `L v = -gamma (v × H)`. -/
def precession (gamma : K) (H v : Vec3 K) : Vec3 K := Vec3.smul (-gamma) (Vec3.cross v H)

/-- The exact rotation through order `h⁴`:
`S0 + hL S0 + (hL)² S0/2 + (hL)³ S0/6 + (hL)⁴ S0/24`. -/
def taylor4 (L : Vec3 K → Vec3 K) (h : K) (S0 : Vec3 K) : Vec3 K :=
  let T1 := Vec3.smul h (L S0)
  let T2 := Vec3.smul h (L T1)
  let T3 := Vec3.smul h (L T2)
  let T4 := Vec3.smul h (L T3)
  Vec3.add (Vec3.add (Vec3.add (Vec3.add S0 T1) (Vec3.smul (1 / 2) T2)) (Vec3.smul (1 / 6) T3))
    (Vec3.smul (1 / 24) T4)

end ClassicalRK4


/-! ## Coefficient selection, in the words of the specification -/

section Selection

variable {K : Type}

/-- Spin damping selected for material `imat`: the equilibration value while
`time < equilibration_time`, the production value otherwise. -/
def selected_lambda (env : Env K) (imat : Nat) : K :=
  if env.time < env.equilibration_time then (env.material imat).alpha_eq
  else (env.material imat).alpha

/-- Spin-noise coefficient selected for material `imat`. -/
def selected_H_th_sigma (env : Env K) (imat : Nat) : K :=
  if env.time < env.equilibration_time then (env.material imat).H_th_sigma_eq
  else (env.material imat).H_th_sigma

/-- Lattice damping selected for material `imat`. -/
def selected_damp_lat (env : Env K) (imat : Nat) : K :=
  if env.time < env.equilibration_time then (env.sld_mp imat).eq_damp_lat
  else (env.sld_mp imat).damp_lat

/-- Force-noise coefficient selected for material `imat`. -/
def selected_F_th_sigma (env : Env K) (imat : Nat) : K :=
  if env.time < env.equilibration_time then (env.sld_mp imat).F_th_sigma_eq
  else (env.sld_mp imat).F_th_sigma

end Selection

/-! ## Example inputs -/

section Examples

variable {K : Type} [Field K]

/-- A configuration in which every atom has spin `S`, field `F`, spin noise `h`, velocity `v`,
force `f`, force noise `g`, and sits at the origin. -/
def SLD.uniform (S F h v f g : Vec3 K) : SLD K where
  x_spin_array := fun _ => S.x
  y_spin_array := fun _ => S.y
  z_spin_array := fun _ => S.z
  fields_array_x := fun _ => F.x
  fields_array_y := fun _ => F.y
  fields_array_z := fun _ => F.z
  forces_array_x := fun _ => f.x
  forces_array_y := fun _ => f.y
  forces_array_z := fun _ => f.z
  x_coord_array := fun _ => 0
  y_coord_array := fun _ => 0
  z_coord_array := fun _ => 0
  x_velo_array := fun _ => v.x
  y_velo_array := fun _ => v.y
  z_velo_array := fun _ => v.z
  Hx_th := fun _ => h.x
  Hy_th := fun _ => h.y
  Hz_th := fun _ => h.z
  Fx_th := fun _ => g.x
  Fy_th := fun _ => g.y
  Fz_th := fun _ => g.z
  sumJ := fun _ => 0
  exch_eng := fun _ => 0
  sumC := fun _ => 0
  coupl_eng := fun _ => 0
  potential_eng := fun _ => 0
  gaussian_count := 0

/-- A one-atom, one-material environment: unit time step, temperature and gyromagnetic ratio,
equilibration threshold `1`, production coefficients `1` and equilibration coefficients `2`,
no LSF coefficients. -/
def Env.sample : Env K where
  time := 0
  equilibration_time := 1
  temperature := 1
  dt := 1
  dt_SI := 1
  gamma_SI := 1
  num_atoms := 1
  num_core_atoms := 1
  num_bdry_atoms := 0
  type_array := fun _ => 0
  material := fun _ => ⟨1, 2, 1, 2, 1⟩
  sld_mp := fun _ => ⟨1, 1, 2, 1, 2⟩
  lsf_second_order_coefficient := fun _ => 0
  lsf_fourth_order_coefficient := fun _ => 0
  lsf_sixth_order_coefficient := fun _ => 0

/-- A state of the LSF integrator before its first step: spins `S`, every other array zero,
scratch arrays not yet initialised, nothing drawn, exchanged or logged. -/
def LSF.fresh (S : Nat → Vec3 K) : LSF K where
  x_spin_array := fun i => (S i).x
  y_spin_array := fun i => (S i).y
  z_spin_array := fun i => (S i).z
  x_total_spin_field_array := fun _ => 0
  y_total_spin_field_array := fun _ => 0
  z_total_spin_field_array := fun _ => 0
  x_total_external_field_array := fun _ => 0
  y_total_external_field_array := fun _ => 0
  z_total_external_field_array := fun _ => 0
  x_lsf_array := fun _ => 0
  y_lsf_array := fun _ => 0
  z_lsf_array := fun _ => 0
  x_initial_spin_array := fun _ => 0
  y_initial_spin_array := fun _ => 0
  z_initial_spin_array := fun _ => 0
  x_k1_array := fun _ => 0
  y_k1_array := fun _ => 0
  z_k1_array := fun _ => 0
  x_k2_array := fun _ => 0
  y_k2_array := fun _ => 0
  z_k2_array := fun _ => 0
  x_k3_array := fun _ => 0
  y_k3_array := fun _ => 0
  z_k3_array := fun _ => 0
  x_k4_array := fun _ => 0
  y_k4_array := fun _ => 0
  z_k4_array := fun _ => 0
  tx := fun _ => 0
  ty := fun _ => 0
  tz := fun _ => 0
  LSF_RK4_set := false
  gaussian_count := 0
  halo_count := 0
  trace := []

/-- Collaborators of an isolated system in a constant applied field `H`: no spin-dependent
field, external field `H` on every atom, noise variates and halo data all zero. -/
def Collab.constant_field (H : Vec3 K) : Collab K where
  spin_field_x := fun _ _ _ _ => 0
  spin_field_y := fun _ _ _ _ => 0
  spin_field_z := fun _ _ _ _ => 0
  external_field_x := fun _ => H.x
  external_field_y := fun _ => H.y
  external_field_z := fun _ => H.z
  gaussian := fun _ => 0
  halo_x := fun _ _ => 0
  halo_y := fun _ _ => 0
  halo_z := fun _ _ => 0

/-- Collaborators of a two-atom system with unit exchange coupling: the spin field on atom `0`
is the current spin of atom `1` and conversely; no external field, noise variates and halo data
all zero. -/
def Collab.pair_exchange : Collab K where
  spin_field_x := fun sx _ _ i => if i = 0 then sx 1 else if i = 1 then sx 0 else 0
  spin_field_y := fun _ sy _ i => if i = 0 then sy 1 else if i = 1 then sy 0 else 0
  spin_field_z := fun _ _ sz i => if i = 0 then sz 1 else if i = 1 then sz 0 else 0
  external_field_x := fun _ => 0
  external_field_y := fun _ => 0
  external_field_z := fun _ => 0
  gaussian := fun _ => 0
  halo_x := fun _ _ => 0
  halo_y := fun _ _ => 0
  halo_z := fun _ _ => 0

/-- A noise-free, undamped environment (`T = 0`, `alpha = 0`) with unit time step, gyromagnetic
ratio and moment, no LSF coefficients, and the local atoms split into `core` core atoms and
`bdry` boundary atoms. -/
def Env.precession (core bdry : Nat) : Env K where
  time := 0
  equilibration_time := 0
  temperature := 0
  dt := 1
  dt_SI := 1
  gamma_SI := 1
  num_atoms := core + bdry
  num_core_atoms := core
  num_bdry_atoms := bdry
  type_array := fun _ => 0
  material := fun _ => ⟨0, 0, 0, 0, 1⟩
  sld_mp := fun _ => ⟨1, 0, 0, 0, 0⟩
  lsf_second_order_coefficient := fun _ => 0
  lsf_fourth_order_coefficient := fun _ => 0
  lsf_sixth_order_coefficient := fun _ => 0

end Examples

/-! ## Hypotheses of the isolated-atom scenario -/

section Isolated

variable {K : Type} [Field K]

/-- An atom without neighbours in zero applied field: the field accumulator returns the zero
spin field and the zero external field for every atom and every spin configuration. -/
def Collab.field_free (c : Collab K) : Prop :=
  (∀ (sx sy sz : Nat → K) (j : Nat),
    c.spin_field_x sx sy sz j = 0 ∧ c.spin_field_y sx sy sz j = 0 ∧
      c.spin_field_z sx sy sz j = 0) ∧
  ∀ j : Nat, c.external_field_x j = 0 ∧ c.external_field_y j = 0 ∧ c.external_field_z j = 0

/-- The material of atom `j` has no longitudinal (LSF) field: its three LSF coefficients are
zero. -/
def Env.lsf_free (env : Env K) (j : Nat) : Prop :=
  env.lsf_second_order_coefficient (env.type_array j) = 0 ∧
  env.lsf_fourth_order_coefficient (env.type_array j) = 0 ∧
  env.lsf_sixth_order_coefficient (env.type_array j) = 0

/-- The environment `Env.precession` with damping `alpha` for every material. -/
def Env.damped (alpha : K) (core bdry : Nat) : Env K :=
  { (Env.precession core bdry : Env K) with material := fun _ => ⟨alpha, 0, 0, 0, 1⟩ }

end Isolated

/-! ## The communication protocol of one `LSF_RK4_mpi` step, in the words of the specification -/

section Protocol

/-- The halo-exchange calls of an event log, in order. -/
def halo_calls (tr : List Event) : List Event :=
  tr.filter (fun e => decide (e = Event.init_halo_swap ∨ e = Event.complete_halo_swap))

/-- The events logged while a halo exchange is pending, that is after an `init_halo_swap` and
before the next `complete_halo_swap`; the flag tells whether an exchange is pending at the
start of the log. -/
def pending_events : Bool → List Event → List Event
  | _, [] => []
  | _, Event.init_halo_swap :: rest => pending_events true rest
  | _, Event.complete_halo_swap :: rest => pending_events false rest
  | true, e :: rest => e :: pending_events true rest
  | false, _ :: rest => pending_events false rest

/-- The atom range of an event that evaluates fields (`calculate_spin_fields`,
`calculate_lsf_rk4_field`, `calculate_external_fields`) or belongs to a loop that writes spins
(the stage loops and the final combination); `none` for every other event. -/
def Event.field_or_spin_range : Event → Option (Nat × Nat)
  | Event.spin_fields start stop => some (start, stop)
  | Event.lsf_field start stop => some (start, stop)
  | Event.external_fields start stop => some (start, stop)
  | Event.stage _ start stop => some (start, stop)
  | Event.combine start stop => some (start, stop)
  | _ => none

/-- The events of one step for `core` core atoms and `bdry` boundary atoms, read off the
routine: four exchange windows (core work between `init` and `complete`, boundary work after
`complete`), the final combination and the barrier. -/
def LSF_RK4_mpi_events (core bdry : Nat) : List Event :=
  [Event.init_halo_swap,
   Event.spin_fields 0 core, Event.lsf_field 0 core, Event.external_fields 0 core,
   Event.store_initial 0 (core + bdry), Event.noise 0 core, Event.stage 1 0 core,
   Event.complete_halo_swap,
   Event.spin_fields core (core + bdry), Event.lsf_field core (core + bdry),
   Event.external_fields core (core + bdry), Event.noise core (core + bdry),
   Event.stage 1 core (core + bdry),
   Event.init_halo_swap,
   Event.spin_fields 0 core, Event.lsf_field 0 core, Event.stage 2 0 core,
   Event.complete_halo_swap,
   Event.spin_fields core (core + bdry), Event.lsf_field core (core + bdry),
   Event.stage 2 core (core + bdry),
   Event.init_halo_swap,
   Event.stage 3 0 core,
   Event.complete_halo_swap,
   Event.stage 3 core (core + bdry),
   Event.init_halo_swap,
   Event.spin_fields 0 core, Event.lsf_field 0 core, Event.stage 4 0 core,
   Event.complete_halo_swap,
   Event.spin_fields core (core + bdry), Event.lsf_field core (core + bdry),
   Event.stage 4 core (core + bdry),
   Event.combine 0 (core + bdry),
   Event.barrier]

end Protocol

/-! ## Independence from the scratch arrays: the relation between two runs -/

section ScratchIndependence

variable {K : Type}

/-- Two states with the same inputs of a step: equal spins, and equal positions in the Gaussian
stream and in the sequence of halo exchanges.  Field arrays, scratch arrays, the initialisation
flag and the event log may differ. -/
def LSF.same_inputs (s1 s2 : LSF K) : Prop :=
  (∀ j, s1.spin j = s2.spin j) ∧ s1.gaussian_count = s2.gaussian_count ∧
    s1.halo_count = s2.halo_count

/-- For each field and scratch array, the number of leading entries already written in the
current step. -/
structure Written where
  spin_field : Nat
  external_field : Nat
  lsf : Nat
  initial_spin : Nat
  t : Nat
  k1 : Nat
  k2 : Nat
  k3 : Nat
  k4 : Nat

/-- Two states with the same inputs whose field and scratch arrays agree on the entries already
written in the current step. -/
def LSF.agree (w : Written) (s1 s2 : LSF K) : Prop :=
  LSF.same_inputs s1 s2 ∧
  (∀ j, j < w.spin_field → s1.spin_field j = s2.spin_field j) ∧
  (∀ j, j < w.external_field → s1.external_field j = s2.external_field j) ∧
  (∀ j, j < w.lsf → s1.lsf j = s2.lsf j) ∧
  (∀ j, j < w.initial_spin → s1.initial_spin j = s2.initial_spin j) ∧
  (∀ j, j < w.t → s1.t j = s2.t j) ∧
  (∀ j, j < w.k1 → s1.k1 j = s2.k1 j) ∧
  (∀ j, j < w.k2 → s1.k2 j = s2.k2 j) ∧
  (∀ j, j < w.k3 → s1.k3 j = s2.k3 j) ∧
  (∀ j, j < w.k4 → s1.k4 j = s2.k4 j)

end ScratchIndependence

section ScratchExamples

variable {K : Type} [Field K]

/-- The state `LSF.fresh S` after earlier use: the same spins and counters, but every scratch
array (`k1..k4`, snapshot, noise, LSF field) holds the value `7` and the initialisation flag is
set. -/
def LSF.dirty (S : Nat → Vec3 K) : LSF K :=
  { (LSF.fresh S : LSF K) with
    x_lsf_array := fun _ => 7
    y_lsf_array := fun _ => 7
    z_lsf_array := fun _ => 7
    x_initial_spin_array := fun _ => 7
    y_initial_spin_array := fun _ => 7
    z_initial_spin_array := fun _ => 7
    x_k1_array := fun _ => 7
    y_k1_array := fun _ => 7
    z_k1_array := fun _ => 7
    x_k2_array := fun _ => 7
    y_k2_array := fun _ => 7
    z_k2_array := fun _ => 7
    x_k3_array := fun _ => 7
    y_k3_array := fun _ => 7
    z_k3_array := fun _ => 7
    x_k4_array := fun _ => 7
    y_k4_array := fun _ => 7
    z_k4_array := fun _ => 7
    tx := fun _ => 7
    ty := fun _ => 7
    tz := fun _ => 7
    LSF_RK4_set := true }

end ScratchExamples

/-! ## Field and force kernels of the spin-lattice module (`src/spinlattice/fields.cpp`) -/

/-- The read-only inputs of the field kernels: the coordinate and spin arrays. -/
@[ext] structure Config (K : Type) where
  x_coord_array : Nat → K
  y_coord_array : Nat → K
  z_coord_array : Nat → K
  x_spin_array : Nat → K
  y_spin_array : Nat → K
  z_spin_array : Nat → K

/-- The coordinate and spin arrays of a state. -/
def SLD.config {K : Type} (st : SLD K) : Config K :=
  ⟨st.x_coord_array, st.y_coord_array, st.z_coord_array,
   st.x_spin_array, st.y_spin_array, st.z_spin_array⟩

/-- Spin of atom `i` in a configuration. -/
def Config.spin {K : Type} (cfg : Config K) (i : Nat) : Vec3 K :=
  ⟨cfg.x_spin_array i, cfg.y_spin_array i, cfg.z_spin_array i⟩

/-- Read-only globals of the spin-lattice kernels: the neighbour list (`atoms::`), the cell and
its periodicity (`cs::`), the coupling constants and flags of `sld::internal::`, the applied
field (`sim::H_vec`, `sim::H_applied`) and the equilibrium positions; and the collaborators
whose code is outside the repository sources (`sld::PBC_wrap`, the routines of the anisotropy
catalogue, the force kernel `sld::compute_forces`, `mtrandom::gaussian`). -/
structure Lattice (K : Type) where
  neighbour_list_start_index : Nat → Nat
  neighbour_list_end_index : Nat → Int
  neighbour_list_array : Nat → Nat
  system_dimensions_0 : K
  system_dimensions_1 : K
  system_dimensions_2 : K
  pbc_0 : Bool
  pbc_1 : Bool
  pbc_2 : Bool
  /-- The function `sld::PBC_wrap(dx, L, pbc)`. -/
  PBC_wrap : K → K → Bool → K
  r_cut_fields : K
  /-- Entries `J0_ms`, `J0_prime`, `C0`, `C0_ms` of `sld::internal::mp[imat]`. -/
  J0_ms : Nat → K
  J0_prime : Nat → K
  C0 : Nat → K
  C0_ms : Nat → K
  pseudodipolar : Bool
  full_neel : Bool
  H_vec_0 : K
  H_vec_1 : K
  H_vec_2 : K
  H_applied : K
  /-- The field added to an atom of material `mat` with spin `S` by each routine of the
  anisotropy catalogue, in the order in which `anisotropy::fields` calls them. -/
  anisotropy_terms : List (Nat → Vec3 K → Vec3 K)
  x0_coord_array : Nat → K
  y0_coord_array : Nat → K
  z0_coord_array : Nat → K
  /-- The force on atom `i` and its potential energy computed by `sld::compute_forces` from
  the equilibrium and current coordinates. -/
  lattice_force : (Nat → K) → (Nat → K) → (Nat → K) → Nat → Vec3 K
  lattice_energy : (Nat → K) → (Nat → K) → (Nat → K) → Nat → K
  /-- The `n`-th variate returned by `mtrandom::gaussian` (counted from `0`). -/
  gaussian : Nat → K
  /-- The value of `atoms::x_spin_array.size()`, the length of the noise vectors. -/
  spin_array_size : Nat

section Kernels

variable {K : Type} [LinearOrderedField K]

/-- The separation `(dx, dy, dz)` of atom `i` from its neighbour `j`, wrapped with
`sld::PBC_wrap` in each direction. -/
def separation (lat : Lattice K) (cfg : Config K) (i j : Nat) : Vec3 K :=
  let rx := cfg.x_coord_array i
  let ry := cfg.y_coord_array i
  let rz := cfg.z_coord_array i
  let dx := -cfg.x_coord_array j + rx
  let dy := -cfg.y_coord_array j + ry
  let dz := -cfg.z_coord_array j + rz
  ⟨lat.PBC_wrap dx lat.system_dimensions_0 lat.pbc_0,
   lat.PBC_wrap dy lat.system_dimensions_1 lat.pbc_1,
   lat.PBC_wrap dz lat.system_dimensions_2 lat.pbc_2⟩

/-- The local accumulators `fx, fy, fz, hx, hy, hz, sumJ, energy` of `compute_exchange`. -/
structure ExchangeSums (K : Type) where
  fx : K
  fy : K
  fz : K
  hx : K
  hy : K
  hz : K
  sumJ : K
  energy : K

/-- Body of the neighbour loop of `compute_exchange` for atom `i` and list position `n`. -/
def compute_exchange_neighbour (sqrt : K → K) (env : Env K) (lat : Lattice K)
    (cfg : Config K) (i n : Nat) (a : ExchangeSums K) : ExchangeSums K :=
  let imat := env.type_array i
  let exch_J0 := lat.J0_ms imat
  let exch_J0_prime := lat.J0_prime imat / 1.602176634e-19
  let r_sqr_cut := lat.r_cut_fields * lat.r_cut_fields
  let exch_inv_rcut := 1.0 / lat.r_cut_fields
  let sx := cfg.x_spin_array i
  let sy := cfg.y_spin_array i
  let sz := cfg.z_spin_array i
  let j := lat.neighbour_list_array n
  if j ≠ i then
    let d := separation lat cfg i j
    let rji_sqr := d.x * d.x + d.y * d.y + d.z * d.z
    if rji_sqr < r_sqr_cut then
      let rji := sqrt rji_sqr
      let inv_rji := 1.0 / rji
      let y := (1.0 - rji * exch_inv_rcut)
      let J := exch_J0 * y * y * y
      let sjx := cfg.x_spin_array j
      let sjy := cfg.y_spin_array j
      let sjz := cfg.z_spin_array j
      let si_dot_sj := sx * sjx + sy * sjy + sz * sjz
      let f_exch := -exch_J0_prime * y * y
      { fx := a.fx + f_exch * d.x * si_dot_sj * inv_rji
        fy := a.fy + f_exch * d.y * si_dot_sj * inv_rji
        fz := a.fz + f_exch * d.z * si_dot_sj * inv_rji
        hx := a.hx + J * sjx
        hy := a.hy + J * sjy
        hz := a.hz + J * sjz
        sumJ := a.sumJ + J
        energy := a.energy + J * si_dot_sj }
    else a
  else a

/-- The accumulators of `compute_exchange` for atom `i` after its neighbour loop, which runs
over the list positions `neighbour_list_start_index[i] .. neighbour_list_end_index[i]`. -/
def compute_exchange_sums (sqrt : K → K) (env : Env K) (lat : Lattice K) (cfg : Config K)
    (i : Nat) : ExchangeSums K :=
  let nbr_start := lat.neighbour_list_start_index i
  let nbr_end := lat.neighbour_list_end_index i + 1
  for_range nbr_start nbr_end.toNat (compute_exchange_neighbour sqrt env lat cfg i)
    ⟨0, 0, 0, 0, 0, 0, 0, 0⟩

/-- Body of the atom loop of `compute_exchange`. -/
def compute_exchange_atom (sqrt : K → K) (env : Env K) (lat : Lattice K) (i : Nat)
    (st : SLD K) : SLD K :=
  let a := compute_exchange_sums sqrt env lat st.config i
  { st with
    forces_array_x := Function.update st.forces_array_x i (st.forces_array_x i + a.fx)
    forces_array_y := Function.update st.forces_array_y i (st.forces_array_y i + a.fy)
    forces_array_z := Function.update st.forces_array_z i (st.forces_array_z i + a.fz)
    fields_array_x := Function.update st.fields_array_x i (st.fields_array_x i + a.hx)
    fields_array_y := Function.update st.fields_array_y i (st.fields_array_y i + a.hy)
    fields_array_z := Function.update st.fields_array_z i (st.fields_array_z i + a.hz)
    sumJ := Function.update st.sumJ i a.sumJ
    exch_eng := Function.update st.exch_eng i (-0.5 * a.energy) }

/-- The routine `sld::internal::compute_exchange(start_index, end_index, ...)`. -/
def compute_exchange (sqrt : K → K) (env : Env K) (lat : Lattice K)
    (start_index end_index : Nat) (st : SLD K) : SLD K :=
  for_range start_index end_index (compute_exchange_atom sqrt env lat) st

/-- The local accumulators `fc_x.., hc_x.., energy_c, sumC` of the two coupling routines. -/
structure CouplingSums (K : Type) where
  fc_x : K
  fc_y : K
  fc_z : K
  hc_x : K
  hc_y : K
  hc_z : K
  energy_c : K
  sumC : K

/-- Body of the neighbour loop of `compute_sld_coupling`. -/
def compute_sld_coupling_neighbour (sqrt : K → K) (env : Env K) (lat : Lattice K)
    (cfg : Config K) (i n : Nat) (a : CouplingSums K) : CouplingSums K :=
  let imat := env.type_array i
  let fact := lat.C0 imat / 1.602176634e-19
  let fact_ms := lat.C0_ms imat
  let r_sqr_cut := lat.r_cut_fields * lat.r_cut_fields
  let oneover3 : K := 1.0 / 3.0
  let sx := cfg.x_spin_array i
  let sy := cfg.y_spin_array i
  let sz := cfg.z_spin_array i
  let j := lat.neighbour_list_array n
  if j ≠ i then
    let d := separation lat cfg i j
    let dx := d.x
    let dy := d.y
    let dz := d.z
    let rji_sqr := dx * dx + dy * dy + dz * dz
    if rji_sqr < r_sqr_cut then
      let rji := sqrt rji_sqr
      let inv_rji := 1.0 / rji
      let sjx := cfg.x_spin_array j
      let sjy := cfg.y_spin_array j
      let sjz := cfg.z_spin_array j
      let si_dot_sj := sx * sjx + sy * sjy + sz * sjz
      let sj_dot_rji := (dx * sjx + dy * sjy + dz * sjz)
      let si_dot_rji := (dx * sx + dy * sy + dz * sz)
      let inv_rji2 := inv_rji * inv_rji
      let inv_rji4 := inv_rji2 * inv_rji2
      let inv_rji6 := inv_rji4 * inv_rji2
      { hc_x := a.hc_x + fact_ms * inv_rji4 * (inv_rji2 * dx * sj_dot_rji - oneover3 * sjx)
        hc_y := a.hc_y + fact_ms * inv_rji4 * (inv_rji2 * dy * sj_dot_rji - oneover3 * sjy)
        hc_z := a.hc_z + fact_ms * inv_rji4 * (inv_rji2 * dz * sj_dot_rji - oneover3 * sjz)
        fc_x := a.fc_x + fact * inv_rji6 * (sj_dot_rji * sx + si_dot_rji * sjx
          - 6.0 * dx * sj_dot_rji * si_dot_rji * inv_rji2 + oneover3 * 4.0 * si_dot_sj * dx)
        fc_y := a.fc_y + fact * inv_rji6 * (sj_dot_rji * sy + si_dot_rji * sjy
          - 6.0 * dy * sj_dot_rji * si_dot_rji * inv_rji2 + oneover3 * 4.0 * si_dot_sj * dy)
        fc_z := a.fc_z + fact * inv_rji6 * (sj_dot_rji * sz + si_dot_rji * sjz
          - 6.0 * dz * sj_dot_rji * si_dot_rji * inv_rji2 + oneover3 * 4.0 * si_dot_sj * dz)
        energy_c := a.energy_c
        sumC := a.sumC + fact_ms * inv_rji4 }
    else a
  else a

/-- The accumulators of `compute_sld_coupling` for atom `i` after its neighbour loop. -/
def compute_sld_coupling_sums (sqrt : K → K) (env : Env K) (lat : Lattice K)
    (cfg : Config K) (i : Nat) : CouplingSums K :=
  let nbr_start := lat.neighbour_list_start_index i
  let nbr_end := lat.neighbour_list_end_index i + 1
  for_range nbr_start nbr_end.toNat (compute_sld_coupling_neighbour sqrt env lat cfg i)
    ⟨0, 0, 0, 0, 0, 0, 0, 0⟩

/-- Body of the atom loop of `compute_sld_coupling`. -/
def compute_sld_coupling_atom (sqrt : K → K) (env : Env K) (lat : Lattice K) (i : Nat)
    (st : SLD K) : SLD K :=
  let a := compute_sld_coupling_sums sqrt env lat st.config i
  { st with
    forces_array_x := Function.update st.forces_array_x i (st.forces_array_x i + a.fc_x)
    forces_array_y := Function.update st.forces_array_y i (st.forces_array_y i + a.fc_y)
    forces_array_z := Function.update st.forces_array_z i (st.forces_array_z i + a.fc_z)
    fields_array_x := Function.update st.fields_array_x i (st.fields_array_x i + a.hc_x)
    fields_array_y := Function.update st.fields_array_y i (st.fields_array_y i + a.hc_y)
    fields_array_z := Function.update st.fields_array_z i (st.fields_array_z i + a.hc_z)
    sumC := Function.update st.sumC i a.sumC
    coupl_eng := Function.update st.coupl_eng i (-0.5 * a.energy_c) }

/-- The routine `sld::internal::compute_sld_coupling(start_index, end_index, ...)`. -/
def compute_sld_coupling (sqrt : K → K) (env : Env K) (lat : Lattice K)
    (start_index end_index : Nat) (st : SLD K) : SLD K :=
  for_range start_index end_index (compute_sld_coupling_atom sqrt env lat) st

/-- Body of the neighbour loop of `compute_sld_coupling_neel` (which has no `sumC`
accumulator; the field `sumC` of the record is carried unchanged). -/
def compute_sld_coupling_neel_neighbour (sqrt : K → K) (env : Env K) (lat : Lattice K)
    (cfg : Config K) (i n : Nat) (a : CouplingSums K) : CouplingSums K :=
  let imat := env.type_array i
  let fact := lat.C0 imat / 1.602176634e-19
  let fact_ms := lat.C0_ms imat
  let r_sqr_cut := lat.r_cut_fields * lat.r_cut_fields
  let oneover3 : K := 1.0 / 3.0
  let sx := cfg.x_spin_array i
  let sy := cfg.y_spin_array i
  let sz := cfg.z_spin_array i
  let j := lat.neighbour_list_array n
  if j ≠ i then
    let d := separation lat cfg i j
    let dx := d.x
    let dy := d.y
    let dz := d.z
    let rji_sqr := dx * dx + dy * dy + dz * dz
    if rji_sqr < r_sqr_cut then
      let rji := sqrt rji_sqr
      let inv_rji := 1.0 / rji
      let sjx := cfg.x_spin_array j
      let sjy := cfg.y_spin_array j
      let sjz := cfg.z_spin_array j
      let si_dot_sj := sx * sjx + sy * sjy + sz * sjz
      let sj_dot_rji := (dx * sjx + dy * sjy + dz * sjz)
      let si_dot_rji := (dx * sx + dy * sy + dz * sz)
      let inv_rji2 := inv_rji * inv_rji
      let inv_rji4 := inv_rji2 * inv_rji2
      let inv_rji6 := inv_rji4 * inv_rji2
      let prod1 := inv_rji2 * si_dot_rji * si_dot_rji - oneover3 * si_dot_sj
      let prod2 := inv_rji2 * sj_dot_rji * sj_dot_rji - oneover3 * si_dot_sj
      let prod3 := si_dot_rji * sj_dot_rji * sj_dot_rji * sj_dot_rji
      let prod4 := sj_dot_rji * si_dot_rji * si_dot_rji * si_dot_rji
      let sj3 := sj_dot_rji * sj_dot_rji * sj_dot_rji
      let si3 := si_dot_rji * si_dot_rji * si_dot_rji
      let deriv1 := 2 * inv_rji2 * si_dot_rji
      { hc_x := a.hc_x
          + 12.0 / 35.0 * fact_ms * inv_rji4 * (inv_rji2 * dx * sj_dot_rji - oneover3 * sjx)
          + 9.0 / 5.0 * fact_ms * inv_rji4
            * ((deriv1 * dx - oneover3 * sjx) * prod2 + prod1 * (-oneover3 * sjx))
          + -2.0 / 5.0 * fact_ms * inv_rji4 * inv_rji4
            * (dx * sj3 + 3.0 * dx * sj_dot_rji * si_dot_rji * si_dot_rji)
        hc_y := a.hc_y
          + 12.0 / 35.0 * fact_ms * inv_rji4 * (inv_rji2 * dy * sj_dot_rji - oneover3 * sjy)
          + 9.0 / 5.0 * fact_ms * inv_rji4
            * ((deriv1 * dy - oneover3 * sjy) * prod2 + prod1 * (-oneover3 * sjy))
          + -2.0 / 5.0 * fact_ms * inv_rji4 * inv_rji4
            * (dy * sj3 + 3.0 * dy * sj_dot_rji * si_dot_rji * si_dot_rji)
        hc_z := a.hc_z
          + 12.0 / 35.0 * fact_ms * inv_rji4 * (inv_rji2 * dz * sj_dot_rji - oneover3 * sjz)
          + 9.0 / 5.0 * fact_ms * inv_rji4
            * ((deriv1 * dz - oneover3 * sjz) * prod2 + prod1 * (-oneover3 * sjz))
          + -2.0 / 5.0 * fact_ms * inv_rji4 * inv_rji4
            * (dz * sj3 + 3.0 * dz * sj_dot_rji * si_dot_rji * si_dot_rji)
        energy_c := a.energy_c
          + 12.0 / 35.0 * fact_ms * inv_rji4
            * (inv_rji2 * sj_dot_rji * si_dot_rji - oneover3 * si_dot_sj)
          + 9.0 / 5.0 * fact_ms * inv_rji4 * prod1 * prod2
          + -2.0 / 5.0 * fact_ms * inv_rji4 * inv_rji4 * (prod3 + prod4)
        fc_x := a.fc_x
          + 12.0 / 35.0 * fact * inv_rji6 * (sj_dot_rji * sx + si_dot_rji * sjx
            - 6.0 * dx * sj_dot_rji * si_dot_rji * inv_rji2 + oneover3 * 4.0 * si_dot_sj * dx)
          + 9.0 / 5.0 * fact * ((-4 * dx * inv_rji6) * prod1 * prod2
            + inv_rji4 * prod2 * (2 * sx * inv_rji2 * si_dot_rji
              - 2 * dx * si_dot_rji * si_dot_rji * inv_rji4)
            + inv_rji4 * prod1 * (2 * sjx * inv_rji2 * sj_dot_rji
              - 2 * dx * sj_dot_rji * sj_dot_rji * inv_rji4))
          + -2.0 / 5.0 * fact * ((-4 * dx * inv_rji6) * (inv_rji4 * prod3 + inv_rji4 * prod4)
            + inv_rji4 * (-4 * dx * inv_rji6 * prod3 + inv_rji4 * sx * sj3
              + inv_rji4 * si_dot_rji * 3 * sjx * sj_dot_rji * sj_dot_rji)
            + inv_rji4 * (-4 * dx * inv_rji6 * prod4 + inv_rji4 * sjx * si3
              + inv_rji4 * sj_dot_rji * 3 * sx * si_dot_rji * si_dot_rji))
        fc_y := a.fc_y
          + 12.0 / 35.0 * fact * inv_rji6 * (sj_dot_rji * sy + si_dot_rji * sjy
            - 6.0 * dy * sj_dot_rji * si_dot_rji * inv_rji2 + oneover3 * 4.0 * si_dot_sj * dy)
          + 9.0 / 5.0 * fact * ((-4 * dy * inv_rji6) * prod1 * prod2
            + inv_rji4 * prod2 * (2 * sy * inv_rji2 * si_dot_rji
              - 2 * dy * si_dot_rji * si_dot_rji * inv_rji4)
            + inv_rji4 * prod1 * (2 * sjy * inv_rji2 * sj_dot_rji
              - 2 * dy * sj_dot_rji * sj_dot_rji * inv_rji4))
          + -2.0 / 5.0 * fact * ((-4 * dy * inv_rji6) * (inv_rji4 * prod3 + inv_rji4 * prod4)
            + inv_rji4 * (-4 * dy * inv_rji6 * prod3 + inv_rji4 * sy * sj3
              + inv_rji4 * si_dot_rji * 3 * sjy * sj_dot_rji * sj_dot_rji)
            + inv_rji4 * (-4 * dy * inv_rji6 * prod4 + inv_rji4 * sjy * si3
              + inv_rji4 * sj_dot_rji * 3 * sy * si_dot_rji * si_dot_rji))
        fc_z := a.fc_z
          + 12.0 / 35.0 * fact * inv_rji6 * (sj_dot_rji * sz + si_dot_rji * sjz
            - 6.0 * dz * sj_dot_rji * si_dot_rji * inv_rji2 + oneover3 * 4.0 * si_dot_sj * dz)
          + 9.0 / 5.0 * fact * ((-4 * dz * inv_rji6) * prod1 * prod2
            + inv_rji4 * prod2 * (2 * sz * inv_rji2 * si_dot_rji
              - 2 * dz * si_dot_rji * si_dot_rji * inv_rji4)
            + inv_rji4 * prod1 * (2 * sjz * inv_rji2 * sj_dot_rji
              - 2 * dz * sj_dot_rji * sj_dot_rji * inv_rji4))
          + -2.0 / 5.0 * fact * ((-4 * dz * inv_rji6) * (inv_rji4 * prod3 + inv_rji4 * prod4)
            + inv_rji4 * (-4 * dz * inv_rji6 * prod3 + inv_rji4 * sz * sj3
              + inv_rji4 * si_dot_rji * 3 * sjz * sj_dot_rji * sj_dot_rji)
            + inv_rji4 * (-4 * dz * inv_rji6 * prod4 + inv_rji4 * sjz * si3
              + inv_rji4 * sj_dot_rji * 3 * sz * si_dot_rji * si_dot_rji))
        sumC := a.sumC }
    else a
  else a

/-- The accumulators of `compute_sld_coupling_neel` for atom `i` after its neighbour loop. -/
def compute_sld_coupling_neel_sums (sqrt : K → K) (env : Env K) (lat : Lattice K)
    (cfg : Config K) (i : Nat) : CouplingSums K :=
  let nbr_start := lat.neighbour_list_start_index i
  let nbr_end := lat.neighbour_list_end_index i + 1
  for_range nbr_start nbr_end.toNat (compute_sld_coupling_neel_neighbour sqrt env lat cfg i)
    ⟨0, 0, 0, 0, 0, 0, 0, 0⟩

/-- Body of the atom loop of `compute_sld_coupling_neel`. -/
def compute_sld_coupling_neel_atom (sqrt : K → K) (env : Env K) (lat : Lattice K) (i : Nat)
    (st : SLD K) : SLD K :=
  let a := compute_sld_coupling_neel_sums sqrt env lat st.config i
  let sx := st.x_spin_array i
  let sy := st.y_spin_array i
  let sz := st.z_spin_array i
  { st with
    forces_array_x := Function.update st.forces_array_x i (st.forces_array_x i + a.fc_x)
    forces_array_y := Function.update st.forces_array_y i (st.forces_array_y i + a.fc_y)
    forces_array_z := Function.update st.forces_array_z i (st.forces_array_z i + a.fc_z)
    fields_array_x := Function.update st.fields_array_x i (st.fields_array_x i + a.hc_x)
    fields_array_y := Function.update st.fields_array_y i (st.fields_array_y i + a.hc_y)
    fields_array_z := Function.update st.fields_array_z i (st.fields_array_z i + a.hc_z)
    sumC := Function.update st.sumC i (a.hc_x * sx + a.hc_y * sy + a.hc_z * sz)
    coupl_eng := Function.update st.coupl_eng i (-0.5 * a.energy_c) }

/-- The routine `sld::internal::compute_sld_coupling_neel(start_index, end_index, ...)`. -/
def compute_sld_coupling_neel (sqrt : K → K) (env : Env K) (lat : Lattice K)
    (start_index end_index : Nat) (st : SLD K) : SLD K :=
  for_range start_index end_index (compute_sld_coupling_neel_atom sqrt env lat) st

/-- Body of the loop "add all the external fields" of `compute_fields`. -/
def add_external_field_atom (lat : Lattice K) (i : Nat) (st : SLD K) : SLD K :=
  let Hx := lat.H_vec_0 * lat.H_applied
  let Hy := lat.H_vec_1 * lat.H_applied
  let Hz := lat.H_vec_2 * lat.H_applied
  { st with
    fields_array_x := Function.update st.fields_array_x i (st.fields_array_x i + Hx)
    fields_array_y := Function.update st.fields_array_y i (st.fields_array_y i + Hy)
    fields_array_z := Function.update st.fields_array_z i (st.fields_array_z i + Hz) }

/-- Modelled from the spec: one routine of "the anisotropy energy/field formula library (a long
but straightforward catalogue of closed-form trigonometric expressions)", whose code is outside
the repository sources except for two members: for every atom of the range it adds to the
field a function `term` of the atom's material and spin, as the two members in the sources
do. -/
def anisotropy_term_atom (env : Env K) (term : Nat → Vec3 K → Vec3 K) (atom : Nat)
    (st : SLD K) : SLD K :=
  let h := term (env.type_array atom)
    ⟨st.x_spin_array atom, st.y_spin_array atom, st.z_spin_array atom⟩
  { st with
    fields_array_x := Function.update st.fields_array_x atom (st.fields_array_x atom + h.x)
    fields_array_y := Function.update st.fields_array_y atom (st.fields_array_y atom + h.y)
    fields_array_z := Function.update st.fields_array_z atom (st.fields_array_z atom + h.z) }

/-- The routine `anisotropy::fields(spins, type_array, fields, start_index, end_index,
temperature)`: the routines of the catalogue called one after the other on the same range. -/
def anisotropy_fields (env : Env K) (lat : Lattice K) (start_index end_index : Nat)
    (st : SLD K) : SLD K :=
  lat.anisotropy_terms.foldl
    (fun s term => for_range start_index end_index (anisotropy_term_atom env term) s) st

/-- The routine `sld::compute_fields(start_index, end_index, ...)`. -/
def compute_fields (sqrt : K → K) (env : Env K) (lat : Lattice K)
    (start_index end_index : Nat) (st : SLD K) : SLD K :=
  let st := compute_exchange sqrt env lat start_index end_index st
  let st := if lat.pseudodipolar then
    compute_sld_coupling sqrt env lat start_index end_index st else st
  let st := if lat.full_neel then
    compute_sld_coupling_neel sqrt env lat start_index end_index st else st
  -- add external fields, only after equilibration
  let st := if env.time > env.equilibration_time then
    for_range start_index end_index (add_external_field_atom lat) st else st
  -- add anisotropy
  anisotropy_fields env lat start_index end_index st

/-- Modelled from the spec: the force kernel for one atom, "a separate, external force kernel"
(`sld::compute_forces`, not in the repository sources): it adds the lattice force on the atom,
a function of the equilibrium and current coordinates, to the force accumulated so far and
stores the potential energy of the atom. -/
def compute_forces_atom (lat : Lattice K) (i : Nat) (st : SLD K) : SLD K :=
  let f := lat.lattice_force st.x_coord_array st.y_coord_array st.z_coord_array i
  { st with
    forces_array_x := Function.update st.forces_array_x i (st.forces_array_x i + f.x)
    forces_array_y := Function.update st.forces_array_y i (st.forces_array_y i + f.y)
    forces_array_z := Function.update st.forces_array_z i (st.forces_array_z i + f.z)
    potential_eng := Function.update st.potential_eng i
      (lat.lattice_energy st.x_coord_array st.y_coord_array st.z_coord_array i) }

/-- Modelled from the spec: `sld::compute_forces(start_index, end_index, ...)` over the range
`[start_index, end_index)`. -/
def compute_forces (lat : Lattice K) (start_index end_index : Nat) (st : SLD K) : SLD K :=
  for_range start_index end_index (compute_forces_atom lat) st

end Kernels

/-! ## `sld::suzuki_trotter` (suzuki-trotter.cpp, lines 91-539) -/

section SuzukiTrotter

variable {K : Type} [LinearOrderedField K]

/-- The loop `for (int i = n - 1; i >= 0; i--) body(i);`. -/
def loop_down {σ : Type} (body : Nat → σ → σ) : Nat → σ → σ
  | 0, s => s
  | n + 1, s => loop_down body n (body n s)

/-- Body of `std::generate(v.begin(), v.end(), mtrandom::gaussian)` for entry `i`, on the
vector and the number of variates drawn so far. -/
def generate_entry (lat : Lattice K) (i : Nat) (p : (Nat → K) × Nat) : (Nat → K) × Nat :=
  (Function.update p.1 i (lat.gaussian p.2), p.2 + 1)

/-- A vector of `size` entries, value-initialised by its constructor and then filled by
`std::generate(..., mtrandom::gaussian)`; `count` variates were drawn before. -/
def generate (lat : Lattice K) (size count : Nat) : (Nat → K) × Nat :=
  for_range 0 size (generate_entry lat) (fun _ => 0, count)

/-- The noise vectors `Hx_th, Hy_th, Hz_th`, then `Fx_th, Fy_th, Fz_th`, created and filled at
the start of the step (lines 98-113). -/
def generate_thermal_noise (lat : Lattice K) (st : SLD K) : SLD K :=
  let hx := generate lat lat.spin_array_size st.gaussian_count
  let hy := generate lat lat.spin_array_size hx.2
  let hz := generate lat lat.spin_array_size hy.2
  let fx := generate lat lat.spin_array_size hz.2
  let fy := generate lat lat.spin_array_size fx.2
  let fz := generate lat lat.spin_array_size fy.2
  { st with
    Hx_th := hx.1
    Hy_th := hy.1
    Hz_th := hz.1
    Fx_th := fx.1
    Fy_th := fy.1
    Fz_th := fz.1
    gaussian_count := fz.2 }

/-- The three calls `std::fill(fields_array_*.begin(), fields_array_*.end(), 0.0)`. -/
def fill_fields (st : SLD K) : SLD K :=
  { st with
    fields_array_x := fun _ => 0.0
    fields_array_y := fun _ => 0.0
    fields_array_z := fun _ => 0.0 }

/-- The three calls `std::fill(forces_array_*.begin(), forces_array_*.end(), 0.0)`. -/
def fill_forces (st : SLD K) : SLD K :=
  { st with
    forces_array_x := fun _ => 0.0
    forces_array_y := fun _ => 0.0
    forces_array_z := fun _ => 0.0 }

/-- The local `cay_dt = -mp::dt/4.0`. -/
def cay_dt (env : Env K) : K := -env.dt / 4.0

/-- Body of each of the four spin sweeps for one atom: `compute_fields(atom, atom+1, ...)`,
`add_spin_noise(atom, atom+1, mp::dt_SI*1e12, ...)`, `cayley_update(atom, atom+1, cay_dt, ...)`. -/
def spin_update_atom (sqrt : K → K) (env : Env K) (lat : Lattice K) (atom : Nat)
    (st : SLD K) : SLD K :=
  let st := compute_fields sqrt env lat atom (atom + 1) st
  let st := add_spin_noise sqrt env atom (atom + 1) (env.dt_SI * 1e12) st
  cayley_update atom (atom + 1) (cay_dt env) st

/-- The loop `for(int atom=0;atom<=num_atoms-1;atom++)` of a forward sweep. -/
def forward_sweep (sqrt : K → K) (env : Env K) (lat : Lattice K) (st : SLD K) : SLD K :=
  for_range 0 env.num_atoms (spin_update_atom sqrt env lat) st

/-- The loop `for(int atom=num_atoms-1;atom>=0;atom--)` of a backward sweep. -/
def backward_sweep (sqrt : K → K) (env : Env K) (lat : Lattice K) (st : SLD K) : SLD K :=
  loop_down (spin_update_atom sqrt env lat) env.num_atoms st

/-- The spin part of the step (lines 116-236, and again lines 379-482): fields zeroed, forward
sweep, fields zeroed, backward sweep. -/
def spin_sweeps (sqrt : K → K) (env : Env K) (lat : Lattice K) (st : SLD K) : SLD K :=
  let st := fill_fields st
  let st := forward_sweep sqrt env lat st
  let st := fill_fields st
  backward_sweep sqrt env lat st

/-- Fields and forces recomputed for all atoms before a velocity kick (lines 241-283,
312-354): forces zeroed, `compute_fields(0, num_atoms, ...)`, `compute_forces(0, num_atoms,
...)`. -/
def recompute_forces (sqrt : K → K) (env : Env K) (lat : Lattice K) (st : SLD K) : SLD K :=
  let st := fill_forces st
  let st := compute_fields sqrt env lat 0 env.num_atoms st
  compute_forces lat 0 env.num_atoms st

/-- The first lattice sub-step (lines 241-307): forces recomputed, then the loop "update
position, Velocity". -/
def lattice_first (sqrt : K → K) (env : Env K) (lat : Lattice K) (st : SLD K) : SLD K :=
  update_position_velocity sqrt env (recompute_forces sqrt env lat st)

/-- The second lattice sub-step (lines 312-376): forces recomputed, then the velocity loop. -/
def lattice_second (sqrt : K → K) (env : Env K) (lat : Lattice K) (st : SLD K) : SLD K :=
  update_velocity sqrt env (recompute_forces sqrt env lat st)

/-- The routine `sld::suzuki_trotter()`. -/
def suzuki_trotter (sqrt : K → K) (env : Env K) (lat : Lattice K) (st : SLD K) : SLD K :=
  let st := generate_thermal_noise lat st
  let st := spin_sweeps sqrt env lat st
  let st := lattice_first sqrt env lat st
  let st := lattice_second sqrt env lat st
  spin_sweeps sqrt env lat st

/-! ### The step as a list of operations -/

/-- Body of a loop that only advances the position of one atom by `mp::dt_SI*1e12` times its
velocity (the last three statements of the body of the first lattice loop). -/
def position_drift_atom (env : Env K) (atom : Nat) (st : SLD K) : SLD K :=
  { st with
    x_coord_array := Function.update st.x_coord_array atom
      (st.x_coord_array atom + env.dt_SI * 1e12 * st.x_velo_array atom)
    y_coord_array := Function.update st.y_coord_array atom
      (st.y_coord_array atom + env.dt_SI * 1e12 * st.y_velo_array atom)
    z_coord_array := Function.update st.z_coord_array atom
      (st.z_coord_array atom + env.dt_SI * 1e12 * st.z_velo_array atom) }

/-- The position drift of all atoms, as a loop of its own. -/
def position_drift (env : Env K) (st : SLD K) : SLD K :=
  for_range 0 env.num_atoms (position_drift_atom env) st

/-- The operations of one step: the elementary ones of the specification (the rotation of one
atom, the velocity kick, the position drift) and the auxiliary ones between them. -/
inductive Op where
  | rotate (atom : Nat)
  | kick
  | drift
  | zero_fields
  | new_forces
  deriving DecidableEq

/-- The elementary operations: rotations, kick and drift. -/
def Op.elementary : Op → Bool
  | Op.rotate _ => true
  | Op.kick => true
  | Op.drift => true
  | _ => false

/-- The effect of an operation on the state. -/
def Op.run (sqrt : K → K) (env : Env K) (lat : Lattice K) : Op → SLD K → SLD K
  | Op.rotate atom, st => spin_update_atom sqrt env lat atom st
  | Op.kick, st => update_velocity sqrt env st
  | Op.drift, st => position_drift env st
  | Op.zero_fields, st => fill_fields st
  | Op.new_forces, st => recompute_forces sqrt env lat st

/-- The rotations `R_0, ..., R_{N-1}` in ascending order. -/
def rotations_up (N : Nat) : List Op := (List.range N).map Op.rotate

/-- The rotations `R_{N-1}, ..., R_0` in descending order. -/
def rotations_down (N : Nat) : List Op := (rotations_up N).reverse

/-- The operations of one step after the noise vectors are filled, in program order. -/
def suzuki_trotter_ops (N : Nat) : List Op :=
  [Op.zero_fields] ++ rotations_up N ++ [Op.zero_fields] ++ rotations_down N
    ++ [Op.new_forces, Op.kick, Op.drift, Op.new_forces, Op.kick]
    ++ [Op.zero_fields] ++ rotations_up N ++ [Op.zero_fields] ++ rotations_down N

/-- The sequence of the specification, in its words: `R_0..R_{N-1}, R_{N-1}..R_0, V, X, V,
R_0..R_{N-1}, R_{N-1}..R_0`. -/
def symmetric_sequence (N : Nat) : List Op :=
  rotations_up N ++ rotations_down N ++ [Op.kick, Op.drift, Op.kick]
    ++ rotations_up N ++ rotations_down N

/-- Runs a list of operations from left to right. -/
def run_ops (sqrt : K → K) (env : Env K) (lat : Lattice K) (ops : List Op) (st : SLD K) :
    SLD K :=
  ops.foldl (fun s op => Op.run sqrt env lat op s) st

end SuzukiTrotter

/-! ### The effect of the field kernels on one atom -/

section Slices

variable {K : Type} [LinearOrderedField K]

/-- What `compute_fields` reads and writes for one atom: the atom's entries of the field and
force arrays and of the per-atom sums and energies, and the configuration read by the
kernels. -/
@[ext] structure FieldSlice (K : Type) where
  field : Vec3 K
  force : Vec3 K
  sumJ : K
  exch_eng : K
  sumC : K
  coupl_eng : K
  config : Config K

/-- The slice of atom `j` in a state. -/
def SLD.slice (j : Nat) (st : SLD K) : FieldSlice K :=
  ⟨st.field j, st.force j, st.sumJ j, st.exch_eng j, st.sumC j, st.coupl_eng j, st.config⟩

/-- The arrays that the field kernels neither read nor write. -/
def SLD.others (st : SLD K) :
    ((Nat → K) × (Nat → K) × (Nat → K)) × ((Nat → K) × (Nat → K) × (Nat → K))
      × ((Nat → K) × (Nat → K) × (Nat → K)) × (Nat → K) × Nat :=
  ((st.x_velo_array, st.y_velo_array, st.z_velo_array), (st.Hx_th, st.Hy_th, st.Hz_th),
   (st.Fx_th, st.Fy_th, st.Fz_th), st.potential_eng, st.gaussian_count)

/-- Effect of `compute_exchange_atom` on the slice of its atom. -/
def compute_exchange_slice (sqrt : K → K) (env : Env K) (lat : Lattice K) (i : Nat)
    (p : FieldSlice K) : FieldSlice K :=
  let a := compute_exchange_sums sqrt env lat p.config i
  { p with
    force := ⟨p.force.x + a.fx, p.force.y + a.fy, p.force.z + a.fz⟩
    field := ⟨p.field.x + a.hx, p.field.y + a.hy, p.field.z + a.hz⟩
    sumJ := a.sumJ
    exch_eng := -0.5 * a.energy }

/-- Effect of `compute_sld_coupling_atom` on the slice of its atom. -/
def compute_sld_coupling_slice (sqrt : K → K) (env : Env K) (lat : Lattice K) (i : Nat)
    (p : FieldSlice K) : FieldSlice K :=
  let a := compute_sld_coupling_sums sqrt env lat p.config i
  { p with
    force := ⟨p.force.x + a.fc_x, p.force.y + a.fc_y, p.force.z + a.fc_z⟩
    field := ⟨p.field.x + a.hc_x, p.field.y + a.hc_y, p.field.z + a.hc_z⟩
    sumC := a.sumC
    coupl_eng := -0.5 * a.energy_c }

/-- Effect of `compute_sld_coupling_neel_atom` on the slice of its atom. -/
def compute_sld_coupling_neel_slice (sqrt : K → K) (env : Env K) (lat : Lattice K) (i : Nat)
    (p : FieldSlice K) : FieldSlice K :=
  let a := compute_sld_coupling_neel_sums sqrt env lat p.config i
  let s := p.config.spin i
  { p with
    force := ⟨p.force.x + a.fc_x, p.force.y + a.fc_y, p.force.z + a.fc_z⟩
    field := ⟨p.field.x + a.hc_x, p.field.y + a.hc_y, p.field.z + a.hc_z⟩
    sumC := a.hc_x * s.x + a.hc_y * s.y + a.hc_z * s.z
    coupl_eng := -0.5 * a.energy_c }

/-- Effect of `add_external_field_atom` on the slice of its atom. -/
def add_external_field_slice (lat : Lattice K) (p : FieldSlice K) : FieldSlice K :=
  { p with
    field := ⟨p.field.x + lat.H_vec_0 * lat.H_applied, p.field.y + lat.H_vec_1 * lat.H_applied,
      p.field.z + lat.H_vec_2 * lat.H_applied⟩ }

/-- Effect of `anisotropy_term_atom` on the slice of its atom. -/
def anisotropy_term_slice (env : Env K) (term : Nat → Vec3 K → Vec3 K) (i : Nat)
    (p : FieldSlice K) : FieldSlice K :=
  let h := term (env.type_array i) (p.config.spin i)
  { p with field := ⟨p.field.x + h.x, p.field.y + h.y, p.field.z + h.z⟩ }

/-- Effect of `anisotropy_fields` on the slice of an atom of its range. -/
def anisotropy_fields_slice (env : Env K) (lat : Lattice K) (i : Nat) (p : FieldSlice K) :
    FieldSlice K :=
  lat.anisotropy_terms.foldl (fun q term => anisotropy_term_slice env term i q) p

/-- Effect of `compute_fields` on the slice of an atom of its range. -/
def compute_fields_slice (sqrt : K → K) (env : Env K) (lat : Lattice K) (i : Nat)
    (p : FieldSlice K) : FieldSlice K :=
  let p := compute_exchange_slice sqrt env lat i p
  let p := if lat.pseudodipolar then compute_sld_coupling_slice sqrt env lat i p else p
  let p := if lat.full_neel then compute_sld_coupling_neel_slice sqrt env lat i p else p
  let p := if env.time > env.equilibration_time then add_external_field_slice lat p else p
  anisotropy_fields_slice env lat i p

end Slices

/-! ## Example lattice -/

section LatticeExamples

variable {K : Type} [LinearOrderedField K]

/-- A chain of atoms along the x axis, atom `i` at `x = i`, with spins `S`, at rest, every
other array zero and no variate drawn. -/
def SLD.chain (S : Nat → Vec3 K) : SLD K where
  x_spin_array := fun i => (S i).x
  y_spin_array := fun i => (S i).y
  z_spin_array := fun i => (S i).z
  fields_array_x := fun _ => 0
  fields_array_y := fun _ => 0
  fields_array_z := fun _ => 0
  forces_array_x := fun _ => 0
  forces_array_y := fun _ => 0
  forces_array_z := fun _ => 0
  x_coord_array := fun i => (i : K)
  y_coord_array := fun _ => 0
  z_coord_array := fun _ => 0
  x_velo_array := fun _ => 0
  y_velo_array := fun _ => 0
  z_velo_array := fun _ => 0
  Hx_th := fun _ => 0
  Hy_th := fun _ => 0
  Hz_th := fun _ => 0
  Fx_th := fun _ => 0
  Fy_th := fun _ => 0
  Fz_th := fun _ => 0
  sumJ := fun _ => 0
  exch_eng := fun _ => 0
  sumC := fun _ => 0
  coupl_eng := fun _ => 0
  potential_eng := fun _ => 0
  gaussian_count := 0

/-- A lattice in which atom `i` has the single neighbour `i + 1` for even `i` and `i - 1` for
odd `i` (list position `i`), no periodic wrap, cutoff `2`, unit exchange constants, no
pseudodipolar or Néel coupling, a unit applied field along `z`, one uniaxial anisotropy term,
harmonic forces towards the chain positions `x = i`, and Gaussian variates `0, 1, 2, ...`. -/
def Lattice.chain : Lattice K where
  neighbour_list_start_index := fun i => i
  neighbour_list_end_index := fun i => (i : Int)
  neighbour_list_array := fun n => if n % 2 = 0 then n + 1 else n - 1
  system_dimensions_0 := 10
  system_dimensions_1 := 10
  system_dimensions_2 := 10
  pbc_0 := false
  pbc_1 := false
  pbc_2 := false
  PBC_wrap := fun dx _ _ => dx
  r_cut_fields := 2
  J0_ms := fun _ => 1
  J0_prime := fun _ => 1
  C0 := fun _ => 0
  C0_ms := fun _ => 0
  pseudodipolar := false
  full_neel := false
  H_vec_0 := 0
  H_vec_1 := 0
  H_vec_2 := 1
  H_applied := 1
  anisotropy_terms := [fun _ S => ⟨0, 0, S.z⟩]
  x0_coord_array := fun i => (i : K)
  y0_coord_array := fun _ => 0
  z0_coord_array := fun _ => 0
  lattice_force := fun x y z i => ⟨(i : K) - x i, -y i, -z i⟩
  lattice_energy := fun x y z i => (((i : K) - x i) ^ 2 + y i ^ 2 + z i ^ 2) / 2
  gaussian := fun n => (n : K)
  spin_array_size := 2

/-- The environment `Env.sample` with two atoms. -/
def Env.pair : Env K := { (Env.sample : Env K) with num_atoms := 2, num_core_atoms := 2 }

end LatticeExamples

/-! ## The stages of `LSF_RK4_mpi`, in the words of the specification -/

section StageSpec

variable {K : Type} [Field K]

/-- The stage increment of the specification, in its words:
`k = dt * (-γ (S × H) + γ α H + ξ * sqrt(2 kB T γ / dt) * sqrt(α / μ))`. -/
def stage_increment (sqrt : K → K) (gamma alpha mu T dt : K) (S H xi : Vec3 K) : Vec3 K :=
  Vec3.smul dt
    (Vec3.add
      (Vec3.add (Vec3.smul (-gamma) (Vec3.cross S H)) (Vec3.smul (gamma * alpha) H))
      (Vec3.smul (sqrt (2 * kB * T * gamma / dt) * sqrt (alpha / mu)) xi))

/-- `LSF_RK4_mpi` from its entry to just before the loop "Calculate K1 (Core)"
(lsf_rk4_mpi.cpp, lines 75-123). -/
def LSF_RK4_mpi_before_K1_core (c : Collab K) (env : Env K) (st : LSF K) : LSF K :=
  let st := LSF_RK4_check_init st
  let pre_comm_si := 0
  let pre_comm_ei := env.num_core_atoms
  let post_comm_ei := env.num_core_atoms + env.num_bdry_atoms
  let st := mpi_init_halo_swap st
  let st := calculate_spin_fields c pre_comm_si pre_comm_ei st
  let st := calculate_lsf_rk4_field env pre_comm_si pre_comm_ei st
  let st := calculate_external_fields c pre_comm_si pre_comm_ei st
  let st := store_initial_spins pre_comm_si post_comm_ei st
  generate_noise c pre_comm_si pre_comm_ei st

/-- `LSF_RK4_mpi` from its entry to just before the loop "Calculate K1 (boundary)"
(lines 75-176). -/
def LSF_RK4_mpi_before_K1_bdry (sqrt : K → K) (c : Collab K) (env : Env K) (st : LSF K) :
    LSF K :=
  let pre_comm_si := 0
  let pre_comm_ei := env.num_core_atoms
  let post_comm_si := env.num_core_atoms
  let post_comm_ei := env.num_core_atoms + env.num_bdry_atoms
  let sigma := LSF_RK4_sigma sqrt env
  let st := LSF_RK4_mpi_before_K1_core c env st
  let st := stage_loop 1 pre_comm_si pre_comm_ei (K1_atom sqrt env sigma) st
  let st := mpi_complete_halo_swap c env st
  let st := calculate_spin_fields c post_comm_si post_comm_ei st
  let st := calculate_lsf_rk4_field env post_comm_si post_comm_ei st
  let st := calculate_external_fields c post_comm_si post_comm_ei st
  generate_noise c post_comm_si post_comm_ei st

/-- The noise draws, the `k1` loops and the halo completions of an event log, in order. -/
def noise_order (tr : List Event) : List Event :=
  tr.filter (fun e => match e with
    | Event.noise _ _ => true
    | Event.stage 1 _ _ => true
    | Event.complete_halo_swap => true
    | _ => false)

/-- An environment with one material of unit damping and unit moment whose second-order LSF
coefficient is `1/2` (so that the LSF field of a spin `S` is `-S`), at `T = 0`, with unit time
step and gyromagnetic ratio, `core` core atoms and `bdry` boundary atoms. -/
def Env.longitudinal (core bdry : Nat) : Env K :=
  { (Env.precession core bdry : Env K) with
    material := fun _ => ⟨1, 0, 0, 0, 1⟩
    lsf_second_order_coefficient := fun _ => 1 / 2 }

end StageSpec

section StageSpec2

variable {K : Type} [Field K]

/-- "Recalculate spin dependent fields" over `[start, stop)`: the two calls
`calculate_spin_fields(start, stop); calculate_lsf_rk4_field(start, stop);` that precede the
`k2` and `k4` loops. -/
def recalculate_spin_dependent_fields (c : Collab K) (env : Env K) (start stop : Nat)
    (st : LSF K) : LSF K :=
  calculate_lsf_rk4_field env start stop (calculate_spin_fields c start stop st)

end StageSpec2

/-! ## Rotational anisotropy of order 4-3 (`src/anisotropy/rotational_order_4_3.cpp`) -/

section Rotational43

variable {K : Type} [Field K]

/-- Read-only globals of `anisotropy::internal` used by the rotational routines: the enable
flags, the basis vectors `ku_vector` (e), `kr_vector` (f), `kl_vector` (g) and the reduced
anisotropy constants of each material. -/
structure Anisotropy (K : Type) where
  enable_rotational_4_3_order : Bool
  ku_vector : Nat → Vec3 K
  kr_vector : Nat → Vec3 K
  kl_vector : Nat → Vec3 K
  k4r3 : Nat → K
  enable_rotational_6_1_order_odd : Bool
  k6r1_odd : Nat → K

/-- The constant `three` of the file. -/
def three : K := 3.0

/-- The constant `six` of the file. -/
def six : K := 6.0

/-- The vector added to the field of an atom of material `mat` with spin `(sx, sy, sz)` by the
body of the loop of `fourth_order_theta_third_order_phi_fields`. -/
def fourth_order_theta_third_order_phi_field_value (an : Anisotropy K) (mat : Nat)
    (sx sy sz : K) : Vec3 K :=
  let ex := (an.ku_vector mat).x
  let ey := (an.ku_vector mat).y
  let ez := (an.ku_vector mat).z
  let fx := (an.kr_vector mat).x
  let fy := (an.kr_vector mat).y
  let fz := (an.kr_vector mat).z
  let gx := (an.kl_vector mat).x
  let gy := (an.kl_vector mat).y
  let gz := (an.kl_vector mat).z
  -- calculate S_z
  let Sz := sx * ex + sy * ey + sz * ez
  -- calculate S_x and S_x^3 parts
  let Sx := sx * fx + sy * fy + sz * fz
  let Sx2 := Sx * Sx
  -- calculate S_y and S_y^3 parts
  let Sy := sx * gx + sy * gy + sz * gz
  let Sy2 := Sy * Sy
  -- get reduced anisotropy constant ku/mu_s
  let k4r3 := an.k4r3 mat
  -- calculate full form to add to field
  let x_component := k4r3 * three * Sz * (Sx2 - Sy2)
  let y_component := -k4r3 * six * Sx * Sy * Sz
  let z_component := k4r3 * Sx * (Sx2 - three * Sy2)
  ⟨x_component * fx + y_component * gx + z_component * ex,
   x_component * fy + y_component * gy + z_component * ey,
   x_component * fz + y_component * gz + z_component * ez⟩

/-- Body of the loop of `fourth_order_theta_third_order_phi_fields` for one atom, on the spin
and field arrays that `sld::compute_fields` passes to `anisotropy::fields`. -/
def fourth_order_theta_third_order_phi_fields_atom (an : Anisotropy K)
    (atom_material_array : Nat → Nat) (atom : Nat) (st : SLD K) : SLD K :=
  -- store spin direction in temporary variables
  let sx := st.x_spin_array atom
  let sy := st.y_spin_array atom
  let sz := st.z_spin_array atom
  -- get atom material
  let mat := atom_material_array atom
  let h := fourth_order_theta_third_order_phi_field_value an mat sx sy sz
  -- Sum components into field
  { st with
    fields_array_x := Function.update st.fields_array_x atom (st.fields_array_x atom + h.x)
    fields_array_y := Function.update st.fields_array_y atom (st.fields_array_y atom + h.y)
    fields_array_z := Function.update st.fields_array_z atom (st.fields_array_z atom + h.z) }

/-- The routine `anisotropy::internal::fourth_order_theta_third_order_phi_fields`. -/
def fourth_order_theta_third_order_phi_fields (an : Anisotropy K)
    (atom_material_array : Nat → Nat) (start_index end_index : Nat) (st : SLD K) : SLD K :=
  -- if not enabled then do nothing
  if !an.enable_rotational_4_3_order then st
  else
    -- Loop over all atoms between start and end index
    for_range start_index end_index
      (fourth_order_theta_third_order_phi_fields_atom an atom_material_array) st

/-- The routine `anisotropy::internal::fourth_order_theta_third_order_phi_energy`. -/
def fourth_order_theta_third_order_phi_energy (an : Anisotropy K) (_atom mat : Nat)
    (sx sy sz : K) : K :=
  -- get reduced anisotropy constant ku/mu_s (Tesla)
  let k4r3 := an.k4r3 mat
  let ex := (an.ku_vector mat).x
  let ey := (an.ku_vector mat).y
  let ez := (an.ku_vector mat).z
  let fx := (an.kr_vector mat).x
  let fy := (an.kr_vector mat).y
  let fz := (an.kr_vector mat).z
  let gx := (an.kl_vector mat).x
  let gy := (an.kl_vector mat).y
  let gz := (an.kl_vector mat).z
  let Sx := sx * fx + sy * fy + sz * fz
  let Sy := sx * gx + sy * gy + sz * gz
  let Sz := sx * ex + sy * ey + sz * ez
  (-k4r3 * Sx * Sz * (Sx * Sx - three * Sy * Sy))

/-- An anisotropy table with the routines enabled, constants `k4r3 = 1`, `k6r1_odd = 1` and
the basis `e = (0,0,1)`, `f = (1,0,0)`, `g = (0,1,0)` for every material. -/
def Anisotropy.sample : Anisotropy K where
  enable_rotational_4_3_order := true
  ku_vector := fun _ => ⟨0, 0, 1⟩
  kr_vector := fun _ => ⟨1, 0, 0⟩
  kl_vector := fun _ => ⟨0, 1, 0⟩
  k4r3 := fun _ => 1
  enable_rotational_6_1_order_odd := true
  k6r1_odd := fun _ => 1

end Rotational43

/-! ## The exchange sums, in the words of the specification -/

section ExchangeSpec

variable {K : Type} [LinearOrderedField K]

/-- The neighbour-list positions of atom `i`: `neighbour_list_start_index[i]`, ...,
`neighbour_list_end_index[i]`, the last one included. -/
def neighbour_positions (lat : Lattice K) (i : Nat) : List Nat :=
  List.range' (lat.neighbour_list_start_index i)
    ((lat.neighbour_list_end_index i + 1).toNat - lat.neighbour_list_start_index i)

/-- The wrapped squared separation `r²` of atom `i` and the atom at list position `n`. -/
def exchange_r_sqr (lat : Lattice K) (cfg : Config K) (i n : Nat) : K :=
  Vec3.normSq (separation lat cfg i (lat.neighbour_list_array n))

/-- The list positions that contribute to the exchange sums of atom `i`: those with
`j = neighbour_list_array[n] ≠ i` and `r² < r_cut²`. -/
def exchange_positions (lat : Lattice K) (cfg : Config K) (i : Nat) : List Nat :=
  (neighbour_positions lat i).filter
    (fun n => decide (lat.neighbour_list_array n ≠ i
      ∧ exchange_r_sqr lat cfg i n < lat.r_cut_fields ^ 2))

/-- The coupling `J = J0 (1 - r/r_cut)³` of atom `i` with the atom at list position `n`. -/
def exchange_J (sqrt : K → K) (env : Env K) (lat : Lattice K) (cfg : Config K) (i n : Nat) :
    K :=
  lat.J0_ms (env.type_array i) * (1 - sqrt (exchange_r_sqr lat cfg i n) / lat.r_cut_fields) ^ 3

/-- The exchange field of atom `i`: the sum of `J S_j` over the contributing positions. -/
def exchange_field (sqrt : K → K) (env : Env K) (lat : Lattice K) (cfg : Config K) (i : Nat) :
    Vec3 K :=
  ⟨((exchange_positions lat cfg i).map (fun n => exchange_J sqrt env lat cfg i n
      * (cfg.spin (lat.neighbour_list_array n)).x)).sum,
   ((exchange_positions lat cfg i).map (fun n => exchange_J sqrt env lat cfg i n
      * (cfg.spin (lat.neighbour_list_array n)).y)).sum,
   ((exchange_positions lat cfg i).map (fun n => exchange_J sqrt env lat cfg i n
      * (cfg.spin (lat.neighbour_list_array n)).z)).sum⟩

/-- The sum of the couplings `J` over the contributing positions. -/
def exchange_sumJ (sqrt : K → K) (env : Env K) (lat : Lattice K) (cfg : Config K) (i : Nat) :
    K :=
  ((exchange_positions lat cfg i).map (fun n => exchange_J sqrt env lat cfg i n)).sum

/-- The sum of `J (S_i · S_j)` over the contributing positions. -/
def exchange_energy_sum (sqrt : K → K) (env : Env K) (lat : Lattice K) (cfg : Config K)
    (i : Nat) : K :=
  ((exchange_positions lat cfg i).map (fun n => exchange_J sqrt env lat cfg i n
    * Vec3.dot (cfg.spin i) (cfg.spin (lat.neighbour_list_array n)))).sum

end ExchangeSpec

/-! ## Noise and scratch arrays of the Suzuki-Trotter step -/

section StepNoise

variable {K : Type}

/-- The noise vectors of the step and the number of Gaussian variates drawn so far. -/
def SLD.noise (st : SLD K) :
    ((Nat → K) × (Nat → K) × (Nat → K)) × ((Nat → K) × (Nat → K) × (Nat → K)) × Nat :=
  ((st.Hx_th, st.Hy_th, st.Hz_th), (st.Fx_th, st.Fy_th, st.Fz_th), st.gaussian_count)

/-- Two states with the same inputs of a step: equal spins and positions, equal velocities and
the same position in the Gaussian stream.  The field and force arrays, the per-atom sums and
energies and the noise vectors of an earlier step may differ. -/
def SLD.same_inputs (s1 s2 : SLD K) : Prop :=
  s1.config = s2.config ∧ s1.x_velo_array = s2.x_velo_array
    ∧ s1.y_velo_array = s2.y_velo_array ∧ s1.z_velo_array = s2.z_velo_array
    ∧ s1.gaussian_count = s2.gaussian_count

/-- Two states that agree on spins, positions, velocities, noise vectors and the number of
variates drawn. -/
def SLD.agree (s1 s2 : SLD K) : Prop :=
  s1.x_spin_array = s2.x_spin_array ∧ s1.y_spin_array = s2.y_spin_array
    ∧ s1.z_spin_array = s2.z_spin_array
    ∧ s1.x_coord_array = s2.x_coord_array ∧ s1.y_coord_array = s2.y_coord_array
    ∧ s1.z_coord_array = s2.z_coord_array
    ∧ s1.x_velo_array = s2.x_velo_array ∧ s1.y_velo_array = s2.y_velo_array
    ∧ s1.z_velo_array = s2.z_velo_array
    ∧ s1.Hx_th = s2.Hx_th ∧ s1.Hy_th = s2.Hy_th ∧ s1.Hz_th = s2.Hz_th
    ∧ s1.Fx_th = s2.Fx_th ∧ s1.Fy_th = s2.Fy_th ∧ s1.Fz_th = s2.Fz_th
    ∧ s1.gaussian_count = s2.gaussian_count

/-- Two states that agree as in `SLD.agree` and on the field arrays. -/
def SLD.agree_fields (s1 s2 : SLD K) : Prop :=
  SLD.agree s1 s2 ∧ s1.fields_array_x = s2.fields_array_x
    ∧ s1.fields_array_y = s2.fields_array_y ∧ s1.fields_array_z = s2.fields_array_z

/-- Two states that agree as in `SLD.agree_fields` and on the force arrays. -/
def SLD.agree_forces (s1 s2 : SLD K) : Prop :=
  SLD.agree_fields s1 s2 ∧ s1.forces_array_x = s2.forces_array_x
    ∧ s1.forces_array_y = s2.forces_array_y ∧ s1.forces_array_z = s2.forces_array_z

end StepNoise

section StepNoiseExamples

variable {K : Type} [LinearOrderedField K]

/-- The chain `SLD.chain S` after earlier use: same spins, positions, velocities and counter,
but every field, force, sum, energy and noise entry holds the value `7`. -/
def SLD.chain_used (S : Nat → Vec3 K) : SLD K :=
  { (SLD.chain S : SLD K) with
    fields_array_x := fun _ => 7
    fields_array_y := fun _ => 7
    fields_array_z := fun _ => 7
    forces_array_x := fun _ => 7
    forces_array_y := fun _ => 7
    forces_array_z := fun _ => 7
    Hx_th := fun _ => 7
    Hy_th := fun _ => 7
    Hz_th := fun _ => 7
    Fx_th := fun _ => 7
    Fy_th := fun _ => 7
    Fz_th := fun _ => 7
    sumJ := fun _ => 7
    exch_eng := fun _ => 7
    sumC := fun _ => 7
    coupl_eng := fun _ => 7
    potential_eng := fun _ => 7 }

end StepNoiseExamples

/-! ## Rotational anisotropy of order 6-1 odd (`src/anisotropy/rotational_order_6_1_odd.cpp`) -/

section Rotational61Odd

variable {K : Type} [Field K]

/-- The constant `five` of the file. -/
def five : K := 5.0

/-- The constant `oneothirtythree` of the file. -/
def oneothirtythree : K := 1.0 / 33.0

/-- The constant `fiveothirtythree` of the file. -/
def fiveothirtythree : K := 5.0 / 33.0

/-- The constant `sixoeleven` of the file. -/
def sixoeleven : K := 6.0 / 11.0

/-- The constant `tenoeleven` of the file. -/
def tenoeleven : K := 10.0 / 11.0

/-- The vector added to the field of an atom of material `mat` with spin `(sx, sy, sz)` by the
body of the loop of `sixth_order_theta_first_order_phi_odd_fields`. -/
def sixth_order_theta_first_order_phi_odd_field_value (an : Anisotropy K) (mat : Nat)
    (sx sy sz : K) : Vec3 K :=
  let ex := (an.ku_vector mat).x
  let ey := (an.ku_vector mat).y
  let ez := (an.ku_vector mat).z
  let gx := (an.kl_vector mat).x
  let gy := (an.kl_vector mat).y
  let gz := (an.kl_vector mat).z
  -- calculate S_z and S_z^3 parts
  let Sz := sx * ex + sy * ey + sz * ez
  let Sz2 := Sz * Sz
  let Sz4 := Sz2 * Sz2
  -- calculate S_y and S_y^3 parts
  let Sy := sx * gx + sy * gy + sz * gz
  -- get reduced anisotropy constant ku/mu_s
  let k6r1_odd := an.k6r1_odd mat
  -- calculate full form to add to field
  let y_component := k6r1_odd * Sz * (Sz4 - tenoeleven * Sz2 + fiveothirtythree)
  let z_component := k6r1_odd * Sy * five * (Sz4 - sixoeleven * Sz2 + oneothirtythree)
  ⟨z_component * ex + y_component * gx,
   z_component * ey + y_component * gy,
   z_component * ez + y_component * gz⟩

/-- Body of the loop of `sixth_order_theta_first_order_phi_odd_fields` for one atom, on the
spin and field arrays that `sld::compute_fields` passes to `anisotropy::fields`. -/
def sixth_order_theta_first_order_phi_odd_fields_atom (an : Anisotropy K)
    (atom_material_array : Nat → Nat) (atom : Nat) (st : SLD K) : SLD K :=
  -- get atom material
  let mat := atom_material_array atom
  -- store spin direction in temporary variables
  let sx := st.x_spin_array atom
  let sy := st.y_spin_array atom
  let sz := st.z_spin_array atom
  let h := sixth_order_theta_first_order_phi_odd_field_value an mat sx sy sz
  { st with
    fields_array_x := Function.update st.fields_array_x atom (st.fields_array_x atom + h.x)
    fields_array_y := Function.update st.fields_array_y atom (st.fields_array_y atom + h.y)
    fields_array_z := Function.update st.fields_array_z atom (st.fields_array_z atom + h.z) }

/-- The routine `anisotropy::internal::sixth_order_theta_first_order_phi_odd_fields`. -/
def sixth_order_theta_first_order_phi_odd_fields (an : Anisotropy K)
    (atom_material_array : Nat → Nat) (start_index end_index : Nat) (st : SLD K) : SLD K :=
  -- if not enabled then do nothing
  if !an.enable_rotational_6_1_order_odd then st
  else
    -- Loop over all atoms between start and end index
    for_range start_index end_index
      (sixth_order_theta_first_order_phi_odd_fields_atom an atom_material_array) st

/-- The routine `anisotropy::internal::sixth_order_theta_first_order_phi_odd_energy`. -/
def sixth_order_theta_first_order_phi_odd_energy (an : Anisotropy K) (_atom mat : Nat)
    (sx sy sz : K) : K :=
  let ex := (an.ku_vector mat).x
  let ey := (an.ku_vector mat).y
  let ez := (an.ku_vector mat).z
  let gx := (an.kl_vector mat).x
  let gy := (an.kl_vector mat).y
  let gz := (an.kl_vector mat).z
  -- calculate - k_{6r-1} Sy Sz ( Sz^4 - ( 10 / 11 ) Sz^2 + 5 / 33 )
  let Sz := sx * ex + sy * ey + sz * ez
  let Sz2 := Sz * Sz
  let Sy := sx * gx + sy * gy + sz * gz
  -- get reduced anisotropy constant ku/mu_s (Tesla)
  let k6r1_odd := an.k6r1_odd mat
  (-k6r1_odd * Sy * Sz * (Sz2 * Sz2 - tenoeleven * Sz2 + fiveothirtythree))

/-- The energy of the claim, in its words: `E = -k * Sy * Sz * (Sz^4 - (10/11) Sz^2 + 5/33)`
with `Sz = s.e` and `Sy = s.g`. -/
def sixth_order_odd_energy_formula (k : K) (e g s : Vec3 K) : K :=
  -k * Vec3.dot s g * Vec3.dot s e
    * ((Vec3.dot s e) ^ 4 - (10 / 11) * (Vec3.dot s e) ^ 2 + 5 / 33)

end Rotational61Odd
/-! ## `anisotropy::set_anisotropy_vectors` (`src/anisotropy/initialize.cpp`, lines 33-78) -/

section AnisotropyVectors

variable {K : Type} [LinearOrderedField K]

/-- The routine `set_anisotropy_vectors(v1, v2, v3, mat)` on the entries `[0], [1], [2]` of its
three vectors: the new values of `v1`, `v2`, `v3`, or `none` where the routine calls
`err::vexit()`, which ends the program. -/
def set_anisotropy_vectors (sqrt : K → K) (v1 v2 _v3 : Vec3 K) (_mat : Nat) :
    Option (Vec3 K × Vec3 K × Vec3 K) :=
  -- Set primary axis
  let e1 : Vec3 K := ⟨v1.x, v1.y, v1.z⟩
  -- Set secondary axis
  let e2 : Vec3 K := ⟨v2.x, v2.y, v2.z⟩
  -- Check that vectors are orthogonal
  let e1dote2 := e1.x * e2.x + e1.y * e2.y + e1.z * e2.z
  if e1dote2 > 1e-9 ∨ e1dote2 < -1e-9 then none
  else
    -- Set final axis as cross product e1 ^ e2
    let e3 : Vec3 K :=
      ⟨e1.y * e2.z - e1.z * e2.y, e1.z * e2.x - e1.x * e2.z, e1.x * e2.y - e1.y * e2.x⟩
    -- Check for zero vectors
    let mod_e1 := sqrt (e1.x * e1.x + e1.y * e1.y + e1.z * e1.z)
    let mod_e2 := sqrt (e2.x * e2.x + e2.y * e2.y + e2.z * e2.z)
    let mod_e3 := sqrt (e3.x * e3.x + e3.y * e3.y + e3.z * e3.z)
    if mod_e1 < 1e-9 ∨ mod_e2 < 1e-9 ∨ mod_e3 < 1e-9 then none
    else
      -- Normalise vectors to unit length
      some (⟨e1.x / mod_e1, e1.y / mod_e1, e1.z / mod_e1⟩,
            ⟨e2.x / mod_e2, e2.y / mod_e2, e2.z / mod_e2⟩,
            ⟨e3.x / mod_e3, e3.y / mod_e3, e3.z / mod_e3⟩)

/-- The property of the claim: three vectors of unit length, mutually orthogonal. -/
def orthonormal_set (w1 w2 w3 : Vec3 K) : Prop :=
  Vec3.normSq w1 = 1 ∧ Vec3.normSq w2 = 1 ∧ Vec3.normSq w3 = 1
    ∧ Vec3.dot w1 w2 = 0 ∧ Vec3.dot w1 w3 = 0 ∧ Vec3.dot w2 w3 = 0

end AnisotropyVectors
/-! ## `anisotropy::match_input_parameter` (`src/anisotropy/interface.cpp`, lines 31-95) -/

section InputParameter

variable {K : Type} [LinearOrderedField K]

/-- The globals of `anisotropy::internal` written by `match_input_parameter`. -/
structure NeelSettings (K : Type) where
  native_neel_anisotropy_threshold : Bool
  neel_anisotropy_threshold : Int
  nearest_neighbour_distance : K
  neel_exponential_factor : K
  neel_range_dependent : Bool
  neel_exponential_range : K

/-- The functions called by the two input routines whose code is outside the repository
sources: `atoi` and `atof` of the C library, and the checks of `vin::`, which convert and test
the value passed by reference and end the program when it is not valid (`none`); otherwise
they leave the value given by `some`. -/
structure InputChecks (K : Type) where
  atoi : String → Int
  atof : String → K
  /-- The call `vin::check_for_valid_int(value, word, line, prefix, range_min, range_max,
  input_file_type, range_text)`. -/
  check_for_valid_int : Int → String → Int → String → Int → Int → String → String → Option Int
  /-- The call `vin::check_for_valid_value(value, word, line, prefix, unit, unit_type,
  range_min, range_max, input_file_type, range_text)`. -/
  check_for_valid_value :
    K → String → Int → String → String → String → K → K → String → String → Option K

/-- The macro `EXIT_SUCCESS` of `<cstdlib>`: the integer `0`. -/
def EXIT_SUCCESS : Int := 0

/-- The conversion of an `int` to `bool` at a `return` of a function returning `bool`. -/
def int_to_bool (n : Int) : Bool := decide (n ≠ 0)

/-- The routine `anisotropy::match_input_parameter(key, word, value, unit, line)`: the value
returned and the globals after the call, or `none` where a check ends the program.  The local
`prefix` is named `pfx`. -/
def match_input_parameter (c : InputChecks K) (key word value unit : String) (line : Int)
    (st : NeelSettings K) : Option (Bool × NeelSettings K) :=
  -- Check for valid key, if no match return false
  let pfx := "anisotropy"
  if key ≠ pfx then some (false, st)
  else
    let test := "surface-anisotropy-threshold"
    if word = test then
      -- test for native keyword
      let test := "native"
      if value = test then
        some (int_to_bool EXIT_SUCCESS, { st with native_neel_anisotropy_threshold := true })
      else
        let sat := c.atoi value
        -- Test for valid range
        (c.check_for_valid_int sat word line pfx 0 1000000000 "input" "0 - 1,000,000,000").map
          (fun sat => (true, { st with neel_anisotropy_threshold := sat }))
    else
      let test := "surface-anisotropy-nearest-neighbour-range"
      if word = test then
        -- Test for valid range
        let r := c.atof value
        (c.check_for_valid_value r word line pfx unit "length" 0.0 1.0e9 "input"
            "0.0 - 1,000,000,000").map
          (fun r => (true, { st with nearest_neighbour_distance := r }))
      else
        let test := "enable-bulk-neel-anisotropy"
        if word = test then
          -- Enable large threshold to force calculation of Neel anisotropy for all atoms
          some (true, { st with neel_anisotropy_threshold := 1000000000 })
        else
          let test := "neel-anisotropy-exponential-factor"
          if word = test then
            let F := c.atof value
            (c.check_for_valid_value F word line pfx unit "none" 0.01 100.0 "input"
                "0.01 - 100").map
              (fun F => (true, { st with neel_exponential_factor := F
                                         neel_range_dependent := true }))
          else
            let test := "neel-anisotropy-exponential-range"
            if word = test then
              let r := c.atof value
              (c.check_for_valid_value r word line pfx unit "length" 0.0001 1000.0 "input"
                  "0.0001 - 1,000").map
                (fun r => (true, { st with neel_exponential_range := r
                                           neel_range_dependent := true }))
            else
              -- Keyword not found
              some (false, st)

/-- The keywords of the claim, in its order. -/
def input_keywords : List String :=
  ["surface-anisotropy-threshold", "surface-anisotropy-nearest-neighbour-range",
   "enable-bulk-neel-anisotropy", "neel-anisotropy-exponential-factor",
   "neel-anisotropy-exponential-range"]

/-- Checks that accept every value and leave it as it is, with the given `atof`. -/
def InputChecks.accepting (atof : String → K) : InputChecks K where
  atoi := fun _ => 0
  atof := atof
  check_for_valid_int := fun v _ _ _ _ _ _ _ => some v
  check_for_valid_value := fun v _ _ _ _ _ _ _ _ _ => some v

end InputParameter
/-! ## `anisotropy::match_material_parameter` (`src/anisotropy/interface.cpp`, lines 100-851) -/

section MaterialParameter

variable {K : Type} [LinearOrderedField K]

/-- The anisotropy constants of an entry of `anisotropy::internal::mp` written by the keywords
of the tesseral harmonics. -/
structure AnisotropyConstants (K : Type) where
  ku2 : K
  k2r1 : K
  k2r1_odd : K
  k2r2 : K
  k2r2_odd : K
  ku4 : K
  k4r1 : K
  k4r1_odd : K
  k4r2 : K
  k4r2_odd : K
  k4r3 : K
  k4r3_odd : K
  k4r4 : K
  k4r4_odd : K
  ku6 : K
  k6r1 : K
  k6r1_odd : K
  k6r2 : K
  k6r2_odd : K
  k6r3 : K
  k6r3_odd : K
  k6r4 : K
  k6r4_odd : K
  k6r5 : K
  k6r5_odd : K
  k6r6 : K
  k6r6_odd : K

/-- The globals of `anisotropy::internal` written by the keywords of the tesseral harmonics: the
material parameters `mp` and the enable flags. -/
structure MaterialInput (K : Type) where
  mp : Nat → AnisotropyConstants K
  enable_uniaxial_second_order : Bool
  enable_rotational_2_1_order : Bool
  enable_rotational_2_1_order_odd : Bool
  enable_rotational_2_2_order : Bool
  enable_rotational_2_2_order_odd : Bool
  enable_uniaxial_fourth_order : Bool
  enable_rotational_4_1_order : Bool
  enable_rotational_4_1_order_odd : Bool
  enable_rotational_4_2_order : Bool
  enable_rotational_4_2_order_odd : Bool
  enable_rotational_4_3_order : Bool
  enable_rotational_4_3_order_odd : Bool
  enable_rotational_4_4_order : Bool
  enable_rotational_4_4_order_odd : Bool
  enable_uniaxial_sixth_order : Bool
  enable_rotational_6_1_order : Bool
  enable_rotational_6_1_order_odd : Bool
  enable_rotational_6_2_order : Bool
  enable_rotational_6_2_order_odd : Bool
  enable_rotational_6_3_order : Bool
  enable_rotational_6_3_order_odd : Bool
  enable_rotational_6_4_order : Bool
  enable_rotational_6_4_order_odd : Bool
  enable_rotational_6_5_order : Bool
  enable_rotational_6_5_order_odd : Bool
  enable_rotational_6_6_order : Bool
  enable_rotational_6_6_order_odd : Bool

/-- The routine `anisotropy::match_material_parameter(word, value, unit, line, super_index,
sub_index, max_materials)` for the keywords of the tesseral harmonics (lines 100-851): the
value returned and the globals after the call, or `none` where the check ends the program.
The keywords tested after these (lines 852-1241) are the function `rest`; `M_PI` is the
constant of `<cmath>`; the local `prefix` is named `pfx`; the array `mp` is a function of the
material index, so that the initial `mp.resize(max_materials)` changes nothing. -/
def match_material_parameter (sqrt : K → K) (M_PI : K) (c : InputChecks K)
    (rest : String → String → String → Int → Nat → Nat → Nat → MaterialInput K →
      Option (Bool × MaterialInput K))
    (word value unit : String) (line : Int) (super_index sub_index max_materials : Nat)
    (st : MaterialInput K) : Option (Bool × MaterialInput K) :=
  -- add prefix string
  let pfx := "material:"
  -- Second order uniaxial anisotropy constant (negative of standard K_1)
  let test := "2-0-order-anisotropy-constant"
  let test2 := "second-order-uniaxial-anisotropy-constant"
  let test3 := "uniaxial-anisotropy-constant"
  if word = test ∨ word = test2 ∨ word = test3 then
    let ku2 := c.atof value
    (c.check_for_valid_value ku2 word line pfx unit "energy" (-1e-17) 1e-17 "material"
        " < +/- 1.0e-17 J/atom").map
      (fun ku2 => (true, { st with
        mp := Function.update st.mp super_index { st.mp super_index with ku2 := ku2 }
        enable_uniaxial_second_order := true }))
  else
  -- Second order theta uniaxial anisotropy constant (orthonormal)
  let test := "2-0-orthonormal-tesseral-harmonic-anisotropy-constant"
  if word = test then
    let ku2 := -c.atof value * (3.0 / 4.0) * sqrt (5.0 / M_PI)
    (c.check_for_valid_value ku2 word line pfx unit "energy" (-1e-17) 1e-17 "material"
        " < +/- 1.0e-17 J/atom").map
      (fun ku2 => (true, { st with
        mp := Function.update st.mp super_index { st.mp super_index with ku2 := ku2 }
        enable_uniaxial_second_order := true }))
  else
  -- Second order theta first order phi anisotropy constant
  let test := "2-1-order-anisotropy-constant"
  let test2 := "second-order-theta-first-order-phi-anisotropy-constant"
  if word = test ∨ word = test2 then
    let k2r1 := c.atof value
    (c.check_for_valid_value k2r1 word line pfx unit "energy" (-1e-17) 1e-17 "material"
        " < +/-1.0e-17 J/atom").map
      (fun k2r1 => (true, { st with
        mp := Function.update st.mp super_index { st.mp super_index with k2r1 := k2r1 }
        enable_rotational_2_1_order := true }))
  else
  -- Second order theta first order phi anisotropy constant (orthonormal)
  let test := "2-1-orthonormal-tesseral-harmonic-anisotropy-constant"
  if word = test then
    let k2r1 := -c.atof value * (0.25) * sqrt (15.0 / M_PI)
    (c.check_for_valid_value k2r1 word line pfx unit "energy" (-1e-17) 1e-17 "material"
        " < +/-1.0e-17 J/atom").map
      (fun k2r1 => (true, { st with
        mp := Function.update st.mp super_index { st.mp super_index with k2r1 := k2r1 }
        enable_rotational_2_1_order := true }))
  else
  -- Second order theta first order phi odd anisotropy constant
  let test := "2--1-order-anisotropy-constant"
  let test2 := "second-order-theta-first-order-phi-odd-anisotropy-constant"
  if word = test ∨ word = test2 then
    let k2r1_odd := c.atof value
    (c.check_for_valid_value k2r1_odd word line pfx unit "energy" (-1e-17) 1e-17 "material"
        " < +/-1.0e-17 J/atom").map
      (fun k2r1_odd => (true, { st with
        mp := Function.update st.mp super_index { st.mp super_index with k2r1_odd := k2r1_odd }
        enable_rotational_2_1_order_odd := true }))
  else
  -- Second order theta first order phi anisotropy constant (orthonormal)
  let test := "2--1-orthonormal-tesseral-harmonic-anisotropy-constant"
  if word = test then
    let k2r1_odd := -c.atof value * (0.25) * sqrt (15.0 / M_PI)
    (c.check_for_valid_value k2r1_odd word line pfx unit "energy" (-1e-17) 1e-17 "material"
        " < +/-1.0e-17 J/atom").map
      (fun k2r1_odd => (true, { st with
        mp := Function.update st.mp super_index { st.mp super_index with k2r1_odd := k2r1_odd }
        enable_rotational_2_1_order_odd := true }))
  else
  -- Second order theta second order phi anisotropy constant
  let test := "2-2-order-anisotropy-constant"
  let test2 := "second-order-theta-second-order-phi-anisotropy-constant"
  let test3 := "second-order-rotational-anisotropy-constant"
  if word = test ∨ word = test2 ∨ word = test3 then
    let k2r2 := c.atof value
    (c.check_for_valid_value k2r2 word line pfx unit "energy" (-1e-17) 1e-17 "material"
        " < +/-1.0e-17 J/atom").map
      (fun k2r2 => (true, { st with
        mp := Function.update st.mp super_index { st.mp super_index with k2r2 := k2r2 }
        enable_rotational_2_2_order := true }))
  else
  -- Second order theta second order phi anisotropy constant (orthonormal)
  let test := "2-2-orthonormal-tesseral-harmonic-anisotropy-constant"
  if word = test then
    let k2r2 := -c.atof value * 0.25 * sqrt (15.0 / M_PI)
    (c.check_for_valid_value k2r2 word line pfx unit "energy" (-1e-17) 1e-17 "material"
        " < +/-1.0e-17 J/atom").map
      (fun k2r2 => (true, { st with
        mp := Function.update st.mp super_index { st.mp super_index with k2r2 := k2r2 }
        enable_rotational_2_2_order := true }))
  else
  -- Second order theta second order phi odd anisotropy constant
  let test := "2--2-order-anisotropy-constant"
  let test2 := "second-order-theta-second-order-phi-odd-anisotropy-constant"
  let test3 := "second-order-odd-rotational-anisotropy-constant"
  if word = test ∨ word = test2 ∨ word = test3 then
    let k2r2_odd := c.atof value
    (c.check_for_valid_value k2r2_odd word line pfx unit "energy" (-1e-17) 1e-17 "material"
        " < +/-1.0e-17 J/atom").map
      (fun k2r2_odd => (true, { st with
        mp := Function.update st.mp super_index { st.mp super_index with k2r2_odd := k2r2_odd }
        enable_rotational_2_2_order_odd := true }))
  else
  -- Second order theta second order phi odd anisotropy constant (orthonormal)
  let test := "2--2-orthonormal-tesseral-harmonic-anisotropy-constant"
  if word = test then
    let k2r2_odd := -c.atof value * 0.25 * sqrt (15.0 / M_PI)
    (c.check_for_valid_value k2r2_odd word line pfx unit "energy" (-1e-17) 1e-17 "material"
        " < +/-1.0e-17 J/atom").map
      (fun k2r2_odd => (true, { st with
        mp := Function.update st.mp super_index { st.mp super_index with k2r2_odd := k2r2_odd }
        enable_rotational_2_2_order_odd := true }))
  else
  -- Fourth order uniaxial anisotropy constant
  let test := "4-0-order-anisotropy-constant"
  let test2 := "fourth-order-uniaxial-anisotropy-constant"
  if word = test ∨ word = test2 then
    let ku4 := c.atof value
    (c.check_for_valid_value ku4 word line pfx unit "energy" (-1e-17) 1e-17 "material"
        " < +/- 1.0e-17 J/atom").map
      (fun ku4 => (true, { st with
        mp := Function.update st.mp super_index { st.mp super_index with ku4 := ku4 }
        enable_uniaxial_fourth_order := true }))
  else
  -- Fourth order uniaxial anisotropy constant (orthonormal)
  let test := "4-0-orthonormal-tesseral-harmonic-anisotropy-constant"
  if word = test then
    let ku4 := -c.atof value * (3.0 * 35.0 / 16.0) * sqrt (1.0 / M_PI)
    (c.check_for_valid_value ku4 word line pfx unit "energy" (-1e-17) 1e-17 "material"
        " < +/- 1.0e-17 J/atom").map
      (fun ku4 => (true, { st with
        mp := Function.update st.mp super_index { st.mp super_index with ku4 := ku4 }
        enable_uniaxial_fourth_order := true }))
  else
  -- Fourth order theta first order phi anisotropy constant
  let test := "4-1-order-anisotropy-constant"
  let test2 := "fourth-order-theta-first-order-phi-anisotropy-constant"
  if word = test ∨ word = test2 then
    let k4r1 := c.atof value
    (c.check_for_valid_value k4r1 word line pfx unit "energy" (-1e-17) 1e-17 "material"
        " < +/-1.0e-17 J/atom").map
      (fun k4r1 => (true, { st with
        mp := Function.update st.mp super_index { st.mp super_index with k4r1 := k4r1 }
        enable_rotational_4_1_order := true }))
  else
  -- Fourth order theta first order phi anisotropy constant (orthonormal)
  let test := "4-1-orthonormal-tesseral-harmonic-anisotropy-constant"
  if word = test then
    let k4r1 := -c.atof value * (3.0 * 7.0 / 8.0) * sqrt (10.0 / M_PI)
    (c.check_for_valid_value k4r1 word line pfx unit "energy" (-1e-17) 1e-17 "material"
        " < +/-1.0e-17 J/atom").map
      (fun k4r1 => (true, { st with
        mp := Function.update st.mp super_index { st.mp super_index with k4r1 := k4r1 }
        enable_rotational_4_1_order := true }))
  else
  -- Fourth order theta first order phi odd anisotropy constant
  let test := "4--1-order-anisotropy-constant"
  let test2 := "fourth-order-theta-first-order-phi-odd-anisotropy-constant"
  if word = test ∨ word = test2 then
    let k4r1_odd := c.atof value
    (c.check_for_valid_value k4r1_odd word line pfx unit "energy" (-1e-17) 1e-17 "material"
        " < +/-1.0e-17 J/atom").map
      (fun k4r1_odd => (true, { st with
        mp := Function.update st.mp super_index { st.mp super_index with k4r1_odd := k4r1_odd }
        enable_rotational_4_1_order_odd := true }))
  else
  -- Fourth order theta first order phi odd anisotropy constant (orthonormal)
  let test := "4--1-orthonormal-tesseral-harmonic-anisotropy-constant"
  if word = test then
    let k4r1_odd := -c.atof value * (3.0 * 7.0 / 8.0) * sqrt (10.0 / M_PI)
    (c.check_for_valid_value k4r1_odd word line pfx unit "energy" (-1e-17) 1e-17 "material"
        " < +/-1.0e-17 J/atom").map
      (fun k4r1_odd => (true, { st with
        mp := Function.update st.mp super_index { st.mp super_index with k4r1_odd := k4r1_odd }
        enable_rotational_4_1_order_odd := true }))
  else
  -- Fourth order theta second order phi anisotropy constant
  let test := "4-2-order-anisotropy-constant"
  let test2 := "fourth-order-theta-second-order-phi-anisotropy-constant"
  if word = test ∨ word = test2 then
    let k4r2 := c.atof value
    (c.check_for_valid_value k4r2 word line pfx unit "energy" (-1e-17) 1e-17 "material"
        " < +/-1.0e-17 J/atom").map
      (fun k4r2 => (true, { st with
        mp := Function.update st.mp super_index { st.mp super_index with k4r2 := k4r2 }
        enable_rotational_4_2_order := true }))
  else
  -- Fourth order theta second order phi anisotropy constant (orthonormal)
  let test := "4-2-orthonormal-tesseral-harmonic-anisotropy-constant"
  if word = test then
    let k4r2 := -c.atof value * (3.0 * 7.0) * sqrt (5.0 / M_PI)
    (c.check_for_valid_value k4r2 word line pfx unit "energy" (-1e-17) 1e-17 "material"
        " < +/-1.0e-17 J/atom").map
      (fun k4r2 => (true, { st with
        mp := Function.update st.mp super_index { st.mp super_index with k4r2 := k4r2 }
        enable_rotational_4_2_order := true }))
  else
  -- Fourth order theta second order phi odd anisotropy constant
  let test := "4--2-order-anisotropy-constant"
  let test2 := "fourth-order-theta-second-order-phi-odd-anisotropy-constant"
  if word = test ∨ word = test2 then
    let k4r2_odd := c.atof value
    (c.check_for_valid_value k4r2_odd word line pfx unit "energy" (-1e-17) 1e-17 "material"
        " < +/-1.0e-17 J/atom").map
      (fun k4r2_odd => (true, { st with
        mp := Function.update st.mp super_index { st.mp super_index with k4r2_odd := k4r2_odd }
        enable_rotational_4_2_order_odd := true }))
  else
  -- Fourth order theta second order phi odd anisotropy constant (orthonormal)
  let test := "4--2-orthonormal-tesseral-harmonic-anisotropy-constant"
  if word = test then
    let k4r2_odd := -c.atof value * (3.0 * 7.0) * sqrt (5.0 / M_PI)
    (c.check_for_valid_value k4r2_odd word line pfx unit "energy" (-1e-17) 1e-17 "material"
        " < +/-1.0e-17 J/atom").map
      (fun k4r2_odd => (true, { st with
        mp := Function.update st.mp super_index { st.mp super_index with k4r2_odd := k4r2_odd }
        enable_rotational_4_2_order_odd := true }))
  else
  -- Fourth order theta third order phi anisotropy constant
  let test := "4-3-order-anisotropy-constant"
  let test2 := "fourth-order-theta-third-order-phi-anisotropy-constant"
  if word = test ∨ word = test2 then
    let k4r3 := c.atof value
    (c.check_for_valid_value k4r3 word line pfx unit "energy" (-1e-17) 1e-17 "material"
        " < +/-1.0e-17 J/atom").map
      (fun k4r3 => (true, { st with
        mp := Function.update st.mp super_index { st.mp super_index with k4r3 := k4r3 }
        enable_rotational_4_3_order := true }))
  else
  -- Fourth order theta third order phi anisotropy constant (orthonormal)
  let test := "4-3-orthonormal-tesseral-harmonic-anisotropy-constant"
  if word = test then
    let k4r3 := -c.atof value * (3.0 / 8.0) * sqrt (70.0 / M_PI)
    (c.check_for_valid_value k4r3 word line pfx unit "energy" (-1e-17) 1e-17 "material"
        " < +/-1.0e-17 J/atom").map
      (fun k4r3 => (true, { st with
        mp := Function.update st.mp super_index { st.mp super_index with k4r3 := k4r3 }
        enable_rotational_4_3_order := true }))
  else
  -- Fourth order theta third order phi odd anisotropy constant
  let test := "4--3-order-anisotropy-constant"
  let test2 := "fourth-order-theta-third-order-phi-odd-anisotropy-constant"
  if word = test ∨ word = test2 then
    let k4r3_odd := c.atof value
    (c.check_for_valid_value k4r3_odd word line pfx unit "energy" (-1e-17) 1e-17 "material"
        " < +/-1.0e-17 J/atom").map
      (fun k4r3_odd => (true, { st with
        mp := Function.update st.mp super_index { st.mp super_index with k4r3_odd := k4r3_odd }
        enable_rotational_4_3_order_odd := true }))
  else
  -- Fourth order theta third order phi odd anisotropy constant (orthonormal)
  let test := "4--3-orthonormal-tesseral-harmonic-anisotropy-constant"
  if word = test then
    let k4r3_odd := -c.atof value * (3.0 / 8.0) * sqrt (70.0 / M_PI)
    (c.check_for_valid_value k4r3_odd word line pfx unit "energy" (-1e-17) 1e-17 "material"
        " < +/-1.0e-17 J/atom").map
      (fun k4r3_odd => (true, { st with
        mp := Function.update st.mp super_index { st.mp super_index with k4r3_odd := k4r3_odd }
        enable_rotational_4_3_order_odd := true }))
  else
  -- Fourth order theta fourth order phi rotational anisotropy constant
  let test := "4-4-order-anisotropy-constant"
  let test2 := "fourth-order-theta-fourth-order-phi-anisotropy-constant"
  let test3 := "fourth-order-rotational-anisotropy-constant"
  if word = test ∨ word = test2 ∨ word = test3 then
    let k4r4 := c.atof value
    (c.check_for_valid_value k4r4 word line pfx unit "energy" (-1e-17) 1e-17 "material"
        " < +/-1.0e-17 J/atom").map
      (fun k4r4 => (true, { st with
        mp := Function.update st.mp super_index { st.mp super_index with k4r4 := k4r4 }
        enable_rotational_4_4_order := true }))
  else
  -- Fourth order theta fourth order phi rotational anisotropy constant (orthonormal)
  let test := "4-4-orthonormal-tesseral-harmonic-anisotropy-constant"
  if word = test then
    let k4r4 := -c.atof value * (3.0 / 16.0) * sqrt (35.0 / M_PI)
    (c.check_for_valid_value k4r4 word line pfx unit "energy" (-1e-17) 1e-17 "material"
        " < +/-1.0e-17 J/atom").map
      (fun k4r4 => (true, { st with
        mp := Function.update st.mp super_index { st.mp super_index with k4r4 := k4r4 }
        enable_rotational_4_4_order := true }))
  else
  -- Fourth order theta fourth order phi odd anisotropy constant
  let test := "4--4-order-anisotropy-constant"
  let test2 := "fourth-order-theta-fourth-order-phi-odd-anisotropy-constant"
  let test3 := "fourth-order-odd-rotational-anisotropy-constant"
  if word = test ∨ word = test2 ∨ word = test3 then
    let k4r4_odd := c.atof value
    (c.check_for_valid_value k4r4_odd word line pfx unit "energy" (-1e-17) 1e-17 "material"
        " < +/-1.0e-17 J/atom").map
      (fun k4r4_odd => (true, { st with
        mp := Function.update st.mp super_index { st.mp super_index with k4r4_odd := k4r4_odd }
        enable_rotational_4_4_order_odd := true }))
  else
  -- Fourth order theta fourth order phi odd anisotropy constant (orthonormal)
  let test := "4--4-orthonormal-tesseral-harmonic-anisotropy-constant"
  if word = test then
    let k4r4_odd := c.atof value * (3.0 / 16.0) * sqrt (35.0 / M_PI)
    (c.check_for_valid_value k4r4_odd word line pfx unit "energy" (-1e-17) 1e-17 "material"
        " < +/-1.0e-17 J/atom").map
      (fun k4r4_odd => (true, { st with
        mp := Function.update st.mp super_index { st.mp super_index with k4r4_odd := k4r4_odd }
        enable_rotational_4_4_order_odd := true }))
  else
  -- Sixth order uniaxial anisotropy constant
  let test := "6-0-order-anisotropy-constant"
  let test2 := "sixth-order-uniaxial-anisotropy-constant"
  if word = test ∨ word = test2 then
    let ku6 := c.atof value
    (c.check_for_valid_value ku6 word line pfx unit "energy" (-1e-17) 1e-17 "material"
        " < +/- 1.0e-17 J/atom").map
      (fun ku6 => (true, { st with
        mp := Function.update st.mp super_index { st.mp super_index with ku6 := ku6 }
        enable_uniaxial_sixth_order := true }))
  else
  -- Sixth order uniaxial anisotropy constant (orthonormal)
  let test := "6-0-orthonormal-tesseral-harmonic-anisotropy-constant"
  if word = test then
    let ku6 := -c.atof value * (231.0 / 32.0) * sqrt (13.0 / M_PI)
    (c.check_for_valid_value ku6 word line pfx unit "energy" (-1e-17) 1e-17 "material"
        " < +/- 1.0e-17 J/atom").map
      (fun ku6 => (true, { st with
        mp := Function.update st.mp super_index { st.mp super_index with ku6 := ku6 }
        enable_uniaxial_sixth_order := true }))
  else
  -- Sixth order theta first order phi anisotropy constant
  let test := "6-1-order-anisotropy-constant"
  let test2 := "sixth-order-theta-first-order-phi-anisotropy-constant"
  if word = test ∨ word = test2 then
    let k6r1 := c.atof value
    (c.check_for_valid_value k6r1 word line pfx unit "energy" (-1e-17) 1e-17 "material"
        " < +/-1.0e-17 J/atom").map
      (fun k6r1 => (true, { st with
        mp := Function.update st.mp super_index { st.mp super_index with k6r1 := k6r1 }
        enable_rotational_6_1_order := true }))
  else
  -- Sixth order theta first order phi anisotropy constant (orthonormal)
  let test := "6-1-orthonormal-tesseral-harmonic-anisotropy-constant"
  if word = test then
    let k6r1 := -c.atof value * (33.0 / 16.0) * sqrt (273.0 / M_PI)
    (c.check_for_valid_value k6r1 word line pfx unit "energy" (-1e-17) 1e-17 "material"
        " < +/-1.0e-17 J/atom").map
      (fun k6r1 => (true, { st with
        mp := Function.update st.mp super_index { st.mp super_index with k6r1 := k6r1 }
        enable_rotational_6_1_order := true }))
  else
  -- Sixth order theta first order phi odd anisotropy constant
  let test := "6--1-order-anisotropy-constant"
  let test2 := "sixth-order-theta-first-order-phi-odd-anisotropy-constant"
  if word = test ∨ word = test2 then
    let k6r1_odd := c.atof value
    (c.check_for_valid_value k6r1_odd word line pfx unit "energy" (-1e-17) 1e-17 "material"
        " < +/-1.0e-17 J/atom").map
      (fun k6r1_odd => (true, { st with
        mp := Function.update st.mp super_index { st.mp super_index with k6r1_odd := k6r1_odd }
        enable_rotational_6_1_order_odd := true }))
  else
  -- Sixth order theta first order phi odd anisotropy constant (orthonormal)
  let test := "6--1-orthonormal-tesseral-harmonic-anisotropy-constant"
  if word = test then
    let k6r1_odd := -c.atof value * (33.0 / 16.0) * sqrt (273.0 / M_PI)
    (c.check_for_valid_value k6r1_odd word line pfx unit "energy" (-1e-17) 1e-17 "material"
        " < +/-1.0e-17 J/atom").map
      (fun k6r1_odd => (true, { st with
        mp := Function.update st.mp super_index { st.mp super_index with k6r1_odd := k6r1_odd }
        enable_rotational_6_1_order_odd := true }))
  else
  -- Sixth order theta second order phi anisotropy constant
  let test := "6-2-order-anisotropy-constant"
  let test2 := "sixth-order-theta-second-order-phi-anisotropy-constant"
  if word = test ∨ word = test2 then
    let k6r2 := c.atof value
    (c.check_for_valid_value k6r2 word line pfx unit "energy" (-1e-17) 1e-17 "material"
        " < +/-1.0e-17 J/atom").map
      (fun k6r2 => (true, { st with
        mp := Function.update st.mp super_index { st.mp super_index with k6r2 := k6r2 }
        enable_rotational_6_2_order := true }))
  else
  -- Sixth order theta second order phi anisotropy constant (orthonormal)
  let test := "6-2-orthonormal-tesseral-harmonic-anisotropy-constant"
  if word = test then
    let k6r2 := -c.atof value * (33.0 / 64.0) * sqrt (2730.0 / M_PI)
    (c.check_for_valid_value k6r2 word line pfx unit "energy" (-1e-17) 1e-17 "material"
        " < +/-1.0e-17 J/atom").map
      (fun k6r2 => (true, { st with
        mp := Function.update st.mp super_index { st.mp super_index with k6r2 := k6r2 }
        enable_rotational_6_2_order := true }))
  else
  -- Sixth order theta second order phi odd anisotropy constant
  let test := "6--2-order-anisotropy-constant"
  let test2 := "sixth-order-theta-second-order-phi-odd-anisotropy-constant"
  if word = test ∨ word = test2 then
    let k6r2_odd := c.atof value
    (c.check_for_valid_value k6r2_odd word line pfx unit "energy" (-1e-17) 1e-17 "material"
        " < +/-1.0e-17 J/atom").map
      (fun k6r2_odd => (true, { st with
        mp := Function.update st.mp super_index { st.mp super_index with k6r2_odd := k6r2_odd }
        enable_rotational_6_2_order_odd := true }))
  else
  -- Sixth order theta second order phi odd anisotropy constant (orthonormal)
  let test := "6--2-orthonormal-tesseral-harmonic-anisotropy-constant"
  if word = test then
    let k6r2_odd := -c.atof value * (33.0 / 64.0) * sqrt (2730.0 / M_PI)
    (c.check_for_valid_value k6r2_odd word line pfx unit "energy" (-1e-17) 1e-17 "material"
        " < +/-1.0e-17 J/atom").map
      (fun k6r2_odd => (true, { st with
        mp := Function.update st.mp super_index { st.mp super_index with k6r2_odd := k6r2_odd }
        enable_rotational_6_2_order_odd := true }))
  else
  -- Sixth order theta third order phi anisotropy constant
  let test := "6-3-order-anisotropy-constant"
  let test2 := "sixth-order-theta-third-order-phi-anisotropy-constant"
  if word = test ∨ word = test2 then
    let k6r3 := c.atof value
    (c.check_for_valid_value k6r3 word line pfx unit "energy" (-1e-17) 1e-17 "material"
        " < +/-1.0e-17 J/atom").map
      (fun k6r3 => (true, { st with
        mp := Function.update st.mp super_index { st.mp super_index with k6r3 := k6r3 }
        enable_rotational_6_3_order := true }))
  else
  -- Sixth order theta third order phi anisotropy constant
  let test := "6-3-orthonormal-tesseral-harmonic-anisotropy-constant"
  if word = test then
    let k6r3 := -c.atof value * (11.0 / 32.0) * sqrt (2730.0 / M_PI)
    (c.check_for_valid_value k6r3 word line pfx unit "energy" (-1e-17) 1e-17 "material"
        " < +/-1.0e-17 J/atom").map
      (fun k6r3 => (true, { st with
        mp := Function.update st.mp super_index { st.mp super_index with k6r3 := k6r3 }
        enable_rotational_6_3_order := true }))
  else
  -- Sixth order theta third order phi odd anisotropy constant
  let test := "6--3-order-anisotropy-constant"
  let test2 := "sixth-order-theta-third-order-phi-odd-anisotropy-constant"
  if word = test ∨ word = test2 then
    let k6r3_odd := c.atof value
    (c.check_for_valid_value k6r3_odd word line pfx unit "energy" (-1e-17) 1e-17 "material"
        " < +/-1.0e-17 J/atom").map
      (fun k6r3_odd => (true, { st with
        mp := Function.update st.mp super_index { st.mp super_index with k6r3_odd := k6r3_odd }
        enable_rotational_6_3_order_odd := true }))
  else
  -- Sixth order theta third order phi odd anisotropy constant (orthonormal)
  let test := "6--3-orthonormal-tesseral-harmonic-anisotropy-constant"
  if word = test then
    let k6r3_odd := -c.atof value * (11.0 / 32.0) * sqrt (2730.0 / M_PI)
    (c.check_for_valid_value k6r3_odd word line pfx unit "energy" (-1e-17) 1e-17 "material"
        " < +/-1.0e-17 J/atom").map
      (fun k6r3_odd => (true, { st with
        mp := Function.update st.mp super_index { st.mp super_index with k6r3_odd := k6r3_odd }
        enable_rotational_6_3_order_odd := true }))
  else
  -- Sixth order theta fourth order phi anisotropy constant
  let test := "6-4-order-anisotropy-constant"
  let test2 := "sixth-order-theta-fourth-order-phi-anisotropy-constant"
  if word = test ∨ word = test2 then
    let k6r4 := c.atof value
    (c.check_for_valid_value k6r4 word line pfx unit "energy" (-1e-17) 1e-17 "material"
        " < +/-1.0e-17 J/atom").map
      (fun k6r4 => (true, { st with
        mp := Function.update st.mp super_index { st.mp super_index with k6r4 := k6r4 }
        enable_rotational_6_4_order := true }))
  else
  -- Sixth order theta fourth order phi anisotropy constant (orthonormal)
  let test := "6-4-orthonormal-tesseral-harmonic-anisotropy-constant"
  if word = test then
    let k6r4 := -c.atof value * (3.0 * 11.0 / 32.0) * sqrt (91.0 / M_PI)
    (c.check_for_valid_value k6r4 word line pfx unit "energy" (-1e-17) 1e-17 "material"
        " < +/-1.0e-17 J/atom").map
      (fun k6r4 => (true, { st with
        mp := Function.update st.mp super_index { st.mp super_index with k6r4 := k6r4 }
        enable_rotational_6_4_order := true }))
  else
  -- Sixth order theta fourth order phi odd anisotropy constant
  let test := "6--4-order-anisotropy-constant"
  let test2 := "sixth-order-theta-fourth-order-phi-odd-anisotropy-constant"
  if word = test ∨ word = test2 then
    let k6r4_odd := c.atof value
    (c.check_for_valid_value k6r4_odd word line pfx unit "energy" (-1e-17) 1e-17 "material"
        " < +/-1.0e-17 J/atom").map
      (fun k6r4_odd => (true, { st with
        mp := Function.update st.mp super_index { st.mp super_index with k6r4_odd := k6r4_odd }
        enable_rotational_6_4_order_odd := true }))
  else
  -- Sixth order theta fourth order phi odd anisotropy constant (orthonormal)
  let test := "6--4-orthonormal-tesseral-harmonic-anisotropy-constant"
  if word = test then
    let k6r4_odd := -c.atof value * (3.0 * 11.0 / 32.0) * sqrt (91.0 / M_PI)
    (c.check_for_valid_value k6r4_odd word line pfx unit "energy" (-1e-17) 1e-17 "material"
        " < +/-1.0e-17 J/atom").map
      (fun k6r4_odd => (true, { st with
        mp := Function.update st.mp super_index { st.mp super_index with k6r4_odd := k6r4_odd }
        enable_rotational_6_4_order_odd := true }))
  else
  -- Sixth order theta fifth order phi anisotropy constant
  let test := "6-5-order-anisotropy-constant"
  let test2 := "sixth-order-theta-fifth-order-phi-anisotropy-constant"
  if word = test ∨ word = test2 then
    let k6r5 := c.atof value
    (c.check_for_valid_value k6r5 word line pfx unit "energy" (-1e-17) 1e-17 "material"
        " < +/-1.0e-17 J/atom").map
      (fun k6r5 => (true, { st with
        mp := Function.update st.mp super_index { st.mp super_index with k6r5 := k6r5 }
        enable_rotational_6_5_order := true }))
  else
  -- Sixth order theta fifth order phi anisotropy constant (orthonormal)
  let test := "6-5-orthonormal-tesseral-harmonic-anisotropy-constant"
  if word = test then
    let k6r5 := -c.atof value * (3.0 / 32.0) * sqrt (2002.0 / M_PI)
    (c.check_for_valid_value k6r5 word line pfx unit "energy" (-1e-17) 1e-17 "material"
        " < +/-1.0e-17 J/atom").map
      (fun k6r5 => (true, { st with
        mp := Function.update st.mp super_index { st.mp super_index with k6r5 := k6r5 }
        enable_rotational_6_5_order := true }))
  else
  -- Sxith order theta fifth order phi odd anisotropy constant
  let test := "6--5-order-anisotropy-constant"
  let test2 := "sixth-order-theta-fifth-order-phi-odd-anisotropy-constant"
  if word = test ∨ word = test2 then
    let k6r5_odd := c.atof value
    (c.check_for_valid_value k6r5_odd word line pfx unit "energy" (-1e-17) 1e-17 "material"
        " < +/-1.0e-17 J/atom").map
      (fun k6r5_odd => (true, { st with
        mp := Function.update st.mp super_index { st.mp super_index with k6r5_odd := k6r5_odd }
        enable_rotational_6_5_order_odd := true }))
  else
  -- Sxith order theta fifth order phi odd anisotropy constant (orthonormal)
  let test := "6--5-orthonormal-tesseral-harmonic-anisotropy-constant"
  if word = test then
    let k6r5_odd := -c.atof value * (3.0 / 32.0) * sqrt (2002.0 / M_PI)
    (c.check_for_valid_value k6r5_odd word line pfx unit "energy" (-1e-17) 1e-17 "material"
        " < +/-1.0e-17 J/atom").map
      (fun k6r5_odd => (true, { st with
        mp := Function.update st.mp super_index { st.mp super_index with k6r5_odd := k6r5_odd }
        enable_rotational_6_5_order_odd := true }))
  else
  -- Sixth order theta sixth order phi anisotropy constant
  let test := "6-6-order-anisotropy-constant"
  let test2 := "sixth-order-theta-sixth-order-phi-anisotropy-constant"
  let test3 := "sixth-order-rotational-anisotropy-constant"
  if word = test ∨ word = test2 ∨ word = test3 then
    let k6r6 := c.atof value
    (c.check_for_valid_value k6r6 word line pfx unit "energy" (-1e-17) 1e-17 "material"
        " < +/-1.0e-17 J/atom").map
      (fun k6r6 => (true, { st with
        mp := Function.update st.mp super_index { st.mp super_index with k6r6 := k6r6 }
        enable_rotational_6_6_order := true }))
  else
  -- Sixth order theta sixth order phi anisotropy constant (orthonormal)
  let test := "6-6-orthonormal-tesseral-harmonic-anisotropy-constant"
  if word = test then
    let k6r6 := -c.atof value * (1.0 / 64.0) * sqrt (6006.0 / M_PI)
    (c.check_for_valid_value k6r6 word line pfx unit "energy" (-1e-17) 1e-17 "material"
        " < +/-1.0e-17 J/atom").map
      (fun k6r6 => (true, { st with
        mp := Function.update st.mp super_index { st.mp super_index with k6r6 := k6r6 }
        enable_rotational_6_6_order := true }))
  else
  -- Sixth order theta sixth order phi odd anisotropy constant
  let test := "6--6-order-anisotropy-constant"
  let test2 := "sixth-order-theta-sixth-order-phi-odd-anisotropy-constant"
  let test3 := "sixth-order-odd-rotational-anisotropy-constant"
  if word = test ∨ word = test2 ∨ word = test3 then
    let k6r6_odd := c.atof value
    (c.check_for_valid_value k6r6_odd word line pfx unit "energy" (-1e-17) 1e-17 "material"
        " < +/-1.0e-17 J/atom").map
      (fun k6r6_odd => (true, { st with
        mp := Function.update st.mp super_index { st.mp super_index with k6r6_odd := k6r6_odd }
        enable_rotational_6_6_order_odd := true }))
  else
  -- Sixth order theta sixth order phi odd anisotropy constant (orthonormal)
  let test := "6--6-orthonormal-tesseral-harmonic-anisotropy-constant"
  if word = test then
    let k6r6_odd := -c.atof value * (1.0 / 64.0) * sqrt (6006.0 / M_PI)
    (c.check_for_valid_value k6r6_odd word line pfx unit "energy" (-1e-17) 1e-17 "material"
        " < +/-1.0e-17 J/atom").map
      (fun k6r6_odd => (true, { st with
        mp := Function.update st.mp super_index { st.mp super_index with k6r6_odd := k6r6_odd }
        enable_rotational_6_6_order_odd := true }))
  else
  rest word value unit line super_index sub_index max_materials st

/-- The value returned and one constant of material `super_index` after a call. -/
def stored_constant (get : AnisotropyConstants K → K) (super_index : Nat)
    (r : Option (Bool × MaterialInput K)) : Option (Bool × K) :=
  r.map (fun p => (p.1, get (p.2.mp super_index)))

end MaterialParameter
/-! ## The applied field of `sld::compute_fields` -/

section AppliedField

variable {K : Type} [LinearOrderedField K]

/-- The vector `(Hx, Hy, Hz) = sim::H_vec * sim::H_applied` added by the loop "add all the
external fields" of `compute_fields`. -/
def applied_field (lat : Lattice K) : Vec3 K :=
  ⟨lat.H_vec_0 * lat.H_applied, lat.H_vec_1 * lat.H_applied, lat.H_vec_2 * lat.H_applied⟩

end AppliedField
/-! ## `sim::calculate_lsf_magnetic_field` (`src/simulate/LSF.cpp`, lines 113-141) -/

section LSFSerialField

variable {K : Type} [Field K]

/-- Arrays read and written by the serial routine `calculate_lsf_magnetic_field`: the `atoms::`
spin arrays and the `LSF_arrays::` field arrays. -/
structure LSF_serial (K : Type) where
  x_spin_array : Nat → K
  y_spin_array : Nat → K
  z_spin_array : Nat → K
  x_lsf_array : Nat → K
  y_lsf_array : Nat → K
  z_lsf_array : Nat → K

/-- Spin of atom `i`. -/
def LSF_serial.spin (st : LSF_serial K) (i : Nat) : Vec3 K :=
  ⟨st.x_spin_array i, st.y_spin_array i, st.z_spin_array i⟩

/-- LSF field of atom `i`. -/
def LSF_serial.lsf (st : LSF_serial K) (i : Nat) : Vec3 K :=
  ⟨st.x_lsf_array i, st.y_lsf_array i, st.z_lsf_array i⟩

/-- The spin arrays and LSF field arrays of a state of the parallel integrator, as the arrays
of the serial routine. -/
def LSF.serial_view (st : LSF K) : LSF_serial K :=
  ⟨st.x_spin_array, st.y_spin_array, st.z_spin_array,
   st.x_lsf_array, st.y_lsf_array, st.z_lsf_array⟩

/-- Body of the loop of `calculate_lsf_magnetic_field` for one atom. -/
def calculate_lsf_magnetic_field_atom (env : Env K) (atom : Nat) (st : LSF_serial K) :
    LSF_serial K :=
  let imaterial := env.type_array atom
  let sx := st.x_spin_array atom
  let sy := st.y_spin_array atom
  let sz := st.z_spin_array atom
  let imu_S := -1.0 / (env.material imaterial).mu_s_SI
  let L2 := 2.0 * env.lsf_second_order_coefficient imaterial * imu_S
  let L4 := 4.0 * env.lsf_fourth_order_coefficient imaterial * imu_S
  let L6 := 6.0 * env.lsf_sixth_order_coefficient imaterial * imu_S
  let ss2 := sx * sx + sy * sy + sz * sz
  { st with
    x_lsf_array := Function.update st.x_lsf_array atom
      (L2 * sx + L4 * sx * ss2 + L6 * sx * ss2 * ss2)
    y_lsf_array := Function.update st.y_lsf_array atom
      (L2 * sy + L4 * sy * ss2 + L6 * sy * ss2 * ss2)
    z_lsf_array := Function.update st.z_lsf_array atom
      (L2 * sz + L4 * sz * ss2 + L6 * sz * ss2 * ss2) }

/-- The routine `sim::calculate_lsf_magnetic_field(start_index, end_index)`. -/
def calculate_lsf_magnetic_field (env : Env K) (start_index end_index : Nat)
    (st : LSF_serial K) : LSF_serial K :=
  for_range start_index end_index (calculate_lsf_magnetic_field_atom env) st

/-- The LSF field of the claim, in its words:
`H_lsf = -(2 L2 + 4 L4 |S|² + 6 L6 |S|⁴) / mu_s * S`. -/
def lsf_field_formula (L2 L4 L6 mu_s : K) (S : Vec3 K) : Vec3 K :=
  Vec3.smul (-(2 * L2 + 4 * L4 * Vec3.normSq S + 6 * L6 * (Vec3.normSq S) ^ 2) / mu_s) S

end LSFSerialField
/-! ## The coupling energy accumulated by `compute_sld_coupling_neel` -/

section CouplingEnergy

variable {K : Type} [LinearOrderedField K]

/-- The three amounts added to `energy_c` by `compute_sld_coupling_neel` for atom `i` at a
contributing list position `n` (fields.cpp, lines 555, 563 and 575). -/
def coupling_neel_energy_term (sqrt : K → K) (env : Env K) (lat : Lattice K) (cfg : Config K)
    (i n : Nat) : K :=
  let imat := env.type_array i
  let fact_ms := lat.C0_ms imat
  let oneover3 : K := 1.0 / 3.0
  let sx := cfg.x_spin_array i
  let sy := cfg.y_spin_array i
  let sz := cfg.z_spin_array i
  let j := lat.neighbour_list_array n
  let d := separation lat cfg i j
  let dx := d.x
  let dy := d.y
  let dz := d.z
  let rji_sqr := dx * dx + dy * dy + dz * dz
  let rji := sqrt rji_sqr
  let inv_rji := 1.0 / rji
  let sjx := cfg.x_spin_array j
  let sjy := cfg.y_spin_array j
  let sjz := cfg.z_spin_array j
  let si_dot_sj := sx * sjx + sy * sjy + sz * sjz
  let sj_dot_rji := (dx * sjx + dy * sjy + dz * sjz)
  let si_dot_rji := (dx * sx + dy * sy + dz * sz)
  let inv_rji2 := inv_rji * inv_rji
  let inv_rji4 := inv_rji2 * inv_rji2
  let prod1 := inv_rji2 * si_dot_rji * si_dot_rji - oneover3 * si_dot_sj
  let prod2 := inv_rji2 * sj_dot_rji * sj_dot_rji - oneover3 * si_dot_sj
  let prod3 := si_dot_rji * sj_dot_rji * sj_dot_rji * sj_dot_rji
  let prod4 := sj_dot_rji * si_dot_rji * si_dot_rji * si_dot_rji
  12.0 / 35.0 * fact_ms * inv_rji4 * (inv_rji2 * sj_dot_rji * si_dot_rji - oneover3 * si_dot_sj)
    + 9.0 / 5.0 * fact_ms * inv_rji4 * prod1 * prod2
    + -2.0 / 5.0 * fact_ms * inv_rji4 * inv_rji4 * (prod3 + prod4)

/-- The coupling energy accumulated by `compute_sld_coupling_neel` for atom `i`: the sum of the
amounts added at the contributing list positions (those with `j ≠ i` and `r² < r_cut²`). -/
def coupling_neel_energy_sum (sqrt : K → K) (env : Env K) (lat : Lattice K) (cfg : Config K)
    (i : Nat) : K :=
  ((exchange_positions lat cfg i).map
    (fun n => coupling_neel_energy_term sqrt env lat cfg i n)).sum

end CouplingEnergy
/-! # Theorems -/

set_option linter.unusedSectionVars false

section LoopLemmas

variable {σ α β : Type}

theorem loop_from_preserve (ρ : σ → β) (body : Nat → σ → σ)
    (h : ∀ i s, ρ (body i s) = ρ s) :
    ∀ n a s, ρ (loop_from body n a s) = ρ s := by
  intro n
  induction n with
  | zero => intro a s; rfl
  | succ n ih => intro a s; simp only [loop_from]; rw [ih, h]

theorem for_range_preserve (ρ : σ → β) (body : Nat → σ → σ)
    (h : ∀ i s, ρ (body i s) = ρ s) (a b : Nat) (s : σ) :
    ρ (for_range a b body s) = ρ s :=
  loop_from_preserve ρ body h _ _ _

theorem loop_from_slice (π : Nat → σ → α) (body : Nat → σ → σ) (g : Nat → α → α)
    (hne : ∀ i j s, j ≠ i → π j (body i s) = π j s)
    (heq : ∀ i s, π i (body i s) = g i (π i s)) :
    ∀ n a s j, π j (loop_from body n a s)
      = if a ≤ j ∧ j < a + n then g j (π j s) else π j s := by
  intro n
  induction n with
  | zero =>
    intro a s j
    have h0 : ¬ (a ≤ j ∧ j < a + 0) := by omega
    rw [if_neg h0]; rfl
  | succ n ih =>
    intro a s j
    simp only [loop_from]
    rw [ih]
    by_cases hj : j = a
    · subst hj
      have h1 : ¬ (j + 1 ≤ j ∧ j < j + 1 + n) := by omega
      have h2 : j ≤ j ∧ j < j + (n + 1) := by omega
      rw [if_neg h1, if_pos h2, heq]
    · rw [hne a j s hj]
      by_cases hc : a + 1 ≤ j ∧ j < a + 1 + n
      · have h2 : a ≤ j ∧ j < a + (n + 1) := by omega
        rw [if_pos hc, if_pos h2]
      · have h2 : ¬ (a ≤ j ∧ j < a + (n + 1)) := by omega
        rw [if_neg hc, if_neg h2]

theorem for_range_slice (π : Nat → σ → α) (body : Nat → σ → σ) (g : Nat → α → α)
    (hne : ∀ i j s, j ≠ i → π j (body i s) = π j s)
    (heq : ∀ i s, π i (body i s) = g i (π i s)) (a b : Nat) (s : σ) (j : Nat) :
    π j (for_range a b body s) = if a ≤ j ∧ j < b then g j (π j s) else π j s := by
  unfold for_range
  rw [loop_from_slice π body g hne heq]
  by_cases hc : a ≤ j ∧ j < b
  · have h2 : a ≤ j ∧ j < a + (b - a) := by omega
    rw [if_pos hc, if_pos h2]
  · have h2 : ¬ (a ≤ j ∧ j < a + (b - a)) := by omega
    rw [if_neg hc, if_neg h2]

end LoopLemmas

section CayleyTheorems

variable {K : Type} [LinearOrderedField K]

theorem cayley_update_atom_spin_ne (dt : K) (i j : Nat) (st : SLD K) (h : j ≠ i) :
    (cayley_update_atom dt i st).spin j = st.spin j := by
  simp [cayley_update_atom, SLD.spin, Function.update_noteq h]

theorem cayley_update_atom_field (dt : K) (i j : Nat) (st : SLD K) :
    (cayley_update_atom dt i st).field j = st.field j := rfl

theorem cayley_update_atom_spin_self (dt : K) (i : Nat) (st : SLD K) :
    (cayley_update_atom dt i st).spin i
      = cayley_closed_form (Vec3.smul dt (st.field i)) (st.spin i) := by
  simp only [cayley_update_atom, SLD.spin, SLD.field, cayley_closed_form, Vec3.smul, Vec3.add,
    Vec3.cross, Vec3.dot, Vec3.normSq, Function.update_same]
  refine Vec3.ext ?_ ?_ ?_ <;> norm_num <;> ring


theorem cayley_update_spin (start_index end_index : Nat) (dt : K) (st : SLD K) (i : Nat) :
    (cayley_update start_index end_index dt st).spin i
      = if start_index ≤ i ∧ i < end_index then
          cayley_closed_form (Vec3.smul dt (st.field i)) (st.spin i)
        else st.spin i := by
  have h := for_range_slice (fun j (s : SLD K) => (s.spin j, s.field j))
    (cayley_update_atom dt)
    (fun _ p => (cayley_closed_form (Vec3.smul dt p.2) p.1, p.2))
    (fun i j s hji => by
      simp only [cayley_update_atom_spin_ne dt i j s hji, cayley_update_atom_field])
    (fun i s => by
      simp only [cayley_update_atom_spin_self, cayley_update_atom_field])
    start_index end_index st i
  have h1 := congrArg Prod.fst h
  simp only [] at h1
  rw [cayley_update, h1]
  split_ifs <;> rfl

theorem cayley_closed_form_normSq (A S : Vec3 K) :
    Vec3.normSq (cayley_closed_form A S) = Vec3.normSq S := by
  obtain ⟨ax, ay, az⟩ := A
  obtain ⟨sx, sy, sz⟩ := S
  have hpos : (0 : K) < 1 + (ax * ax + ay * ay + az * az) / 4 := by
    nlinarith [mul_self_nonneg ax, mul_self_nonneg ay, mul_self_nonneg az]
  have hne : (1 : K) + (ax * ax + ay * ay + az * az) / 4 ≠ 0 := ne_of_gt hpos
  simp only [cayley_closed_form, Vec3.smul, Vec3.add, Vec3.cross, Vec3.dot, Vec3.normSq]
  generalize hd : (1 : K) + (ax * ax + ay * ay + az * az) / 4 = d at hne
  have key : ∀ c : K,
      c * ((1 - (ax * ax + ay * ay + az * az) / 4) * sx + (ay * sz - az * sy)
          + (ax * sx + ay * sy + az * sz) / 2 * ax)
        * (c * ((1 - (ax * ax + ay * ay + az * az) / 4) * sx + (ay * sz - az * sy)
          + (ax * sx + ay * sy + az * sz) / 2 * ax))
      + c * ((1 - (ax * ax + ay * ay + az * az) / 4) * sy + (az * sx - ax * sz)
          + (ax * sx + ay * sy + az * sz) / 2 * ay)
        * (c * ((1 - (ax * ax + ay * ay + az * az) / 4) * sy + (az * sx - ax * sz)
          + (ax * sx + ay * sy + az * sz) / 2 * ay))
      + c * ((1 - (ax * ax + ay * ay + az * az) / 4) * sz + (ax * sy - ay * sx)
          + (ax * sx + ay * sy + az * sz) / 2 * az)
        * (c * ((1 - (ax * ax + ay * ay + az * az) / 4) * sz + (ax * sy - ay * sx)
          + (ax * sx + ay * sy + az * sz) / 2 * az))
      = (c * (1 + (ax * ax + ay * ay + az * az) / 4)) ^ 2 * (sx * sx + sy * sy + sz * sz) := by
    intro c; ring
  rw [key, hd, one_div, inv_mul_cancel₀ hne]
  ring

/-- C1: for every spin, field and rotation time, the spin written by `cayley_update` has the
same squared length as the spin read, for every atom (inside or outside the range); so a unit
spin stays a unit spin whatever the field magnitude. -/
theorem cayley_update_preserves_norm (start_index end_index : Nat) (dt : K) (st : SLD K)
    (i : Nat) :
    Vec3.normSq ((cayley_update start_index end_index dt st).spin i)
      = Vec3.normSq (st.spin i) := by
  rw [cayley_update_spin]
  split_ifs
  · exact cayley_closed_form_normSq _ _
  · rfl

/-- C2: `cayley_update` writes, for every atom of `[start_index, end_index)`, the closed form
`(S(1 - A²/4) + A×S + (A·S)A/2) / (1 + A²/4)` with `A = F[i]*dt` and `S` the spin on entry;
spins outside the range and the three field arrays are unchanged. -/
theorem cayley_update_closed_form (start_index end_index : Nat) (dt : K) (st : SLD K) :
    (∀ i, (cayley_update start_index end_index dt st).spin i
      = if start_index ≤ i ∧ i < end_index then
          cayley_closed_form (Vec3.smul dt (st.field i)) (st.spin i)
        else st.spin i) ∧
    (cayley_update start_index end_index dt st).fields_array_x = st.fields_array_x ∧
    (cayley_update start_index end_index dt st).fields_array_y = st.fields_array_y ∧
    (cayley_update start_index end_index dt st).fields_array_z = st.fields_array_z := by
  refine ⟨fun i => cayley_update_spin _ _ _ _ i, ?_, ?_, ?_⟩
  · exact for_range_preserve (fun s : SLD K => s.fields_array_x) (cayley_update_atom dt)
      (fun _ _ => rfl) _ _ _
  · exact for_range_preserve (fun s : SLD K => s.fields_array_y) (cayley_update_atom dt)
      (fun _ _ => rfl) _ _ _
  · exact for_range_preserve (fun s : SLD K => s.fields_array_z) (cayley_update_atom dt)
      (fun _ _ => rfl) _ _ _

theorem cayley_closed_form_zero (S : Vec3 K) : cayley_closed_form ⟨0, 0, 0⟩ S = S := by
  simp [cayley_closed_form, Vec3.smul, Vec3.add, Vec3.cross, Vec3.dot, Vec3.normSq]

/-- C3: if the field of atom `i` is zero, or the rotation time is zero, `cayley_update` leaves
the spin of atom `i` exactly unchanged, whatever the spin. -/
theorem cayley_update_zero_field (start_index end_index : Nat) (dt : K) (st : SLD K) (i : Nat)
    (h : st.field i = ⟨0, 0, 0⟩ ∨ dt = 0) :
    (cayley_update start_index end_index dt st).spin i = st.spin i := by
  rw [cayley_update_spin]
  split_ifs
  · have hA : Vec3.smul dt (st.field i) = ⟨0, 0, 0⟩ := by
      rcases h with h | h
      · rw [h]; simp [Vec3.smul]
      · rw [h]; simp [Vec3.smul]
    rw [hA, cayley_closed_form_zero]
  · rfl

theorem cayley_update_zero_field_witness :
    ((SLD.uniform (K := ℚ) ⟨1, 2, 3⟩ ⟨0, 0, 0⟩ ⟨0, 0, 0⟩ ⟨0, 0, 0⟩ ⟨0, 0, 0⟩ ⟨0, 0, 0⟩).field 1
        = ⟨0, 0, 0⟩ ∨ (5 : ℚ) = 0) ∧
    (cayley_update 0 2 5
        (SLD.uniform (K := ℚ) ⟨1, 2, 3⟩ ⟨0, 0, 0⟩ ⟨0, 0, 0⟩ ⟨0, 0, 0⟩ ⟨0, 0, 0⟩ ⟨0, 0, 0⟩)).spin 1
      = (SLD.uniform (K := ℚ) ⟨1, 2, 3⟩ ⟨0, 0, 0⟩ ⟨0, 0, 0⟩ ⟨0, 0, 0⟩ ⟨0, 0, 0⟩ ⟨0, 0, 0⟩).spin 1 :=
  ⟨Or.inl rfl, cayley_update_zero_field 0 2 5 _ 1 (Or.inl rfl)⟩


theorem hasDerivAt_quadratic_ratio (a b c e : ℝ) :
    HasDerivAt (fun t : ℝ => (a + b * t + c * t ^ 2) / (1 + e * t ^ 2)) b 0 := by
  have hn : HasDerivAt (fun t : ℝ => a + b * t + c * t ^ 2) b 0 := by
    have h := (((hasDerivAt_id (0 : ℝ)).const_mul b).const_add a).add
      ((hasDerivAt_pow 2 (0 : ℝ)).const_mul c)
    simpa using h
  have hd : HasDerivAt (fun t : ℝ => 1 + e * t ^ 2) 0 0 := by
    have h := ((hasDerivAt_pow 2 (0 : ℝ)).const_mul e).const_add 1
    simpa using h
  have h := hn.div hd (by norm_num)
  simpa using h

theorem cayley_closed_form_as_ratio (F S : Vec3 ℝ) (t : ℝ) :
    cayley_closed_form (Vec3.smul t F) S =
      ⟨(S.x + (Vec3.cross F S).x * t
          + (Vec3.dot F S / 2 * F.x - Vec3.normSq F / 4 * S.x) * t ^ 2)
          / (1 + Vec3.normSq F / 4 * t ^ 2),
       (S.y + (Vec3.cross F S).y * t
          + (Vec3.dot F S / 2 * F.y - Vec3.normSq F / 4 * S.y) * t ^ 2)
          / (1 + Vec3.normSq F / 4 * t ^ 2),
       (S.z + (Vec3.cross F S).z * t
          + (Vec3.dot F S / 2 * F.z - Vec3.normSq F / 4 * S.z) * t ^ 2)
          / (1 + Vec3.normSq F / 4 * t ^ 2)⟩ := by
  simp only [cayley_closed_form, Vec3.smul, Vec3.add, Vec3.cross, Vec3.dot, Vec3.normSq]
  refine Vec3.ext ?_ ?_ ?_ <;> simp only [] <;> ring

theorem cayley_spin_hasDerivAt (start_index end_index : Nat) (st : SLD ℝ) (i : Nat)
    (hs : start_index ≤ i) (he : i < end_index) :
    HasDerivAt (fun dt : ℝ => ((cayley_update start_index end_index dt st).spin i).x)
      (Vec3.cross (st.field i) (st.spin i)).x 0 ∧
    HasDerivAt (fun dt : ℝ => ((cayley_update start_index end_index dt st).spin i).y)
      (Vec3.cross (st.field i) (st.spin i)).y 0 ∧
    HasDerivAt (fun dt : ℝ => ((cayley_update start_index end_index dt st).spin i).z)
      (Vec3.cross (st.field i) (st.spin i)).z 0 := by
  have hfun : ∀ dt : ℝ, (cayley_update start_index end_index dt st).spin i
      = cayley_closed_form (Vec3.smul dt (st.field i)) (st.spin i) := by
    intro dt
    rw [cayley_update_spin, if_pos ⟨hs, he⟩]
  simp only [hfun, cayley_closed_form_as_ratio]
  exact ⟨hasDerivAt_quadratic_ratio _ _ _ _, hasDerivAt_quadratic_ratio _ _ _ _,
    hasDerivAt_quadratic_ratio _ _ _ _⟩


/-- C4 (as amended): over the reals, for an atom of the range, the derivative of the updated
spin with respect to the rotation time `dt` at `dt = 0` is `F × S` (that is `-(S × F)`), so
`S' = S + dt (F × S) + O(dt²)`: called with rotation time `dt`, the update discretises
`dS/dt = F × S`. -/
theorem cayley_update_hasDerivAt (start_index end_index : Nat) (st : SLD ℝ) (i : Nat)
    (hs : start_index ≤ i) (he : i < end_index) :
    HasDerivAt (fun dt : ℝ => ((cayley_update start_index end_index dt st).spin i).x)
      (Vec3.cross (st.field i) (st.spin i)).x 0 ∧
    HasDerivAt (fun dt : ℝ => ((cayley_update start_index end_index dt st).spin i).y)
      (Vec3.cross (st.field i) (st.spin i)).y 0 ∧
    HasDerivAt (fun dt : ℝ => ((cayley_update start_index end_index dt st).spin i).z)
      (Vec3.cross (st.field i) (st.spin i)).z 0 :=
  cayley_spin_hasDerivAt start_index end_index st i hs he

theorem cayley_update_hasDerivAt_witness :
    (0 ≤ 0 ∧ 0 < 1) ∧
    HasDerivAt (fun dt : ℝ => ((cayley_update 0 1 dt
        (SLD.uniform ⟨1, 0, 0⟩ ⟨0, 1, 0⟩ ⟨0, 0, 0⟩ ⟨0, 0, 0⟩ ⟨0, 0, 0⟩ ⟨0, 0, 0⟩)).spin 0).z)
      (-1) 0 := by
  refine ⟨by decide, ?_⟩
  have h := (cayley_update_hasDerivAt 0 1
    (SLD.uniform (K := ℝ) ⟨1, 0, 0⟩ ⟨0, 1, 0⟩ ⟨0, 0, 0⟩ ⟨0, 0, 0⟩ ⟨0, 0, 0⟩ ⟨0, 0, 0⟩) 0
    (Nat.le_refl 0) Nat.zero_lt_one).2.2
  have hv : (Vec3.cross
      ((SLD.uniform (K := ℝ) ⟨1, 0, 0⟩ ⟨0, 1, 0⟩ ⟨0, 0, 0⟩ ⟨0, 0, 0⟩ ⟨0, 0, 0⟩ ⟨0, 0, 0⟩).field 0)
      ((SLD.uniform (K := ℝ) ⟨1, 0, 0⟩ ⟨0, 1, 0⟩ ⟨0, 0, 0⟩ ⟨0, 0, 0⟩ ⟨0, 0, 0⟩ ⟨0, 0, 0⟩).spin 0)).z
      = -1 := by
    norm_num [Vec3.cross, SLD.field, SLD.spin, SLD.uniform]
  rw [hv] at h
  exact h

/-- C4 (counterexample to the claim as stated): for `S = (1,0,0)` and `F = (0,1,0)` the
`z` component of `S × F` is `1`, and it is not the derivative at `dt = 0` of the `z` component
of the updated spin (which is `-1`). -/
theorem cayley_update_derivative_not_S_cross_F :
    ¬ HasDerivAt (fun dt : ℝ => ((cayley_update 0 1 dt
        (SLD.uniform ⟨1, 0, 0⟩ ⟨0, 1, 0⟩ ⟨0, 0, 0⟩ ⟨0, 0, 0⟩ ⟨0, 0, 0⟩ ⟨0, 0, 0⟩)).spin 0).z)
      (Vec3.cross
        ((SLD.uniform (K := ℝ) ⟨1, 0, 0⟩ ⟨0, 1, 0⟩ ⟨0, 0, 0⟩ ⟨0, 0, 0⟩ ⟨0, 0, 0⟩ ⟨0, 0, 0⟩).spin 0)
        ((SLD.uniform (K := ℝ) ⟨1, 0, 0⟩ ⟨0, 1, 0⟩ ⟨0, 0, 0⟩ ⟨0, 0, 0⟩ ⟨0, 0, 0⟩
          ⟨0, 0, 0⟩).field 0)).z 0 := by
  intro h
  have h' := (cayley_spin_hasDerivAt 0 1
    (SLD.uniform (K := ℝ) ⟨1, 0, 0⟩ ⟨0, 1, 0⟩ ⟨0, 0, 0⟩ ⟨0, 0, 0⟩ ⟨0, 0, 0⟩ ⟨0, 0, 0⟩) 0
    (Nat.le_refl 0) Nat.zero_lt_one).2.2
  have huniq := h.unique h'
  norm_num [Vec3.cross, SLD.field, SLD.spin, SLD.uniform] at huniq

end CayleyTheorems

section SpinNoiseTheorems

variable {K : Type} [LinearOrderedField K]

theorem add_spin_noise_atom_field_ne (sqrt : K → K) (env : Env K) (i j : Nat) (st : SLD K)
    (h : j ≠ i) : (add_spin_noise_atom sqrt env i st).field j = st.field j := by
  simp [add_spin_noise_atom, SLD.field, Function.update_noteq h]

theorem add_spin_noise_atom_field_self (sqrt : K → K) (env : Env K) (i : Nat) (st : SLD K) :
    (add_spin_noise_atom sqrt env i st).field i
      = spin_noise_closed_form (selected_lambda env (env.type_array i))
          (selected_H_th_sigma env (env.type_array i) * sqrt env.temperature)
          (st.field i) (st.H_th i) (st.spin i) := by
  simp only [add_spin_noise_atom, SLD.spin, SLD.field, SLD.H_th, spin_noise_closed_form,
    selected_lambda, selected_H_th_sigma, Vec3.smul, Vec3.add, Vec3.cross, Function.update_same]
  refine Vec3.ext ?_ ?_ ?_ <;> (split_ifs <;> norm_num <;> ring)

theorem add_spin_noise_field (sqrt : K → K) (env : Env K) (start_index end_index : Nat)
    (dt : K) (st : SLD K) (i : Nat) :
    (add_spin_noise sqrt env start_index end_index dt st).field i
      = if start_index ≤ i ∧ i < end_index then
          spin_noise_closed_form (selected_lambda env (env.type_array i))
            (selected_H_th_sigma env (env.type_array i) * sqrt env.temperature)
            (st.field i) (st.H_th i) (st.spin i)
        else st.field i := by
  have h := for_range_slice (fun j (s : SLD K) => (s.field j, s.H_th j, s.spin j))
    (add_spin_noise_atom sqrt env)
    (fun j p => (spin_noise_closed_form (selected_lambda env (env.type_array j))
      (selected_H_th_sigma env (env.type_array j) * sqrt env.temperature) p.1 p.2.1 p.2.2,
      p.2.1, p.2.2))
    (fun i j s hji => by
      simp only [add_spin_noise_atom_field_ne sqrt env i j s hji]; rfl)
    (fun i s => by
      simp only [add_spin_noise_atom_field_self]; rfl)
    start_index end_index st i
  have h1 := congrArg Prod.fst h
  simp only [] at h1
  rw [add_spin_noise, h1]
  split_ifs <;> rfl

/-- C5: for every atom of `[start_index, end_index)`, `add_spin_noise` overwrites the field
with `(G + λ (G × S)) / (1 + λ²)`, `G = F + σ sqrt(T) (Hx_th[i], Hy_th[i], Hz_th[i])`, where
`λ`, `σ` are the damping and noise coefficients selected for the atom's material; fields outside
the range, the spin arrays and the noise arrays are unchanged. -/
theorem add_spin_noise_closed_form (sqrt : K → K) (env : Env K) (start_index end_index : Nat)
    (dt : K) (st : SLD K) :
    (∀ i, (add_spin_noise sqrt env start_index end_index dt st).field i
      = if start_index ≤ i ∧ i < end_index then
          spin_noise_closed_form (selected_lambda env (env.type_array i))
            (selected_H_th_sigma env (env.type_array i) * sqrt env.temperature)
            (st.field i) (st.H_th i) (st.spin i)
        else st.field i) ∧
    ((add_spin_noise sqrt env start_index end_index dt st).x_spin_array = st.x_spin_array ∧
     (add_spin_noise sqrt env start_index end_index dt st).y_spin_array = st.y_spin_array ∧
     (add_spin_noise sqrt env start_index end_index dt st).z_spin_array = st.z_spin_array) ∧
    ((add_spin_noise sqrt env start_index end_index dt st).Hx_th = st.Hx_th ∧
     (add_spin_noise sqrt env start_index end_index dt st).Hy_th = st.Hy_th ∧
     (add_spin_noise sqrt env start_index end_index dt st).Hz_th = st.Hz_th) := by
  refine ⟨fun i => add_spin_noise_field sqrt env _ _ dt st i, ⟨?_, ?_, ?_⟩, ⟨?_, ?_, ?_⟩⟩
  · exact for_range_preserve (fun s : SLD K => s.x_spin_array) (add_spin_noise_atom sqrt env)
      (fun _ _ => rfl) _ _ _
  · exact for_range_preserve (fun s : SLD K => s.y_spin_array) (add_spin_noise_atom sqrt env)
      (fun _ _ => rfl) _ _ _
  · exact for_range_preserve (fun s : SLD K => s.z_spin_array) (add_spin_noise_atom sqrt env)
      (fun _ _ => rfl) _ _ _
  · exact for_range_preserve (fun s : SLD K => s.Hx_th) (add_spin_noise_atom sqrt env)
      (fun _ _ => rfl) _ _ _
  · exact for_range_preserve (fun s : SLD K => s.Hy_th) (add_spin_noise_atom sqrt env)
      (fun _ _ => rfl) _ _ _
  · exact for_range_preserve (fun s : SLD K => s.Hz_th) (add_spin_noise_atom sqrt env)
      (fun _ _ => rfl) _ _ _


theorem selected_lambda_below (env : Env K) (t imat : Nat) (h : t < env.equilibration_time) :
    selected_lambda { env with time := t } imat = (env.material imat).alpha_eq := by
  simp [selected_lambda, h]

theorem selected_lambda_above (env : Env K) (t imat : Nat) (h : env.equilibration_time ≤ t) :
    selected_lambda { env with time := t } imat = (env.material imat).alpha := by
  simp [selected_lambda, Nat.not_lt.mpr h]

theorem selected_H_th_sigma_below (env : Env K) (t imat : Nat)
    (h : t < env.equilibration_time) :
    selected_H_th_sigma { env with time := t } imat = (env.material imat).H_th_sigma_eq := by
  simp [selected_H_th_sigma, h]

theorem selected_H_th_sigma_above (env : Env K) (t imat : Nat)
    (h : env.equilibration_time ≤ t) :
    selected_H_th_sigma { env with time := t } imat = (env.material imat).H_th_sigma := by
  simp [selected_H_th_sigma, Nat.not_lt.mpr h]

theorem selected_damp_lat_below (env : Env K) (t imat : Nat) (h : t < env.equilibration_time) :
    selected_damp_lat { env with time := t } imat = (env.sld_mp imat).eq_damp_lat := by
  simp [selected_damp_lat, h]

theorem selected_damp_lat_above (env : Env K) (t imat : Nat) (h : env.equilibration_time ≤ t) :
    selected_damp_lat { env with time := t } imat = (env.sld_mp imat).damp_lat := by
  simp [selected_damp_lat, Nat.not_lt.mpr h]

theorem selected_F_th_sigma_below (env : Env K) (t imat : Nat)
    (h : t < env.equilibration_time) :
    selected_F_th_sigma { env with time := t } imat = (env.sld_mp imat).F_th_sigma_eq := by
  simp [selected_F_th_sigma, h]

theorem selected_F_th_sigma_above (env : Env K) (t imat : Nat)
    (h : env.equilibration_time ≤ t) :
    selected_F_th_sigma { env with time := t } imat = (env.sld_mp imat).F_th_sigma := by
  simp [selected_F_th_sigma, Nat.not_lt.mpr h]

end SpinNoiseTheorems

section LatticeTheorems

variable {K : Type} [LinearOrderedField K]

theorem update_velocity_atom_velo_self (sqrt : K → K) (env : Env K) (i : Nat) (st : SLD K) :
    (update_velocity_atom sqrt env i st).velo i
      = kick_closed_form (env.dt_SI * 1e12) (env.sld_mp (env.type_array i)).mass
          (selected_damp_lat env (env.type_array i))
          (selected_F_th_sigma env (env.type_array i) * sqrt env.temperature)
          (st.velo i) (st.force i) (st.F_th i) := by
  simp only [update_velocity_atom, SLD.velo, SLD.force, SLD.F_th, kick_closed_form,
    selected_damp_lat, selected_F_th_sigma, Vec3.smul, Vec3.add, Function.update_same]
  refine Vec3.ext ?_ ?_ ?_ <;> (split_ifs <;> norm_num <;> ring)

theorem update_velocity_atom_velo_ne (sqrt : K → K) (env : Env K) (i j : Nat) (st : SLD K)
    (h : j ≠ i) : (update_velocity_atom sqrt env i st).velo j = st.velo j := by
  simp [update_velocity_atom, SLD.velo, Function.update_noteq h]

theorem update_position_velocity_atom_velo_self (sqrt : K → K) (env : Env K) (i : Nat)
    (st : SLD K) :
    (update_position_velocity_atom sqrt env i st).velo i
      = kick_closed_form (env.dt_SI * 1e12) (env.sld_mp (env.type_array i)).mass
          (selected_damp_lat env (env.type_array i))
          (selected_F_th_sigma env (env.type_array i) * sqrt env.temperature)
          (st.velo i) (st.force i) (st.F_th i) := by
  simp only [update_position_velocity_atom, SLD.velo, SLD.force, SLD.F_th, kick_closed_form,
    selected_damp_lat, selected_F_th_sigma, Vec3.smul, Vec3.add, Function.update_same]
  refine Vec3.ext ?_ ?_ ?_ <;> (split_ifs <;> norm_num <;> ring)

theorem update_position_velocity_atom_velo_ne (sqrt : K → K) (env : Env K) (i j : Nat)
    (st : SLD K) (h : j ≠ i) :
    (update_position_velocity_atom sqrt env i st).velo j = st.velo j := by
  simp [update_position_velocity_atom, SLD.velo, Function.update_noteq h]

theorem update_velocity_velo (sqrt : K → K) (env : Env K) (st : SLD K) (i : Nat) :
    (update_velocity sqrt env st).velo i
      = if i < env.num_atoms then
          kick_closed_form (env.dt_SI * 1e12) (env.sld_mp (env.type_array i)).mass
            (selected_damp_lat env (env.type_array i))
            (selected_F_th_sigma env (env.type_array i) * sqrt env.temperature)
            (st.velo i) (st.force i) (st.F_th i)
        else st.velo i := by
  have h := for_range_slice (fun j (s : SLD K) => (s.velo j, s.force j, s.F_th j))
    (update_velocity_atom sqrt env)
    (fun j p => (kick_closed_form (env.dt_SI * 1e12) (env.sld_mp (env.type_array j)).mass
      (selected_damp_lat env (env.type_array j))
      (selected_F_th_sigma env (env.type_array j) * sqrt env.temperature) p.1 p.2.1 p.2.2,
      p.2.1, p.2.2))
    (fun i j s hji => by
      simp only [update_velocity_atom_velo_ne sqrt env i j s hji]; rfl)
    (fun i s => by
      simp only [update_velocity_atom_velo_self]; rfl)
    0 env.num_atoms st i
  have h1 := congrArg Prod.fst h
  simp only [Nat.zero_le, true_and] at h1
  rw [update_velocity, h1]
  split_ifs <;> rfl

theorem update_position_velocity_velo (sqrt : K → K) (env : Env K) (st : SLD K) (i : Nat) :
    (update_position_velocity sqrt env st).velo i
      = if i < env.num_atoms then
          kick_closed_form (env.dt_SI * 1e12) (env.sld_mp (env.type_array i)).mass
            (selected_damp_lat env (env.type_array i))
            (selected_F_th_sigma env (env.type_array i) * sqrt env.temperature)
            (st.velo i) (st.force i) (st.F_th i)
        else st.velo i := by
  have h := for_range_slice (fun j (s : SLD K) => (s.velo j, s.force j, s.F_th j))
    (update_position_velocity_atom sqrt env)
    (fun j p => (kick_closed_form (env.dt_SI * 1e12) (env.sld_mp (env.type_array j)).mass
      (selected_damp_lat env (env.type_array j))
      (selected_F_th_sigma env (env.type_array j) * sqrt env.temperature) p.1 p.2.1 p.2.2,
      p.2.1, p.2.2))
    (fun i j s hji => by
      simp only [update_position_velocity_atom_velo_ne sqrt env i j s hji]; rfl)
    (fun i s => by
      simp only [update_position_velocity_atom_velo_self]; rfl)
    0 env.num_atoms st i
  have h1 := congrArg Prod.fst h
  simp only [Nat.zero_le, true_and] at h1
  rw [update_position_velocity, h1]
  split_ifs <;> rfl


theorem spin_noise_closed_form_lambda_ne (l1 l2 n1 n2 : K) (h : l1 ≠ l2) :
    spin_noise_closed_form l1 n1 ⟨1, 0, 0⟩ ⟨0, 0, 0⟩ ⟨0, 1, 0⟩
      ≠ spin_noise_closed_form l2 n2 ⟨1, 0, 0⟩ ⟨0, 0, 0⟩ ⟨0, 1, 0⟩ := by
  intro heq
  have hx := congrArg Vec3.x heq
  have hz := congrArg Vec3.z heq
  simp only [spin_noise_closed_form, Vec3.smul, Vec3.add, Vec3.cross] at hx hz
  have p1 : (0 : K) < 1 + l1 ^ 2 := by positivity
  have p2 : (0 : K) < 1 + l2 ^ 2 := by positivity
  have e1 : (1 : K) / (1 + l1 ^ 2) = 1 / (1 + l2 ^ 2) := by linear_combination hx
  have e2 : l1 / (1 + l1 ^ 2) = l2 / (1 + l2 ^ 2) := by linear_combination hz
  have e3 : (1 : K) + l1 ^ 2 = 1 + l2 ^ 2 := by
    have := congrArg (fun x : K => x⁻¹) e1
    simpa using this
  rw [e3] at e2
  have e4 : l1 = l2 := by
    exact (div_left_inj' (ne_of_gt p2)).mp e2
  exact h e4

theorem spin_noise_closed_form_noise_ne (l n1 n2 : K) (h : n1 ≠ n2) :
    spin_noise_closed_form l n1 ⟨0, 0, 0⟩ ⟨1, 0, 0⟩ ⟨0, 0, 0⟩
      ≠ spin_noise_closed_form l n2 ⟨0, 0, 0⟩ ⟨1, 0, 0⟩ ⟨0, 0, 0⟩ := by
  intro heq
  have hx := congrArg Vec3.x heq
  simp only [spin_noise_closed_form, Vec3.smul, Vec3.add, Vec3.cross] at hx
  have p1 : (0 : K) < 1 + l ^ 2 := by positivity
  have e1 : n1 / (1 + l ^ 2) = n2 / (1 + l ^ 2) := by linear_combination hx
  exact h ((div_left_inj' (ne_of_gt p1)).mp e1)

theorem kick_closed_form_damp_ne (m d1 d2 n1 n2 : K) (h : d1 ≠ d2) :
    kick_closed_form (1 * 1e12) m d1 n1 ⟨1, 0, 0⟩ ⟨0, 0, 0⟩ ⟨0, 0, 0⟩
      ≠ kick_closed_form (1 * 1e12) m d2 n2 ⟨1, 0, 0⟩ ⟨0, 0, 0⟩ ⟨0, 0, 0⟩ := by
  intro heq
  have hx := congrArg Vec3.x heq
  simp only [kick_closed_form, Vec3.smul, Vec3.add] at hx
  norm_num at hx
  exact h (by linarith)

theorem kick_closed_form_noise_ne (m d n1 n2 : K) (h : n1 ≠ n2) :
    kick_closed_form (1 * 1e12) m d n1 ⟨0, 0, 0⟩ ⟨0, 0, 0⟩ ⟨1, 0, 0⟩
      ≠ kick_closed_form (1 * 1e12) m d n2 ⟨0, 0, 0⟩ ⟨0, 0, 0⟩ ⟨1, 0, 0⟩ := by
  intro heq
  have hx := congrArg Vec3.x heq
  simp only [kick_closed_form, Vec3.smul, Vec3.add] at hx
  norm_num at hx
  exact h hx

/-- C6: the coefficient set is selected by `sim::time < sim::equilibration_time`.  At a time
`t1` below the threshold `add_spin_noise` uses `(alpha_eq, H_th_sigma_eq)` and both velocity
kicks use `(eq_damp_lat, F_th_sigma_eq)`; at a time `t2` at or above it (equality included)
they use `(alpha, H_th_sigma)` and `(damp_lat, F_th_sigma)`.  Whenever the two sets of the
atom's material differ, some input (temperature, time step, arrays) gives different outputs
for the two times. -/
theorem equilibration_switch (sqrt : K → K) (env : Env K) (t1 t2 i : Nat)
    (hsqrt : sqrt 1 = 1) (h1 : t1 < env.equilibration_time)
    (h2 : env.equilibration_time ≤ t2) (hi : i < env.num_atoms) :
    (∀ (dt : K) (st : SLD K),
      (add_spin_noise sqrt { env with time := t1 } i (i + 1) dt st).field i
        = spin_noise_closed_form (env.material (env.type_array i)).alpha_eq
            ((env.material (env.type_array i)).H_th_sigma_eq * sqrt env.temperature)
            (st.field i) (st.H_th i) (st.spin i)) ∧
    (∀ (dt : K) (st : SLD K),
      (add_spin_noise sqrt { env with time := t2 } i (i + 1) dt st).field i
        = spin_noise_closed_form (env.material (env.type_array i)).alpha
            ((env.material (env.type_array i)).H_th_sigma * sqrt env.temperature)
            (st.field i) (st.H_th i) (st.spin i)) ∧
    (∀ st : SLD K,
      (update_position_velocity sqrt { env with time := t1 } st).velo i
        = kick_closed_form (env.dt_SI * 1e12) (env.sld_mp (env.type_array i)).mass
            (env.sld_mp (env.type_array i)).eq_damp_lat
            ((env.sld_mp (env.type_array i)).F_th_sigma_eq * sqrt env.temperature)
            (st.velo i) (st.force i) (st.F_th i) ∧
      (update_velocity sqrt { env with time := t1 } st).velo i
        = kick_closed_form (env.dt_SI * 1e12) (env.sld_mp (env.type_array i)).mass
            (env.sld_mp (env.type_array i)).eq_damp_lat
            ((env.sld_mp (env.type_array i)).F_th_sigma_eq * sqrt env.temperature)
            (st.velo i) (st.force i) (st.F_th i)) ∧
    (∀ st : SLD K,
      (update_position_velocity sqrt { env with time := t2 } st).velo i
        = kick_closed_form (env.dt_SI * 1e12) (env.sld_mp (env.type_array i)).mass
            (env.sld_mp (env.type_array i)).damp_lat
            ((env.sld_mp (env.type_array i)).F_th_sigma * sqrt env.temperature)
            (st.velo i) (st.force i) (st.F_th i) ∧
      (update_velocity sqrt { env with time := t2 } st).velo i
        = kick_closed_form (env.dt_SI * 1e12) (env.sld_mp (env.type_array i)).mass
            (env.sld_mp (env.type_array i)).damp_lat
            ((env.sld_mp (env.type_array i)).F_th_sigma * sqrt env.temperature)
            (st.velo i) (st.force i) (st.F_th i)) ∧
    (((env.material (env.type_array i)).alpha_eq ≠ (env.material (env.type_array i)).alpha ∨
        (env.material (env.type_array i)).H_th_sigma_eq
          ≠ (env.material (env.type_array i)).H_th_sigma) →
      ∃ (T : K) (st : SLD K),
        (add_spin_noise sqrt { env with time := t1, temperature := T } i (i + 1) 0 st).field i
          ≠ (add_spin_noise sqrt { env with time := t2, temperature := T } i (i + 1) 0
              st).field i) ∧
    (((env.sld_mp (env.type_array i)).eq_damp_lat ≠ (env.sld_mp (env.type_array i)).damp_lat ∨
        (env.sld_mp (env.type_array i)).F_th_sigma_eq
          ≠ (env.sld_mp (env.type_array i)).F_th_sigma) →
      ∃ (T d : K) (st : SLD K),
        (update_position_velocity sqrt { env with time := t1, temperature := T, dt_SI := d }
            st).velo i
          ≠ (update_position_velocity sqrt { env with time := t2, temperature := T, dt_SI := d }
              st).velo i ∧
        (update_velocity sqrt { env with time := t1, temperature := T, dt_SI := d } st).velo i
          ≠ (update_velocity sqrt { env with time := t2, temperature := T, dt_SI := d }
              st).velo i) := by
  have hmem : i ≤ i ∧ i < i + 1 := ⟨Nat.le_refl i, Nat.lt_succ_self i⟩
  refine ⟨?_, ?_, ?_, ?_, ?_, ?_⟩
  · intro dt st
    rw [add_spin_noise_field, if_pos hmem, selected_lambda_below env t1 _ h1,
      selected_H_th_sigma_below env t1 _ h1]
  · intro dt st
    rw [add_spin_noise_field, if_pos hmem, selected_lambda_above env t2 _ h2,
      selected_H_th_sigma_above env t2 _ h2]
  · intro st
    constructor
    · rw [update_position_velocity_velo, if_pos hi, selected_damp_lat_below env t1 _ h1,
        selected_F_th_sigma_below env t1 _ h1]
    · rw [update_velocity_velo, if_pos hi, selected_damp_lat_below env t1 _ h1,
        selected_F_th_sigma_below env t1 _ h1]
  · intro st
    constructor
    · rw [update_position_velocity_velo, if_pos hi, selected_damp_lat_above env t2 _ h2,
        selected_F_th_sigma_above env t2 _ h2]
    · rw [update_velocity_velo, if_pos hi, selected_damp_lat_above env t2 _ h2,
        selected_F_th_sigma_above env t2 _ h2]
  · intro hne
    by_cases hl : (env.material (env.type_array i)).alpha_eq
        = (env.material (env.type_array i)).alpha
    · have hs : (env.material (env.type_array i)).H_th_sigma_eq
          ≠ (env.material (env.type_array i)).H_th_sigma := by
        rcases hne with hne | hne
        · exact absurd hl hne
        · exact hne
      refine ⟨1, SLD.uniform ⟨0, 0, 0⟩ ⟨0, 0, 0⟩ ⟨1, 0, 0⟩ ⟨0, 0, 0⟩ ⟨0, 0, 0⟩ ⟨0, 0, 0⟩, ?_⟩
      rw [add_spin_noise_field, add_spin_noise_field, if_pos hmem, if_pos hmem,
        selected_lambda_below ({ env with temperature := 1 }) t1 _ h1,
        selected_H_th_sigma_below ({ env with temperature := 1 }) t1 _ h1,
        selected_lambda_above ({ env with temperature := 1 }) t2 _ h2,
        selected_H_th_sigma_above ({ env with temperature := 1 }) t2 _ h2]
      simp only [hsqrt, mul_one, hl]
      exact spin_noise_closed_form_noise_ne _ _ _ hs
    · refine ⟨1, SLD.uniform ⟨0, 1, 0⟩ ⟨1, 0, 0⟩ ⟨0, 0, 0⟩ ⟨0, 0, 0⟩ ⟨0, 0, 0⟩ ⟨0, 0, 0⟩, ?_⟩
      rw [add_spin_noise_field, add_spin_noise_field, if_pos hmem, if_pos hmem,
        selected_lambda_below ({ env with temperature := 1 }) t1 _ h1,
        selected_H_th_sigma_below ({ env with temperature := 1 }) t1 _ h1,
        selected_lambda_above ({ env with temperature := 1 }) t2 _ h2,
        selected_H_th_sigma_above ({ env with temperature := 1 }) t2 _ h2]
      exact spin_noise_closed_form_lambda_ne _ _ _ _ hl
  · intro hne
    by_cases hl : (env.sld_mp (env.type_array i)).eq_damp_lat
        = (env.sld_mp (env.type_array i)).damp_lat
    · have hs : (env.sld_mp (env.type_array i)).F_th_sigma_eq
          ≠ (env.sld_mp (env.type_array i)).F_th_sigma := by
        rcases hne with hne | hne
        · exact absurd hl hne
        · exact hne
      refine ⟨1, 1, SLD.uniform ⟨0, 0, 0⟩ ⟨0, 0, 0⟩ ⟨0, 0, 0⟩ ⟨0, 0, 0⟩ ⟨0, 0, 0⟩ ⟨1, 0, 0⟩, ?_⟩
      rw [update_position_velocity_velo, update_position_velocity_velo, update_velocity_velo,
        update_velocity_velo, if_pos hi, if_pos hi,
        selected_damp_lat_below ({ env with temperature := 1, dt_SI := 1 }) t1 _ h1,
        selected_F_th_sigma_below ({ env with temperature := 1, dt_SI := 1 }) t1 _ h1,
        selected_damp_lat_above ({ env with temperature := 1, dt_SI := 1 }) t2 _ h2,
        selected_F_th_sigma_above ({ env with temperature := 1, dt_SI := 1 }) t2 _ h2]
      simp only [hsqrt, mul_one, hl]
      have hk := kick_closed_form_noise_ne (env.sld_mp (env.type_array i)).mass
        (env.sld_mp (env.type_array i)).damp_lat _ _ hs
      exact ⟨hk, hk⟩
    · refine ⟨1, 1, SLD.uniform ⟨0, 0, 0⟩ ⟨0, 0, 0⟩ ⟨0, 0, 0⟩ ⟨1, 0, 0⟩ ⟨0, 0, 0⟩ ⟨0, 0, 0⟩, ?_⟩
      rw [update_position_velocity_velo, update_position_velocity_velo, update_velocity_velo,
        update_velocity_velo, if_pos hi, if_pos hi,
        selected_damp_lat_below ({ env with temperature := 1, dt_SI := 1 }) t1 _ h1,
        selected_F_th_sigma_below ({ env with temperature := 1, dt_SI := 1 }) t1 _ h1,
        selected_damp_lat_above ({ env with temperature := 1, dt_SI := 1 }) t2 _ h2,
        selected_F_th_sigma_above ({ env with temperature := 1, dt_SI := 1 }) t2 _ h2]
      have hk := kick_closed_form_damp_ne (env.sld_mp (env.type_array i)).mass _ _
        ((env.sld_mp (env.type_array i)).F_th_sigma_eq * sqrt 1)
        ((env.sld_mp (env.type_array i)).F_th_sigma * sqrt 1) hl
      exact ⟨hk, hk⟩


theorem equilibration_switch_witness :
    (Real.sqrt 1 = 1 ∧ 0 < (Env.sample : Env ℝ).equilibration_time ∧
      (Env.sample : Env ℝ).equilibration_time ≤ 1 ∧ 0 < (Env.sample : Env ℝ).num_atoms) ∧
    ((∀ (dt : ℝ) (st : SLD ℝ),
      (add_spin_noise Real.sqrt { (Env.sample : Env ℝ) with time := 0 } 0 (0 + 1) dt st).field 0
        = spin_noise_closed_form ((Env.sample : Env ℝ).material ((Env.sample : Env ℝ).type_array 0)).alpha_eq
            (((Env.sample : Env ℝ).material ((Env.sample : Env ℝ).type_array 0)).H_th_sigma_eq * Real.sqrt (Env.sample : Env ℝ).temperature)
            (st.field 0) (st.H_th 0) (st.spin 0)) ∧
    (∀ (dt : ℝ) (st : SLD ℝ),
      (add_spin_noise Real.sqrt { (Env.sample : Env ℝ) with time := 1 } 0 (0 + 1) dt st).field 0
        = spin_noise_closed_form ((Env.sample : Env ℝ).material ((Env.sample : Env ℝ).type_array 0)).alpha
            (((Env.sample : Env ℝ).material ((Env.sample : Env ℝ).type_array 0)).H_th_sigma * Real.sqrt (Env.sample : Env ℝ).temperature)
            (st.field 0) (st.H_th 0) (st.spin 0)) ∧
    (∀ st : SLD ℝ,
      (update_position_velocity Real.sqrt { (Env.sample : Env ℝ) with time := 0 } st).velo 0
        = kick_closed_form ((Env.sample : Env ℝ).dt_SI * 1e12) ((Env.sample : Env ℝ).sld_mp ((Env.sample : Env ℝ).type_array 0)).mass
            ((Env.sample : Env ℝ).sld_mp ((Env.sample : Env ℝ).type_array 0)).eq_damp_lat
            (((Env.sample : Env ℝ).sld_mp ((Env.sample : Env ℝ).type_array 0)).F_th_sigma_eq * Real.sqrt (Env.sample : Env ℝ).temperature)
            (st.velo 0) (st.force 0) (st.F_th 0) ∧
      (update_velocity Real.sqrt { (Env.sample : Env ℝ) with time := 0 } st).velo 0
        = kick_closed_form ((Env.sample : Env ℝ).dt_SI * 1e12) ((Env.sample : Env ℝ).sld_mp ((Env.sample : Env ℝ).type_array 0)).mass
            ((Env.sample : Env ℝ).sld_mp ((Env.sample : Env ℝ).type_array 0)).eq_damp_lat
            (((Env.sample : Env ℝ).sld_mp ((Env.sample : Env ℝ).type_array 0)).F_th_sigma_eq * Real.sqrt (Env.sample : Env ℝ).temperature)
            (st.velo 0) (st.force 0) (st.F_th 0)) ∧
    (∀ st : SLD ℝ,
      (update_position_velocity Real.sqrt { (Env.sample : Env ℝ) with time := 1 } st).velo 0
        = kick_closed_form ((Env.sample : Env ℝ).dt_SI * 1e12) ((Env.sample : Env ℝ).sld_mp ((Env.sample : Env ℝ).type_array 0)).mass
            ((Env.sample : Env ℝ).sld_mp ((Env.sample : Env ℝ).type_array 0)).damp_lat
            (((Env.sample : Env ℝ).sld_mp ((Env.sample : Env ℝ).type_array 0)).F_th_sigma * Real.sqrt (Env.sample : Env ℝ).temperature)
            (st.velo 0) (st.force 0) (st.F_th 0) ∧
      (update_velocity Real.sqrt { (Env.sample : Env ℝ) with time := 1 } st).velo 0
        = kick_closed_form ((Env.sample : Env ℝ).dt_SI * 1e12) ((Env.sample : Env ℝ).sld_mp ((Env.sample : Env ℝ).type_array 0)).mass
            ((Env.sample : Env ℝ).sld_mp ((Env.sample : Env ℝ).type_array 0)).damp_lat
            (((Env.sample : Env ℝ).sld_mp ((Env.sample : Env ℝ).type_array 0)).F_th_sigma * Real.sqrt (Env.sample : Env ℝ).temperature)
            (st.velo 0) (st.force 0) (st.F_th 0)) ∧
    ((((Env.sample : Env ℝ).material ((Env.sample : Env ℝ).type_array 0)).alpha_eq ≠ ((Env.sample : Env ℝ).material ((Env.sample : Env ℝ).type_array 0)).alpha ∨
        ((Env.sample : Env ℝ).material ((Env.sample : Env ℝ).type_array 0)).H_th_sigma_eq
          ≠ ((Env.sample : Env ℝ).material ((Env.sample : Env ℝ).type_array 0)).H_th_sigma) →
      ∃ (T : ℝ) (st : SLD ℝ),
        (add_spin_noise Real.sqrt { (Env.sample : Env ℝ) with time := 0, temperature := T } 0 (0 + 1) 0 st).field 0
          ≠ (add_spin_noise Real.sqrt { (Env.sample : Env ℝ) with time := 1, temperature := T } 0 (0 + 1) 0
              st).field 0) ∧
    ((((Env.sample : Env ℝ).sld_mp ((Env.sample : Env ℝ).type_array 0)).eq_damp_lat ≠ ((Env.sample : Env ℝ).sld_mp ((Env.sample : Env ℝ).type_array 0)).damp_lat ∨
        ((Env.sample : Env ℝ).sld_mp ((Env.sample : Env ℝ).type_array 0)).F_th_sigma_eq
          ≠ ((Env.sample : Env ℝ).sld_mp ((Env.sample : Env ℝ).type_array 0)).F_th_sigma) →
      ∃ (T d : ℝ) (st : SLD ℝ),
        (update_position_velocity Real.sqrt { (Env.sample : Env ℝ) with time := 0, temperature := T, dt_SI := d }
            st).velo 0
          ≠ (update_position_velocity Real.sqrt { (Env.sample : Env ℝ) with time := 1, temperature := T, dt_SI := d }
              st).velo 0 ∧
        (update_velocity Real.sqrt { (Env.sample : Env ℝ) with time := 0, temperature := T, dt_SI := d } st).velo 0
          ≠ (update_velocity Real.sqrt { (Env.sample : Env ℝ) with time := 1, temperature := T, dt_SI := d }
              st).velo 0)) :=
  ⟨⟨Real.sqrt_one, by decide, by decide, by decide⟩,
    equilibration_switch Real.sqrt Env.sample 0 1 0 Real.sqrt_one (by decide) (by decide)
      (by decide)⟩

end LatticeTheorems

section LSFFrames

variable {K : Type} [Field K]

@[simp] theorem local_S_eq (atom : Nat) (st : LSF K) : local_S atom st = st.spin atom := rfl

@[simp] theorem local_H_eq (atom : Nat) (st : LSF K) :
    local_H atom st
      = Vec3.add (Vec3.add (st.spin_field atom) (st.external_field atom)) (st.lsf atom) := rfl

theorem LSF.tx_eq (st : LSF K) (i : Nat) : st.tx i = (st.t i).x := rfl

theorem LSF.ty_eq (st : LSF K) (i : Nat) : st.ty i = (st.t i).y := rfl

theorem LSF.tz_eq (st : LSF K) (i : Nat) : st.tz i = (st.t i).z := rfl

@[simp] theorem mpi_init_halo_swap_spin (st : LSF K) :
    (mpi_init_halo_swap st).spin = st.spin := rfl

@[simp] theorem mpi_init_halo_swap_spin_field (st : LSF K) :
    (mpi_init_halo_swap st).spin_field = st.spin_field := rfl

@[simp] theorem mpi_init_halo_swap_external_field (st : LSF K) :
    (mpi_init_halo_swap st).external_field = st.external_field := rfl

@[simp] theorem mpi_init_halo_swap_lsf (st : LSF K) :
    (mpi_init_halo_swap st).lsf = st.lsf := rfl

@[simp] theorem mpi_init_halo_swap_initial_spin (st : LSF K) :
    (mpi_init_halo_swap st).initial_spin = st.initial_spin := rfl

@[simp] theorem mpi_init_halo_swap_k1 (st : LSF K) :
    (mpi_init_halo_swap st).k1 = st.k1 := rfl

@[simp] theorem mpi_init_halo_swap_k2 (st : LSF K) :
    (mpi_init_halo_swap st).k2 = st.k2 := rfl

@[simp] theorem mpi_init_halo_swap_k3 (st : LSF K) :
    (mpi_init_halo_swap st).k3 = st.k3 := rfl

@[simp] theorem mpi_init_halo_swap_k4 (st : LSF K) :
    (mpi_init_halo_swap st).k4 = st.k4 := rfl

@[simp] theorem mpi_init_halo_swap_t (st : LSF K) :
    (mpi_init_halo_swap st).t = st.t := rfl

@[simp] theorem mpi_init_halo_swap_gaussian_count (st : LSF K) :
    (mpi_init_halo_swap st).gaussian_count = st.gaussian_count := rfl

@[simp] theorem mpi_init_halo_swap_halo_count (st : LSF K) :
    (mpi_init_halo_swap st).halo_count = st.halo_count := rfl

@[simp] theorem barrier_spin (st : LSF K) :
    (barrier st).spin = st.spin := rfl

@[simp] theorem barrier_spin_field (st : LSF K) :
    (barrier st).spin_field = st.spin_field := rfl

@[simp] theorem barrier_external_field (st : LSF K) :
    (barrier st).external_field = st.external_field := rfl

@[simp] theorem barrier_lsf (st : LSF K) :
    (barrier st).lsf = st.lsf := rfl

@[simp] theorem barrier_initial_spin (st : LSF K) :
    (barrier st).initial_spin = st.initial_spin := rfl

@[simp] theorem barrier_k1 (st : LSF K) :
    (barrier st).k1 = st.k1 := rfl

@[simp] theorem barrier_k2 (st : LSF K) :
    (barrier st).k2 = st.k2 := rfl

@[simp] theorem barrier_k3 (st : LSF K) :
    (barrier st).k3 = st.k3 := rfl

@[simp] theorem barrier_k4 (st : LSF K) :
    (barrier st).k4 = st.k4 := rfl

@[simp] theorem barrier_t (st : LSF K) :
    (barrier st).t = st.t := rfl

@[simp] theorem barrier_gaussian_count (st : LSF K) :
    (barrier st).gaussian_count = st.gaussian_count := rfl

@[simp] theorem barrier_halo_count (st : LSF K) :
    (barrier st).halo_count = st.halo_count := rfl

@[simp] theorem LSF.log_spin (ev : Event) (st : LSF K) :
    (LSF.log ev st).spin = st.spin := rfl

@[simp] theorem LSF.log_spin_field (ev : Event) (st : LSF K) :
    (LSF.log ev st).spin_field = st.spin_field := rfl

@[simp] theorem LSF.log_external_field (ev : Event) (st : LSF K) :
    (LSF.log ev st).external_field = st.external_field := rfl

@[simp] theorem LSF.log_lsf (ev : Event) (st : LSF K) :
    (LSF.log ev st).lsf = st.lsf := rfl

@[simp] theorem LSF.log_initial_spin (ev : Event) (st : LSF K) :
    (LSF.log ev st).initial_spin = st.initial_spin := rfl

@[simp] theorem LSF.log_k1 (ev : Event) (st : LSF K) :
    (LSF.log ev st).k1 = st.k1 := rfl

@[simp] theorem LSF.log_k2 (ev : Event) (st : LSF K) :
    (LSF.log ev st).k2 = st.k2 := rfl

@[simp] theorem LSF.log_k3 (ev : Event) (st : LSF K) :
    (LSF.log ev st).k3 = st.k3 := rfl

@[simp] theorem LSF.log_k4 (ev : Event) (st : LSF K) :
    (LSF.log ev st).k4 = st.k4 := rfl

@[simp] theorem LSF.log_t (ev : Event) (st : LSF K) :
    (LSF.log ev st).t = st.t := rfl

@[simp] theorem LSF.log_gaussian_count (ev : Event) (st : LSF K) :
    (LSF.log ev st).gaussian_count = st.gaussian_count := rfl

@[simp] theorem LSF.log_halo_count (ev : Event) (st : LSF K) :
    (LSF.log ev st).halo_count = st.halo_count := rfl

@[simp] theorem mpi_complete_halo_swap_spin_field (c : Collab K) (env : Env K) (st : LSF K) :
    (mpi_complete_halo_swap c env st).spin_field = st.spin_field := rfl

@[simp] theorem mpi_complete_halo_swap_external_field (c : Collab K) (env : Env K) (st : LSF K) :
    (mpi_complete_halo_swap c env st).external_field = st.external_field := rfl

@[simp] theorem mpi_complete_halo_swap_lsf (c : Collab K) (env : Env K) (st : LSF K) :
    (mpi_complete_halo_swap c env st).lsf = st.lsf := rfl

@[simp] theorem mpi_complete_halo_swap_initial_spin (c : Collab K) (env : Env K) (st : LSF K) :
    (mpi_complete_halo_swap c env st).initial_spin = st.initial_spin := rfl

@[simp] theorem mpi_complete_halo_swap_k1 (c : Collab K) (env : Env K) (st : LSF K) :
    (mpi_complete_halo_swap c env st).k1 = st.k1 := rfl

@[simp] theorem mpi_complete_halo_swap_k2 (c : Collab K) (env : Env K) (st : LSF K) :
    (mpi_complete_halo_swap c env st).k2 = st.k2 := rfl

@[simp] theorem mpi_complete_halo_swap_k3 (c : Collab K) (env : Env K) (st : LSF K) :
    (mpi_complete_halo_swap c env st).k3 = st.k3 := rfl

@[simp] theorem mpi_complete_halo_swap_k4 (c : Collab K) (env : Env K) (st : LSF K) :
    (mpi_complete_halo_swap c env st).k4 = st.k4 := rfl

@[simp] theorem mpi_complete_halo_swap_t (c : Collab K) (env : Env K) (st : LSF K) :
    (mpi_complete_halo_swap c env st).t = st.t := rfl

@[simp] theorem mpi_complete_halo_swap_gaussian_count (c : Collab K) (env : Env K) (st : LSF K) :
    (mpi_complete_halo_swap c env st).gaussian_count = st.gaussian_count := rfl

@[simp] theorem mpi_complete_halo_swap_halo_count (c : Collab K) (env : Env K) (st : LSF K) :
    (mpi_complete_halo_swap c env st).halo_count = st.halo_count + 1 := rfl

theorem mpi_complete_halo_swap_spin (c : Collab K) (env : Env K) (st : LSF K) (j : Nat) :
    (mpi_complete_halo_swap c env st).spin j
      = if env.num_core_atoms + env.num_bdry_atoms ≤ j then
          ⟨c.halo_x st.halo_count j, c.halo_y st.halo_count j, c.halo_z st.halo_count j⟩
        else st.spin j := by
  simp only [mpi_complete_halo_swap, LSF.log, LSF.spin]
  split_ifs <;> rfl

@[simp] theorem LSF_RK4_check_init_spin (st : LSF K) :
    (LSF_RK4_check_init st).spin = st.spin := by
  unfold LSF_RK4_check_init
  split_ifs <;> rfl

@[simp] theorem LSF_RK4_check_init_spin_field (st : LSF K) :
    (LSF_RK4_check_init st).spin_field = st.spin_field := by
  unfold LSF_RK4_check_init
  split_ifs <;> rfl

@[simp] theorem LSF_RK4_check_init_external_field (st : LSF K) :
    (LSF_RK4_check_init st).external_field = st.external_field := by
  unfold LSF_RK4_check_init
  split_ifs <;> rfl

@[simp] theorem LSF_RK4_check_init_gaussian_count (st : LSF K) :
    (LSF_RK4_check_init st).gaussian_count = st.gaussian_count := by
  unfold LSF_RK4_check_init
  split_ifs <;> rfl

@[simp] theorem LSF_RK4_check_init_halo_count (st : LSF K) :
    (LSF_RK4_check_init st).halo_count = st.halo_count := by
  unfold LSF_RK4_check_init
  split_ifs <;> rfl

@[simp] theorem calculate_spin_fields_spin (c : Collab K) (start stop : Nat) (st : LSF K) :
    (calculate_spin_fields c start stop st).spin = st.spin := by
  unfold calculate_spin_fields
  exact for_range_preserve (fun s : LSF K => s.spin) (calculate_spin_fields_atom c) (fun _ _ => rfl) _ _ _

@[simp] theorem calculate_spin_fields_external_field (c : Collab K) (start stop : Nat) (st : LSF K) :
    (calculate_spin_fields c start stop st).external_field = st.external_field := by
  unfold calculate_spin_fields
  exact for_range_preserve (fun s : LSF K => s.external_field) (calculate_spin_fields_atom c) (fun _ _ => rfl) _ _ _

@[simp] theorem calculate_spin_fields_lsf (c : Collab K) (start stop : Nat) (st : LSF K) :
    (calculate_spin_fields c start stop st).lsf = st.lsf := by
  unfold calculate_spin_fields
  exact for_range_preserve (fun s : LSF K => s.lsf) (calculate_spin_fields_atom c) (fun _ _ => rfl) _ _ _

@[simp] theorem calculate_spin_fields_initial_spin (c : Collab K) (start stop : Nat) (st : LSF K) :
    (calculate_spin_fields c start stop st).initial_spin = st.initial_spin := by
  unfold calculate_spin_fields
  exact for_range_preserve (fun s : LSF K => s.initial_spin) (calculate_spin_fields_atom c) (fun _ _ => rfl) _ _ _

@[simp] theorem calculate_spin_fields_k1 (c : Collab K) (start stop : Nat) (st : LSF K) :
    (calculate_spin_fields c start stop st).k1 = st.k1 := by
  unfold calculate_spin_fields
  exact for_range_preserve (fun s : LSF K => s.k1) (calculate_spin_fields_atom c) (fun _ _ => rfl) _ _ _

@[simp] theorem calculate_spin_fields_k2 (c : Collab K) (start stop : Nat) (st : LSF K) :
    (calculate_spin_fields c start stop st).k2 = st.k2 := by
  unfold calculate_spin_fields
  exact for_range_preserve (fun s : LSF K => s.k2) (calculate_spin_fields_atom c) (fun _ _ => rfl) _ _ _

@[simp] theorem calculate_spin_fields_k3 (c : Collab K) (start stop : Nat) (st : LSF K) :
    (calculate_spin_fields c start stop st).k3 = st.k3 := by
  unfold calculate_spin_fields
  exact for_range_preserve (fun s : LSF K => s.k3) (calculate_spin_fields_atom c) (fun _ _ => rfl) _ _ _

@[simp] theorem calculate_spin_fields_k4 (c : Collab K) (start stop : Nat) (st : LSF K) :
    (calculate_spin_fields c start stop st).k4 = st.k4 := by
  unfold calculate_spin_fields
  exact for_range_preserve (fun s : LSF K => s.k4) (calculate_spin_fields_atom c) (fun _ _ => rfl) _ _ _

@[simp] theorem calculate_spin_fields_t (c : Collab K) (start stop : Nat) (st : LSF K) :
    (calculate_spin_fields c start stop st).t = st.t := by
  unfold calculate_spin_fields
  exact for_range_preserve (fun s : LSF K => s.t) (calculate_spin_fields_atom c) (fun _ _ => rfl) _ _ _

@[simp] theorem calculate_spin_fields_gaussian_count (c : Collab K) (start stop : Nat) (st : LSF K) :
    (calculate_spin_fields c start stop st).gaussian_count = st.gaussian_count := by
  unfold calculate_spin_fields
  exact for_range_preserve (fun s : LSF K => s.gaussian_count) (calculate_spin_fields_atom c) (fun _ _ => rfl) _ _ _

@[simp] theorem calculate_spin_fields_halo_count (c : Collab K) (start stop : Nat) (st : LSF K) :
    (calculate_spin_fields c start stop st).halo_count = st.halo_count := by
  unfold calculate_spin_fields
  exact for_range_preserve (fun s : LSF K => s.halo_count) (calculate_spin_fields_atom c) (fun _ _ => rfl) _ _ _

@[simp] theorem calculate_external_fields_spin (c : Collab K) (start stop : Nat) (st : LSF K) :
    (calculate_external_fields c start stop st).spin = st.spin := by
  unfold calculate_external_fields
  exact for_range_preserve (fun s : LSF K => s.spin) (calculate_external_fields_atom c) (fun _ _ => rfl) _ _ _

@[simp] theorem calculate_external_fields_spin_field (c : Collab K) (start stop : Nat) (st : LSF K) :
    (calculate_external_fields c start stop st).spin_field = st.spin_field := by
  unfold calculate_external_fields
  exact for_range_preserve (fun s : LSF K => s.spin_field) (calculate_external_fields_atom c) (fun _ _ => rfl) _ _ _

@[simp] theorem calculate_external_fields_lsf (c : Collab K) (start stop : Nat) (st : LSF K) :
    (calculate_external_fields c start stop st).lsf = st.lsf := by
  unfold calculate_external_fields
  exact for_range_preserve (fun s : LSF K => s.lsf) (calculate_external_fields_atom c) (fun _ _ => rfl) _ _ _

@[simp] theorem calculate_external_fields_initial_spin (c : Collab K) (start stop : Nat) (st : LSF K) :
    (calculate_external_fields c start stop st).initial_spin = st.initial_spin := by
  unfold calculate_external_fields
  exact for_range_preserve (fun s : LSF K => s.initial_spin) (calculate_external_fields_atom c) (fun _ _ => rfl) _ _ _

@[simp] theorem calculate_external_fields_k1 (c : Collab K) (start stop : Nat) (st : LSF K) :
    (calculate_external_fields c start stop st).k1 = st.k1 := by
  unfold calculate_external_fields
  exact for_range_preserve (fun s : LSF K => s.k1) (calculate_external_fields_atom c) (fun _ _ => rfl) _ _ _

@[simp] theorem calculate_external_fields_k2 (c : Collab K) (start stop : Nat) (st : LSF K) :
    (calculate_external_fields c start stop st).k2 = st.k2 := by
  unfold calculate_external_fields
  exact for_range_preserve (fun s : LSF K => s.k2) (calculate_external_fields_atom c) (fun _ _ => rfl) _ _ _

@[simp] theorem calculate_external_fields_k3 (c : Collab K) (start stop : Nat) (st : LSF K) :
    (calculate_external_fields c start stop st).k3 = st.k3 := by
  unfold calculate_external_fields
  exact for_range_preserve (fun s : LSF K => s.k3) (calculate_external_fields_atom c) (fun _ _ => rfl) _ _ _

@[simp] theorem calculate_external_fields_k4 (c : Collab K) (start stop : Nat) (st : LSF K) :
    (calculate_external_fields c start stop st).k4 = st.k4 := by
  unfold calculate_external_fields
  exact for_range_preserve (fun s : LSF K => s.k4) (calculate_external_fields_atom c) (fun _ _ => rfl) _ _ _

@[simp] theorem calculate_external_fields_t (c : Collab K) (start stop : Nat) (st : LSF K) :
    (calculate_external_fields c start stop st).t = st.t := by
  unfold calculate_external_fields
  exact for_range_preserve (fun s : LSF K => s.t) (calculate_external_fields_atom c) (fun _ _ => rfl) _ _ _

@[simp] theorem calculate_external_fields_gaussian_count (c : Collab K) (start stop : Nat) (st : LSF K) :
    (calculate_external_fields c start stop st).gaussian_count = st.gaussian_count := by
  unfold calculate_external_fields
  exact for_range_preserve (fun s : LSF K => s.gaussian_count) (calculate_external_fields_atom c) (fun _ _ => rfl) _ _ _

@[simp] theorem calculate_external_fields_halo_count (c : Collab K) (start stop : Nat) (st : LSF K) :
    (calculate_external_fields c start stop st).halo_count = st.halo_count := by
  unfold calculate_external_fields
  exact for_range_preserve (fun s : LSF K => s.halo_count) (calculate_external_fields_atom c) (fun _ _ => rfl) _ _ _

@[simp] theorem calculate_lsf_rk4_field_spin (env : Env K) (start stop : Nat) (st : LSF K) :
    (calculate_lsf_rk4_field env start stop st).spin = st.spin := by
  unfold calculate_lsf_rk4_field
  exact for_range_preserve (fun s : LSF K => s.spin) (calculate_lsf_rk4_field_atom env) (fun _ _ => rfl) _ _ _

@[simp] theorem calculate_lsf_rk4_field_spin_field (env : Env K) (start stop : Nat) (st : LSF K) :
    (calculate_lsf_rk4_field env start stop st).spin_field = st.spin_field := by
  unfold calculate_lsf_rk4_field
  exact for_range_preserve (fun s : LSF K => s.spin_field) (calculate_lsf_rk4_field_atom env) (fun _ _ => rfl) _ _ _

@[simp] theorem calculate_lsf_rk4_field_external_field (env : Env K) (start stop : Nat) (st : LSF K) :
    (calculate_lsf_rk4_field env start stop st).external_field = st.external_field := by
  unfold calculate_lsf_rk4_field
  exact for_range_preserve (fun s : LSF K => s.external_field) (calculate_lsf_rk4_field_atom env) (fun _ _ => rfl) _ _ _

@[simp] theorem calculate_lsf_rk4_field_initial_spin (env : Env K) (start stop : Nat) (st : LSF K) :
    (calculate_lsf_rk4_field env start stop st).initial_spin = st.initial_spin := by
  unfold calculate_lsf_rk4_field
  exact for_range_preserve (fun s : LSF K => s.initial_spin) (calculate_lsf_rk4_field_atom env) (fun _ _ => rfl) _ _ _

@[simp] theorem calculate_lsf_rk4_field_k1 (env : Env K) (start stop : Nat) (st : LSF K) :
    (calculate_lsf_rk4_field env start stop st).k1 = st.k1 := by
  unfold calculate_lsf_rk4_field
  exact for_range_preserve (fun s : LSF K => s.k1) (calculate_lsf_rk4_field_atom env) (fun _ _ => rfl) _ _ _

@[simp] theorem calculate_lsf_rk4_field_k2 (env : Env K) (start stop : Nat) (st : LSF K) :
    (calculate_lsf_rk4_field env start stop st).k2 = st.k2 := by
  unfold calculate_lsf_rk4_field
  exact for_range_preserve (fun s : LSF K => s.k2) (calculate_lsf_rk4_field_atom env) (fun _ _ => rfl) _ _ _

@[simp] theorem calculate_lsf_rk4_field_k3 (env : Env K) (start stop : Nat) (st : LSF K) :
    (calculate_lsf_rk4_field env start stop st).k3 = st.k3 := by
  unfold calculate_lsf_rk4_field
  exact for_range_preserve (fun s : LSF K => s.k3) (calculate_lsf_rk4_field_atom env) (fun _ _ => rfl) _ _ _

@[simp] theorem calculate_lsf_rk4_field_k4 (env : Env K) (start stop : Nat) (st : LSF K) :
    (calculate_lsf_rk4_field env start stop st).k4 = st.k4 := by
  unfold calculate_lsf_rk4_field
  exact for_range_preserve (fun s : LSF K => s.k4) (calculate_lsf_rk4_field_atom env) (fun _ _ => rfl) _ _ _

@[simp] theorem calculate_lsf_rk4_field_t (env : Env K) (start stop : Nat) (st : LSF K) :
    (calculate_lsf_rk4_field env start stop st).t = st.t := by
  unfold calculate_lsf_rk4_field
  exact for_range_preserve (fun s : LSF K => s.t) (calculate_lsf_rk4_field_atom env) (fun _ _ => rfl) _ _ _

@[simp] theorem calculate_lsf_rk4_field_gaussian_count (env : Env K) (start stop : Nat) (st : LSF K) :
    (calculate_lsf_rk4_field env start stop st).gaussian_count = st.gaussian_count := by
  unfold calculate_lsf_rk4_field
  exact for_range_preserve (fun s : LSF K => s.gaussian_count) (calculate_lsf_rk4_field_atom env) (fun _ _ => rfl) _ _ _

@[simp] theorem calculate_lsf_rk4_field_halo_count (env : Env K) (start stop : Nat) (st : LSF K) :
    (calculate_lsf_rk4_field env start stop st).halo_count = st.halo_count := by
  unfold calculate_lsf_rk4_field
  exact for_range_preserve (fun s : LSF K => s.halo_count) (calculate_lsf_rk4_field_atom env) (fun _ _ => rfl) _ _ _

@[simp] theorem store_initial_spins_spin (start stop : Nat) (st : LSF K) :
    (store_initial_spins start stop st).spin = st.spin := by
  unfold store_initial_spins
  exact for_range_preserve (fun s : LSF K => s.spin) (store_initial_spin_atom) (fun _ _ => rfl) _ _ _

@[simp] theorem store_initial_spins_spin_field (start stop : Nat) (st : LSF K) :
    (store_initial_spins start stop st).spin_field = st.spin_field := by
  unfold store_initial_spins
  exact for_range_preserve (fun s : LSF K => s.spin_field) (store_initial_spin_atom) (fun _ _ => rfl) _ _ _

@[simp] theorem store_initial_spins_external_field (start stop : Nat) (st : LSF K) :
    (store_initial_spins start stop st).external_field = st.external_field := by
  unfold store_initial_spins
  exact for_range_preserve (fun s : LSF K => s.external_field) (store_initial_spin_atom) (fun _ _ => rfl) _ _ _

@[simp] theorem store_initial_spins_lsf (start stop : Nat) (st : LSF K) :
    (store_initial_spins start stop st).lsf = st.lsf := by
  unfold store_initial_spins
  exact for_range_preserve (fun s : LSF K => s.lsf) (store_initial_spin_atom) (fun _ _ => rfl) _ _ _

@[simp] theorem store_initial_spins_k1 (start stop : Nat) (st : LSF K) :
    (store_initial_spins start stop st).k1 = st.k1 := by
  unfold store_initial_spins
  exact for_range_preserve (fun s : LSF K => s.k1) (store_initial_spin_atom) (fun _ _ => rfl) _ _ _

@[simp] theorem store_initial_spins_k2 (start stop : Nat) (st : LSF K) :
    (store_initial_spins start stop st).k2 = st.k2 := by
  unfold store_initial_spins
  exact for_range_preserve (fun s : LSF K => s.k2) (store_initial_spin_atom) (fun _ _ => rfl) _ _ _

@[simp] theorem store_initial_spins_k3 (start stop : Nat) (st : LSF K) :
    (store_initial_spins start stop st).k3 = st.k3 := by
  unfold store_initial_spins
  exact for_range_preserve (fun s : LSF K => s.k3) (store_initial_spin_atom) (fun _ _ => rfl) _ _ _

@[simp] theorem store_initial_spins_k4 (start stop : Nat) (st : LSF K) :
    (store_initial_spins start stop st).k4 = st.k4 := by
  unfold store_initial_spins
  exact for_range_preserve (fun s : LSF K => s.k4) (store_initial_spin_atom) (fun _ _ => rfl) _ _ _

@[simp] theorem store_initial_spins_t (start stop : Nat) (st : LSF K) :
    (store_initial_spins start stop st).t = st.t := by
  unfold store_initial_spins
  exact for_range_preserve (fun s : LSF K => s.t) (store_initial_spin_atom) (fun _ _ => rfl) _ _ _

@[simp] theorem store_initial_spins_gaussian_count (start stop : Nat) (st : LSF K) :
    (store_initial_spins start stop st).gaussian_count = st.gaussian_count := by
  unfold store_initial_spins
  exact for_range_preserve (fun s : LSF K => s.gaussian_count) (store_initial_spin_atom) (fun _ _ => rfl) _ _ _

@[simp] theorem store_initial_spins_halo_count (start stop : Nat) (st : LSF K) :
    (store_initial_spins start stop st).halo_count = st.halo_count := by
  unfold store_initial_spins
  exact for_range_preserve (fun s : LSF K => s.halo_count) (store_initial_spin_atom) (fun _ _ => rfl) _ _ _

@[simp] theorem RK4_step_spin_field (start stop : Nat) (st : LSF K) :
    (RK4_step start stop st).spin_field = st.spin_field := by
  unfold RK4_step
  exact for_range_preserve (fun s : LSF K => s.spin_field) (RK4_step_atom) (fun _ _ => rfl) _ _ _

@[simp] theorem RK4_step_external_field (start stop : Nat) (st : LSF K) :
    (RK4_step start stop st).external_field = st.external_field := by
  unfold RK4_step
  exact for_range_preserve (fun s : LSF K => s.external_field) (RK4_step_atom) (fun _ _ => rfl) _ _ _

@[simp] theorem RK4_step_lsf (start stop : Nat) (st : LSF K) :
    (RK4_step start stop st).lsf = st.lsf := by
  unfold RK4_step
  exact for_range_preserve (fun s : LSF K => s.lsf) (RK4_step_atom) (fun _ _ => rfl) _ _ _

@[simp] theorem RK4_step_initial_spin (start stop : Nat) (st : LSF K) :
    (RK4_step start stop st).initial_spin = st.initial_spin := by
  unfold RK4_step
  exact for_range_preserve (fun s : LSF K => s.initial_spin) (RK4_step_atom) (fun _ _ => rfl) _ _ _

@[simp] theorem RK4_step_k1 (start stop : Nat) (st : LSF K) :
    (RK4_step start stop st).k1 = st.k1 := by
  unfold RK4_step
  exact for_range_preserve (fun s : LSF K => s.k1) (RK4_step_atom) (fun _ _ => rfl) _ _ _

@[simp] theorem RK4_step_k2 (start stop : Nat) (st : LSF K) :
    (RK4_step start stop st).k2 = st.k2 := by
  unfold RK4_step
  exact for_range_preserve (fun s : LSF K => s.k2) (RK4_step_atom) (fun _ _ => rfl) _ _ _

@[simp] theorem RK4_step_k3 (start stop : Nat) (st : LSF K) :
    (RK4_step start stop st).k3 = st.k3 := by
  unfold RK4_step
  exact for_range_preserve (fun s : LSF K => s.k3) (RK4_step_atom) (fun _ _ => rfl) _ _ _

@[simp] theorem RK4_step_k4 (start stop : Nat) (st : LSF K) :
    (RK4_step start stop st).k4 = st.k4 := by
  unfold RK4_step
  exact for_range_preserve (fun s : LSF K => s.k4) (RK4_step_atom) (fun _ _ => rfl) _ _ _

@[simp] theorem RK4_step_t (start stop : Nat) (st : LSF K) :
    (RK4_step start stop st).t = st.t := by
  unfold RK4_step
  exact for_range_preserve (fun s : LSF K => s.t) (RK4_step_atom) (fun _ _ => rfl) _ _ _

@[simp] theorem RK4_step_gaussian_count (start stop : Nat) (st : LSF K) :
    (RK4_step start stop st).gaussian_count = st.gaussian_count := by
  unfold RK4_step
  exact for_range_preserve (fun s : LSF K => s.gaussian_count) (RK4_step_atom) (fun _ _ => rfl) _ _ _

@[simp] theorem RK4_step_halo_count (start stop : Nat) (st : LSF K) :
    (RK4_step start stop st).halo_count = st.halo_count := by
  unfold RK4_step
  exact for_range_preserve (fun s : LSF K => s.halo_count) (RK4_step_atom) (fun _ _ => rfl) _ _ _

@[simp] theorem stage_loop_K1_spin_field (sqrt : K → K) (env : Env K) (sigma : K) (k : Nat) (start stop : Nat) (st : LSF K) :
    (stage_loop k start stop (K1_atom sqrt env sigma) st).spin_field = st.spin_field := by
  unfold stage_loop
  exact for_range_preserve (fun s : LSF K => s.spin_field) (K1_atom sqrt env sigma) (fun _ _ => rfl) _ _ _

@[simp] theorem stage_loop_K1_external_field (sqrt : K → K) (env : Env K) (sigma : K) (k : Nat) (start stop : Nat) (st : LSF K) :
    (stage_loop k start stop (K1_atom sqrt env sigma) st).external_field = st.external_field := by
  unfold stage_loop
  exact for_range_preserve (fun s : LSF K => s.external_field) (K1_atom sqrt env sigma) (fun _ _ => rfl) _ _ _

@[simp] theorem stage_loop_K1_lsf (sqrt : K → K) (env : Env K) (sigma : K) (k : Nat) (start stop : Nat) (st : LSF K) :
    (stage_loop k start stop (K1_atom sqrt env sigma) st).lsf = st.lsf := by
  unfold stage_loop
  exact for_range_preserve (fun s : LSF K => s.lsf) (K1_atom sqrt env sigma) (fun _ _ => rfl) _ _ _

@[simp] theorem stage_loop_K1_initial_spin (sqrt : K → K) (env : Env K) (sigma : K) (k : Nat) (start stop : Nat) (st : LSF K) :
    (stage_loop k start stop (K1_atom sqrt env sigma) st).initial_spin = st.initial_spin := by
  unfold stage_loop
  exact for_range_preserve (fun s : LSF K => s.initial_spin) (K1_atom sqrt env sigma) (fun _ _ => rfl) _ _ _

@[simp] theorem stage_loop_K1_k2 (sqrt : K → K) (env : Env K) (sigma : K) (k : Nat) (start stop : Nat) (st : LSF K) :
    (stage_loop k start stop (K1_atom sqrt env sigma) st).k2 = st.k2 := by
  unfold stage_loop
  exact for_range_preserve (fun s : LSF K => s.k2) (K1_atom sqrt env sigma) (fun _ _ => rfl) _ _ _

@[simp] theorem stage_loop_K1_k3 (sqrt : K → K) (env : Env K) (sigma : K) (k : Nat) (start stop : Nat) (st : LSF K) :
    (stage_loop k start stop (K1_atom sqrt env sigma) st).k3 = st.k3 := by
  unfold stage_loop
  exact for_range_preserve (fun s : LSF K => s.k3) (K1_atom sqrt env sigma) (fun _ _ => rfl) _ _ _

@[simp] theorem stage_loop_K1_k4 (sqrt : K → K) (env : Env K) (sigma : K) (k : Nat) (start stop : Nat) (st : LSF K) :
    (stage_loop k start stop (K1_atom sqrt env sigma) st).k4 = st.k4 := by
  unfold stage_loop
  exact for_range_preserve (fun s : LSF K => s.k4) (K1_atom sqrt env sigma) (fun _ _ => rfl) _ _ _

@[simp] theorem stage_loop_K1_t (sqrt : K → K) (env : Env K) (sigma : K) (k : Nat) (start stop : Nat) (st : LSF K) :
    (stage_loop k start stop (K1_atom sqrt env sigma) st).t = st.t := by
  unfold stage_loop
  exact for_range_preserve (fun s : LSF K => s.t) (K1_atom sqrt env sigma) (fun _ _ => rfl) _ _ _

@[simp] theorem stage_loop_K1_gaussian_count (sqrt : K → K) (env : Env K) (sigma : K) (k : Nat) (start stop : Nat) (st : LSF K) :
    (stage_loop k start stop (K1_atom sqrt env sigma) st).gaussian_count = st.gaussian_count := by
  unfold stage_loop
  exact for_range_preserve (fun s : LSF K => s.gaussian_count) (K1_atom sqrt env sigma) (fun _ _ => rfl) _ _ _

@[simp] theorem stage_loop_K1_halo_count (sqrt : K → K) (env : Env K) (sigma : K) (k : Nat) (start stop : Nat) (st : LSF K) :
    (stage_loop k start stop (K1_atom sqrt env sigma) st).halo_count = st.halo_count := by
  unfold stage_loop
  exact for_range_preserve (fun s : LSF K => s.halo_count) (K1_atom sqrt env sigma) (fun _ _ => rfl) _ _ _

@[simp] theorem stage_loop_K2_spin_field (sqrt : K → K) (env : Env K) (sigma : K) (k : Nat) (start stop : Nat) (st : LSF K) :
    (stage_loop k start stop (K2_atom sqrt env sigma) st).spin_field = st.spin_field := by
  unfold stage_loop
  exact for_range_preserve (fun s : LSF K => s.spin_field) (K2_atom sqrt env sigma) (fun _ _ => rfl) _ _ _

@[simp] theorem stage_loop_K2_external_field (sqrt : K → K) (env : Env K) (sigma : K) (k : Nat) (start stop : Nat) (st : LSF K) :
    (stage_loop k start stop (K2_atom sqrt env sigma) st).external_field = st.external_field := by
  unfold stage_loop
  exact for_range_preserve (fun s : LSF K => s.external_field) (K2_atom sqrt env sigma) (fun _ _ => rfl) _ _ _

@[simp] theorem stage_loop_K2_lsf (sqrt : K → K) (env : Env K) (sigma : K) (k : Nat) (start stop : Nat) (st : LSF K) :
    (stage_loop k start stop (K2_atom sqrt env sigma) st).lsf = st.lsf := by
  unfold stage_loop
  exact for_range_preserve (fun s : LSF K => s.lsf) (K2_atom sqrt env sigma) (fun _ _ => rfl) _ _ _

@[simp] theorem stage_loop_K2_initial_spin (sqrt : K → K) (env : Env K) (sigma : K) (k : Nat) (start stop : Nat) (st : LSF K) :
    (stage_loop k start stop (K2_atom sqrt env sigma) st).initial_spin = st.initial_spin := by
  unfold stage_loop
  exact for_range_preserve (fun s : LSF K => s.initial_spin) (K2_atom sqrt env sigma) (fun _ _ => rfl) _ _ _

@[simp] theorem stage_loop_K2_k1 (sqrt : K → K) (env : Env K) (sigma : K) (k : Nat) (start stop : Nat) (st : LSF K) :
    (stage_loop k start stop (K2_atom sqrt env sigma) st).k1 = st.k1 := by
  unfold stage_loop
  exact for_range_preserve (fun s : LSF K => s.k1) (K2_atom sqrt env sigma) (fun _ _ => rfl) _ _ _

@[simp] theorem stage_loop_K2_k3 (sqrt : K → K) (env : Env K) (sigma : K) (k : Nat) (start stop : Nat) (st : LSF K) :
    (stage_loop k start stop (K2_atom sqrt env sigma) st).k3 = st.k3 := by
  unfold stage_loop
  exact for_range_preserve (fun s : LSF K => s.k3) (K2_atom sqrt env sigma) (fun _ _ => rfl) _ _ _

@[simp] theorem stage_loop_K2_k4 (sqrt : K → K) (env : Env K) (sigma : K) (k : Nat) (start stop : Nat) (st : LSF K) :
    (stage_loop k start stop (K2_atom sqrt env sigma) st).k4 = st.k4 := by
  unfold stage_loop
  exact for_range_preserve (fun s : LSF K => s.k4) (K2_atom sqrt env sigma) (fun _ _ => rfl) _ _ _

@[simp] theorem stage_loop_K2_t (sqrt : K → K) (env : Env K) (sigma : K) (k : Nat) (start stop : Nat) (st : LSF K) :
    (stage_loop k start stop (K2_atom sqrt env sigma) st).t = st.t := by
  unfold stage_loop
  exact for_range_preserve (fun s : LSF K => s.t) (K2_atom sqrt env sigma) (fun _ _ => rfl) _ _ _

@[simp] theorem stage_loop_K2_gaussian_count (sqrt : K → K) (env : Env K) (sigma : K) (k : Nat) (start stop : Nat) (st : LSF K) :
    (stage_loop k start stop (K2_atom sqrt env sigma) st).gaussian_count = st.gaussian_count := by
  unfold stage_loop
  exact for_range_preserve (fun s : LSF K => s.gaussian_count) (K2_atom sqrt env sigma) (fun _ _ => rfl) _ _ _

@[simp] theorem stage_loop_K2_halo_count (sqrt : K → K) (env : Env K) (sigma : K) (k : Nat) (start stop : Nat) (st : LSF K) :
    (stage_loop k start stop (K2_atom sqrt env sigma) st).halo_count = st.halo_count := by
  unfold stage_loop
  exact for_range_preserve (fun s : LSF K => s.halo_count) (K2_atom sqrt env sigma) (fun _ _ => rfl) _ _ _

@[simp] theorem stage_loop_K3_spin_field (sqrt : K → K) (env : Env K) (sigma : K) (k : Nat) (start stop : Nat) (st : LSF K) :
    (stage_loop k start stop (K3_atom sqrt env sigma) st).spin_field = st.spin_field := by
  unfold stage_loop
  exact for_range_preserve (fun s : LSF K => s.spin_field) (K3_atom sqrt env sigma) (fun _ _ => rfl) _ _ _

@[simp] theorem stage_loop_K3_external_field (sqrt : K → K) (env : Env K) (sigma : K) (k : Nat) (start stop : Nat) (st : LSF K) :
    (stage_loop k start stop (K3_atom sqrt env sigma) st).external_field = st.external_field := by
  unfold stage_loop
  exact for_range_preserve (fun s : LSF K => s.external_field) (K3_atom sqrt env sigma) (fun _ _ => rfl) _ _ _

@[simp] theorem stage_loop_K3_lsf (sqrt : K → K) (env : Env K) (sigma : K) (k : Nat) (start stop : Nat) (st : LSF K) :
    (stage_loop k start stop (K3_atom sqrt env sigma) st).lsf = st.lsf := by
  unfold stage_loop
  exact for_range_preserve (fun s : LSF K => s.lsf) (K3_atom sqrt env sigma) (fun _ _ => rfl) _ _ _

@[simp] theorem stage_loop_K3_initial_spin (sqrt : K → K) (env : Env K) (sigma : K) (k : Nat) (start stop : Nat) (st : LSF K) :
    (stage_loop k start stop (K3_atom sqrt env sigma) st).initial_spin = st.initial_spin := by
  unfold stage_loop
  exact for_range_preserve (fun s : LSF K => s.initial_spin) (K3_atom sqrt env sigma) (fun _ _ => rfl) _ _ _

@[simp] theorem stage_loop_K3_k1 (sqrt : K → K) (env : Env K) (sigma : K) (k : Nat) (start stop : Nat) (st : LSF K) :
    (stage_loop k start stop (K3_atom sqrt env sigma) st).k1 = st.k1 := by
  unfold stage_loop
  exact for_range_preserve (fun s : LSF K => s.k1) (K3_atom sqrt env sigma) (fun _ _ => rfl) _ _ _

@[simp] theorem stage_loop_K3_k2 (sqrt : K → K) (env : Env K) (sigma : K) (k : Nat) (start stop : Nat) (st : LSF K) :
    (stage_loop k start stop (K3_atom sqrt env sigma) st).k2 = st.k2 := by
  unfold stage_loop
  exact for_range_preserve (fun s : LSF K => s.k2) (K3_atom sqrt env sigma) (fun _ _ => rfl) _ _ _

@[simp] theorem stage_loop_K3_k4 (sqrt : K → K) (env : Env K) (sigma : K) (k : Nat) (start stop : Nat) (st : LSF K) :
    (stage_loop k start stop (K3_atom sqrt env sigma) st).k4 = st.k4 := by
  unfold stage_loop
  exact for_range_preserve (fun s : LSF K => s.k4) (K3_atom sqrt env sigma) (fun _ _ => rfl) _ _ _

@[simp] theorem stage_loop_K3_t (sqrt : K → K) (env : Env K) (sigma : K) (k : Nat) (start stop : Nat) (st : LSF K) :
    (stage_loop k start stop (K3_atom sqrt env sigma) st).t = st.t := by
  unfold stage_loop
  exact for_range_preserve (fun s : LSF K => s.t) (K3_atom sqrt env sigma) (fun _ _ => rfl) _ _ _

@[simp] theorem stage_loop_K3_gaussian_count (sqrt : K → K) (env : Env K) (sigma : K) (k : Nat) (start stop : Nat) (st : LSF K) :
    (stage_loop k start stop (K3_atom sqrt env sigma) st).gaussian_count = st.gaussian_count := by
  unfold stage_loop
  exact for_range_preserve (fun s : LSF K => s.gaussian_count) (K3_atom sqrt env sigma) (fun _ _ => rfl) _ _ _

@[simp] theorem stage_loop_K3_halo_count (sqrt : K → K) (env : Env K) (sigma : K) (k : Nat) (start stop : Nat) (st : LSF K) :
    (stage_loop k start stop (K3_atom sqrt env sigma) st).halo_count = st.halo_count := by
  unfold stage_loop
  exact for_range_preserve (fun s : LSF K => s.halo_count) (K3_atom sqrt env sigma) (fun _ _ => rfl) _ _ _

@[simp] theorem stage_loop_K4_spin (sqrt : K → K) (env : Env K) (sigma : K) (k : Nat) (start stop : Nat) (st : LSF K) :
    (stage_loop k start stop (K4_atom sqrt env sigma) st).spin = st.spin := by
  unfold stage_loop
  exact for_range_preserve (fun s : LSF K => s.spin) (K4_atom sqrt env sigma) (fun _ _ => rfl) _ _ _

@[simp] theorem stage_loop_K4_spin_field (sqrt : K → K) (env : Env K) (sigma : K) (k : Nat) (start stop : Nat) (st : LSF K) :
    (stage_loop k start stop (K4_atom sqrt env sigma) st).spin_field = st.spin_field := by
  unfold stage_loop
  exact for_range_preserve (fun s : LSF K => s.spin_field) (K4_atom sqrt env sigma) (fun _ _ => rfl) _ _ _

@[simp] theorem stage_loop_K4_external_field (sqrt : K → K) (env : Env K) (sigma : K) (k : Nat) (start stop : Nat) (st : LSF K) :
    (stage_loop k start stop (K4_atom sqrt env sigma) st).external_field = st.external_field := by
  unfold stage_loop
  exact for_range_preserve (fun s : LSF K => s.external_field) (K4_atom sqrt env sigma) (fun _ _ => rfl) _ _ _

@[simp] theorem stage_loop_K4_lsf (sqrt : K → K) (env : Env K) (sigma : K) (k : Nat) (start stop : Nat) (st : LSF K) :
    (stage_loop k start stop (K4_atom sqrt env sigma) st).lsf = st.lsf := by
  unfold stage_loop
  exact for_range_preserve (fun s : LSF K => s.lsf) (K4_atom sqrt env sigma) (fun _ _ => rfl) _ _ _

@[simp] theorem stage_loop_K4_initial_spin (sqrt : K → K) (env : Env K) (sigma : K) (k : Nat) (start stop : Nat) (st : LSF K) :
    (stage_loop k start stop (K4_atom sqrt env sigma) st).initial_spin = st.initial_spin := by
  unfold stage_loop
  exact for_range_preserve (fun s : LSF K => s.initial_spin) (K4_atom sqrt env sigma) (fun _ _ => rfl) _ _ _

@[simp] theorem stage_loop_K4_k1 (sqrt : K → K) (env : Env K) (sigma : K) (k : Nat) (start stop : Nat) (st : LSF K) :
    (stage_loop k start stop (K4_atom sqrt env sigma) st).k1 = st.k1 := by
  unfold stage_loop
  exact for_range_preserve (fun s : LSF K => s.k1) (K4_atom sqrt env sigma) (fun _ _ => rfl) _ _ _

@[simp] theorem stage_loop_K4_k2 (sqrt : K → K) (env : Env K) (sigma : K) (k : Nat) (start stop : Nat) (st : LSF K) :
    (stage_loop k start stop (K4_atom sqrt env sigma) st).k2 = st.k2 := by
  unfold stage_loop
  exact for_range_preserve (fun s : LSF K => s.k2) (K4_atom sqrt env sigma) (fun _ _ => rfl) _ _ _

@[simp] theorem stage_loop_K4_k3 (sqrt : K → K) (env : Env K) (sigma : K) (k : Nat) (start stop : Nat) (st : LSF K) :
    (stage_loop k start stop (K4_atom sqrt env sigma) st).k3 = st.k3 := by
  unfold stage_loop
  exact for_range_preserve (fun s : LSF K => s.k3) (K4_atom sqrt env sigma) (fun _ _ => rfl) _ _ _

@[simp] theorem stage_loop_K4_t (sqrt : K → K) (env : Env K) (sigma : K) (k : Nat) (start stop : Nat) (st : LSF K) :
    (stage_loop k start stop (K4_atom sqrt env sigma) st).t = st.t := by
  unfold stage_loop
  exact for_range_preserve (fun s : LSF K => s.t) (K4_atom sqrt env sigma) (fun _ _ => rfl) _ _ _

@[simp] theorem stage_loop_K4_gaussian_count (sqrt : K → K) (env : Env K) (sigma : K) (k : Nat) (start stop : Nat) (st : LSF K) :
    (stage_loop k start stop (K4_atom sqrt env sigma) st).gaussian_count = st.gaussian_count := by
  unfold stage_loop
  exact for_range_preserve (fun s : LSF K => s.gaussian_count) (K4_atom sqrt env sigma) (fun _ _ => rfl) _ _ _

@[simp] theorem stage_loop_K4_halo_count (sqrt : K → K) (env : Env K) (sigma : K) (k : Nat) (start stop : Nat) (st : LSF K) :
    (stage_loop k start stop (K4_atom sqrt env sigma) st).halo_count = st.halo_count := by
  unfold stage_loop
  exact for_range_preserve (fun s : LSF K => s.halo_count) (K4_atom sqrt env sigma) (fun _ _ => rfl) _ _ _

@[simp] theorem generate_noise_spin (c : Collab K) (start stop : Nat) (st : LSF K) :
    (generate_noise c start stop st).spin = st.spin := by
  unfold generate_noise
  exact ((for_range_preserve (fun s : LSF K => s.spin) (generate_tz_atom c) (fun _ _ => rfl)
    _ _ _).trans
    ((for_range_preserve (fun s : LSF K => s.spin) (generate_ty_atom c) (fun _ _ => rfl)
      _ _ _).trans
    (for_range_preserve (fun s : LSF K => s.spin) (generate_tx_atom c) (fun _ _ => rfl)
      _ _ _)))

@[simp] theorem generate_noise_spin_field (c : Collab K) (start stop : Nat) (st : LSF K) :
    (generate_noise c start stop st).spin_field = st.spin_field := by
  unfold generate_noise
  exact ((for_range_preserve (fun s : LSF K => s.spin_field) (generate_tz_atom c) (fun _ _ => rfl)
    _ _ _).trans
    ((for_range_preserve (fun s : LSF K => s.spin_field) (generate_ty_atom c) (fun _ _ => rfl)
      _ _ _).trans
    (for_range_preserve (fun s : LSF K => s.spin_field) (generate_tx_atom c) (fun _ _ => rfl)
      _ _ _)))

@[simp] theorem generate_noise_external_field (c : Collab K) (start stop : Nat) (st : LSF K) :
    (generate_noise c start stop st).external_field = st.external_field := by
  unfold generate_noise
  exact ((for_range_preserve (fun s : LSF K => s.external_field) (generate_tz_atom c) (fun _ _ => rfl)
    _ _ _).trans
    ((for_range_preserve (fun s : LSF K => s.external_field) (generate_ty_atom c) (fun _ _ => rfl)
      _ _ _).trans
    (for_range_preserve (fun s : LSF K => s.external_field) (generate_tx_atom c) (fun _ _ => rfl)
      _ _ _)))

@[simp] theorem generate_noise_lsf (c : Collab K) (start stop : Nat) (st : LSF K) :
    (generate_noise c start stop st).lsf = st.lsf := by
  unfold generate_noise
  exact ((for_range_preserve (fun s : LSF K => s.lsf) (generate_tz_atom c) (fun _ _ => rfl)
    _ _ _).trans
    ((for_range_preserve (fun s : LSF K => s.lsf) (generate_ty_atom c) (fun _ _ => rfl)
      _ _ _).trans
    (for_range_preserve (fun s : LSF K => s.lsf) (generate_tx_atom c) (fun _ _ => rfl)
      _ _ _)))

@[simp] theorem generate_noise_initial_spin (c : Collab K) (start stop : Nat) (st : LSF K) :
    (generate_noise c start stop st).initial_spin = st.initial_spin := by
  unfold generate_noise
  exact ((for_range_preserve (fun s : LSF K => s.initial_spin) (generate_tz_atom c) (fun _ _ => rfl)
    _ _ _).trans
    ((for_range_preserve (fun s : LSF K => s.initial_spin) (generate_ty_atom c) (fun _ _ => rfl)
      _ _ _).trans
    (for_range_preserve (fun s : LSF K => s.initial_spin) (generate_tx_atom c) (fun _ _ => rfl)
      _ _ _)))

@[simp] theorem generate_noise_k1 (c : Collab K) (start stop : Nat) (st : LSF K) :
    (generate_noise c start stop st).k1 = st.k1 := by
  unfold generate_noise
  exact ((for_range_preserve (fun s : LSF K => s.k1) (generate_tz_atom c) (fun _ _ => rfl)
    _ _ _).trans
    ((for_range_preserve (fun s : LSF K => s.k1) (generate_ty_atom c) (fun _ _ => rfl)
      _ _ _).trans
    (for_range_preserve (fun s : LSF K => s.k1) (generate_tx_atom c) (fun _ _ => rfl)
      _ _ _)))

@[simp] theorem generate_noise_k2 (c : Collab K) (start stop : Nat) (st : LSF K) :
    (generate_noise c start stop st).k2 = st.k2 := by
  unfold generate_noise
  exact ((for_range_preserve (fun s : LSF K => s.k2) (generate_tz_atom c) (fun _ _ => rfl)
    _ _ _).trans
    ((for_range_preserve (fun s : LSF K => s.k2) (generate_ty_atom c) (fun _ _ => rfl)
      _ _ _).trans
    (for_range_preserve (fun s : LSF K => s.k2) (generate_tx_atom c) (fun _ _ => rfl)
      _ _ _)))

@[simp] theorem generate_noise_k3 (c : Collab K) (start stop : Nat) (st : LSF K) :
    (generate_noise c start stop st).k3 = st.k3 := by
  unfold generate_noise
  exact ((for_range_preserve (fun s : LSF K => s.k3) (generate_tz_atom c) (fun _ _ => rfl)
    _ _ _).trans
    ((for_range_preserve (fun s : LSF K => s.k3) (generate_ty_atom c) (fun _ _ => rfl)
      _ _ _).trans
    (for_range_preserve (fun s : LSF K => s.k3) (generate_tx_atom c) (fun _ _ => rfl)
      _ _ _)))

@[simp] theorem generate_noise_k4 (c : Collab K) (start stop : Nat) (st : LSF K) :
    (generate_noise c start stop st).k4 = st.k4 := by
  unfold generate_noise
  exact ((for_range_preserve (fun s : LSF K => s.k4) (generate_tz_atom c) (fun _ _ => rfl)
    _ _ _).trans
    ((for_range_preserve (fun s : LSF K => s.k4) (generate_ty_atom c) (fun _ _ => rfl)
      _ _ _).trans
    (for_range_preserve (fun s : LSF K => s.k4) (generate_tx_atom c) (fun _ _ => rfl)
      _ _ _)))

@[simp] theorem generate_noise_halo_count (c : Collab K) (start stop : Nat) (st : LSF K) :
    (generate_noise c start stop st).halo_count = st.halo_count := by
  unfold generate_noise
  exact ((for_range_preserve (fun s : LSF K => s.halo_count) (generate_tz_atom c) (fun _ _ => rfl)
    _ _ _).trans
    ((for_range_preserve (fun s : LSF K => s.halo_count) (generate_ty_atom c) (fun _ _ => rfl)
      _ _ _).trans
    (for_range_preserve (fun s : LSF K => s.halo_count) (generate_tx_atom c) (fun _ _ => rfl)
      _ _ _)))

theorem calculate_spin_fields_spin_field (c : Collab K) (start stop : Nat) (st : LSF K)
    (j : Nat) :
    (calculate_spin_fields c start stop st).spin_field j
      = if start ≤ j ∧ j < stop then
          ⟨c.spin_field_x st.x_spin_array st.y_spin_array st.z_spin_array j,
           c.spin_field_y st.x_spin_array st.y_spin_array st.z_spin_array j,
           c.spin_field_z st.x_spin_array st.y_spin_array st.z_spin_array j⟩
        else st.spin_field j := by
  have h := for_range_slice
    (fun j (s : LSF K) => (s.spin_field j, s.x_spin_array, s.y_spin_array, s.z_spin_array))
    (calculate_spin_fields_atom c)
    (fun j p => ((⟨c.spin_field_x p.2.1 p.2.2.1 p.2.2.2 j, c.spin_field_y p.2.1 p.2.2.1 p.2.2.2 j,
      c.spin_field_z p.2.1 p.2.2.1 p.2.2.2 j⟩ : Vec3 K), p.2.1, p.2.2.1, p.2.2.2))
    (fun i j s hji => by
      simp [calculate_spin_fields_atom, LSF.spin_field, Function.update_noteq hji])
    (fun i s => by
      simp [calculate_spin_fields_atom, LSF.spin_field])
    start stop st j
  have h1 := congrArg Prod.fst h
  simp only [] at h1
  unfold calculate_spin_fields
  rw [LSF.log_spin_field, h1]
  split_ifs <;> rfl

theorem calculate_external_fields_external_field (c : Collab K) (start stop : Nat)
    (st : LSF K) (j : Nat) :
    (calculate_external_fields c start stop st).external_field j
      = if start ≤ j ∧ j < stop then
          ⟨c.external_field_x j, c.external_field_y j, c.external_field_z j⟩
        else st.external_field j := by
  have h := for_range_slice (fun j (s : LSF K) => s.external_field j)
    (calculate_external_fields_atom c)
    (fun j _ => (⟨c.external_field_x j, c.external_field_y j, c.external_field_z j⟩ : Vec3 K))
    (fun i j s hji => by
      simp [calculate_external_fields_atom, LSF.external_field, Function.update_noteq hji])
    (fun i s => by
      simp [calculate_external_fields_atom, LSF.external_field])
    start stop st j
  unfold calculate_external_fields
  rw [LSF.log_external_field, h]

theorem calculate_lsf_rk4_field_lsf (env : Env K) (start stop : Nat) (st : LSF K) (j : Nat) :
    (calculate_lsf_rk4_field env start stop st).lsf j
      = if start ≤ j ∧ j < stop then lsf_field_value env j (st.spin j) else st.lsf j := by
  have h := for_range_slice (fun j (s : LSF K) => (s.lsf j, s.spin j))
    (calculate_lsf_rk4_field_atom env)
    (fun j p => (lsf_field_value env j p.2, p.2))
    (fun i j s hji => by
      simp [calculate_lsf_rk4_field_atom, LSF.lsf, LSF.spin, Function.update_noteq hji])
    (fun i s => by
      simp [calculate_lsf_rk4_field_atom, LSF.lsf, LSF.spin, lsf_field_value])
    start stop st j
  have h1 := congrArg Prod.fst h
  simp only [] at h1
  unfold calculate_lsf_rk4_field
  rw [LSF.log_lsf, h1]
  split_ifs <;> rfl

theorem store_initial_spins_initial_spin (start stop : Nat) (st : LSF K) (j : Nat) :
    (store_initial_spins start stop st).initial_spin j
      = if start ≤ j ∧ j < stop then st.spin j else st.initial_spin j := by
  have h := for_range_slice (fun j (s : LSF K) => (s.initial_spin j, s.spin j))
    store_initial_spin_atom
    (fun _ p => (p.2, p.2))
    (fun i j s hji => by
      simp [store_initial_spin_atom, LSF.initial_spin, LSF.spin, Function.update_noteq hji])
    (fun i s => by
      simp [store_initial_spin_atom, LSF.initial_spin, LSF.spin])
    start stop st j
  have h1 := congrArg Prod.fst h
  simp only [] at h1
  unfold store_initial_spins
  rw [LSF.log_initial_spin, h1]
  split_ifs <;> rfl

/-- The combination `initial + (1.0/6.0) (k1 + 2 k2 + 2 k3 + k4)` of "Calculate RK4 Step". -/
theorem RK4_step_spin (start stop : Nat) (st : LSF K) (j : Nat) :
    (RK4_step start stop st).spin j
      = if start ≤ j ∧ j < stop then
          Vec3.add (st.initial_spin j) (Vec3.smul (1.0 / 6.0)
            (Vec3.add (Vec3.add (Vec3.add (st.k1 j) (Vec3.smul 2.0 (st.k2 j)))
              (Vec3.smul 2.0 (st.k3 j))) (st.k4 j)))
        else st.spin j := by
  have h := for_range_slice
    (fun j (s : LSF K) => (s.spin j, s.initial_spin j, s.k1 j, s.k2 j, s.k3 j, s.k4 j))
    RK4_step_atom
    (fun _ p => (Vec3.add p.2.1 (Vec3.smul (1.0 / 6.0)
      (Vec3.add (Vec3.add (Vec3.add p.2.2.1 (Vec3.smul 2.0 p.2.2.2.1))
        (Vec3.smul 2.0 p.2.2.2.2.1)) p.2.2.2.2.2)), p.2))
    (fun i j s hji => by
      simp [RK4_step_atom, LSF.spin, LSF.initial_spin, LSF.k1, LSF.k2, LSF.k3, LSF.k4,
        Function.update_noteq hji])
    (fun i s => by
      simp [RK4_step_atom, LSF.spin, LSF.initial_spin, LSF.k1, LSF.k2, LSF.k3, LSF.k4,
        Vec3.add, Vec3.smul])
    start stop st j
  have h1 := congrArg Prod.fst h
  simp only [] at h1
  unfold RK4_step
  rw [LSF.log_spin, h1]
  split_ifs <;> rfl

theorem stage_loop_K1_slice (sqrt : K → K) (env : Env K) (sigma : K) (k start stop : Nat)
    (st : LSF K) (j : Nat) :
    (fun (s : LSF K) => (s.spin j, s.spin_field j, s.external_field j, s.lsf j, s.t j, s.k1 j))
        (stage_loop k start stop (K1_atom sqrt env sigma) st)
      = if start ≤ j ∧ j < stop then
          (fun (p : Vec3 K × Vec3 K × Vec3 K × Vec3 K × Vec3 K × Vec3 K) =>
            (Vec3.add p.1 (Vec3.smul 0.5 (RK4_increment sqrt env sigma j p.1 (Vec3.add (Vec3.add p.2.1 p.2.2.1) p.2.2.2.1)
      p.2.2.2.2.1.x p.2.2.2.2.1.y p.2.2.2.2.1.z)),
             p.2.1, p.2.2.1, p.2.2.2.1, p.2.2.2.2.1,
             RK4_increment sqrt env sigma j p.1 (Vec3.add (Vec3.add p.2.1 p.2.2.1) p.2.2.2.1)
      p.2.2.2.2.1.x p.2.2.2.2.1.y p.2.2.2.2.1.z))
            (st.spin j, st.spin_field j, st.external_field j, st.lsf j, st.t j, st.k1 j)
        else (st.spin j, st.spin_field j, st.external_field j, st.lsf j, st.t j, st.k1 j) := by
  have h := for_range_slice
    (fun j (s : LSF K) =>
      (s.spin j, s.spin_field j, s.external_field j, s.lsf j, s.t j, s.k1 j))
    (K1_atom sqrt env sigma)
    (fun j (p : Vec3 K × Vec3 K × Vec3 K × Vec3 K × Vec3 K × Vec3 K) =>
      (Vec3.add p.1 (Vec3.smul 0.5 (RK4_increment sqrt env sigma j p.1 (Vec3.add (Vec3.add p.2.1 p.2.2.1) p.2.2.2.1)
      p.2.2.2.2.1.x p.2.2.2.2.1.y p.2.2.2.2.1.z)),
       p.2.1, p.2.2.1, p.2.2.2.1, p.2.2.2.2.1,
       RK4_increment sqrt env sigma j p.1 (Vec3.add (Vec3.add p.2.1 p.2.2.1) p.2.2.2.1)
      p.2.2.2.2.1.x p.2.2.2.2.1.y p.2.2.2.2.1.z))
    (fun i j s hji => by
      simp [K1_atom, LSF.spin, LSF.spin_field, LSF.external_field, LSF.lsf, LSF.t, LSF.k1,
        Function.update_noteq hji])
    (fun i s => by
      simp [K1_atom, LSF.spin, LSF.spin_field, LSF.external_field, LSF.lsf, LSF.t, LSF.k1,
        local_S, local_H, Vec3.add, Vec3.smul])
    start stop st j
  exact h

theorem stage_loop_K1_k1 (sqrt : K → K) (env : Env K) (sigma : K) (k start stop : Nat)
    (st : LSF K) (j : Nat) :
    (stage_loop k start stop (K1_atom sqrt env sigma) st).k1 j
      = if start ≤ j ∧ j < stop then
          RK4_increment sqrt env sigma j (st.spin j)
            (Vec3.add (Vec3.add (st.spin_field j) (st.external_field j)) (st.lsf j))
            (st.t j).x (st.t j).y (st.t j).z
        else st.k1 j := by
  have h := congrArg (fun q => q.2.2.2.2.2)
    (stage_loop_K1_slice sqrt env sigma k start stop st j)
  simp only [] at h
  rw [h]
  split_ifs <;> rfl

theorem stage_loop_K1_spin (sqrt : K → K) (env : Env K) (sigma : K) (k start stop : Nat)
    (st : LSF K) (j : Nat) :
    (stage_loop k start stop (K1_atom sqrt env sigma) st).spin j
      = if start ≤ j ∧ j < stop then
          Vec3.add (st.spin j) (Vec3.smul 0.5 (RK4_increment sqrt env sigma j (st.spin j)
            (Vec3.add (Vec3.add (st.spin_field j) (st.external_field j)) (st.lsf j))
            (st.t j).x (st.t j).y (st.t j).z))
        else st.spin j := by
  have h := congrArg (fun q => q.1)
    (stage_loop_K1_slice sqrt env sigma k start stop st j)
  simp only [] at h
  rw [h]
  split_ifs <;> rfl

theorem stage_loop_K2_slice (sqrt : K → K) (env : Env K) (sigma : K) (k start stop : Nat)
    (st : LSF K) (j : Nat) :
    (fun (s : LSF K) => (s.spin j, s.spin_field j, s.external_field j, s.lsf j, s.t j, s.k2 j))
        (stage_loop k start stop (K2_atom sqrt env sigma) st)
      = if start ≤ j ∧ j < stop then
          (fun (p : Vec3 K × Vec3 K × Vec3 K × Vec3 K × Vec3 K × Vec3 K) =>
            (Vec3.add p.1 (Vec3.smul 0.5 (RK4_increment sqrt env sigma j p.1 (Vec3.add (Vec3.add p.2.1 p.2.2.1) p.2.2.2.1)
      p.2.2.2.2.1.x p.2.2.2.2.1.y p.2.2.2.2.1.z)),
             p.2.1, p.2.2.1, p.2.2.2.1, p.2.2.2.2.1,
             RK4_increment sqrt env sigma j p.1 (Vec3.add (Vec3.add p.2.1 p.2.2.1) p.2.2.2.1)
      p.2.2.2.2.1.x p.2.2.2.2.1.y p.2.2.2.2.1.z))
            (st.spin j, st.spin_field j, st.external_field j, st.lsf j, st.t j, st.k2 j)
        else (st.spin j, st.spin_field j, st.external_field j, st.lsf j, st.t j, st.k2 j) := by
  have h := for_range_slice
    (fun j (s : LSF K) =>
      (s.spin j, s.spin_field j, s.external_field j, s.lsf j, s.t j, s.k2 j))
    (K2_atom sqrt env sigma)
    (fun j (p : Vec3 K × Vec3 K × Vec3 K × Vec3 K × Vec3 K × Vec3 K) =>
      (Vec3.add p.1 (Vec3.smul 0.5 (RK4_increment sqrt env sigma j p.1 (Vec3.add (Vec3.add p.2.1 p.2.2.1) p.2.2.2.1)
      p.2.2.2.2.1.x p.2.2.2.2.1.y p.2.2.2.2.1.z)),
       p.2.1, p.2.2.1, p.2.2.2.1, p.2.2.2.2.1,
       RK4_increment sqrt env sigma j p.1 (Vec3.add (Vec3.add p.2.1 p.2.2.1) p.2.2.2.1)
      p.2.2.2.2.1.x p.2.2.2.2.1.y p.2.2.2.2.1.z))
    (fun i j s hji => by
      simp [K2_atom, LSF.spin, LSF.spin_field, LSF.external_field, LSF.lsf, LSF.t, LSF.k2,
        Function.update_noteq hji])
    (fun i s => by
      simp [K2_atom, LSF.spin, LSF.spin_field, LSF.external_field, LSF.lsf, LSF.t, LSF.k2,
        local_S, local_H, Vec3.add, Vec3.smul])
    start stop st j
  exact h

theorem stage_loop_K2_k2 (sqrt : K → K) (env : Env K) (sigma : K) (k start stop : Nat)
    (st : LSF K) (j : Nat) :
    (stage_loop k start stop (K2_atom sqrt env sigma) st).k2 j
      = if start ≤ j ∧ j < stop then
          RK4_increment sqrt env sigma j (st.spin j)
            (Vec3.add (Vec3.add (st.spin_field j) (st.external_field j)) (st.lsf j))
            (st.t j).x (st.t j).y (st.t j).z
        else st.k2 j := by
  have h := congrArg (fun q => q.2.2.2.2.2)
    (stage_loop_K2_slice sqrt env sigma k start stop st j)
  simp only [] at h
  rw [h]
  split_ifs <;> rfl

theorem stage_loop_K2_spin (sqrt : K → K) (env : Env K) (sigma : K) (k start stop : Nat)
    (st : LSF K) (j : Nat) :
    (stage_loop k start stop (K2_atom sqrt env sigma) st).spin j
      = if start ≤ j ∧ j < stop then
          Vec3.add (st.spin j) (Vec3.smul 0.5 (RK4_increment sqrt env sigma j (st.spin j)
            (Vec3.add (Vec3.add (st.spin_field j) (st.external_field j)) (st.lsf j))
            (st.t j).x (st.t j).y (st.t j).z))
        else st.spin j := by
  have h := congrArg (fun q => q.1)
    (stage_loop_K2_slice sqrt env sigma k start stop st j)
  simp only [] at h
  rw [h]
  split_ifs <;> rfl

theorem stage_loop_K3_slice (sqrt : K → K) (env : Env K) (sigma : K) (k start stop : Nat)
    (st : LSF K) (j : Nat) :
    (fun (s : LSF K) => (s.spin j, s.spin_field j, s.external_field j, s.lsf j, s.t j, s.k3 j))
        (stage_loop k start stop (K3_atom sqrt env sigma) st)
      = if start ≤ j ∧ j < stop then
          (fun (p : Vec3 K × Vec3 K × Vec3 K × Vec3 K × Vec3 K × Vec3 K) =>
            (Vec3.add p.1 (RK4_increment sqrt env sigma j p.1 (Vec3.add (Vec3.add p.2.1 p.2.2.1) p.2.2.2.1)
      p.2.2.2.2.1.x p.2.2.2.2.1.y p.2.2.2.2.1.z),
             p.2.1, p.2.2.1, p.2.2.2.1, p.2.2.2.2.1,
             RK4_increment sqrt env sigma j p.1 (Vec3.add (Vec3.add p.2.1 p.2.2.1) p.2.2.2.1)
      p.2.2.2.2.1.x p.2.2.2.2.1.y p.2.2.2.2.1.z))
            (st.spin j, st.spin_field j, st.external_field j, st.lsf j, st.t j, st.k3 j)
        else (st.spin j, st.spin_field j, st.external_field j, st.lsf j, st.t j, st.k3 j) := by
  have h := for_range_slice
    (fun j (s : LSF K) =>
      (s.spin j, s.spin_field j, s.external_field j, s.lsf j, s.t j, s.k3 j))
    (K3_atom sqrt env sigma)
    (fun j (p : Vec3 K × Vec3 K × Vec3 K × Vec3 K × Vec3 K × Vec3 K) =>
      (Vec3.add p.1 (RK4_increment sqrt env sigma j p.1 (Vec3.add (Vec3.add p.2.1 p.2.2.1) p.2.2.2.1)
      p.2.2.2.2.1.x p.2.2.2.2.1.y p.2.2.2.2.1.z),
       p.2.1, p.2.2.1, p.2.2.2.1, p.2.2.2.2.1,
       RK4_increment sqrt env sigma j p.1 (Vec3.add (Vec3.add p.2.1 p.2.2.1) p.2.2.2.1)
      p.2.2.2.2.1.x p.2.2.2.2.1.y p.2.2.2.2.1.z))
    (fun i j s hji => by
      simp [K3_atom, LSF.spin, LSF.spin_field, LSF.external_field, LSF.lsf, LSF.t, LSF.k3,
        Function.update_noteq hji])
    (fun i s => by
      simp [K3_atom, LSF.spin, LSF.spin_field, LSF.external_field, LSF.lsf, LSF.t, LSF.k3,
        local_S, local_H, Vec3.add, Vec3.smul])
    start stop st j
  exact h

theorem stage_loop_K3_k3 (sqrt : K → K) (env : Env K) (sigma : K) (k start stop : Nat)
    (st : LSF K) (j : Nat) :
    (stage_loop k start stop (K3_atom sqrt env sigma) st).k3 j
      = if start ≤ j ∧ j < stop then
          RK4_increment sqrt env sigma j (st.spin j)
            (Vec3.add (Vec3.add (st.spin_field j) (st.external_field j)) (st.lsf j))
            (st.t j).x (st.t j).y (st.t j).z
        else st.k3 j := by
  have h := congrArg (fun q => q.2.2.2.2.2)
    (stage_loop_K3_slice sqrt env sigma k start stop st j)
  simp only [] at h
  rw [h]
  split_ifs <;> rfl

theorem stage_loop_K3_spin (sqrt : K → K) (env : Env K) (sigma : K) (k start stop : Nat)
    (st : LSF K) (j : Nat) :
    (stage_loop k start stop (K3_atom sqrt env sigma) st).spin j
      = if start ≤ j ∧ j < stop then
          Vec3.add (st.spin j) (RK4_increment sqrt env sigma j (st.spin j)
            (Vec3.add (Vec3.add (st.spin_field j) (st.external_field j)) (st.lsf j))
            (st.t j).x (st.t j).y (st.t j).z)
        else st.spin j := by
  have h := congrArg (fun q => q.1)
    (stage_loop_K3_slice sqrt env sigma k start stop st j)
  simp only [] at h
  rw [h]
  split_ifs <;> rfl

theorem stage_loop_K4_slice (sqrt : K → K) (env : Env K) (sigma : K) (k start stop : Nat)
    (st : LSF K) (j : Nat) :
    (fun (s : LSF K) => (s.spin j, s.spin_field j, s.external_field j, s.lsf j, s.t j, s.k4 j))
        (stage_loop k start stop (K4_atom sqrt env sigma) st)
      = if start ≤ j ∧ j < stop then
          (fun (p : Vec3 K × Vec3 K × Vec3 K × Vec3 K × Vec3 K × Vec3 K) =>
            (p.1,
             p.2.1, p.2.2.1, p.2.2.2.1, p.2.2.2.2.1,
             RK4_increment sqrt env sigma j p.1 (Vec3.add (Vec3.add p.2.1 p.2.2.1) p.2.2.2.1)
      p.2.2.2.2.1.x p.2.2.2.2.1.y p.2.2.2.2.1.z))
            (st.spin j, st.spin_field j, st.external_field j, st.lsf j, st.t j, st.k4 j)
        else (st.spin j, st.spin_field j, st.external_field j, st.lsf j, st.t j, st.k4 j) := by
  have h := for_range_slice
    (fun j (s : LSF K) =>
      (s.spin j, s.spin_field j, s.external_field j, s.lsf j, s.t j, s.k4 j))
    (K4_atom sqrt env sigma)
    (fun j (p : Vec3 K × Vec3 K × Vec3 K × Vec3 K × Vec3 K × Vec3 K) =>
      (p.1,
       p.2.1, p.2.2.1, p.2.2.2.1, p.2.2.2.2.1,
       RK4_increment sqrt env sigma j p.1 (Vec3.add (Vec3.add p.2.1 p.2.2.1) p.2.2.2.1)
      p.2.2.2.2.1.x p.2.2.2.2.1.y p.2.2.2.2.1.z))
    (fun i j s hji => by
      simp [K4_atom, LSF.spin, LSF.spin_field, LSF.external_field, LSF.lsf, LSF.t, LSF.k4,
        Function.update_noteq hji])
    (fun i s => by
      simp [K4_atom, LSF.spin, LSF.spin_field, LSF.external_field, LSF.lsf, LSF.t, LSF.k4,
        local_S, local_H, Vec3.add, Vec3.smul])
    start stop st j
  exact h

theorem stage_loop_K4_k4 (sqrt : K → K) (env : Env K) (sigma : K) (k start stop : Nat)
    (st : LSF K) (j : Nat) :
    (stage_loop k start stop (K4_atom sqrt env sigma) st).k4 j
      = if start ≤ j ∧ j < stop then
          RK4_increment sqrt env sigma j (st.spin j)
            (Vec3.add (Vec3.add (st.spin_field j) (st.external_field j)) (st.lsf j))
            (st.t j).x (st.t j).y (st.t j).z
        else st.k4 j := by
  have h := congrArg (fun q => q.2.2.2.2.2)
    (stage_loop_K4_slice sqrt env sigma k start stop st j)
  simp only [] at h
  rw [h]
  split_ifs <;> rfl

end LSFFrames

section LSFNoise

variable {K : Type} [Field K]

theorem loop_from_counter {σ : Type} (get : σ → Nat → K) (cnt : σ → Nat)
    (body : Nat → σ → σ) (g : Nat → K)
    (hget : ∀ i s j, get (body i s) j = if j = i then g (cnt s) else get s j)
    (hcnt : ∀ i s, cnt (body i s) = cnt s + 1) :
    ∀ n a s, (∀ j, get (loop_from body n a s) j
        = if a ≤ j ∧ j < a + n then g (cnt s + (j - a)) else get s j) ∧
      cnt (loop_from body n a s) = cnt s + n := by
  intro n
  induction n with
  | zero =>
    intro a s
    refine ⟨fun j => ?_, rfl⟩
    have h0 : ¬ (a ≤ j ∧ j < a + 0) := by omega
    rw [if_neg h0]; rfl
  | succ n ih =>
    intro a s
    obtain ⟨ih1, ih2⟩ := ih (a + 1) (body a s)
    simp only [loop_from]
    refine ⟨fun j => ?_, ?_⟩
    · rw [ih1 j, hcnt, hget]
      by_cases hj : j = a
      · subst hj
        have h1 : ¬ (j + 1 ≤ j ∧ j < j + 1 + n) := by omega
        have h2 : j ≤ j ∧ j < j + (n + 1) := by omega
        rw [if_neg h1, if_pos h2, if_pos rfl, Nat.sub_self, Nat.add_zero]
      · by_cases hc : a + 1 ≤ j ∧ j < a + 1 + n
        · have h2 : a ≤ j ∧ j < a + (n + 1) := by omega
          have h3 : cnt s + 1 + (j - (a + 1)) = cnt s + (j - a) := by omega
          rw [if_pos hc, if_pos h2, h3]
        · have h2 : ¬ (a ≤ j ∧ j < a + (n + 1)) := by omega
          rw [if_neg hc, if_neg h2, if_neg hj]
    · rw [ih2, hcnt]; omega

theorem for_range_counter {σ : Type} (get : σ → Nat → K) (cnt : σ → Nat)
    (body : Nat → σ → σ) (g : Nat → K)
    (hget : ∀ i s j, get (body i s) j = if j = i then g (cnt s) else get s j)
    (hcnt : ∀ i s, cnt (body i s) = cnt s + 1) (a b : Nat) (s : σ) :
    (∀ j, get (for_range a b body s) j
        = if a ≤ j ∧ j < b then g (cnt s + (j - a)) else get s j) ∧
      cnt (for_range a b body s) = cnt s + (b - a) := by
  obtain ⟨h1, h2⟩ := loop_from_counter get cnt body g hget hcnt (b - a) a s
  refine ⟨fun j => ?_, h2⟩
  unfold for_range
  rw [h1 j]
  by_cases hc : a ≤ j ∧ j < b
  · have h3 : a ≤ j ∧ j < a + (b - a) := by omega
    rw [if_pos hc, if_pos h3]
  · have h3 : ¬ (a ≤ j ∧ j < a + (b - a)) := by omega
    rw [if_neg hc, if_neg h3]

theorem generate_tx_loop (c : Collab K) (a b : Nat) (s : LSF K) :
    (∀ j, (for_range a b (generate_tx_atom c) s).tx j
        = if a ≤ j ∧ j < b then c.gaussian (s.gaussian_count + (j - a)) else s.tx j) ∧
      (for_range a b (generate_tx_atom c) s).gaussian_count = s.gaussian_count + (b - a) :=
  for_range_counter (fun s : LSF K => s.tx) (fun s => s.gaussian_count) (generate_tx_atom c)
    c.gaussian
    (fun i s j => by
      by_cases h : j = i
      · subst h; simp [generate_tx_atom]
      · simp [generate_tx_atom, Function.update_noteq h, h])
    (fun _ _ => rfl) a b s

theorem generate_ty_loop (c : Collab K) (a b : Nat) (s : LSF K) :
    (∀ j, (for_range a b (generate_ty_atom c) s).ty j
        = if a ≤ j ∧ j < b then c.gaussian (s.gaussian_count + (j - a)) else s.ty j) ∧
      (for_range a b (generate_ty_atom c) s).gaussian_count = s.gaussian_count + (b - a) :=
  for_range_counter (fun s : LSF K => s.ty) (fun s => s.gaussian_count) (generate_ty_atom c)
    c.gaussian
    (fun i s j => by
      by_cases h : j = i
      · subst h; simp [generate_ty_atom]
      · simp [generate_ty_atom, Function.update_noteq h, h])
    (fun _ _ => rfl) a b s

theorem generate_tz_loop (c : Collab K) (a b : Nat) (s : LSF K) :
    (∀ j, (for_range a b (generate_tz_atom c) s).tz j
        = if a ≤ j ∧ j < b then c.gaussian (s.gaussian_count + (j - a)) else s.tz j) ∧
      (for_range a b (generate_tz_atom c) s).gaussian_count = s.gaussian_count + (b - a) :=
  for_range_counter (fun s : LSF K => s.tz) (fun s => s.gaussian_count) (generate_tz_atom c)
    c.gaussian
    (fun i s j => by
      by_cases h : j = i
      · subst h; simp [generate_tz_atom]
      · simp [generate_tz_atom, Function.update_noteq h, h])
    (fun _ _ => rfl) a b s

theorem generate_noise_gaussian_count (c : Collab K) (start stop : Nat) (st : LSF K) :
    (generate_noise c start stop st).gaussian_count
      = st.gaussian_count + 3 * (stop - start) := by
  unfold generate_noise
  rw [LSF.log_gaussian_count, (generate_tz_loop c _ _ _).2, (generate_ty_loop c _ _ _).2,
    (generate_tx_loop c _ _ _).2]
  omega

theorem generate_noise_t (c : Collab K) (start stop : Nat) (st : LSF K) (j : Nat) :
    (generate_noise c start stop st).t j
      = if start ≤ j ∧ j < stop then
          ⟨c.gaussian (st.gaussian_count + (j - start)),
           c.gaussian (st.gaussian_count + (stop - start) + (j - start)),
           c.gaussian (st.gaussian_count + (stop - start) + (stop - start) + (j - start))⟩
        else st.t j := by
  have hx : (generate_noise c start stop st).tx j
      = if start ≤ j ∧ j < stop then c.gaussian (st.gaussian_count + (j - start))
        else st.tx j := by
    unfold generate_noise
    have e1 := for_range_preserve (fun s : LSF K => s.tx) (generate_tz_atom c)
      (fun _ _ => rfl) start stop
      (for_range start stop (generate_ty_atom c) (for_range start stop (generate_tx_atom c) st))
    have e2 := for_range_preserve (fun s : LSF K => s.tx) (generate_ty_atom c)
      (fun _ _ => rfl) start stop (for_range start stop (generate_tx_atom c) st)
    simp only [] at e1 e2
    show (for_range start stop (generate_tz_atom c) _).tx j = _
    rw [e1, e2, (generate_tx_loop c start stop st).1 j]
  have hy : (generate_noise c start stop st).ty j
      = if start ≤ j ∧ j < stop then
          c.gaussian (st.gaussian_count + (stop - start) + (j - start))
        else st.ty j := by
    unfold generate_noise
    have e1 := for_range_preserve (fun s : LSF K => s.ty) (generate_tz_atom c)
      (fun _ _ => rfl) start stop
      (for_range start stop (generate_ty_atom c) (for_range start stop (generate_tx_atom c) st))
    have e3 := for_range_preserve (fun s : LSF K => s.ty) (generate_tx_atom c)
      (fun _ _ => rfl) start stop st
    simp only [] at e1 e3
    show (for_range start stop (generate_tz_atom c) _).ty j = _
    rw [e1, (generate_ty_loop c start stop _).1 j, (generate_tx_loop c start stop st).2, e3]
  have hz : (generate_noise c start stop st).tz j
      = if start ≤ j ∧ j < stop then
          c.gaussian (st.gaussian_count + (stop - start) + (stop - start) + (j - start))
        else st.tz j := by
    unfold generate_noise
    have e2 := for_range_preserve (fun s : LSF K => s.tz) (generate_ty_atom c)
      (fun _ _ => rfl) start stop (for_range start stop (generate_tx_atom c) st)
    have e3 := for_range_preserve (fun s : LSF K => s.tz) (generate_tx_atom c)
      (fun _ _ => rfl) start stop st
    simp only [] at e2 e3
    show (for_range start stop (generate_tz_atom c) _).tz j = _
    rw [(generate_tz_loop c start stop _).1 j, (generate_ty_loop c start stop _).2,
      (generate_tx_loop c start stop st).2, e2, e3]
  show (⟨_, _, _⟩ : Vec3 K) = _
  rw [hx, hy, hz]
  split_ifs <;> rfl

end LSFNoise

section LSFStep

variable {K : Type} [LinearOrderedField K]

theorem LSF_RK4_mpi_K1_initial_spin (sqrt : K → K) (c : Collab K) (env : Env K) (st : LSF K)
    (i : Nat) (hi : i < env.num_core_atoms + env.num_bdry_atoms) :
    (LSF_RK4_mpi_K1 sqrt c env st).initial_spin i = st.spin i := by
  simp [LSF_RK4_mpi_K1, store_initial_spins_initial_spin, hi]

theorem LSF_RK4_mpi_K2_initial_spin (sqrt : K → K) (c : Collab K) (env : Env K)
    (st : LSF K) : (LSF_RK4_mpi_K2 sqrt c env st).initial_spin = st.initial_spin := by
  simp [LSF_RK4_mpi_K2]

theorem LSF_RK4_mpi_K3_initial_spin (sqrt : K → K) (c : Collab K) (env : Env K)
    (st : LSF K) : (LSF_RK4_mpi_K3 sqrt c env st).initial_spin = st.initial_spin := by
  simp [LSF_RK4_mpi_K3]

theorem LSF_RK4_mpi_K4_initial_spin (sqrt : K → K) (c : Collab K) (env : Env K)
    (st : LSF K) : (LSF_RK4_mpi_K4 sqrt c env st).initial_spin = st.initial_spin := by
  simp [LSF_RK4_mpi_K4]

theorem LSF_RK4_mpi_initial_spin (sqrt : K → K) (c : Collab K) (env : Env K) (st : LSF K)
    (i : Nat) (hi : i < env.num_core_atoms + env.num_bdry_atoms) :
    (LSF_RK4_mpi sqrt c env st).initial_spin i = st.spin i := by
  simp only [LSF_RK4_mpi, LSF_RK4_mpi_step, barrier_initial_spin, RK4_step_initial_spin,
    LSF_RK4_mpi_K4_initial_spin, LSF_RK4_mpi_K3_initial_spin, LSF_RK4_mpi_K2_initial_spin]
  exact LSF_RK4_mpi_K1_initial_spin sqrt c env st i hi

theorem LSF_RK4_mpi_spin (sqrt : K → K) (c : Collab K) (env : Env K) (st : LSF K)
    (i : Nat) (hi : i < env.num_core_atoms + env.num_bdry_atoms) :
    (LSF_RK4_mpi sqrt c env st).spin i
      = Vec3.add (st.spin i) (Vec3.smul (1 / 6)
          (Vec3.add (Vec3.add (Vec3.add ((LSF_RK4_mpi sqrt c env st).k1 i)
            (Vec3.smul 2 ((LSF_RK4_mpi sqrt c env st).k2 i)))
            (Vec3.smul 2 ((LSF_RK4_mpi sqrt c env st).k3 i)))
            ((LSF_RK4_mpi sqrt c env st).k4 i))) := by
  have h0 := LSF_RK4_mpi_K1_initial_spin sqrt c env st i hi
  simp only [LSF_RK4_mpi, LSF_RK4_mpi_step, barrier_spin, barrier_k1, barrier_k2, barrier_k3,
    barrier_k4, RK4_step_k1, RK4_step_k2, RK4_step_k3, RK4_step_k4, RK4_step_spin,
    LSF_RK4_mpi_K4_initial_spin, LSF_RK4_mpi_K3_initial_spin, LSF_RK4_mpi_K2_initial_spin, h0]
  rw [if_pos ⟨Nat.zero_le i, hi⟩]
  norm_num

end LSFStep

section LSFEvaluation

variable {K : Type} [Field K]

@[simp] theorem LSF.fresh_spin (S : Nat → Vec3 K) (j : Nat) : (LSF.fresh S).spin j = S j := rfl

@[simp] theorem LSF.fresh_gaussian_count (S : Nat → Vec3 K) :
    (LSF.fresh S).gaussian_count = 0 := rfl

end LSFEvaluation

section LSFCounterexamples

set_option maxHeartbeats 1000000 in
theorem LSF_RK4_mpi_single_atom_value :
    (LSF_RK4_mpi Real.sqrt (Collab.constant_field ⟨0, 0, 1⟩) (Env.precession 1 0)
      (LSF.fresh (fun _ => ⟨1, 0, 0⟩))).spin 0 = ⟨5 / 24, 17 / 24, 0⟩ := by
  simp [LSF_RK4_mpi, LSF_RK4_mpi_step, LSF_RK4_mpi_K4, LSF_RK4_mpi_K3, LSF_RK4_mpi_K2,
    LSF_RK4_mpi_K1, RK4_step_spin, stage_loop_K1_spin, stage_loop_K2_spin, stage_loop_K3_spin,
    stage_loop_K1_k1, stage_loop_K2_k2, stage_loop_K3_k3, stage_loop_K4_k4,
    mpi_complete_halo_swap_spin, calculate_spin_fields_spin_field,
    calculate_external_fields_external_field, calculate_lsf_rk4_field_lsf,
    store_initial_spins_initial_spin, generate_noise_t,
    RK4_increment, delta_S, lsf_field_value, LSF_RK4_sigma, Vec3.add, Vec3.smul,
    Env.precession, Collab.constant_field]
  norm_num

end LSFCounterexamples

section LSFCounterexamples2

theorem LSF.x_spin_array_eq {K : Type} (st : LSF K) (i : Nat) :
    st.x_spin_array i = (st.spin i).x := rfl

theorem LSF.y_spin_array_eq {K : Type} (st : LSF K) (i : Nat) :
    st.y_spin_array i = (st.spin i).y := rfl

theorem LSF.z_spin_array_eq {K : Type} (st : LSF K) (i : Nat) :
    st.z_spin_array i = (st.spin i).z := rfl

set_option maxHeartbeats 4000000 in
theorem LSF_RK4_mpi_pair_single_domain_value :
    (LSF_RK4_mpi Real.sqrt Collab.pair_exchange (Env.precession 2 0)
      (LSF.fresh (fun i => if i = 0 then ⟨1, 0, 0⟩ else ⟨0, 1, 0⟩))).spin 0
      = ⟨37 / 96, 35 / 96, -17 / 24⟩ := by
  simp [LSF_RK4_mpi, LSF_RK4_mpi_step, LSF_RK4_mpi_K4, LSF_RK4_mpi_K3, LSF_RK4_mpi_K2,
    LSF_RK4_mpi_K1, RK4_step_spin, stage_loop_K1_spin, stage_loop_K2_spin, stage_loop_K3_spin,
    stage_loop_K1_k1, stage_loop_K2_k2, stage_loop_K3_k3, stage_loop_K4_k4,
    mpi_complete_halo_swap_spin, calculate_spin_fields_spin_field,
    calculate_external_fields_external_field, calculate_lsf_rk4_field_lsf,
    store_initial_spins_initial_spin, generate_noise_t,
    RK4_increment, delta_S, lsf_field_value, LSF_RK4_sigma, Vec3.add, Vec3.smul,
    Env.precession, Collab.pair_exchange, LSF.x_spin_array_eq, LSF.y_spin_array_eq,
    LSF.z_spin_array_eq]
  norm_num

set_option maxHeartbeats 4000000 in
theorem LSF_RK4_mpi_pair_split_value :
    (LSF_RK4_mpi Real.sqrt Collab.pair_exchange (Env.precession 1 1)
      (LSF.fresh (fun i => if i = 0 then ⟨1, 0, 0⟩ else ⟨0, 1, 0⟩))).spin 0
      = ⟨96545 / 196608, 658865 / 786432, -97969 / 196608⟩ := by
  simp [LSF_RK4_mpi, LSF_RK4_mpi_step, LSF_RK4_mpi_K4, LSF_RK4_mpi_K3, LSF_RK4_mpi_K2,
    LSF_RK4_mpi_K1, RK4_step_spin, stage_loop_K1_spin, stage_loop_K2_spin, stage_loop_K3_spin,
    stage_loop_K1_k1, stage_loop_K2_k2, stage_loop_K3_k3, stage_loop_K4_k4,
    mpi_complete_halo_swap_spin, calculate_spin_fields_spin_field,
    calculate_external_fields_external_field, calculate_lsf_rk4_field_lsf,
    store_initial_spins_initial_spin, generate_noise_t,
    RK4_increment, delta_S, lsf_field_value, LSF_RK4_sigma, Vec3.add, Vec3.smul,
    Env.precession, Collab.pair_exchange, LSF.x_spin_array_eq, LSF.y_spin_array_eq,
    LSF.z_spin_array_eq]
  norm_num

end LSFCounterexamples2

section LSFClaims

variable {K : Type} [LinearOrderedField K]

/-- C7: at the end of `LSF_RK4_mpi`, for every local atom `i < num_core_atoms + num_bdry_atoms`,
the snapshot `initial_spin[i]` is the spin the atom had on entry, and
`spin[i] = initial_spin[i] + (k1[i] + 2 k2[i] + 2 k3[i] + k4[i]) / 6` with the stage arrays as
left by this call. -/
theorem LSF_RK4_mpi_final_combine (sqrt : K → K) (c : Collab K) (env : Env K) (st : LSF K)
    (i : Nat) (hi : i < env.num_core_atoms + env.num_bdry_atoms) :
    (LSF_RK4_mpi sqrt c env st).initial_spin i = st.spin i ∧
    (LSF_RK4_mpi sqrt c env st).spin i
      = Vec3.add ((LSF_RK4_mpi sqrt c env st).initial_spin i) (Vec3.smul (1 / 6)
          (Vec3.add (Vec3.add (Vec3.add ((LSF_RK4_mpi sqrt c env st).k1 i)
            (Vec3.smul 2 ((LSF_RK4_mpi sqrt c env st).k2 i)))
            (Vec3.smul 2 ((LSF_RK4_mpi sqrt c env st).k3 i)))
            ((LSF_RK4_mpi sqrt c env st).k4 i))) := by
  refine ⟨LSF_RK4_mpi_initial_spin sqrt c env st i hi, ?_⟩
  rw [LSF_RK4_mpi_initial_spin sqrt c env st i hi]
  exact LSF_RK4_mpi_spin sqrt c env st i hi

theorem LSF_RK4_mpi_final_combine_witness :
    0 < (Env.precession 1 0 : Env ℝ).num_core_atoms
        + (Env.precession 1 0 : Env ℝ).num_bdry_atoms ∧
    ((LSF_RK4_mpi Real.sqrt (Collab.constant_field ⟨0, 0, 1⟩) (Env.precession 1 0)
        (LSF.fresh (fun _ => ⟨1, 0, 0⟩))).initial_spin 0
      = (LSF.fresh (fun _ => (⟨1, 0, 0⟩ : Vec3 ℝ))).spin 0 ∧
    (LSF_RK4_mpi Real.sqrt (Collab.constant_field ⟨0, 0, 1⟩) (Env.precession 1 0)
        (LSF.fresh (fun _ => ⟨1, 0, 0⟩))).spin 0
      = Vec3.add ((LSF_RK4_mpi Real.sqrt (Collab.constant_field ⟨0, 0, 1⟩) (Env.precession 1 0)
          (LSF.fresh (fun _ => ⟨1, 0, 0⟩))).initial_spin 0) (Vec3.smul (1 / 6)
          (Vec3.add (Vec3.add (Vec3.add
            ((LSF_RK4_mpi Real.sqrt (Collab.constant_field ⟨0, 0, 1⟩) (Env.precession 1 0)
              (LSF.fresh (fun _ => ⟨1, 0, 0⟩))).k1 0)
            (Vec3.smul 2
              ((LSF_RK4_mpi Real.sqrt (Collab.constant_field ⟨0, 0, 1⟩) (Env.precession 1 0)
                (LSF.fresh (fun _ => ⟨1, 0, 0⟩))).k2 0)))
            (Vec3.smul 2
              ((LSF_RK4_mpi Real.sqrt (Collab.constant_field ⟨0, 0, 1⟩) (Env.precession 1 0)
                (LSF.fresh (fun _ => ⟨1, 0, 0⟩))).k3 0)))
            ((LSF_RK4_mpi Real.sqrt (Collab.constant_field ⟨0, 0, 1⟩) (Env.precession 1 0)
              (LSF.fresh (fun _ => ⟨1, 0, 0⟩))).k4 0)))) :=
  ⟨by decide, LSF_RK4_mpi_final_combine Real.sqrt (Collab.constant_field ⟨0, 0, 1⟩)
    (Env.precession 1 0) (LSF.fresh (fun _ => ⟨1, 0, 0⟩)) 0 (by decide)⟩

theorem classical_rk4_step_precession (gamma h : K) (H S0 : Vec3 K) :
    classical_rk4_step (precession gamma H) h S0 = taylor4 (precession gamma H) h S0 := by
  simp only [classical_rk4_step, taylor4, precession, Vec3.add, Vec3.smul, Vec3.cross]
  refine Vec3.ext ?_ ?_ ?_ <;> simp only [] <;> ring

/-- C8 (the code at the failing input): one atom with spin `(1,0,0)` in the constant field
`H = (0,0,1)`, `gamma = 1`, `dt = 1`, `alpha = 0`, `T = 0`.  `LSF_RK4_mpi` returns
`(5/24, 17/24, 0)`; the classical Runge-Kutta step for `dS/dt = -gamma (S × H)`, which is the
rotation through order `dt⁴`, is `(13/24, 5/6, 0)`. -/
theorem LSF_RK4_mpi_not_classical_rk4 :
    (LSF_RK4_mpi Real.sqrt (Collab.constant_field ⟨0, 0, 1⟩) (Env.precession 1 0)
      (LSF.fresh (fun _ => ⟨1, 0, 0⟩))).spin 0 = ⟨5 / 24, 17 / 24, 0⟩ ∧
    classical_rk4_step (precession (1 : ℝ) ⟨0, 0, 1⟩) 1 ⟨1, 0, 0⟩ = ⟨13 / 24, 5 / 6, 0⟩ ∧
    taylor4 (precession (1 : ℝ) ⟨0, 0, 1⟩) 1 ⟨1, 0, 0⟩ = ⟨13 / 24, 5 / 6, 0⟩ ∧
    (LSF_RK4_mpi Real.sqrt (Collab.constant_field ⟨0, 0, 1⟩) (Env.precession 1 0)
      (LSF.fresh (fun _ => ⟨1, 0, 0⟩))).spin 0
      ≠ classical_rk4_step (precession (1 : ℝ) ⟨0, 0, 1⟩) 1 ⟨1, 0, 0⟩ := by
  have h1 := LSF_RK4_mpi_single_atom_value
  have h2 : classical_rk4_step (precession (1 : ℝ) ⟨0, 0, 1⟩) 1 ⟨1, 0, 0⟩
      = ⟨13 / 24, 5 / 6, 0⟩ := by
    simp only [classical_rk4_step, precession, Vec3.add, Vec3.smul, Vec3.cross]
    norm_num
  refine ⟨h1, h2, ?_, ?_⟩
  · rw [← classical_rk4_step_precession, h2]
  · rw [h1, h2]
    intro h
    have hx := congrArg Vec3.x h
    norm_num at hx

/-- C9 (the code at the failing input): two atoms with unit exchange coupling (the field on each
atom is the current spin of the other), spins `(1,0,0)` and `(0,1,0)`, no noise.  As a single
domain (`num_core_atoms = 2`, `num_bdry_atoms = 0`) the step leaves atom `0` at
`(37/96, 35/96, -17/24)`; split into one core and one boundary atom it leaves it at
`(96545/196608, 658865/786432, -97969/196608)`. -/
theorem LSF_RK4_mpi_split_dependent :
    (LSF_RK4_mpi Real.sqrt Collab.pair_exchange (Env.precession 2 0)
      (LSF.fresh (fun i => if i = 0 then ⟨1, 0, 0⟩ else ⟨0, 1, 0⟩))).spin 0
      = ⟨37 / 96, 35 / 96, -17 / 24⟩ ∧
    (LSF_RK4_mpi Real.sqrt Collab.pair_exchange (Env.precession 1 1)
      (LSF.fresh (fun i => if i = 0 then ⟨1, 0, 0⟩ else ⟨0, 1, 0⟩))).spin 0
      = ⟨96545 / 196608, 658865 / 786432, -97969 / 196608⟩ ∧
    (LSF_RK4_mpi Real.sqrt Collab.pair_exchange (Env.precession 1 1)
      (LSF.fresh (fun i => if i = 0 then ⟨1, 0, 0⟩ else ⟨0, 1, 0⟩))).spin 0
      ≠ (LSF_RK4_mpi Real.sqrt Collab.pair_exchange (Env.precession 2 0)
          (LSF.fresh (fun i => if i = 0 then ⟨1, 0, 0⟩ else ⟨0, 1, 0⟩))).spin 0 := by
  refine ⟨LSF_RK4_mpi_pair_single_domain_value, LSF_RK4_mpi_pair_split_value, ?_⟩
  rw [LSF_RK4_mpi_pair_single_domain_value, LSF_RK4_mpi_pair_split_value]
  intro h
  have hz := congrArg Vec3.z h
  norm_num at hz

/-- C10 (as amended): `LSF_RK4_mpi` does not renormalise.  For a local atom of unit length on
entry, the spin has unit length when the step completes exactly when the combined increment
`D = (k1 + 2 k2 + 2 k3 + k4)/6` satisfies `2 S·D + |D|² = 0` (in particular when all four stage
increments vanish). -/
theorem LSF_RK4_mpi_unit_length_iff (sqrt : K → K) (c : Collab K) (env : Env K) (st : LSF K)
    (i : Nat) (hi : i < env.num_core_atoms + env.num_bdry_atoms)
    (hunit : Vec3.normSq (st.spin i) = 1) :
    Vec3.normSq ((LSF_RK4_mpi sqrt c env st).spin i) = 1 ↔
      2 * Vec3.dot (st.spin i) (Vec3.smul (1 / 6)
          (Vec3.add (Vec3.add (Vec3.add ((LSF_RK4_mpi sqrt c env st).k1 i)
            (Vec3.smul 2 ((LSF_RK4_mpi sqrt c env st).k2 i)))
            (Vec3.smul 2 ((LSF_RK4_mpi sqrt c env st).k3 i)))
            ((LSF_RK4_mpi sqrt c env st).k4 i)))
        + Vec3.normSq (Vec3.smul (1 / 6)
          (Vec3.add (Vec3.add (Vec3.add ((LSF_RK4_mpi sqrt c env st).k1 i)
            (Vec3.smul 2 ((LSF_RK4_mpi sqrt c env st).k2 i)))
            (Vec3.smul 2 ((LSF_RK4_mpi sqrt c env st).k3 i)))
            ((LSF_RK4_mpi sqrt c env st).k4 i))) = 0 := by
  rw [LSF_RK4_mpi_spin sqrt c env st i hi]
  generalize Vec3.smul (1 / 6)
          (Vec3.add (Vec3.add (Vec3.add ((LSF_RK4_mpi sqrt c env st).k1 i)
            (Vec3.smul 2 ((LSF_RK4_mpi sqrt c env st).k2 i)))
            (Vec3.smul 2 ((LSF_RK4_mpi sqrt c env st).k3 i)))
            ((LSF_RK4_mpi sqrt c env st).k4 i)) = D
  have hexp : Vec3.normSq (Vec3.add (st.spin i) D)
      = Vec3.normSq (st.spin i) + (2 * Vec3.dot (st.spin i) D + Vec3.normSq D) := by
    simp only [Vec3.normSq, Vec3.dot, Vec3.add]
    ring
  rw [hexp, hunit]
  constructor
  · intro h; linarith
  · intro h; rw [h]; ring

theorem LSF_RK4_mpi_unit_length_iff_witness :
    (0 < (Env.precession 1 0 : Env ℝ).num_core_atoms
        + (Env.precession 1 0 : Env ℝ).num_bdry_atoms ∧
      Vec3.normSq ((LSF.fresh (fun _ => (⟨1, 0, 0⟩ : Vec3 ℝ))).spin 0) = 1) ∧
    (Vec3.normSq ((LSF_RK4_mpi Real.sqrt (Collab.constant_field ⟨0, 0, 0⟩) (Env.precession 1 0)
        (LSF.fresh (fun _ => ⟨1, 0, 0⟩))).spin 0) = 1 ↔
      2 * Vec3.dot ((LSF.fresh (fun _ => (⟨1, 0, 0⟩ : Vec3 ℝ))).spin 0) (Vec3.smul (1 / 6)
          (Vec3.add (Vec3.add (Vec3.add
            ((LSF_RK4_mpi Real.sqrt (Collab.constant_field ⟨0, 0, 0⟩) (Env.precession 1 0)
              (LSF.fresh (fun _ => ⟨1, 0, 0⟩))).k1 0)
            (Vec3.smul 2
              ((LSF_RK4_mpi Real.sqrt (Collab.constant_field ⟨0, 0, 0⟩) (Env.precession 1 0)
                (LSF.fresh (fun _ => ⟨1, 0, 0⟩))).k2 0)))
            (Vec3.smul 2
              ((LSF_RK4_mpi Real.sqrt (Collab.constant_field ⟨0, 0, 0⟩) (Env.precession 1 0)
                (LSF.fresh (fun _ => ⟨1, 0, 0⟩))).k3 0)))
            ((LSF_RK4_mpi Real.sqrt (Collab.constant_field ⟨0, 0, 0⟩) (Env.precession 1 0)
              (LSF.fresh (fun _ => ⟨1, 0, 0⟩))).k4 0)))
        + Vec3.normSq (Vec3.smul (1 / 6)
          (Vec3.add (Vec3.add (Vec3.add
            ((LSF_RK4_mpi Real.sqrt (Collab.constant_field ⟨0, 0, 0⟩) (Env.precession 1 0)
              (LSF.fresh (fun _ => ⟨1, 0, 0⟩))).k1 0)
            (Vec3.smul 2
              ((LSF_RK4_mpi Real.sqrt (Collab.constant_field ⟨0, 0, 0⟩) (Env.precession 1 0)
                (LSF.fresh (fun _ => ⟨1, 0, 0⟩))).k2 0)))
            (Vec3.smul 2
              ((LSF_RK4_mpi Real.sqrt (Collab.constant_field ⟨0, 0, 0⟩) (Env.precession 1 0)
                (LSF.fresh (fun _ => ⟨1, 0, 0⟩))).k3 0)))
            ((LSF_RK4_mpi Real.sqrt (Collab.constant_field ⟨0, 0, 0⟩) (Env.precession 1 0)
              (LSF.fresh (fun _ => ⟨1, 0, 0⟩))).k4 0))) = 0) :=
  ⟨⟨by decide, by norm_num [Vec3.normSq, Vec3.dot]⟩,
    LSF_RK4_mpi_unit_length_iff Real.sqrt (Collab.constant_field ⟨0, 0, 0⟩)
      (Env.precession 1 0) (LSF.fresh (fun _ => ⟨1, 0, 0⟩)) 0 (by decide)
      (by norm_num [Vec3.normSq, Vec3.dot])⟩

/-- C10 (counterexample to the claim as stated): one atom of unit length `(1,0,0)` in the
constant field `(0,0,1)` with `gamma = dt = 1`, `alpha = 0`, `T = 0`; after the step the squared
length is `157/288`, not `1`. -/
theorem LSF_RK4_mpi_not_unit_length :
    Vec3.normSq ((LSF.fresh (fun _ => (⟨1, 0, 0⟩ : Vec3 ℝ))).spin 0) = 1 ∧
    Vec3.normSq ((LSF_RK4_mpi Real.sqrt (Collab.constant_field ⟨0, 0, 1⟩) (Env.precession 1 0)
        (LSF.fresh (fun _ => ⟨1, 0, 0⟩))).spin 0) ≠ 1 := by
  refine ⟨by norm_num [Vec3.normSq, Vec3.dot], ?_⟩
  rw [LSF_RK4_mpi_single_atom_value]
  norm_num [Vec3.normSq, Vec3.dot]

end LSFClaims

section LSFZeroField

variable {K : Type} [LinearOrderedField K]

theorem LSF_RK4_sigma_zero (sqrt : K → K) (env : Env K) (hsqrt : sqrt 0 = 0)
    (hT : env.temperature = 0) : LSF_RK4_sigma sqrt env = 0 := by
  simp [LSF_RK4_sigma, hT, hsqrt]

theorem RK4_increment_zero (sqrt : K → K) (env : Env K) (j : Nat) (S : Vec3 K)
    (tx ty tz : K) : RK4_increment sqrt env 0 j S ⟨0, 0, 0⟩ tx ty tz = ⟨0, 0, 0⟩ := by
  simp [RK4_increment, delta_S]

theorem lsf_field_value_zero (env : Env K) (j : Nat) (S : Vec3 K) (h : env.lsf_free j) :
    lsf_field_value env j S = ⟨0, 0, 0⟩ := by
  obtain ⟨h2, h4, h6⟩ := h
  simp [lsf_field_value, h2, h4, h6]

theorem Vec3.add_zero_zero : Vec3.add (Vec3.add (⟨0, 0, 0⟩ : Vec3 K) ⟨0, 0, 0⟩) ⟨0, 0, 0⟩
    = ⟨0, 0, 0⟩ := by
  simp [Vec3.add]

theorem Vec3.add_smul_zero (S : Vec3 K) (a : K) : Vec3.add S (Vec3.smul a ⟨0, 0, 0⟩) = S := by
  simp [Vec3.add, Vec3.smul]

theorem Vec3.add_zero_right (S : Vec3 K) : Vec3.add S ⟨0, 0, 0⟩ = S := by
  simp [Vec3.add]

theorem LSF_RK4_mpi_K1_quiet (sqrt : K → K) (c : Collab K) (env : Env K) (st : LSF K)
    (i : Nat) (hi : i < env.num_core_atoms + env.num_bdry_atoms) (hsqrt : sqrt 0 = 0)
    (hT : env.temperature = 0) (hc : c.field_free) (hl : env.lsf_free i) :
    (LSF_RK4_mpi_K1 sqrt c env st).spin i = st.spin i ∧
    (LSF_RK4_mpi_K1 sqrt c env st).k1 i = ⟨0, 0, 0⟩ ∧
    (LSF_RK4_mpi_K1 sqrt c env st).spin_field i = ⟨0, 0, 0⟩ ∧
    (LSF_RK4_mpi_K1 sqrt c env st).external_field i = ⟨0, 0, 0⟩ ∧
    (LSF_RK4_mpi_K1 sqrt c env st).lsf i = ⟨0, 0, 0⟩ := by
  obtain ⟨hsf, hext⟩ := hc
  have hsig := LSF_RK4_sigma_zero sqrt env hsqrt hT
  have hnot : ¬ (env.num_core_atoms + env.num_bdry_atoms ≤ i) := Nat.not_le.mpr hi
  by_cases hcore : i < env.num_core_atoms
  · have hb : ¬ (env.num_core_atoms ≤ i) := Nat.not_le.mpr hcore
    simp [LSF_RK4_mpi_K1, stage_loop_K1_spin, stage_loop_K1_k1, mpi_complete_halo_swap_spin,
      calculate_spin_fields_spin_field, calculate_external_fields_external_field,
      calculate_lsf_rk4_field_lsf, hsig, hcore, hb, hnot, hsf, hext, RK4_increment_zero,
      lsf_field_value_zero env i _ hl, Vec3.add_zero_zero, Vec3.add_smul_zero]
  · have hb : env.num_core_atoms ≤ i := Nat.le_of_not_lt hcore
    simp [LSF_RK4_mpi_K1, stage_loop_K1_spin, stage_loop_K1_k1, mpi_complete_halo_swap_spin,
      calculate_spin_fields_spin_field, calculate_external_fields_external_field,
      calculate_lsf_rk4_field_lsf, hsig, hcore, hb, hi, hnot, hsf, hext, RK4_increment_zero,
      lsf_field_value_zero env i _ hl, Vec3.add_zero_zero, Vec3.add_smul_zero]

theorem LSF_RK4_mpi_K2_quiet (sqrt : K → K) (c : Collab K) (env : Env K) (st : LSF K)
    (i : Nat) (hi : i < env.num_core_atoms + env.num_bdry_atoms) (hsqrt : sqrt 0 = 0)
    (hT : env.temperature = 0) (hc : c.field_free) (hl : env.lsf_free i)
    (he : st.external_field i = ⟨0, 0, 0⟩) :
    (LSF_RK4_mpi_K2 sqrt c env st).spin i = st.spin i ∧
    (LSF_RK4_mpi_K2 sqrt c env st).k2 i = ⟨0, 0, 0⟩ ∧
    (LSF_RK4_mpi_K2 sqrt c env st).spin_field i = ⟨0, 0, 0⟩ ∧
    (LSF_RK4_mpi_K2 sqrt c env st).external_field i = ⟨0, 0, 0⟩ ∧
    (LSF_RK4_mpi_K2 sqrt c env st).lsf i = ⟨0, 0, 0⟩ := by
  obtain ⟨hsf, hext⟩ := hc
  have hsig := LSF_RK4_sigma_zero sqrt env hsqrt hT
  have hnot : ¬ (env.num_core_atoms + env.num_bdry_atoms ≤ i) := Nat.not_le.mpr hi
  by_cases hcore : i < env.num_core_atoms
  · have hb : ¬ (env.num_core_atoms ≤ i) := Nat.not_le.mpr hcore
    simp [LSF_RK4_mpi_K2, stage_loop_K2_spin, stage_loop_K2_k2, mpi_complete_halo_swap_spin,
      calculate_spin_fields_spin_field, calculate_lsf_rk4_field_lsf, hsig, hcore, hb, hnot,
      hsf, he, RK4_increment_zero, lsf_field_value_zero env i _ hl, Vec3.add_zero_zero,
      Vec3.add_smul_zero]
  · have hb : env.num_core_atoms ≤ i := Nat.le_of_not_lt hcore
    simp [LSF_RK4_mpi_K2, stage_loop_K2_spin, stage_loop_K2_k2, mpi_complete_halo_swap_spin,
      calculate_spin_fields_spin_field, calculate_lsf_rk4_field_lsf, hsig, hcore, hb, hi, hnot,
      hsf, he, RK4_increment_zero, lsf_field_value_zero env i _ hl, Vec3.add_zero_zero,
      Vec3.add_smul_zero]

theorem LSF_RK4_mpi_K3_quiet (sqrt : K → K) (c : Collab K) (env : Env K) (st : LSF K)
    (i : Nat) (hi : i < env.num_core_atoms + env.num_bdry_atoms) (hsqrt : sqrt 0 = 0)
    (hT : env.temperature = 0)
    (hs : st.spin_field i = ⟨0, 0, 0⟩) (he : st.external_field i = ⟨0, 0, 0⟩)
    (hf : st.lsf i = ⟨0, 0, 0⟩) :
    (LSF_RK4_mpi_K3 sqrt c env st).spin i = st.spin i ∧
    (LSF_RK4_mpi_K3 sqrt c env st).k3 i = ⟨0, 0, 0⟩ ∧
    (LSF_RK4_mpi_K3 sqrt c env st).external_field i = ⟨0, 0, 0⟩ := by
  have hsig := LSF_RK4_sigma_zero sqrt env hsqrt hT
  have hnot : ¬ (env.num_core_atoms + env.num_bdry_atoms ≤ i) := Nat.not_le.mpr hi
  by_cases hcore : i < env.num_core_atoms
  · have hb : ¬ (env.num_core_atoms ≤ i) := Nat.not_le.mpr hcore
    simp [LSF_RK4_mpi_K3, stage_loop_K3_spin, stage_loop_K3_k3, mpi_complete_halo_swap_spin,
      hsig, hcore, hb, hnot, hs, he, hf, RK4_increment_zero, Vec3.add_zero_zero,
      Vec3.add_zero_right]
  · have hb : env.num_core_atoms ≤ i := Nat.le_of_not_lt hcore
    simp [LSF_RK4_mpi_K3, stage_loop_K3_spin, stage_loop_K3_k3, mpi_complete_halo_swap_spin,
      hsig, hcore, hb, hi, hnot, hs, he, hf, RK4_increment_zero, Vec3.add_zero_zero,
      Vec3.add_zero_right]

theorem LSF_RK4_mpi_K4_quiet (sqrt : K → K) (c : Collab K) (env : Env K) (st : LSF K)
    (i : Nat) (hi : i < env.num_core_atoms + env.num_bdry_atoms) (hsqrt : sqrt 0 = 0)
    (hT : env.temperature = 0) (hc : c.field_free) (hl : env.lsf_free i)
    (he : st.external_field i = ⟨0, 0, 0⟩) :
    (LSF_RK4_mpi_K4 sqrt c env st).k4 i = ⟨0, 0, 0⟩ := by
  obtain ⟨hsf, hext⟩ := hc
  have hsig := LSF_RK4_sigma_zero sqrt env hsqrt hT
  have hnot : ¬ (env.num_core_atoms + env.num_bdry_atoms ≤ i) := Nat.not_le.mpr hi
  by_cases hcore : i < env.num_core_atoms
  · have hb : ¬ (env.num_core_atoms ≤ i) := Nat.not_le.mpr hcore
    simp [LSF_RK4_mpi_K4, stage_loop_K4_k4, mpi_complete_halo_swap_spin,
      calculate_spin_fields_spin_field, calculate_lsf_rk4_field_lsf, hsig, hcore, hb, hnot,
      hsf, he, RK4_increment_zero, lsf_field_value_zero env i _ hl, Vec3.add_zero_zero]
  · have hb : env.num_core_atoms ≤ i := Nat.le_of_not_lt hcore
    simp [LSF_RK4_mpi_K4, stage_loop_K4_k4, mpi_complete_halo_swap_spin,
      calculate_spin_fields_spin_field, calculate_lsf_rk4_field_lsf, hsig, hcore, hb, hi, hnot,
      hsf, he, RK4_increment_zero, lsf_field_value_zero env i _ hl, Vec3.add_zero_zero]

end LSFZeroField

section LSFZeroField2

variable {K : Type} [LinearOrderedField K]

theorem LSF_RK4_mpi_K2_k1 (sqrt : K → K) (c : Collab K) (env : Env K) (st : LSF K) :
    (LSF_RK4_mpi_K2 sqrt c env st).k1 = st.k1 := by
  simp [LSF_RK4_mpi_K2]

theorem LSF_RK4_mpi_K3_k1 (sqrt : K → K) (c : Collab K) (env : Env K) (st : LSF K) :
    (LSF_RK4_mpi_K3 sqrt c env st).k1 = st.k1 := by
  simp [LSF_RK4_mpi_K3]

theorem LSF_RK4_mpi_K3_k2 (sqrt : K → K) (c : Collab K) (env : Env K) (st : LSF K) :
    (LSF_RK4_mpi_K3 sqrt c env st).k2 = st.k2 := by
  simp [LSF_RK4_mpi_K3]

theorem LSF_RK4_mpi_K4_k1 (sqrt : K → K) (c : Collab K) (env : Env K) (st : LSF K) :
    (LSF_RK4_mpi_K4 sqrt c env st).k1 = st.k1 := by
  simp [LSF_RK4_mpi_K4]

theorem LSF_RK4_mpi_K4_k2 (sqrt : K → K) (c : Collab K) (env : Env K) (st : LSF K) :
    (LSF_RK4_mpi_K4 sqrt c env st).k2 = st.k2 := by
  simp [LSF_RK4_mpi_K4]

theorem LSF_RK4_mpi_K4_k3 (sqrt : K → K) (c : Collab K) (env : Env K) (st : LSF K) :
    (LSF_RK4_mpi_K4 sqrt c env st).k3 = st.k3 := by
  simp [LSF_RK4_mpi_K4]

theorem LSF_RK4_mpi_step_k (env : Env K) (st : LSF K) :
    (LSF_RK4_mpi_step env st).k1 = st.k1 ∧ (LSF_RK4_mpi_step env st).k2 = st.k2 ∧
    (LSF_RK4_mpi_step env st).k3 = st.k3 ∧ (LSF_RK4_mpi_step env st).k4 = st.k4 := by
  simp [LSF_RK4_mpi_step]

theorem LSF_RK4_mpi_quiet (sqrt : K → K) (c : Collab K) (env : Env K) (st : LSF K)
    (i : Nat) (hi : i < env.num_core_atoms + env.num_bdry_atoms) (hsqrt : sqrt 0 = 0)
    (hT : env.temperature = 0) (hc : c.field_free) (hl : env.lsf_free i) :
    (LSF_RK4_mpi sqrt c env st).spin i = st.spin i ∧
    (LSF_RK4_mpi sqrt c env st).k1 i = ⟨0, 0, 0⟩ ∧
    (LSF_RK4_mpi sqrt c env st).k2 i = ⟨0, 0, 0⟩ ∧
    (LSF_RK4_mpi sqrt c env st).k3 i = ⟨0, 0, 0⟩ ∧
    (LSF_RK4_mpi sqrt c env st).k4 i = ⟨0, 0, 0⟩ := by
  obtain ⟨-, a1, a2, a3, a4⟩ := LSF_RK4_mpi_K1_quiet sqrt c env st i hi hsqrt hT hc hl
  obtain ⟨-, b1, b2, b3, b4⟩ :=
    LSF_RK4_mpi_K2_quiet sqrt c env (LSF_RK4_mpi_K1 sqrt c env st) i hi hsqrt hT hc hl a3
  obtain ⟨-, c1, c2⟩ := LSF_RK4_mpi_K3_quiet sqrt c env
    (LSF_RK4_mpi_K2 sqrt c env (LSF_RK4_mpi_K1 sqrt c env st)) i hi hsqrt hT b2 b3 b4
  have d1 := LSF_RK4_mpi_K4_quiet sqrt c env (LSF_RK4_mpi_K3 sqrt c env
    (LSF_RK4_mpi_K2 sqrt c env (LSF_RK4_mpi_K1 sqrt c env st))) i hi hsqrt hT hc hl c2
  have k1 : (LSF_RK4_mpi sqrt c env st).k1 i = ⟨0, 0, 0⟩ := by
    rw [LSF_RK4_mpi, (LSF_RK4_mpi_step_k env _).1, LSF_RK4_mpi_K4_k1, LSF_RK4_mpi_K3_k1,
      LSF_RK4_mpi_K2_k1]
    exact a1
  have k2 : (LSF_RK4_mpi sqrt c env st).k2 i = ⟨0, 0, 0⟩ := by
    rw [LSF_RK4_mpi, (LSF_RK4_mpi_step_k env _).2.1, LSF_RK4_mpi_K4_k2, LSF_RK4_mpi_K3_k2]
    exact b1
  have k3 : (LSF_RK4_mpi sqrt c env st).k3 i = ⟨0, 0, 0⟩ := by
    rw [LSF_RK4_mpi, (LSF_RK4_mpi_step_k env _).2.2.1, LSF_RK4_mpi_K4_k3]
    exact c1
  have k4 : (LSF_RK4_mpi sqrt c env st).k4 i = ⟨0, 0, 0⟩ := by
    rw [LSF_RK4_mpi, (LSF_RK4_mpi_step_k env _).2.2.2]
    exact d1
  refine ⟨?_, k1, k2, k3, k4⟩
  rw [LSF_RK4_mpi_spin sqrt c env st i hi, k1, k2, k3, k4]
  simp [Vec3.add, Vec3.smul]

/-- C11: a local atom whose total field vanishes at every stage (no neighbour field, no external
field, no LSF field), at temperature `T = 0`, for any damping `alpha`: one `LSF_RK4_mpi` step
returns its spin exactly as it was on entry, `(1,0,0)` in particular, and the four stage
increments of the atom are zero. -/
theorem LSF_RK4_mpi_isolated_atom (sqrt : K → K) (c : Collab K) (env : Env K) (st : LSF K)
    (i : Nat) (hi : i < env.num_core_atoms + env.num_bdry_atoms) (hsqrt : sqrt 0 = 0)
    (hT : env.temperature = 0) (hc : c.field_free) (hl : env.lsf_free i)
    (hS : st.spin i = ⟨1, 0, 0⟩) :
    (LSF_RK4_mpi sqrt c env st).spin i = ⟨1, 0, 0⟩ ∧
    (LSF_RK4_mpi sqrt c env st).k1 i = ⟨0, 0, 0⟩ ∧
    (LSF_RK4_mpi sqrt c env st).k2 i = ⟨0, 0, 0⟩ ∧
    (LSF_RK4_mpi sqrt c env st).k3 i = ⟨0, 0, 0⟩ ∧
    (LSF_RK4_mpi sqrt c env st).k4 i = ⟨0, 0, 0⟩ := by
  have h := LSF_RK4_mpi_quiet sqrt c env st i hi hsqrt hT hc hl
  rw [hS] at h
  exact h

theorem LSF_RK4_mpi_isolated_atom_witness :
    (0 < (Env.damped (1 / 10) 1 0 : Env ℝ).num_core_atoms
        + (Env.damped (1 / 10) 1 0 : Env ℝ).num_bdry_atoms ∧
      Real.sqrt 0 = 0 ∧ (Env.damped (1 / 10) 1 0 : Env ℝ).temperature = 0 ∧
      (Collab.constant_field (⟨0, 0, 0⟩ : Vec3 ℝ)).field_free ∧
      (Env.damped (1 / 10) 1 0 : Env ℝ).lsf_free 0 ∧
      (LSF.fresh (fun _ => (⟨1, 0, 0⟩ : Vec3 ℝ))).spin 0 = ⟨1, 0, 0⟩ ∧
      ((Env.damped (1 / 10) 1 0 : Env ℝ).material 0).alpha ≠ 0) ∧
    ((LSF_RK4_mpi Real.sqrt (Collab.constant_field ⟨0, 0, 0⟩) (Env.damped (1 / 10) 1 0)
        (LSF.fresh (fun _ => ⟨1, 0, 0⟩))).spin 0 = ⟨1, 0, 0⟩ ∧
    (LSF_RK4_mpi Real.sqrt (Collab.constant_field ⟨0, 0, 0⟩) (Env.damped (1 / 10) 1 0)
        (LSF.fresh (fun _ => ⟨1, 0, 0⟩))).k1 0 = ⟨0, 0, 0⟩ ∧
    (LSF_RK4_mpi Real.sqrt (Collab.constant_field ⟨0, 0, 0⟩) (Env.damped (1 / 10) 1 0)
        (LSF.fresh (fun _ => ⟨1, 0, 0⟩))).k2 0 = ⟨0, 0, 0⟩ ∧
    (LSF_RK4_mpi Real.sqrt (Collab.constant_field ⟨0, 0, 0⟩) (Env.damped (1 / 10) 1 0)
        (LSF.fresh (fun _ => ⟨1, 0, 0⟩))).k3 0 = ⟨0, 0, 0⟩ ∧
    (LSF_RK4_mpi Real.sqrt (Collab.constant_field ⟨0, 0, 0⟩) (Env.damped (1 / 10) 1 0)
        (LSF.fresh (fun _ => ⟨1, 0, 0⟩))).k4 0 = ⟨0, 0, 0⟩) := by
  have hc : (Collab.constant_field (⟨0, 0, 0⟩ : Vec3 ℝ)).field_free :=
    ⟨fun _ _ _ _ => ⟨rfl, rfl, rfl⟩, fun _ => ⟨rfl, rfl, rfl⟩⟩
  have hl : (Env.damped (1 / 10) 1 0 : Env ℝ).lsf_free 0 := ⟨rfl, rfl, rfl⟩
  have ha : ((Env.damped (1 / 10) 1 0 : Env ℝ).material 0).alpha ≠ 0 := by
    norm_num [Env.damped]
  exact ⟨⟨by decide, Real.sqrt_zero, rfl, hc, hl, rfl, ha⟩,
    LSF_RK4_mpi_isolated_atom Real.sqrt (Collab.constant_field ⟨0, 0, 0⟩)
      (Env.damped (1 / 10) 1 0) (LSF.fresh (fun _ => ⟨1, 0, 0⟩)) 0 (by decide) Real.sqrt_zero
      rfl hc hl rfl⟩

end LSFZeroField2


section LSFTrace

variable {K : Type} [Field K]

@[simp] theorem LSF.log_trace (ev : Event) (st : LSF K) :
    (LSF.log ev st).trace = st.trace ++ [ev] := rfl

@[simp] theorem mpi_init_halo_swap_trace (st : LSF K) :
    (mpi_init_halo_swap st).trace = st.trace ++ [Event.init_halo_swap] := rfl

@[simp] theorem mpi_complete_halo_swap_trace (c : Collab K) (env : Env K) (st : LSF K) :
    (mpi_complete_halo_swap c env st).trace = st.trace ++ [Event.complete_halo_swap] := rfl

@[simp] theorem barrier_trace (st : LSF K) :
    (barrier st).trace = st.trace ++ [Event.barrier] := rfl

@[simp] theorem LSF_RK4_check_init_trace (st : LSF K) :
    (LSF_RK4_check_init st).trace = st.trace := by
  unfold LSF_RK4_check_init
  split_ifs <;> rfl

@[simp] theorem calculate_spin_fields_trace (c : Collab K) (start stop : Nat) (st : LSF K) :
    (calculate_spin_fields c start stop st).trace
      = st.trace ++ [Event.spin_fields start stop] := by
  unfold calculate_spin_fields
  rw [LSF.log_trace, for_range_preserve (fun s : LSF K => s.trace)
    (calculate_spin_fields_atom c) (fun _ _ => rfl)]

@[simp] theorem calculate_external_fields_trace (c : Collab K) (start stop : Nat)
    (st : LSF K) :
    (calculate_external_fields c start stop st).trace
      = st.trace ++ [Event.external_fields start stop] := by
  unfold calculate_external_fields
  rw [LSF.log_trace, for_range_preserve (fun s : LSF K => s.trace)
    (calculate_external_fields_atom c) (fun _ _ => rfl)]

@[simp] theorem calculate_lsf_rk4_field_trace (env : Env K) (start stop : Nat) (st : LSF K) :
    (calculate_lsf_rk4_field env start stop st).trace
      = st.trace ++ [Event.lsf_field start stop] := by
  unfold calculate_lsf_rk4_field
  rw [LSF.log_trace, for_range_preserve (fun s : LSF K => s.trace)
    (calculate_lsf_rk4_field_atom env) (fun _ _ => rfl)]

@[simp] theorem store_initial_spins_trace (start stop : Nat) (st : LSF K) :
    (store_initial_spins start stop st).trace
      = st.trace ++ [Event.store_initial start stop] := by
  unfold store_initial_spins
  rw [LSF.log_trace, for_range_preserve (fun s : LSF K => s.trace)
    store_initial_spin_atom (fun _ _ => rfl)]

@[simp] theorem RK4_step_trace (start stop : Nat) (st : LSF K) :
    (RK4_step start stop st).trace = st.trace ++ [Event.combine start stop] := by
  unfold RK4_step
  rw [LSF.log_trace, for_range_preserve (fun s : LSF K => s.trace)
    RK4_step_atom (fun _ _ => rfl)]

@[simp] theorem generate_noise_trace (c : Collab K) (start stop : Nat) (st : LSF K) :
    (generate_noise c start stop st).trace = st.trace ++ [Event.noise start stop] := by
  unfold generate_noise
  rw [LSF.log_trace, for_range_preserve (fun s : LSF K => s.trace)
    (generate_tz_atom c) (fun _ _ => rfl), for_range_preserve (fun s : LSF K => s.trace)
    (generate_ty_atom c) (fun _ _ => rfl), for_range_preserve (fun s : LSF K => s.trace)
    (generate_tx_atom c) (fun _ _ => rfl)]

@[simp] theorem stage_loop_K1_trace (sqrt : K → K) (env : Env K) (sigma : K)
    (k start stop : Nat) (st : LSF K) :
    (stage_loop k start stop (K1_atom sqrt env sigma) st).trace
      = st.trace ++ [Event.stage k start stop] := by
  unfold stage_loop
  rw [LSF.log_trace, for_range_preserve (fun s : LSF K => s.trace)
    (K1_atom sqrt env sigma) (fun _ _ => rfl)]

@[simp] theorem stage_loop_K2_trace (sqrt : K → K) (env : Env K) (sigma : K)
    (k start stop : Nat) (st : LSF K) :
    (stage_loop k start stop (K2_atom sqrt env sigma) st).trace
      = st.trace ++ [Event.stage k start stop] := by
  unfold stage_loop
  rw [LSF.log_trace, for_range_preserve (fun s : LSF K => s.trace)
    (K2_atom sqrt env sigma) (fun _ _ => rfl)]

@[simp] theorem stage_loop_K3_trace (sqrt : K → K) (env : Env K) (sigma : K)
    (k start stop : Nat) (st : LSF K) :
    (stage_loop k start stop (K3_atom sqrt env sigma) st).trace
      = st.trace ++ [Event.stage k start stop] := by
  unfold stage_loop
  rw [LSF.log_trace, for_range_preserve (fun s : LSF K => s.trace)
    (K3_atom sqrt env sigma) (fun _ _ => rfl)]

@[simp] theorem stage_loop_K4_trace (sqrt : K → K) (env : Env K) (sigma : K)
    (k start stop : Nat) (st : LSF K) :
    (stage_loop k start stop (K4_atom sqrt env sigma) st).trace
      = st.trace ++ [Event.stage k start stop] := by
  unfold stage_loop
  rw [LSF.log_trace, for_range_preserve (fun s : LSF K => s.trace)
    (K4_atom sqrt env sigma) (fun _ _ => rfl)]

theorem LSF_RK4_mpi_trace (sqrt : K → K) (c : Collab K) (env : Env K) (st : LSF K) :
    (LSF_RK4_mpi sqrt c env st).trace
      = st.trace ++ LSF_RK4_mpi_events env.num_core_atoms env.num_bdry_atoms := by
  simp [LSF_RK4_mpi, LSF_RK4_mpi_step, LSF_RK4_mpi_K4, LSF_RK4_mpi_K3, LSF_RK4_mpi_K2,
    LSF_RK4_mpi_K1, LSF_RK4_mpi_events]

/-- C17: the events logged by one `LSF_RK4_mpi` step are the log on entry followed by the list
`LSF_RK4_mpi_events`.  In that list the halo calls are `init, complete` four times in
alternation; every field evaluation and every stage loop logged while an exchange is pending
runs over the core range `[0, num_core_atoms)`, so none touches the boundary range; and the
list ends with the final combination followed by the barrier, all eight halo calls coming
before them and the barrier occurring nowhere else. -/
theorem LSF_RK4_mpi_protocol (sqrt : K → K) (c : Collab K) (env : Env K) (st : LSF K) :
    (LSF_RK4_mpi sqrt c env st).trace
      = st.trace ++ LSF_RK4_mpi_events env.num_core_atoms env.num_bdry_atoms ∧
    halo_calls (LSF_RK4_mpi_events env.num_core_atoms env.num_bdry_atoms)
      = [Event.init_halo_swap, Event.complete_halo_swap, Event.init_halo_swap,
         Event.complete_halo_swap, Event.init_halo_swap, Event.complete_halo_swap,
         Event.init_halo_swap, Event.complete_halo_swap] ∧
    (∀ e ∈ pending_events false
        (LSF_RK4_mpi_events env.num_core_atoms env.num_bdry_atoms),
      ∀ r, e.field_or_spin_range = some r → r = (0, env.num_core_atoms)) ∧
    (∃ pre, LSF_RK4_mpi_events env.num_core_atoms env.num_bdry_atoms
        = pre ++ [Event.combine 0 (env.num_core_atoms + env.num_bdry_atoms), Event.barrier] ∧
      Event.barrier ∉ pre ∧
      halo_calls pre = halo_calls
        (LSF_RK4_mpi_events env.num_core_atoms env.num_bdry_atoms)) := by
  refine ⟨LSF_RK4_mpi_trace sqrt c env st, ?_, ?_, ?_⟩
  · simp [halo_calls, LSF_RK4_mpi_events]
  · intro e he r hr
    simp only [LSF_RK4_mpi_events, pending_events, List.mem_cons, List.mem_singleton,
      List.not_mem_nil, or_false] at he
    rcases he with rfl | rfl | rfl | rfl | rfl | rfl | rfl | rfl | rfl | rfl | rfl | rfl |
      rfl | rfl | rfl | rfl <;> simp [Event.field_or_spin_range] at hr <;> exact hr.symm
  · refine ⟨(LSF_RK4_mpi_events env.num_core_atoms env.num_bdry_atoms).take 33, ?_, ?_, ?_⟩
    · simp [LSF_RK4_mpi_events]
    · simp [LSF_RK4_mpi_events]
    · simp [halo_calls, LSF_RK4_mpi_events]

end LSFTrace

section LSFAgree

variable {K : Type} [Field K]

theorem LSF.x_spin_array_of_spin (s1 s2 : LSF K) (h : ∀ j, s1.spin j = s2.spin j) :
    s1.x_spin_array = s2.x_spin_array ∧ s1.y_spin_array = s2.y_spin_array ∧
      s1.z_spin_array = s2.z_spin_array :=
  ⟨funext fun j => congrArg Vec3.x (h j), funext fun j => congrArg Vec3.y (h j),
    funext fun j => congrArg Vec3.z (h j)⟩

theorem agree_mpi_init_halo_swap (w : Written) (s1 s2 : LSF K)
    (h : LSF.agree w s1 s2) :
    LSF.agree w (mpi_init_halo_swap s1) (mpi_init_halo_swap s2) := by
  obtain ⟨⟨h_spin, h_gc, h_hc⟩, h_spin_field, h_external_field, h_lsf, h_initial_spin, h_t, h_k1, h_k2, h_k3, h_k4⟩ := h
  refine ⟨⟨?_, ?_, ?_⟩, ?_, ?_, ?_, ?_, ?_, ?_, ?_, ?_, ?_⟩
  · intro j; rw [mpi_init_halo_swap_spin, mpi_init_halo_swap_spin]; exact h_spin j
  · rw [mpi_init_halo_swap_gaussian_count, mpi_init_halo_swap_gaussian_count]; exact h_gc
  · rw [mpi_init_halo_swap_halo_count, mpi_init_halo_swap_halo_count]; exact h_hc
  · intro j hj; rw [mpi_init_halo_swap_spin_field, mpi_init_halo_swap_spin_field]; exact h_spin_field j hj
  · intro j hj; rw [mpi_init_halo_swap_external_field, mpi_init_halo_swap_external_field]; exact h_external_field j hj
  · intro j hj; rw [mpi_init_halo_swap_lsf, mpi_init_halo_swap_lsf]; exact h_lsf j hj
  · intro j hj; rw [mpi_init_halo_swap_initial_spin, mpi_init_halo_swap_initial_spin]; exact h_initial_spin j hj
  · intro j hj; rw [mpi_init_halo_swap_t, mpi_init_halo_swap_t]; exact h_t j hj
  · intro j hj; rw [mpi_init_halo_swap_k1, mpi_init_halo_swap_k1]; exact h_k1 j hj
  · intro j hj; rw [mpi_init_halo_swap_k2, mpi_init_halo_swap_k2]; exact h_k2 j hj
  · intro j hj; rw [mpi_init_halo_swap_k3, mpi_init_halo_swap_k3]; exact h_k3 j hj
  · intro j hj; rw [mpi_init_halo_swap_k4, mpi_init_halo_swap_k4]; exact h_k4 j hj

theorem agree_barrier (w : Written) (s1 s2 : LSF K)
    (h : LSF.agree w s1 s2) :
    LSF.agree w (barrier s1) (barrier s2) := by
  obtain ⟨⟨h_spin, h_gc, h_hc⟩, h_spin_field, h_external_field, h_lsf, h_initial_spin, h_t, h_k1, h_k2, h_k3, h_k4⟩ := h
  refine ⟨⟨?_, ?_, ?_⟩, ?_, ?_, ?_, ?_, ?_, ?_, ?_, ?_, ?_⟩
  · intro j; rw [barrier_spin, barrier_spin]; exact h_spin j
  · rw [barrier_gaussian_count, barrier_gaussian_count]; exact h_gc
  · rw [barrier_halo_count, barrier_halo_count]; exact h_hc
  · intro j hj; rw [barrier_spin_field, barrier_spin_field]; exact h_spin_field j hj
  · intro j hj; rw [barrier_external_field, barrier_external_field]; exact h_external_field j hj
  · intro j hj; rw [barrier_lsf, barrier_lsf]; exact h_lsf j hj
  · intro j hj; rw [barrier_initial_spin, barrier_initial_spin]; exact h_initial_spin j hj
  · intro j hj; rw [barrier_t, barrier_t]; exact h_t j hj
  · intro j hj; rw [barrier_k1, barrier_k1]; exact h_k1 j hj
  · intro j hj; rw [barrier_k2, barrier_k2]; exact h_k2 j hj
  · intro j hj; rw [barrier_k3, barrier_k3]; exact h_k3 j hj
  · intro j hj; rw [barrier_k4, barrier_k4]; exact h_k4 j hj

theorem agree_mpi_complete_halo_swap (c : Collab K) (env : Env K) (w : Written) (s1 s2 : LSF K)
    (h : LSF.agree w s1 s2) :
    LSF.agree w (mpi_complete_halo_swap c env s1) (mpi_complete_halo_swap c env s2) := by
  obtain ⟨⟨h_spin, h_gc, h_hc⟩, h_spin_field, h_external_field, h_lsf, h_initial_spin, h_t, h_k1, h_k2, h_k3, h_k4⟩ := h
  refine ⟨⟨?_, ?_, ?_⟩, ?_, ?_, ?_, ?_, ?_, ?_, ?_, ?_, ?_⟩
  · intro j; rw [mpi_complete_halo_swap_spin, mpi_complete_halo_swap_spin, h_hc, h_spin j]
  · rw [mpi_complete_halo_swap_gaussian_count, mpi_complete_halo_swap_gaussian_count]; exact h_gc
  · rw [mpi_complete_halo_swap_halo_count, mpi_complete_halo_swap_halo_count, h_hc]
  · intro j hj; rw [mpi_complete_halo_swap_spin_field, mpi_complete_halo_swap_spin_field]; exact h_spin_field j hj
  · intro j hj; rw [mpi_complete_halo_swap_external_field, mpi_complete_halo_swap_external_field]; exact h_external_field j hj
  · intro j hj; rw [mpi_complete_halo_swap_lsf, mpi_complete_halo_swap_lsf]; exact h_lsf j hj
  · intro j hj; rw [mpi_complete_halo_swap_initial_spin, mpi_complete_halo_swap_initial_spin]; exact h_initial_spin j hj
  · intro j hj; rw [mpi_complete_halo_swap_t, mpi_complete_halo_swap_t]; exact h_t j hj
  · intro j hj; rw [mpi_complete_halo_swap_k1, mpi_complete_halo_swap_k1]; exact h_k1 j hj
  · intro j hj; rw [mpi_complete_halo_swap_k2, mpi_complete_halo_swap_k2]; exact h_k2 j hj
  · intro j hj; rw [mpi_complete_halo_swap_k3, mpi_complete_halo_swap_k3]; exact h_k3 j hj
  · intro j hj; rw [mpi_complete_halo_swap_k4, mpi_complete_halo_swap_k4]; exact h_k4 j hj

theorem agree_calculate_spin_fields (c : Collab K) (start stop : Nat) (w : Written) (s1 s2 : LSF K)
    (h : LSF.agree w s1 s2)
    (hs : start ≤ w.spin_field) :
    LSF.agree { w with spin_field := stop } (calculate_spin_fields c start stop s1) (calculate_spin_fields c start stop s2) := by
  obtain ⟨⟨h_spin, h_gc, h_hc⟩, h_spin_field, h_external_field, h_lsf, h_initial_spin, h_t, h_k1, h_k2, h_k3, h_k4⟩ := h
  refine ⟨⟨?_, ?_, ?_⟩, ?_, ?_, ?_, ?_, ?_, ?_, ?_, ?_, ?_⟩
  · intro j; rw [calculate_spin_fields_spin, calculate_spin_fields_spin]; exact h_spin j
  · rw [calculate_spin_fields_gaussian_count, calculate_spin_fields_gaussian_count]; exact h_gc
  · rw [calculate_spin_fields_halo_count, calculate_spin_fields_halo_count]; exact h_hc
  · intro j hj
    simp only [] at hj
    rw [calculate_spin_fields_spin_field, calculate_spin_fields_spin_field]
    by_cases hr : start ≤ j ∧ j < stop
    · rw [if_pos hr, if_pos hr]
      obtain ⟨hx, hy, hz⟩ := LSF.x_spin_array_of_spin s1 s2 h_spin
      rw [hx, hy, hz]
    · rw [if_neg hr, if_neg hr]
      exact h_spin_field j (by omega)
  · intro j hj; rw [calculate_spin_fields_external_field, calculate_spin_fields_external_field]; exact h_external_field j hj
  · intro j hj; rw [calculate_spin_fields_lsf, calculate_spin_fields_lsf]; exact h_lsf j hj
  · intro j hj; rw [calculate_spin_fields_initial_spin, calculate_spin_fields_initial_spin]; exact h_initial_spin j hj
  · intro j hj; rw [calculate_spin_fields_t, calculate_spin_fields_t]; exact h_t j hj
  · intro j hj; rw [calculate_spin_fields_k1, calculate_spin_fields_k1]; exact h_k1 j hj
  · intro j hj; rw [calculate_spin_fields_k2, calculate_spin_fields_k2]; exact h_k2 j hj
  · intro j hj; rw [calculate_spin_fields_k3, calculate_spin_fields_k3]; exact h_k3 j hj
  · intro j hj; rw [calculate_spin_fields_k4, calculate_spin_fields_k4]; exact h_k4 j hj

theorem agree_calculate_external_fields (c : Collab K) (start stop : Nat) (w : Written) (s1 s2 : LSF K)
    (h : LSF.agree w s1 s2)
    (hs : start ≤ w.external_field) :
    LSF.agree { w with external_field := stop } (calculate_external_fields c start stop s1) (calculate_external_fields c start stop s2) := by
  obtain ⟨⟨h_spin, h_gc, h_hc⟩, h_spin_field, h_external_field, h_lsf, h_initial_spin, h_t, h_k1, h_k2, h_k3, h_k4⟩ := h
  refine ⟨⟨?_, ?_, ?_⟩, ?_, ?_, ?_, ?_, ?_, ?_, ?_, ?_, ?_⟩
  · intro j; rw [calculate_external_fields_spin, calculate_external_fields_spin]; exact h_spin j
  · rw [calculate_external_fields_gaussian_count, calculate_external_fields_gaussian_count]; exact h_gc
  · rw [calculate_external_fields_halo_count, calculate_external_fields_halo_count]; exact h_hc
  · intro j hj; rw [calculate_external_fields_spin_field, calculate_external_fields_spin_field]; exact h_spin_field j hj
  · intro j hj
    simp only [] at hj
    rw [calculate_external_fields_external_field, calculate_external_fields_external_field]
    by_cases hr : start ≤ j ∧ j < stop
    · rw [if_pos hr, if_pos hr]
    · rw [if_neg hr, if_neg hr]
      exact h_external_field j (by omega)
  · intro j hj; rw [calculate_external_fields_lsf, calculate_external_fields_lsf]; exact h_lsf j hj
  · intro j hj; rw [calculate_external_fields_initial_spin, calculate_external_fields_initial_spin]; exact h_initial_spin j hj
  · intro j hj; rw [calculate_external_fields_t, calculate_external_fields_t]; exact h_t j hj
  · intro j hj; rw [calculate_external_fields_k1, calculate_external_fields_k1]; exact h_k1 j hj
  · intro j hj; rw [calculate_external_fields_k2, calculate_external_fields_k2]; exact h_k2 j hj
  · intro j hj; rw [calculate_external_fields_k3, calculate_external_fields_k3]; exact h_k3 j hj
  · intro j hj; rw [calculate_external_fields_k4, calculate_external_fields_k4]; exact h_k4 j hj

theorem agree_calculate_lsf_rk4_field (env : Env K) (start stop : Nat) (w : Written) (s1 s2 : LSF K)
    (h : LSF.agree w s1 s2)
    (hs : start ≤ w.lsf) :
    LSF.agree { w with lsf := stop } (calculate_lsf_rk4_field env start stop s1) (calculate_lsf_rk4_field env start stop s2) := by
  obtain ⟨⟨h_spin, h_gc, h_hc⟩, h_spin_field, h_external_field, h_lsf, h_initial_spin, h_t, h_k1, h_k2, h_k3, h_k4⟩ := h
  refine ⟨⟨?_, ?_, ?_⟩, ?_, ?_, ?_, ?_, ?_, ?_, ?_, ?_, ?_⟩
  · intro j; rw [calculate_lsf_rk4_field_spin, calculate_lsf_rk4_field_spin]; exact h_spin j
  · rw [calculate_lsf_rk4_field_gaussian_count, calculate_lsf_rk4_field_gaussian_count]; exact h_gc
  · rw [calculate_lsf_rk4_field_halo_count, calculate_lsf_rk4_field_halo_count]; exact h_hc
  · intro j hj; rw [calculate_lsf_rk4_field_spin_field, calculate_lsf_rk4_field_spin_field]; exact h_spin_field j hj
  · intro j hj; rw [calculate_lsf_rk4_field_external_field, calculate_lsf_rk4_field_external_field]; exact h_external_field j hj
  · intro j hj
    simp only [] at hj
    rw [calculate_lsf_rk4_field_lsf, calculate_lsf_rk4_field_lsf]
    by_cases hr : start ≤ j ∧ j < stop
    · rw [if_pos hr, if_pos hr]
      rw [h_spin j]
    · rw [if_neg hr, if_neg hr]
      exact h_lsf j (by omega)
  · intro j hj; rw [calculate_lsf_rk4_field_initial_spin, calculate_lsf_rk4_field_initial_spin]; exact h_initial_spin j hj
  · intro j hj; rw [calculate_lsf_rk4_field_t, calculate_lsf_rk4_field_t]; exact h_t j hj
  · intro j hj; rw [calculate_lsf_rk4_field_k1, calculate_lsf_rk4_field_k1]; exact h_k1 j hj
  · intro j hj; rw [calculate_lsf_rk4_field_k2, calculate_lsf_rk4_field_k2]; exact h_k2 j hj
  · intro j hj; rw [calculate_lsf_rk4_field_k3, calculate_lsf_rk4_field_k3]; exact h_k3 j hj
  · intro j hj; rw [calculate_lsf_rk4_field_k4, calculate_lsf_rk4_field_k4]; exact h_k4 j hj

theorem agree_store_initial_spins (start stop : Nat) (w : Written) (s1 s2 : LSF K)
    (h : LSF.agree w s1 s2)
    (hs : start ≤ w.initial_spin) :
    LSF.agree { w with initial_spin := stop } (store_initial_spins start stop s1) (store_initial_spins start stop s2) := by
  obtain ⟨⟨h_spin, h_gc, h_hc⟩, h_spin_field, h_external_field, h_lsf, h_initial_spin, h_t, h_k1, h_k2, h_k3, h_k4⟩ := h
  refine ⟨⟨?_, ?_, ?_⟩, ?_, ?_, ?_, ?_, ?_, ?_, ?_, ?_, ?_⟩
  · intro j; rw [store_initial_spins_spin, store_initial_spins_spin]; exact h_spin j
  · rw [store_initial_spins_gaussian_count, store_initial_spins_gaussian_count]; exact h_gc
  · rw [store_initial_spins_halo_count, store_initial_spins_halo_count]; exact h_hc
  · intro j hj; rw [store_initial_spins_spin_field, store_initial_spins_spin_field]; exact h_spin_field j hj
  · intro j hj; rw [store_initial_spins_external_field, store_initial_spins_external_field]; exact h_external_field j hj
  · intro j hj; rw [store_initial_spins_lsf, store_initial_spins_lsf]; exact h_lsf j hj
  · intro j hj
    simp only [] at hj
    rw [store_initial_spins_initial_spin, store_initial_spins_initial_spin]
    by_cases hr : start ≤ j ∧ j < stop
    · rw [if_pos hr, if_pos hr]
      exact h_spin j
    · rw [if_neg hr, if_neg hr]
      exact h_initial_spin j (by omega)
  · intro j hj; rw [store_initial_spins_t, store_initial_spins_t]; exact h_t j hj
  · intro j hj; rw [store_initial_spins_k1, store_initial_spins_k1]; exact h_k1 j hj
  · intro j hj; rw [store_initial_spins_k2, store_initial_spins_k2]; exact h_k2 j hj
  · intro j hj; rw [store_initial_spins_k3, store_initial_spins_k3]; exact h_k3 j hj
  · intro j hj; rw [store_initial_spins_k4, store_initial_spins_k4]; exact h_k4 j hj

theorem agree_generate_noise (c : Collab K) (start stop : Nat) (w : Written) (s1 s2 : LSF K)
    (h : LSF.agree w s1 s2)
    (hs : start ≤ w.t) :
    LSF.agree { w with t := stop } (generate_noise c start stop s1) (generate_noise c start stop s2) := by
  obtain ⟨⟨h_spin, h_gc, h_hc⟩, h_spin_field, h_external_field, h_lsf, h_initial_spin, h_t, h_k1, h_k2, h_k3, h_k4⟩ := h
  refine ⟨⟨?_, ?_, ?_⟩, ?_, ?_, ?_, ?_, ?_, ?_, ?_, ?_, ?_⟩
  · intro j; rw [generate_noise_spin, generate_noise_spin]; exact h_spin j
  · rw [generate_noise_gaussian_count, generate_noise_gaussian_count, h_gc]
  · rw [generate_noise_halo_count, generate_noise_halo_count]; exact h_hc
  · intro j hj; rw [generate_noise_spin_field, generate_noise_spin_field]; exact h_spin_field j hj
  · intro j hj; rw [generate_noise_external_field, generate_noise_external_field]; exact h_external_field j hj
  · intro j hj; rw [generate_noise_lsf, generate_noise_lsf]; exact h_lsf j hj
  · intro j hj; rw [generate_noise_initial_spin, generate_noise_initial_spin]; exact h_initial_spin j hj
  · intro j hj
    simp only [] at hj
    rw [generate_noise_t, generate_noise_t]
    by_cases hr : start ≤ j ∧ j < stop
    · rw [if_pos hr, if_pos hr]
      rw [h_gc]
    · rw [if_neg hr, if_neg hr]
      exact h_t j (by omega)
  · intro j hj; rw [generate_noise_k1, generate_noise_k1]; exact h_k1 j hj
  · intro j hj; rw [generate_noise_k2, generate_noise_k2]; exact h_k2 j hj
  · intro j hj; rw [generate_noise_k3, generate_noise_k3]; exact h_k3 j hj
  · intro j hj; rw [generate_noise_k4, generate_noise_k4]; exact h_k4 j hj

theorem agree_stage_loop_K1 (sqrt : K → K) (env : Env K) (sigma : K) (k start stop : Nat) (w : Written) (s1 s2 : LSF K)
    (h : LSF.agree w s1 s2)
    (hs : start ≤ w.k1) (r1 : stop ≤ w.spin_field) (r2 : stop ≤ w.external_field)
    (r3 : stop ≤ w.lsf) (r4 : stop ≤ w.t) :
    LSF.agree { w with k1 := stop } (stage_loop k start stop (K1_atom sqrt env sigma) s1) (stage_loop k start stop (K1_atom sqrt env sigma) s2) := by
  obtain ⟨⟨h_spin, h_gc, h_hc⟩, h_spin_field, h_external_field, h_lsf, h_initial_spin, h_t, h_k1, h_k2, h_k3, h_k4⟩ := h
  refine ⟨⟨?_, ?_, ?_⟩, ?_, ?_, ?_, ?_, ?_, ?_, ?_, ?_, ?_⟩
  · intro j
    rw [stage_loop_K1_spin, stage_loop_K1_spin]
    by_cases hr : start ≤ j ∧ j < stop
    · have e1 := h_spin_field j (by omega)
      have e2 := h_external_field j (by omega)
      have e3 := h_lsf j (by omega)
      have e4 := h_t j (by omega)
      rw [if_pos hr, if_pos hr, h_spin j, e1, e2, e3, e4]
    · rw [if_neg hr, if_neg hr]
      exact h_spin j
  · rw [stage_loop_K1_gaussian_count, stage_loop_K1_gaussian_count]; exact h_gc
  · rw [stage_loop_K1_halo_count, stage_loop_K1_halo_count]; exact h_hc
  · intro j hj; rw [stage_loop_K1_spin_field, stage_loop_K1_spin_field]; exact h_spin_field j hj
  · intro j hj; rw [stage_loop_K1_external_field, stage_loop_K1_external_field]; exact h_external_field j hj
  · intro j hj; rw [stage_loop_K1_lsf, stage_loop_K1_lsf]; exact h_lsf j hj
  · intro j hj; rw [stage_loop_K1_initial_spin, stage_loop_K1_initial_spin]; exact h_initial_spin j hj
  · intro j hj; rw [stage_loop_K1_t, stage_loop_K1_t]; exact h_t j hj
  · intro j hj
    simp only [] at hj
    rw [stage_loop_K1_k1, stage_loop_K1_k1]
    by_cases hr : start ≤ j ∧ j < stop
    · have e1 := h_spin_field j (by omega)
      have e2 := h_external_field j (by omega)
      have e3 := h_lsf j (by omega)
      have e4 := h_t j (by omega)
      rw [if_pos hr, if_pos hr, h_spin j, e1, e2, e3, e4]
    · rw [if_neg hr, if_neg hr]
      exact h_k1 j (by omega)
  · intro j hj; rw [stage_loop_K1_k2, stage_loop_K1_k2]; exact h_k2 j hj
  · intro j hj; rw [stage_loop_K1_k3, stage_loop_K1_k3]; exact h_k3 j hj
  · intro j hj; rw [stage_loop_K1_k4, stage_loop_K1_k4]; exact h_k4 j hj

theorem agree_stage_loop_K2 (sqrt : K → K) (env : Env K) (sigma : K) (k start stop : Nat) (w : Written) (s1 s2 : LSF K)
    (h : LSF.agree w s1 s2)
    (hs : start ≤ w.k2) (r1 : stop ≤ w.spin_field) (r2 : stop ≤ w.external_field)
    (r3 : stop ≤ w.lsf) (r4 : stop ≤ w.t) :
    LSF.agree { w with k2 := stop } (stage_loop k start stop (K2_atom sqrt env sigma) s1) (stage_loop k start stop (K2_atom sqrt env sigma) s2) := by
  obtain ⟨⟨h_spin, h_gc, h_hc⟩, h_spin_field, h_external_field, h_lsf, h_initial_spin, h_t, h_k1, h_k2, h_k3, h_k4⟩ := h
  refine ⟨⟨?_, ?_, ?_⟩, ?_, ?_, ?_, ?_, ?_, ?_, ?_, ?_, ?_⟩
  · intro j
    rw [stage_loop_K2_spin, stage_loop_K2_spin]
    by_cases hr : start ≤ j ∧ j < stop
    · have e1 := h_spin_field j (by omega)
      have e2 := h_external_field j (by omega)
      have e3 := h_lsf j (by omega)
      have e4 := h_t j (by omega)
      rw [if_pos hr, if_pos hr, h_spin j, e1, e2, e3, e4]
    · rw [if_neg hr, if_neg hr]
      exact h_spin j
  · rw [stage_loop_K2_gaussian_count, stage_loop_K2_gaussian_count]; exact h_gc
  · rw [stage_loop_K2_halo_count, stage_loop_K2_halo_count]; exact h_hc
  · intro j hj; rw [stage_loop_K2_spin_field, stage_loop_K2_spin_field]; exact h_spin_field j hj
  · intro j hj; rw [stage_loop_K2_external_field, stage_loop_K2_external_field]; exact h_external_field j hj
  · intro j hj; rw [stage_loop_K2_lsf, stage_loop_K2_lsf]; exact h_lsf j hj
  · intro j hj; rw [stage_loop_K2_initial_spin, stage_loop_K2_initial_spin]; exact h_initial_spin j hj
  · intro j hj; rw [stage_loop_K2_t, stage_loop_K2_t]; exact h_t j hj
  · intro j hj; rw [stage_loop_K2_k1, stage_loop_K2_k1]; exact h_k1 j hj
  · intro j hj
    simp only [] at hj
    rw [stage_loop_K2_k2, stage_loop_K2_k2]
    by_cases hr : start ≤ j ∧ j < stop
    · have e1 := h_spin_field j (by omega)
      have e2 := h_external_field j (by omega)
      have e3 := h_lsf j (by omega)
      have e4 := h_t j (by omega)
      rw [if_pos hr, if_pos hr, h_spin j, e1, e2, e3, e4]
    · rw [if_neg hr, if_neg hr]
      exact h_k2 j (by omega)
  · intro j hj; rw [stage_loop_K2_k3, stage_loop_K2_k3]; exact h_k3 j hj
  · intro j hj; rw [stage_loop_K2_k4, stage_loop_K2_k4]; exact h_k4 j hj

theorem agree_stage_loop_K3 (sqrt : K → K) (env : Env K) (sigma : K) (k start stop : Nat) (w : Written) (s1 s2 : LSF K)
    (h : LSF.agree w s1 s2)
    (hs : start ≤ w.k3) (r1 : stop ≤ w.spin_field) (r2 : stop ≤ w.external_field)
    (r3 : stop ≤ w.lsf) (r4 : stop ≤ w.t) :
    LSF.agree { w with k3 := stop } (stage_loop k start stop (K3_atom sqrt env sigma) s1) (stage_loop k start stop (K3_atom sqrt env sigma) s2) := by
  obtain ⟨⟨h_spin, h_gc, h_hc⟩, h_spin_field, h_external_field, h_lsf, h_initial_spin, h_t, h_k1, h_k2, h_k3, h_k4⟩ := h
  refine ⟨⟨?_, ?_, ?_⟩, ?_, ?_, ?_, ?_, ?_, ?_, ?_, ?_, ?_⟩
  · intro j
    rw [stage_loop_K3_spin, stage_loop_K3_spin]
    by_cases hr : start ≤ j ∧ j < stop
    · have e1 := h_spin_field j (by omega)
      have e2 := h_external_field j (by omega)
      have e3 := h_lsf j (by omega)
      have e4 := h_t j (by omega)
      rw [if_pos hr, if_pos hr, h_spin j, e1, e2, e3, e4]
    · rw [if_neg hr, if_neg hr]
      exact h_spin j
  · rw [stage_loop_K3_gaussian_count, stage_loop_K3_gaussian_count]; exact h_gc
  · rw [stage_loop_K3_halo_count, stage_loop_K3_halo_count]; exact h_hc
  · intro j hj; rw [stage_loop_K3_spin_field, stage_loop_K3_spin_field]; exact h_spin_field j hj
  · intro j hj; rw [stage_loop_K3_external_field, stage_loop_K3_external_field]; exact h_external_field j hj
  · intro j hj; rw [stage_loop_K3_lsf, stage_loop_K3_lsf]; exact h_lsf j hj
  · intro j hj; rw [stage_loop_K3_initial_spin, stage_loop_K3_initial_spin]; exact h_initial_spin j hj
  · intro j hj; rw [stage_loop_K3_t, stage_loop_K3_t]; exact h_t j hj
  · intro j hj; rw [stage_loop_K3_k1, stage_loop_K3_k1]; exact h_k1 j hj
  · intro j hj; rw [stage_loop_K3_k2, stage_loop_K3_k2]; exact h_k2 j hj
  · intro j hj
    simp only [] at hj
    rw [stage_loop_K3_k3, stage_loop_K3_k3]
    by_cases hr : start ≤ j ∧ j < stop
    · have e1 := h_spin_field j (by omega)
      have e2 := h_external_field j (by omega)
      have e3 := h_lsf j (by omega)
      have e4 := h_t j (by omega)
      rw [if_pos hr, if_pos hr, h_spin j, e1, e2, e3, e4]
    · rw [if_neg hr, if_neg hr]
      exact h_k3 j (by omega)
  · intro j hj; rw [stage_loop_K3_k4, stage_loop_K3_k4]; exact h_k4 j hj

theorem agree_stage_loop_K4 (sqrt : K → K) (env : Env K) (sigma : K) (k start stop : Nat) (w : Written) (s1 s2 : LSF K)
    (h : LSF.agree w s1 s2)
    (hs : start ≤ w.k4) (r1 : stop ≤ w.spin_field) (r2 : stop ≤ w.external_field)
    (r3 : stop ≤ w.lsf) (r4 : stop ≤ w.t) :
    LSF.agree { w with k4 := stop } (stage_loop k start stop (K4_atom sqrt env sigma) s1) (stage_loop k start stop (K4_atom sqrt env sigma) s2) := by
  obtain ⟨⟨h_spin, h_gc, h_hc⟩, h_spin_field, h_external_field, h_lsf, h_initial_spin, h_t, h_k1, h_k2, h_k3, h_k4⟩ := h
  refine ⟨⟨?_, ?_, ?_⟩, ?_, ?_, ?_, ?_, ?_, ?_, ?_, ?_, ?_⟩
  · intro j; rw [stage_loop_K4_spin, stage_loop_K4_spin]; exact h_spin j
  · rw [stage_loop_K4_gaussian_count, stage_loop_K4_gaussian_count]; exact h_gc
  · rw [stage_loop_K4_halo_count, stage_loop_K4_halo_count]; exact h_hc
  · intro j hj; rw [stage_loop_K4_spin_field, stage_loop_K4_spin_field]; exact h_spin_field j hj
  · intro j hj; rw [stage_loop_K4_external_field, stage_loop_K4_external_field]; exact h_external_field j hj
  · intro j hj; rw [stage_loop_K4_lsf, stage_loop_K4_lsf]; exact h_lsf j hj
  · intro j hj; rw [stage_loop_K4_initial_spin, stage_loop_K4_initial_spin]; exact h_initial_spin j hj
  · intro j hj; rw [stage_loop_K4_t, stage_loop_K4_t]; exact h_t j hj
  · intro j hj; rw [stage_loop_K4_k1, stage_loop_K4_k1]; exact h_k1 j hj
  · intro j hj; rw [stage_loop_K4_k2, stage_loop_K4_k2]; exact h_k2 j hj
  · intro j hj; rw [stage_loop_K4_k3, stage_loop_K4_k3]; exact h_k3 j hj
  · intro j hj
    simp only [] at hj
    rw [stage_loop_K4_k4, stage_loop_K4_k4]
    by_cases hr : start ≤ j ∧ j < stop
    · have e1 := h_spin_field j (by omega)
      have e2 := h_external_field j (by omega)
      have e3 := h_lsf j (by omega)
      have e4 := h_t j (by omega)
      rw [if_pos hr, if_pos hr, h_spin j, e1, e2, e3, e4]
    · rw [if_neg hr, if_neg hr]
      exact h_k4 j (by omega)

theorem agree_RK4_step (start stop : Nat) (w : Written) (s1 s2 : LSF K)
    (h : LSF.agree w s1 s2)
    (r0 : stop ≤ w.initial_spin) (r1 : stop ≤ w.k1) (r2 : stop ≤ w.k2) (r3 : stop ≤ w.k3)
    (r4 : stop ≤ w.k4) :
    LSF.agree w (RK4_step start stop s1) (RK4_step start stop s2) := by
  obtain ⟨⟨h_spin, h_gc, h_hc⟩, h_spin_field, h_external_field, h_lsf, h_initial_spin, h_t, h_k1, h_k2, h_k3, h_k4⟩ := h
  refine ⟨⟨?_, ?_, ?_⟩, ?_, ?_, ?_, ?_, ?_, ?_, ?_, ?_, ?_⟩
  · intro j
    rw [RK4_step_spin, RK4_step_spin]
    by_cases hr : start ≤ j ∧ j < stop
    · rw [if_pos hr, if_pos hr, h_initial_spin j (by omega), h_k1 j (by omega),
        h_k2 j (by omega), h_k3 j (by omega), h_k4 j (by omega)]
    · rw [if_neg hr, if_neg hr]
      exact h_spin j
  · rw [RK4_step_gaussian_count, RK4_step_gaussian_count]; exact h_gc
  · rw [RK4_step_halo_count, RK4_step_halo_count]; exact h_hc
  · intro j hj; rw [RK4_step_spin_field, RK4_step_spin_field]; exact h_spin_field j hj
  · intro j hj; rw [RK4_step_external_field, RK4_step_external_field]; exact h_external_field j hj
  · intro j hj; rw [RK4_step_lsf, RK4_step_lsf]; exact h_lsf j hj
  · intro j hj; rw [RK4_step_initial_spin, RK4_step_initial_spin]; exact h_initial_spin j hj
  · intro j hj; rw [RK4_step_t, RK4_step_t]; exact h_t j hj
  · intro j hj; rw [RK4_step_k1, RK4_step_k1]; exact h_k1 j hj
  · intro j hj; rw [RK4_step_k2, RK4_step_k2]; exact h_k2 j hj
  · intro j hj; rw [RK4_step_k3, RK4_step_k3]; exact h_k3 j hj
  · intro j hj; rw [RK4_step_k4, RK4_step_k4]; exact h_k4 j hj

theorem agree_LSF_RK4_check_init (s1 s2 : LSF K) (h : LSF.same_inputs s1 s2) :
    LSF.agree ⟨0, 0, 0, 0, 0, 0, 0, 0, 0⟩ (LSF_RK4_check_init s1) (LSF_RK4_check_init s2) := by
  obtain ⟨h_spin, h_gc, h_hc⟩ := h
  refine ⟨⟨?_, ?_, ?_⟩, ?_, ?_, ?_, ?_, ?_, ?_, ?_, ?_, ?_⟩
  · intro j; rw [LSF_RK4_check_init_spin, LSF_RK4_check_init_spin]; exact h_spin j
  · rw [LSF_RK4_check_init_gaussian_count, LSF_RK4_check_init_gaussian_count]; exact h_gc
  · rw [LSF_RK4_check_init_halo_count, LSF_RK4_check_init_halo_count]; exact h_hc
  all_goals exact fun j hj => absurd hj (Nat.not_lt_zero j)

end LSFAgree

section LSFScratch

variable {K : Type} [Field K]

theorem agree_LSF_RK4_mpi_K1 (sqrt : K → K) (c : Collab K) (env : Env K) (s1 s2 : LSF K)
    (h : LSF.same_inputs s1 s2) :
    LSF.agree
      ⟨env.num_core_atoms + env.num_bdry_atoms, env.num_core_atoms + env.num_bdry_atoms,
       env.num_core_atoms + env.num_bdry_atoms, env.num_core_atoms + env.num_bdry_atoms,
       env.num_core_atoms + env.num_bdry_atoms, env.num_core_atoms + env.num_bdry_atoms,
       0, 0, 0⟩
      (LSF_RK4_mpi_K1 sqrt c env s1) (LSF_RK4_mpi_K1 sqrt c env s2) := by
  have a0 := agree_LSF_RK4_check_init s1 s2 h
  have a1 := agree_mpi_init_halo_swap _ _ _ a0
  have a2 := agree_calculate_spin_fields c 0 env.num_core_atoms _ _ _ a1 (Nat.le_refl _)
  have a3 := agree_calculate_lsf_rk4_field env 0 env.num_core_atoms _ _ _ a2 (Nat.le_refl _)
  have a4 := agree_calculate_external_fields c 0 env.num_core_atoms _ _ _ a3 (Nat.le_refl _)
  have a5 := agree_store_initial_spins 0 (env.num_core_atoms + env.num_bdry_atoms) _ _ _ a4
    (Nat.le_refl _)
  have a6 := agree_generate_noise c 0 env.num_core_atoms _ _ _ a5 (Nat.le_refl _)
  have a7 := agree_stage_loop_K1 sqrt env (LSF_RK4_sigma sqrt env) 1 0 env.num_core_atoms
    _ _ _ a6 (Nat.le_refl _) (Nat.le_refl _) (Nat.le_refl _) (Nat.le_refl _) (Nat.le_refl _)
  have a8 := agree_mpi_complete_halo_swap c env _ _ _ a7
  have a9 := agree_calculate_spin_fields c env.num_core_atoms
    (env.num_core_atoms + env.num_bdry_atoms) _ _ _ a8 (Nat.le_refl _)
  have a10 := agree_calculate_lsf_rk4_field env env.num_core_atoms
    (env.num_core_atoms + env.num_bdry_atoms) _ _ _ a9 (Nat.le_refl _)
  have a11 := agree_calculate_external_fields c env.num_core_atoms
    (env.num_core_atoms + env.num_bdry_atoms) _ _ _ a10 (Nat.le_refl _)
  have a12 := agree_generate_noise c env.num_core_atoms
    (env.num_core_atoms + env.num_bdry_atoms) _ _ _ a11 (Nat.le_refl _)
  exact agree_stage_loop_K1 sqrt env (LSF_RK4_sigma sqrt env) 1 env.num_core_atoms
    (env.num_core_atoms + env.num_bdry_atoms) _ _ _ a12 (Nat.le_refl _) (Nat.le_refl _)
    (Nat.le_refl _) (Nat.le_refl _) (Nat.le_refl _)

theorem agree_LSF_RK4_mpi_K2 (sqrt : K → K) (c : Collab K) (env : Env K) (s1 s2 : LSF K)
    (k3 k4 : Nat)
    (h : LSF.agree
      ⟨env.num_core_atoms + env.num_bdry_atoms, env.num_core_atoms + env.num_bdry_atoms,
       env.num_core_atoms + env.num_bdry_atoms, env.num_core_atoms + env.num_bdry_atoms,
       env.num_core_atoms + env.num_bdry_atoms, env.num_core_atoms + env.num_bdry_atoms,
       0, k3, k4⟩ s1 s2) :
    LSF.agree
      ⟨env.num_core_atoms + env.num_bdry_atoms, env.num_core_atoms + env.num_bdry_atoms,
       env.num_core_atoms + env.num_bdry_atoms, env.num_core_atoms + env.num_bdry_atoms,
       env.num_core_atoms + env.num_bdry_atoms, env.num_core_atoms + env.num_bdry_atoms,
       env.num_core_atoms + env.num_bdry_atoms, k3, k4⟩
      (LSF_RK4_mpi_K2 sqrt c env s1) (LSF_RK4_mpi_K2 sqrt c env s2) := by
  have hle : env.num_core_atoms ≤ env.num_core_atoms + env.num_bdry_atoms :=
    Nat.le_add_right _ _
  have a1 := agree_mpi_init_halo_swap _ _ _ h
  have a2 := agree_calculate_spin_fields c 0 env.num_core_atoms _ _ _ a1 (Nat.zero_le _)
  have a3 := agree_calculate_lsf_rk4_field env 0 env.num_core_atoms _ _ _ a2 (Nat.zero_le _)
  have a4 := agree_stage_loop_K2 sqrt env (LSF_RK4_sigma sqrt env) 2 0 env.num_core_atoms
    _ _ _ a3 (Nat.le_refl _) (Nat.le_refl _) hle (Nat.le_refl _) hle
  have a5 := agree_mpi_complete_halo_swap c env _ _ _ a4
  have a6 := agree_calculate_spin_fields c env.num_core_atoms
    (env.num_core_atoms + env.num_bdry_atoms) _ _ _ a5 (Nat.le_refl _)
  have a7 := agree_calculate_lsf_rk4_field env env.num_core_atoms
    (env.num_core_atoms + env.num_bdry_atoms) _ _ _ a6 (Nat.le_refl _)
  exact agree_stage_loop_K2 sqrt env (LSF_RK4_sigma sqrt env) 2 env.num_core_atoms
    (env.num_core_atoms + env.num_bdry_atoms) _ _ _ a7 (Nat.le_refl _) (Nat.le_refl _)
    (Nat.le_refl _) (Nat.le_refl _) (Nat.le_refl _)

theorem agree_LSF_RK4_mpi_K3 (sqrt : K → K) (c : Collab K) (env : Env K) (s1 s2 : LSF K)
    (k4 : Nat)
    (h : LSF.agree
      ⟨env.num_core_atoms + env.num_bdry_atoms, env.num_core_atoms + env.num_bdry_atoms,
       env.num_core_atoms + env.num_bdry_atoms, env.num_core_atoms + env.num_bdry_atoms,
       env.num_core_atoms + env.num_bdry_atoms, env.num_core_atoms + env.num_bdry_atoms,
       env.num_core_atoms + env.num_bdry_atoms, 0, k4⟩ s1 s2) :
    LSF.agree
      ⟨env.num_core_atoms + env.num_bdry_atoms, env.num_core_atoms + env.num_bdry_atoms,
       env.num_core_atoms + env.num_bdry_atoms, env.num_core_atoms + env.num_bdry_atoms,
       env.num_core_atoms + env.num_bdry_atoms, env.num_core_atoms + env.num_bdry_atoms,
       env.num_core_atoms + env.num_bdry_atoms, env.num_core_atoms + env.num_bdry_atoms, k4⟩
      (LSF_RK4_mpi_K3 sqrt c env s1) (LSF_RK4_mpi_K3 sqrt c env s2) := by
  have hle : env.num_core_atoms ≤ env.num_core_atoms + env.num_bdry_atoms :=
    Nat.le_add_right _ _
  have a1 := agree_mpi_init_halo_swap _ _ _ h
  have a2 := agree_stage_loop_K3 sqrt env (LSF_RK4_sigma sqrt env) 3 0 env.num_core_atoms
    _ _ _ a1 (Nat.le_refl _) hle hle hle hle
  have a3 := agree_mpi_complete_halo_swap c env _ _ _ a2
  exact agree_stage_loop_K3 sqrt env (LSF_RK4_sigma sqrt env) 3 env.num_core_atoms
    (env.num_core_atoms + env.num_bdry_atoms) _ _ _ a3 (Nat.le_refl _) (Nat.le_refl _)
    (Nat.le_refl _) (Nat.le_refl _) (Nat.le_refl _)

theorem agree_LSF_RK4_mpi_K4 (sqrt : K → K) (c : Collab K) (env : Env K) (s1 s2 : LSF K)
    (h : LSF.agree
      ⟨env.num_core_atoms + env.num_bdry_atoms, env.num_core_atoms + env.num_bdry_atoms,
       env.num_core_atoms + env.num_bdry_atoms, env.num_core_atoms + env.num_bdry_atoms,
       env.num_core_atoms + env.num_bdry_atoms, env.num_core_atoms + env.num_bdry_atoms,
       env.num_core_atoms + env.num_bdry_atoms, env.num_core_atoms + env.num_bdry_atoms, 0⟩
      s1 s2) :
    LSF.agree
      ⟨env.num_core_atoms + env.num_bdry_atoms, env.num_core_atoms + env.num_bdry_atoms,
       env.num_core_atoms + env.num_bdry_atoms, env.num_core_atoms + env.num_bdry_atoms,
       env.num_core_atoms + env.num_bdry_atoms, env.num_core_atoms + env.num_bdry_atoms,
       env.num_core_atoms + env.num_bdry_atoms, env.num_core_atoms + env.num_bdry_atoms,
       env.num_core_atoms + env.num_bdry_atoms⟩
      (LSF_RK4_mpi_K4 sqrt c env s1) (LSF_RK4_mpi_K4 sqrt c env s2) := by
  have hle : env.num_core_atoms ≤ env.num_core_atoms + env.num_bdry_atoms :=
    Nat.le_add_right _ _
  have a1 := agree_mpi_init_halo_swap _ _ _ h
  have a2 := agree_calculate_spin_fields c 0 env.num_core_atoms _ _ _ a1 (Nat.zero_le _)
  have a3 := agree_calculate_lsf_rk4_field env 0 env.num_core_atoms _ _ _ a2 (Nat.zero_le _)
  have a4 := agree_stage_loop_K4 sqrt env (LSF_RK4_sigma sqrt env) 4 0 env.num_core_atoms
    _ _ _ a3 (Nat.le_refl _) (Nat.le_refl _) hle (Nat.le_refl _) hle
  have a5 := agree_mpi_complete_halo_swap c env _ _ _ a4
  have a6 := agree_calculate_spin_fields c env.num_core_atoms
    (env.num_core_atoms + env.num_bdry_atoms) _ _ _ a5 (Nat.le_refl _)
  have a7 := agree_calculate_lsf_rk4_field env env.num_core_atoms
    (env.num_core_atoms + env.num_bdry_atoms) _ _ _ a6 (Nat.le_refl _)
  exact agree_stage_loop_K4 sqrt env (LSF_RK4_sigma sqrt env) 4 env.num_core_atoms
    (env.num_core_atoms + env.num_bdry_atoms) _ _ _ a7 (Nat.le_refl _) (Nat.le_refl _)
    (Nat.le_refl _) (Nat.le_refl _) (Nat.le_refl _)

theorem agree_LSF_RK4_mpi (sqrt : K → K) (c : Collab K) (env : Env K) (s1 s2 : LSF K)
    (h : LSF.same_inputs s1 s2) :
    LSF.agree
      ⟨env.num_core_atoms + env.num_bdry_atoms, env.num_core_atoms + env.num_bdry_atoms,
       env.num_core_atoms + env.num_bdry_atoms, env.num_core_atoms + env.num_bdry_atoms,
       env.num_core_atoms + env.num_bdry_atoms, env.num_core_atoms + env.num_bdry_atoms,
       env.num_core_atoms + env.num_bdry_atoms, env.num_core_atoms + env.num_bdry_atoms,
       env.num_core_atoms + env.num_bdry_atoms⟩
      (LSF_RK4_mpi sqrt c env s1) (LSF_RK4_mpi sqrt c env s2) := by
  have a1 := agree_LSF_RK4_mpi_K1 sqrt c env s1 s2 h
  have a2 := agree_LSF_RK4_mpi_K2 sqrt c env _ _ 0 0 a1
  have a3 := agree_LSF_RK4_mpi_K3 sqrt c env _ _ 0 a2
  have a4 := agree_LSF_RK4_mpi_K4 sqrt c env _ _ a3
  have a5 := agree_RK4_step 0 (env.num_core_atoms + env.num_bdry_atoms) _ _ _ a4
    (Nat.le_refl _) (Nat.le_refl _) (Nat.le_refl _) (Nat.le_refl _) (Nat.le_refl _)
  exact agree_barrier _ _ _ a5

/-- C18: two runs of `LSF_RK4_mpi` from states with the same spins and the same position in the
noise stream and halo sequence, whatever their scratch arrays (`k1..k4`, snapshot, `tx/ty/tz`,
LSF field), field arrays and initialisation flag, produce the same spins for every atom; the
stage arrays, snapshot, noise and field entries they leave for the local atoms agree too. -/
theorem LSF_RK4_mpi_scratch_independent (sqrt : K → K) (c : Collab K) (env : Env K)
    (s1 s2 : LSF K) (h : LSF.same_inputs s1 s2) :
    (∀ j, (LSF_RK4_mpi sqrt c env s1).spin j = (LSF_RK4_mpi sqrt c env s2).spin j) ∧
    LSF.agree
      ⟨env.num_core_atoms + env.num_bdry_atoms, env.num_core_atoms + env.num_bdry_atoms,
       env.num_core_atoms + env.num_bdry_atoms, env.num_core_atoms + env.num_bdry_atoms,
       env.num_core_atoms + env.num_bdry_atoms, env.num_core_atoms + env.num_bdry_atoms,
       env.num_core_atoms + env.num_bdry_atoms, env.num_core_atoms + env.num_bdry_atoms,
       env.num_core_atoms + env.num_bdry_atoms⟩
      (LSF_RK4_mpi sqrt c env s1) (LSF_RK4_mpi sqrt c env s2) :=
  ⟨(agree_LSF_RK4_mpi sqrt c env s1 s2 h).1.1, agree_LSF_RK4_mpi sqrt c env s1 s2 h⟩

end LSFScratch
theorem LSF_RK4_mpi_scratch_independent_witness :
    LSF.same_inputs (LSF.fresh (fun _ => (⟨1, 0, 0⟩ : Vec3 ℝ))) (LSF.dirty (fun _ => ⟨1, 0, 0⟩))
    ∧ (∀ j, (LSF_RK4_mpi Real.sqrt (Collab.constant_field ⟨0, 0, 1⟩) (Env.precession 1 1)
          (LSF.fresh (fun _ => ⟨1, 0, 0⟩))).spin j
        = (LSF_RK4_mpi Real.sqrt (Collab.constant_field ⟨0, 0, 1⟩) (Env.precession 1 1)
          (LSF.dirty (fun _ => ⟨1, 0, 0⟩))).spin j)
    ∧ LSF.agree ⟨2, 2, 2, 2, 2, 2, 2, 2, 2⟩
        (LSF_RK4_mpi Real.sqrt (Collab.constant_field ⟨0, 0, 1⟩) (Env.precession 1 1)
          (LSF.fresh (fun _ => ⟨1, 0, 0⟩)))
        (LSF_RK4_mpi Real.sqrt (Collab.constant_field ⟨0, 0, 1⟩) (Env.precession 1 1)
          (LSF.dirty (fun _ => ⟨1, 0, 0⟩))) :=
  ⟨⟨fun _ => rfl, rfl, rfl⟩,
   LSF_RK4_mpi_scratch_independent Real.sqrt (Collab.constant_field ⟨0, 0, 1⟩)
     (Env.precession 1 1) (LSF.fresh (fun _ => ⟨1, 0, 0⟩)) (LSF.dirty (fun _ => ⟨1, 0, 0⟩))
     ⟨fun _ => rfl, rfl, rfl⟩⟩

/-! ## The field kernels act atom by atom -/

section FieldKernelTheorems

variable {K : Type} [LinearOrderedField K]

theorem compute_exchange_atom_others (sqrt : K → K) (env : Env K) (lat : Lattice K) (i : Nat)
    (st : SLD K) : SLD.others (compute_exchange_atom sqrt env lat i st) = SLD.others st := rfl

theorem compute_exchange_atom_slice_ne (sqrt : K → K) (env : Env K) (lat : Lattice K)
    (i j : Nat) (st : SLD K) (h : j ≠ i) :
    SLD.slice j (compute_exchange_atom sqrt env lat i st) = SLD.slice j st := by
  simp [SLD.slice, compute_exchange_atom, SLD.field, SLD.force, SLD.config,
    Function.update_noteq h]

theorem compute_exchange_atom_slice_self (sqrt : K → K) (env : Env K) (lat : Lattice K)
    (i : Nat) (st : SLD K) :
    SLD.slice i (compute_exchange_atom sqrt env lat i st)
      = compute_exchange_slice sqrt env lat i (SLD.slice i st) := by
  simp [SLD.slice, compute_exchange_atom, compute_exchange_slice, SLD.field, SLD.force,
    SLD.config]

theorem compute_exchange_slice_eq (sqrt : K → K) (env : Env K) (lat : Lattice K)
    (a b : Nat) (st : SLD K) (j : Nat) :
    SLD.slice j (compute_exchange sqrt env lat a b st)
      = if a ≤ j ∧ j < b then compute_exchange_slice sqrt env lat j (SLD.slice j st)
        else SLD.slice j st :=
  for_range_slice SLD.slice (compute_exchange_atom sqrt env lat)
    (compute_exchange_slice sqrt env lat)
    (fun i j s h => compute_exchange_atom_slice_ne sqrt env lat i j s h)
    (fun i s => compute_exchange_atom_slice_self sqrt env lat i s) a b st j

theorem compute_exchange_others (sqrt : K → K) (env : Env K) (lat : Lattice K)
    (a b : Nat) (st : SLD K) :
    SLD.others (compute_exchange sqrt env lat a b st) = SLD.others st :=
  for_range_preserve SLD.others (compute_exchange_atom sqrt env lat)
    (fun i s => compute_exchange_atom_others sqrt env lat i s) a b st

theorem compute_sld_coupling_atom_others (sqrt : K → K) (env : Env K) (lat : Lattice K)
    (i : Nat) (st : SLD K) :
    SLD.others (compute_sld_coupling_atom sqrt env lat i st) = SLD.others st := rfl

theorem compute_sld_coupling_atom_slice_ne (sqrt : K → K) (env : Env K) (lat : Lattice K)
    (i j : Nat) (st : SLD K) (h : j ≠ i) :
    SLD.slice j (compute_sld_coupling_atom sqrt env lat i st) = SLD.slice j st := by
  simp [SLD.slice, compute_sld_coupling_atom, SLD.field, SLD.force, SLD.config,
    Function.update_noteq h]

theorem compute_sld_coupling_atom_slice_self (sqrt : K → K) (env : Env K) (lat : Lattice K)
    (i : Nat) (st : SLD K) :
    SLD.slice i (compute_sld_coupling_atom sqrt env lat i st)
      = compute_sld_coupling_slice sqrt env lat i (SLD.slice i st) := by
  simp [SLD.slice, compute_sld_coupling_atom, compute_sld_coupling_slice, SLD.field,
    SLD.force, SLD.config]

theorem compute_sld_coupling_slice_eq (sqrt : K → K) (env : Env K) (lat : Lattice K)
    (a b : Nat) (st : SLD K) (j : Nat) :
    SLD.slice j (compute_sld_coupling sqrt env lat a b st)
      = if a ≤ j ∧ j < b then compute_sld_coupling_slice sqrt env lat j (SLD.slice j st)
        else SLD.slice j st :=
  for_range_slice SLD.slice (compute_sld_coupling_atom sqrt env lat)
    (compute_sld_coupling_slice sqrt env lat)
    (fun i j s h => compute_sld_coupling_atom_slice_ne sqrt env lat i j s h)
    (fun i s => compute_sld_coupling_atom_slice_self sqrt env lat i s) a b st j

theorem compute_sld_coupling_others (sqrt : K → K) (env : Env K) (lat : Lattice K)
    (a b : Nat) (st : SLD K) :
    SLD.others (compute_sld_coupling sqrt env lat a b st) = SLD.others st :=
  for_range_preserve SLD.others (compute_sld_coupling_atom sqrt env lat)
    (fun i s => compute_sld_coupling_atom_others sqrt env lat i s) a b st

theorem compute_sld_coupling_neel_atom_others (sqrt : K → K) (env : Env K) (lat : Lattice K)
    (i : Nat) (st : SLD K) :
    SLD.others (compute_sld_coupling_neel_atom sqrt env lat i st) = SLD.others st := rfl

theorem compute_sld_coupling_neel_atom_slice_ne (sqrt : K → K) (env : Env K)
    (lat : Lattice K) (i j : Nat) (st : SLD K) (h : j ≠ i) :
    SLD.slice j (compute_sld_coupling_neel_atom sqrt env lat i st) = SLD.slice j st := by
  simp [SLD.slice, compute_sld_coupling_neel_atom, SLD.field, SLD.force, SLD.config,
    Function.update_noteq h]

theorem compute_sld_coupling_neel_atom_slice_self (sqrt : K → K) (env : Env K)
    (lat : Lattice K) (i : Nat) (st : SLD K) :
    SLD.slice i (compute_sld_coupling_neel_atom sqrt env lat i st)
      = compute_sld_coupling_neel_slice sqrt env lat i (SLD.slice i st) := by
  simp [SLD.slice, compute_sld_coupling_neel_atom, compute_sld_coupling_neel_slice, SLD.field,
    SLD.force, SLD.config, Config.spin]

theorem compute_sld_coupling_neel_slice_eq (sqrt : K → K) (env : Env K) (lat : Lattice K)
    (a b : Nat) (st : SLD K) (j : Nat) :
    SLD.slice j (compute_sld_coupling_neel sqrt env lat a b st)
      = if a ≤ j ∧ j < b then compute_sld_coupling_neel_slice sqrt env lat j (SLD.slice j st)
        else SLD.slice j st :=
  for_range_slice SLD.slice (compute_sld_coupling_neel_atom sqrt env lat)
    (compute_sld_coupling_neel_slice sqrt env lat)
    (fun i j s h => compute_sld_coupling_neel_atom_slice_ne sqrt env lat i j s h)
    (fun i s => compute_sld_coupling_neel_atom_slice_self sqrt env lat i s) a b st j

theorem compute_sld_coupling_neel_others (sqrt : K → K) (env : Env K) (lat : Lattice K)
    (a b : Nat) (st : SLD K) :
    SLD.others (compute_sld_coupling_neel sqrt env lat a b st) = SLD.others st :=
  for_range_preserve SLD.others (compute_sld_coupling_neel_atom sqrt env lat)
    (fun i s => compute_sld_coupling_neel_atom_others sqrt env lat i s) a b st

theorem add_external_field_atom_slice_ne (lat : Lattice K) (i j : Nat) (st : SLD K)
    (h : j ≠ i) : SLD.slice j (add_external_field_atom lat i st) = SLD.slice j st := by
  simp [SLD.slice, add_external_field_atom, SLD.field, SLD.force, SLD.config,
    Function.update_noteq h]

theorem add_external_field_atom_slice_self (lat : Lattice K) (i : Nat) (st : SLD K) :
    SLD.slice i (add_external_field_atom lat i st)
      = add_external_field_slice lat (SLD.slice i st) := by
  simp [SLD.slice, add_external_field_atom, add_external_field_slice, SLD.field, SLD.force,
    SLD.config]

theorem add_external_field_slice_eq (lat : Lattice K) (a b : Nat) (st : SLD K) (j : Nat) :
    SLD.slice j (for_range a b (add_external_field_atom lat) st)
      = if a ≤ j ∧ j < b then add_external_field_slice lat (SLD.slice j st)
        else SLD.slice j st :=
  for_range_slice SLD.slice (add_external_field_atom lat)
    (fun _ p => add_external_field_slice lat p)
    (fun i j s h => add_external_field_atom_slice_ne lat i j s h)
    (fun i s => add_external_field_atom_slice_self lat i s) a b st j

theorem add_external_field_others (lat : Lattice K) (a b : Nat) (st : SLD K) :
    SLD.others (for_range a b (add_external_field_atom lat) st) = SLD.others st :=
  for_range_preserve SLD.others (add_external_field_atom lat) (fun _ _ => rfl) a b st

theorem anisotropy_term_atom_slice_ne (env : Env K) (term : Nat → Vec3 K → Vec3 K)
    (i j : Nat) (st : SLD K) (h : j ≠ i) :
    SLD.slice j (anisotropy_term_atom env term i st) = SLD.slice j st := by
  simp [SLD.slice, anisotropy_term_atom, SLD.field, SLD.force, SLD.config,
    Function.update_noteq h]

theorem anisotropy_term_atom_slice_self (env : Env K) (term : Nat → Vec3 K → Vec3 K)
    (i : Nat) (st : SLD K) :
    SLD.slice i (anisotropy_term_atom env term i st)
      = anisotropy_term_slice env term i (SLD.slice i st) := by
  simp [SLD.slice, anisotropy_term_atom, anisotropy_term_slice, SLD.field, SLD.force,
    SLD.config, Config.spin]

theorem anisotropy_term_slice_eq (env : Env K) (term : Nat → Vec3 K → Vec3 K)
    (a b : Nat) (st : SLD K) (j : Nat) :
    SLD.slice j (for_range a b (anisotropy_term_atom env term) st)
      = if a ≤ j ∧ j < b then anisotropy_term_slice env term j (SLD.slice j st)
        else SLD.slice j st :=
  for_range_slice SLD.slice (anisotropy_term_atom env term) (anisotropy_term_slice env term)
    (fun i j s h => anisotropy_term_atom_slice_ne env term i j s h)
    (fun i s => anisotropy_term_atom_slice_self env term i s) a b st j

theorem anisotropy_terms_slice_eq (env : Env K) (a b : Nat) (j : Nat)
    (l : List (Nat → Vec3 K → Vec3 K)) :
    ∀ st : SLD K,
      SLD.slice j (l.foldl
          (fun s term => for_range a b (anisotropy_term_atom env term) s) st)
        = if a ≤ j ∧ j < b then
            l.foldl (fun q term => anisotropy_term_slice env term j q) (SLD.slice j st)
          else SLD.slice j st := by
  induction l with
  | nil => intro st; simp
  | cons term l ih =>
    intro st
    simp only [List.foldl_cons]
    rw [ih, anisotropy_term_slice_eq]
    by_cases h : a ≤ j ∧ j < b
    · simp only [if_pos h]
    · simp only [if_neg h]

theorem anisotropy_fields_slice_eq (env : Env K) (lat : Lattice K) (a b : Nat) (st : SLD K)
    (j : Nat) :
    SLD.slice j (anisotropy_fields env lat a b st)
      = if a ≤ j ∧ j < b then anisotropy_fields_slice env lat j (SLD.slice j st)
        else SLD.slice j st :=
  anisotropy_terms_slice_eq env a b j lat.anisotropy_terms st

theorem anisotropy_terms_others (env : Env K) (a b : Nat)
    (l : List (Nat → Vec3 K → Vec3 K)) :
    ∀ st : SLD K,
      SLD.others (l.foldl
          (fun s term => for_range a b (anisotropy_term_atom env term) s) st)
        = SLD.others st := by
  induction l with
  | nil => intro st; rfl
  | cons term l ih =>
    intro st
    simp only [List.foldl_cons]
    rw [ih]
    exact for_range_preserve SLD.others (anisotropy_term_atom env term) (fun _ _ => rfl) a b st

theorem anisotropy_fields_others (env : Env K) (lat : Lattice K) (a b : Nat) (st : SLD K) :
    SLD.others (anisotropy_fields env lat a b st) = SLD.others st :=
  anisotropy_terms_others env a b lat.anisotropy_terms st

/-- The effect of `compute_fields` on the slice of every atom. -/
theorem compute_fields_slice_eq (sqrt : K → K) (env : Env K) (lat : Lattice K) (a b : Nat)
    (st : SLD K) (j : Nat) :
    SLD.slice j (compute_fields sqrt env lat a b st)
      = if a ≤ j ∧ j < b then compute_fields_slice sqrt env lat j (SLD.slice j st)
        else SLD.slice j st := by
  unfold compute_fields compute_fields_slice
  simp only []
  rw [anisotropy_fields_slice_eq]
  by_cases h : a ≤ j ∧ j < b
  · simp only [if_pos h]
    congr 1
    by_cases h1 : lat.pseudodipolar <;> by_cases h2 : lat.full_neel <;>
      by_cases h3 : env.time > env.equilibration_time <;>
      simp [h1, h2, h3, h, compute_exchange_slice_eq, compute_sld_coupling_slice_eq,
        compute_sld_coupling_neel_slice_eq, add_external_field_slice_eq]
  · simp only [if_neg h]
    by_cases h1 : lat.pseudodipolar <;> by_cases h2 : lat.full_neel <;>
      by_cases h3 : env.time > env.equilibration_time <;>
      simp [h1, h2, h3, h, compute_exchange_slice_eq, compute_sld_coupling_slice_eq,
        compute_sld_coupling_neel_slice_eq, add_external_field_slice_eq]

/-- The arrays outside the slices are left alone by `compute_fields`. -/
theorem compute_fields_others (sqrt : K → K) (env : Env K) (lat : Lattice K) (a b : Nat)
    (st : SLD K) : SLD.others (compute_fields sqrt env lat a b st) = SLD.others st := by
  unfold compute_fields
  simp only []
  rw [anisotropy_fields_others]
  by_cases h1 : lat.pseudodipolar <;> by_cases h2 : lat.full_neel <;>
    by_cases h3 : env.time > env.equilibration_time <;>
    simp [h1, h2, h3, compute_exchange_others, compute_sld_coupling_others,
      compute_sld_coupling_neel_others, add_external_field_others]

/-- Two states with the same slices and the same other arrays are equal. -/
theorem SLD.eq_of_slice_others (s1 s2 : SLD K) (h : ∀ j, SLD.slice j s1 = SLD.slice j s2)
    (ho : SLD.others s1 = SLD.others s2) : s1 = s2 := by
  simp only [SLD.others, Prod.mk.injEq] at ho
  obtain ⟨⟨v1, v2, v3⟩, ⟨h1, h2, h3⟩, ⟨f1, f2, f3⟩, hp, hg⟩ := ho
  have hc : s1.config = s2.config := by
    have := h 0
    simp only [SLD.slice, FieldSlice.mk.injEq] at this
    exact this.2.2.2.2.2.2
  simp only [SLD.config, Config.mk.injEq] at hc
  obtain ⟨c1, c2, c3, c4, c5, c6⟩ := hc
  have hs : ∀ j, s1.field j = s2.field j ∧ s1.force j = s2.force j ∧ s1.sumJ j = s2.sumJ j
      ∧ s1.exch_eng j = s2.exch_eng j ∧ s1.sumC j = s2.sumC j
      ∧ s1.coupl_eng j = s2.coupl_eng j := by
    intro j
    have := h j
    simp only [SLD.slice, FieldSlice.mk.injEq] at this
    exact ⟨this.1, this.2.1, this.2.2.1, this.2.2.2.1, this.2.2.2.2.1, this.2.2.2.2.2.1⟩
  ext j
  · exact c4 ▸ rfl
  · exact c5 ▸ rfl
  · exact c6 ▸ rfl
  · exact congrArg Vec3.x (hs j).1
  · exact congrArg Vec3.y (hs j).1
  · exact congrArg Vec3.z (hs j).1
  · exact congrArg Vec3.x (hs j).2.1
  · exact congrArg Vec3.y (hs j).2.1
  · exact congrArg Vec3.z (hs j).2.1
  · exact c1 ▸ rfl
  · exact c2 ▸ rfl
  · exact c3 ▸ rfl
  · exact v1 ▸ rfl
  · exact v2 ▸ rfl
  · exact v3 ▸ rfl
  · exact h1 ▸ rfl
  · exact h2 ▸ rfl
  · exact h3 ▸ rfl
  · exact f1 ▸ rfl
  · exact f2 ▸ rfl
  · exact f3 ▸ rfl
  · exact (hs j).2.2.1
  · exact (hs j).2.2.2.1
  · exact (hs j).2.2.2.2.1
  · exact (hs j).2.2.2.2.2
  · exact hp ▸ rfl
  · exact hg

end FieldKernelTheorems
section FieldKernelClaims

variable {K : Type} [LinearOrderedField K]

theorem compute_fields_config (sqrt : K → K) (env : Env K) (lat : Lattice K) (a b : Nat)
    (st : SLD K) : (compute_fields sqrt env lat a b st).config = st.config := by
  have h := compute_fields_slice_eq sqrt env lat a b st b
  have hb : ¬ (a ≤ b ∧ b < b) := by omega
  rw [if_neg hb] at h
  exact congrArg FieldSlice.config h

theorem compute_fields_slice_outside (sqrt : K → K) (env : Env K) (lat : Lattice K)
    (a b : Nat) (st : SLD K) (j : Nat) (h : j < a ∨ b ≤ j) :
    SLD.slice j (compute_fields sqrt env lat a b st) = SLD.slice j st := by
  have hb : ¬ (a ≤ j ∧ j < b) := by omega
  rw [compute_fields_slice_eq, if_neg hb]

theorem compute_fields_split (sqrt : K → K) (env : Env K) (lat : Lattice K) (a b c : Nat)
    (st : SLD K) (hab : a ≤ b) (hbc : b ≤ c) :
    compute_fields sqrt env lat b c (compute_fields sqrt env lat a b st)
      = compute_fields sqrt env lat a c st := by
  apply SLD.eq_of_slice_others
  · intro j
    rw [compute_fields_slice_eq, compute_fields_slice_eq, compute_fields_slice_eq]
    by_cases h1 : a ≤ j ∧ j < b
    · have h2 : ¬ (b ≤ j ∧ j < c) := by omega
      have h3 : a ≤ j ∧ j < c := by omega
      rw [if_neg h2, if_pos h1, if_pos h3]
    · by_cases h2 : b ≤ j ∧ j < c
      · have h3 : a ≤ j ∧ j < c := by omega
        rw [if_pos h2, if_neg h1, if_pos h3]
      · have h3 : ¬ (a ≤ j ∧ j < c) := by omega
        rw [if_neg h2, if_neg h1, if_neg h3]
  · rw [compute_fields_others, compute_fields_others, compute_fields_others]

theorem compute_fields_bulk (sqrt : K → K) (env : Env K) (lat : Lattice K) (N : Nat)
    (st : SLD K) :
    compute_fields sqrt env lat 0 N st
      = for_range 0 N (fun i s => compute_fields sqrt env lat i (i + 1) s) st := by
  apply SLD.eq_of_slice_others
  · intro j
    rw [compute_fields_slice_eq,
      for_range_slice SLD.slice (fun i s => compute_fields sqrt env lat i (i + 1) s)
        (compute_fields_slice sqrt env lat)
        (fun i j s h => compute_fields_slice_outside sqrt env lat i (i + 1) s j (by omega))
        (fun i s => by
          have hi : i ≤ i ∧ i < i + 1 := by omega
          simp only [compute_fields_slice_eq, if_pos hi])]
  · rw [compute_fields_others,
      for_range_preserve SLD.others (fun i s => compute_fields sqrt env lat i (i + 1) s)
        (fun i s => compute_fields_others sqrt env lat i (i + 1) s)]

/-- C19: `sld::compute_fields(start, end, ...)` leaves the spin and coordinate arrays as they
were, and the field and the force of every atom outside `[start, end)` keep their values. -/
theorem compute_fields_frame (sqrt : K → K) (env : Env K) (lat : Lattice K)
    (start_index end_index : Nat) (st : SLD K) :
    (compute_fields sqrt env lat start_index end_index st).config = st.config
    ∧ ∀ j, j < start_index ∨ end_index ≤ j →
        (compute_fields sqrt env lat start_index end_index st).field j = st.field j
        ∧ (compute_fields sqrt env lat start_index end_index st).force j = st.force j := by
  refine ⟨compute_fields_config sqrt env lat start_index end_index st, fun j h => ?_⟩
  have hs := compute_fields_slice_outside sqrt env lat start_index end_index st j h
  exact ⟨congrArg FieldSlice.field hs, congrArg FieldSlice.force hs⟩

theorem compute_fields_frame_witness :
    (compute_fields Real.sqrt (Env.pair : Env ℝ) Lattice.chain 0 1
        (SLD.chain (fun _ => ⟨0, 0, 1⟩))).config
      = (SLD.chain (fun _ => (⟨0, 0, 1⟩ : Vec3 ℝ))).config
    ∧ (compute_fields Real.sqrt (Env.pair : Env ℝ) Lattice.chain 0 1
        (SLD.chain (fun _ => ⟨0, 0, 1⟩))).field 1
      = (SLD.chain (fun _ => (⟨0, 0, 1⟩ : Vec3 ℝ))).field 1
    ∧ (compute_fields Real.sqrt (Env.pair : Env ℝ) Lattice.chain 0 1
        (SLD.chain (fun _ => ⟨0, 0, 1⟩))).force 1
      = (SLD.chain (fun _ => (⟨0, 0, 1⟩ : Vec3 ℝ))).force 1 :=
  ⟨(compute_fields_frame Real.sqrt Env.pair Lattice.chain 0 1 (SLD.chain _)).1,
   (compute_fields_frame Real.sqrt Env.pair Lattice.chain 0 1 (SLD.chain _)).2 1
     (Or.inr (le_refl 1))⟩

/-- C20: for `a ≤ b ≤ c`, `compute_fields` on `[a, b)` followed by `compute_fields` on
`[b, c)` gives the same state (fields, forces and every other array) as one call on `[a, c)`;
and one call on `[0, N)` gives the same state as the `N` successive single-atom calls on
`[i, i + 1)`, `i = 0, ..., N - 1`. -/
theorem compute_fields_range_split (sqrt : K → K) (env : Env K) (lat : Lattice K)
    (a b c N : Nat) (st : SLD K) (hab : a ≤ b) (hbc : b ≤ c) :
    compute_fields sqrt env lat b c (compute_fields sqrt env lat a b st)
      = compute_fields sqrt env lat a c st
    ∧ compute_fields sqrt env lat 0 N st
      = for_range 0 N (fun i s => compute_fields sqrt env lat i (i + 1) s) st :=
  ⟨compute_fields_split sqrt env lat a b c st hab hbc, compute_fields_bulk sqrt env lat N st⟩

theorem compute_fields_range_split_witness :
    (0 ≤ 1 ∧ 1 ≤ 2)
    ∧ compute_fields Real.sqrt (Env.pair : Env ℝ) Lattice.chain 1 2
        (compute_fields Real.sqrt Env.pair Lattice.chain 0 1 (SLD.chain (fun _ => ⟨0, 0, 1⟩)))
      = compute_fields Real.sqrt Env.pair Lattice.chain 0 2 (SLD.chain (fun _ => ⟨0, 0, 1⟩))
    ∧ compute_fields Real.sqrt (Env.pair : Env ℝ) Lattice.chain 0 2
        (SLD.chain (fun _ => ⟨0, 0, 1⟩))
      = for_range 0 2 (fun i s => compute_fields Real.sqrt Env.pair Lattice.chain i (i + 1) s)
          (SLD.chain (fun _ => ⟨0, 0, 1⟩)) :=
  ⟨⟨by decide, by decide⟩,
   compute_fields_range_split Real.sqrt Env.pair Lattice.chain 0 1 2 2 (SLD.chain _)
     (by decide) (by decide)⟩

end FieldKernelClaims
/-! ## The Suzuki-Trotter step -/

section MoreLoopLemmas

variable {σ β : Type}

theorem loop_down_preserve (ρ : σ → β) (body : Nat → σ → σ)
    (h : ∀ i s, ρ (body i s) = ρ s) : ∀ n s, ρ (loop_down body n s) = ρ s := by
  intro n
  induction n with
  | zero => intro s; rfl
  | succ n ih => intro s; simp only [loop_down]; rw [ih, h]

theorem loop_from_preserve_above (ρ : σ → β) (body : Nat → σ → σ) (i : Nat)
    (h : ∀ j s, i < j → ρ (body j s) = ρ s) :
    ∀ n a s, i < a → ρ (loop_from body n a s) = ρ s := by
  intro n
  induction n with
  | zero => intro a s _; rfl
  | succ n ih =>
    intro a s ha
    simp only [loop_from]
    rw [ih (a + 1) _ (by omega), h a s ha]

theorem loop_from_add (body : Nat → σ → σ) :
    ∀ m n a s, loop_from body (m + n) a s = loop_from body n (a + m) (loop_from body m a s) := by
  intro m
  induction m with
  | zero => intro n a s; simp [loop_from]
  | succ m ih =>
    intro n a s
    have h1 : m + 1 + n = (m + n) + 1 := by omega
    rw [h1]
    simp only [loop_from]
    rw [ih]
    have h2 : a + 1 + m = a + (m + 1) := by omega
    rw [h2]

theorem loop_from_eq_foldl (body : Nat → σ → σ) :
    ∀ n a s, loop_from body n a s = (List.range' a n).foldl (fun s i => body i s) s := by
  intro n
  induction n with
  | zero => intro a s; rfl
  | succ n ih =>
    intro a s
    simp only [loop_from, List.range'_succ, List.foldl_cons]
    rw [ih]

theorem for_range_eq_foldl (body : Nat → σ → σ) (N : Nat) (s : σ) :
    for_range 0 N body s = (List.range N).foldl (fun s i => body i s) s := by
  unfold for_range
  rw [loop_from_eq_foldl, List.range_eq_range']
  rfl

theorem loop_down_eq_foldl (body : Nat → σ → σ) :
    ∀ N s, loop_down body N s = (List.range N).reverse.foldl (fun s i => body i s) s := by
  intro N
  induction N with
  | zero => intro s; rfl
  | succ n ih =>
    intro s
    simp only [loop_down, List.range_succ, List.reverse_append, List.reverse_cons,
      List.reverse_nil, List.nil_append, List.singleton_append, List.foldl_cons]
    rw [ih]

theorem loop_from_commute (k : Nat → σ → σ) (d : σ → σ) (a : Nat)
    (h : ∀ j s, a < j → k j (d s) = d (k j s)) :
    ∀ n b s, a < b → loop_from k n b (d s) = d (loop_from k n b s) := by
  intro n
  induction n with
  | zero => intro b s _; rfl
  | succ n ih =>
    intro b s hb
    simp only [loop_from]
    rw [h b s hb, ih (b + 1) _ (by omega)]

/-- Loop fission: a loop whose body is `d i` after `k i` equals the loop of the `k i` followed
by the loop of the `d i`, when every `d i` commutes with the later `k j`. -/
theorem loop_from_fission (body k d : Nat → σ → σ) (hb : ∀ i s, body i s = d i (k i s))
    (hc : ∀ i j s, i < j → k j (d i s) = d i (k j s)) :
    ∀ n a s, loop_from body n a s = loop_from d n a (loop_from k n a s) := by
  intro n
  induction n with
  | zero => intro a s; rfl
  | succ n ih =>
    intro a s
    simp only [loop_from]
    rw [hb, ih, loop_from_commute k (d a) a (fun j s h => hc a j s h) n (a + 1) _ (by omega)]

end MoreLoopLemmas

section StepFrames

variable {K : Type} [LinearOrderedField K]

theorem compute_fields_spin (sqrt : K → K) (env : Env K) (lat : Lattice K) (a b : Nat)
    (st : SLD K) : (compute_fields sqrt env lat a b st).spin = st.spin := by
  funext j
  have h := compute_fields_config sqrt env lat a b st
  simp only [SLD.config, Config.mk.injEq] at h
  simp only [SLD.spin, h.2.2.2.1, h.2.2.2.2.1, h.2.2.2.2.2]

theorem compute_fields_coord (sqrt : K → K) (env : Env K) (lat : Lattice K) (a b : Nat)
    (st : SLD K) : (compute_fields sqrt env lat a b st).coord = st.coord := by
  funext j
  have h := compute_fields_config sqrt env lat a b st
  simp only [SLD.config, Config.mk.injEq] at h
  simp only [SLD.coord, h.1, h.2.1, h.2.2.1]

theorem compute_fields_velo (sqrt : K → K) (env : Env K) (lat : Lattice K) (a b : Nat)
    (st : SLD K) : (compute_fields sqrt env lat a b st).velo = st.velo := by
  funext j
  have h := compute_fields_others sqrt env lat a b st
  simp only [SLD.others, Prod.mk.injEq] at h
  simp only [SLD.velo, h.1.1, h.1.2.1, h.1.2.2]

theorem add_spin_noise_spin (sqrt : K → K) (env : Env K) (a b : Nat) (dt : K) (st : SLD K) :
    (add_spin_noise sqrt env a b dt st).spin = st.spin :=
  for_range_preserve (fun s : SLD K => s.spin) (add_spin_noise_atom sqrt env)
    (fun _ _ => rfl) a b st

theorem add_spin_noise_coord (sqrt : K → K) (env : Env K) (a b : Nat) (dt : K) (st : SLD K) :
    (add_spin_noise sqrt env a b dt st).coord = st.coord :=
  for_range_preserve (fun s : SLD K => s.coord) (add_spin_noise_atom sqrt env)
    (fun _ _ => rfl) a b st

theorem add_spin_noise_velo (sqrt : K → K) (env : Env K) (a b : Nat) (dt : K) (st : SLD K) :
    (add_spin_noise sqrt env a b dt st).velo = st.velo :=
  for_range_preserve (fun s : SLD K => s.velo) (add_spin_noise_atom sqrt env)
    (fun _ _ => rfl) a b st

theorem cayley_update_coord (a b : Nat) (dt : K) (st : SLD K) :
    (cayley_update a b dt st).coord = st.coord :=
  for_range_preserve (fun s : SLD K => s.coord) (cayley_update_atom dt) (fun _ _ => rfl) a b st

theorem cayley_update_velo (a b : Nat) (dt : K) (st : SLD K) :
    (cayley_update a b dt st).velo = st.velo :=
  for_range_preserve (fun s : SLD K => s.velo) (cayley_update_atom dt) (fun _ _ => rfl) a b st

theorem compute_forces_spin (lat : Lattice K) (a b : Nat) (st : SLD K) :
    (compute_forces lat a b st).spin = st.spin :=
  for_range_preserve (fun s : SLD K => s.spin) (compute_forces_atom lat) (fun _ _ => rfl) a b st

theorem compute_forces_coord (lat : Lattice K) (a b : Nat) (st : SLD K) :
    (compute_forces lat a b st).coord = st.coord :=
  for_range_preserve (fun s : SLD K => s.coord) (compute_forces_atom lat) (fun _ _ => rfl)
    a b st

theorem compute_forces_velo (lat : Lattice K) (a b : Nat) (st : SLD K) :
    (compute_forces lat a b st).velo = st.velo :=
  for_range_preserve (fun s : SLD K => s.velo) (compute_forces_atom lat) (fun _ _ => rfl) a b st

theorem update_position_velocity_spin (sqrt : K → K) (env : Env K) (st : SLD K) :
    (update_position_velocity sqrt env st).spin = st.spin :=
  for_range_preserve (fun s : SLD K => s.spin) (update_position_velocity_atom sqrt env)
    (fun _ _ => rfl) 0 env.num_atoms st

theorem update_velocity_spin (sqrt : K → K) (env : Env K) (st : SLD K) :
    (update_velocity sqrt env st).spin = st.spin :=
  for_range_preserve (fun s : SLD K => s.spin) (update_velocity_atom sqrt env)
    (fun _ _ => rfl) 0 env.num_atoms st

theorem update_velocity_coord (sqrt : K → K) (env : Env K) (st : SLD K) :
    (update_velocity sqrt env st).coord = st.coord :=
  for_range_preserve (fun s : SLD K => s.coord) (update_velocity_atom sqrt env)
    (fun _ _ => rfl) 0 env.num_atoms st

theorem recompute_forces_spin (sqrt : K → K) (env : Env K) (lat : Lattice K) (st : SLD K) :
    (recompute_forces sqrt env lat st).spin = st.spin := by
  unfold recompute_forces
  simp only []
  rw [compute_forces_spin, compute_fields_spin]
  rfl

theorem recompute_forces_coord (sqrt : K → K) (env : Env K) (lat : Lattice K) (st : SLD K) :
    (recompute_forces sqrt env lat st).coord = st.coord := by
  unfold recompute_forces
  simp only []
  rw [compute_forces_coord, compute_fields_coord]
  rfl

theorem recompute_forces_velo (sqrt : K → K) (env : Env K) (lat : Lattice K) (st : SLD K) :
    (recompute_forces sqrt env lat st).velo = st.velo := by
  unfold recompute_forces
  simp only []
  rw [compute_forces_velo, compute_fields_velo]
  rfl

theorem lattice_first_spin (sqrt : K → K) (env : Env K) (lat : Lattice K) (st : SLD K) :
    (lattice_first sqrt env lat st).spin = st.spin := by
  unfold lattice_first
  rw [update_position_velocity_spin, recompute_forces_spin]

theorem lattice_second_spin (sqrt : K → K) (env : Env K) (lat : Lattice K) (st : SLD K) :
    (lattice_second sqrt env lat st).spin = st.spin := by
  unfold lattice_second
  rw [update_velocity_spin, recompute_forces_spin]

theorem lattice_second_coord (sqrt : K → K) (env : Env K) (lat : Lattice K) (st : SLD K) :
    (lattice_second sqrt env lat st).coord = st.coord := by
  unfold lattice_second
  rw [update_velocity_coord, recompute_forces_coord]

theorem spin_update_atom_coord (sqrt : K → K) (env : Env K) (lat : Lattice K) (atom : Nat)
    (st : SLD K) : (spin_update_atom sqrt env lat atom st).coord = st.coord := by
  unfold spin_update_atom
  simp only []
  rw [cayley_update_coord, add_spin_noise_coord, compute_fields_coord]

theorem spin_update_atom_velo (sqrt : K → K) (env : Env K) (lat : Lattice K) (atom : Nat)
    (st : SLD K) : (spin_update_atom sqrt env lat atom st).velo = st.velo := by
  unfold spin_update_atom
  simp only []
  rw [cayley_update_velo, add_spin_noise_velo, compute_fields_velo]

/-- The spin of the updated atom: the Cayley rotation of its spin about the field left by
`compute_fields` and `add_spin_noise`; the other spins are left alone. -/
theorem spin_update_atom_spin (sqrt : K → K) (env : Env K) (lat : Lattice K) (atom : Nat)
    (st : SLD K) (i : Nat) :
    (spin_update_atom sqrt env lat atom st).spin i
      = if i = atom then
          cayley_closed_form
            (Vec3.smul (cay_dt env)
              ((add_spin_noise sqrt env atom (atom + 1) (env.dt_SI * 1e12)
                (compute_fields sqrt env lat atom (atom + 1) st)).field atom))
            (st.spin atom)
        else st.spin i := by
  unfold spin_update_atom
  simp only []
  rw [cayley_update_spin, add_spin_noise_spin, compute_fields_spin]
  by_cases h : i = atom
  · subst h
    have h1 : i ≤ i ∧ i < i + 1 := by omega
    rw [if_pos h1, if_pos rfl]
  · have h1 : ¬ (atom ≤ i ∧ i < atom + 1) := by omega
    rw [if_neg h1, if_neg h]

theorem spin_update_atom_spin_ne (sqrt : K → K) (env : Env K) (lat : Lattice K)
    (atom : Nat) (st : SLD K) (i : Nat) (h : i ≠ atom) :
    (spin_update_atom sqrt env lat atom st).spin i = st.spin i := by
  rw [spin_update_atom_spin, if_neg h]

theorem spin_update_atom_normSq (sqrt : K → K) (env : Env K) (lat : Lattice K) (atom : Nat)
    (st : SLD K) (i : Nat) :
    Vec3.normSq ((spin_update_atom sqrt env lat atom st).spin i) = Vec3.normSq (st.spin i) := by
  rw [spin_update_atom_spin]
  by_cases h : i = atom
  · subst h
    rw [if_pos rfl, cayley_closed_form_normSq]
  · rw [if_neg h]

theorem spin_sweeps_coord (sqrt : K → K) (env : Env K) (lat : Lattice K) (st : SLD K) :
    (spin_sweeps sqrt env lat st).coord = st.coord := by
  unfold spin_sweeps backward_sweep forward_sweep
  simp only []
  rw [loop_down_preserve (fun s : SLD K => s.coord) (spin_update_atom sqrt env lat)
      (fun i s => spin_update_atom_coord sqrt env lat i s)]
  show (for_range 0 env.num_atoms (spin_update_atom sqrt env lat) (fill_fields st)).coord = _
  rw [for_range_preserve (fun s : SLD K => s.coord) (spin_update_atom sqrt env lat)
      (fun i s => spin_update_atom_coord sqrt env lat i s)]
  rfl

theorem spin_sweeps_velo (sqrt : K → K) (env : Env K) (lat : Lattice K) (st : SLD K) :
    (spin_sweeps sqrt env lat st).velo = st.velo := by
  unfold spin_sweeps backward_sweep forward_sweep
  simp only []
  rw [loop_down_preserve (fun s : SLD K => s.velo) (spin_update_atom sqrt env lat)
      (fun i s => spin_update_atom_velo sqrt env lat i s)]
  show (for_range 0 env.num_atoms (spin_update_atom sqrt env lat) (fill_fields st)).velo = _
  rw [for_range_preserve (fun s : SLD K => s.velo) (spin_update_atom sqrt env lat)
      (fun i s => spin_update_atom_velo sqrt env lat i s)]
  rfl

theorem spin_sweeps_normSq (sqrt : K → K) (env : Env K) (lat : Lattice K) (st : SLD K)
    (i : Nat) :
    Vec3.normSq ((spin_sweeps sqrt env lat st).spin i) = Vec3.normSq (st.spin i) := by
  unfold spin_sweeps backward_sweep forward_sweep
  simp only []
  rw [loop_down_preserve (fun s : SLD K => Vec3.normSq (s.spin i))
      (spin_update_atom sqrt env lat)
      (fun j s => spin_update_atom_normSq sqrt env lat j s i)]
  show Vec3.normSq
    ((for_range 0 env.num_atoms (spin_update_atom sqrt env lat) (fill_fields st)).spin i) = _
  rw [for_range_preserve (fun s : SLD K => Vec3.normSq (s.spin i))
      (spin_update_atom sqrt env lat)
      (fun j s => spin_update_atom_normSq sqrt env lat j s i)]
  rfl

end StepFrames
section StepLemmas

variable {K : Type} [LinearOrderedField K]

theorem update_position_velocity_atom_coord_self (sqrt : K → K) (env : Env K) (i : Nat)
    (st : SLD K) :
    (update_position_velocity_atom sqrt env i st).coord i
      = Vec3.add (st.coord i)
          (Vec3.smul (env.dt_SI * 1e12) ((update_position_velocity_atom sqrt env i st).velo i)) := by
  simp only [update_position_velocity_atom, SLD.coord, SLD.velo, Vec3.smul, Vec3.add,
    Function.update_same]

theorem update_position_velocity_atom_coord_ne (sqrt : K → K) (env : Env K) (i j : Nat)
    (st : SLD K) (h : j ≠ i) :
    (update_position_velocity_atom sqrt env i st).coord j = st.coord j := by
  simp [update_position_velocity_atom, SLD.coord, Function.update_noteq h]

/-- The position after the first lattice loop: the old position plus `dt` (in picoseconds)
times the velocity after the loop. -/
theorem update_position_velocity_coord (sqrt : K → K) (env : Env K) (st : SLD K) (i : Nat) :
    (update_position_velocity sqrt env st).coord i
      = if i < env.num_atoms then
          Vec3.add (st.coord i)
            (Vec3.smul (env.dt_SI * 1e12) ((update_position_velocity sqrt env st).velo i))
        else st.coord i := by
  have h := for_range_slice
    (fun j (s : SLD K) => (s.coord j, s.velo j, s.force j, s.F_th j))
    (update_position_velocity_atom sqrt env)
    (fun j p =>
      (Vec3.add p.1 (Vec3.smul (env.dt_SI * 1e12)
        (kick_closed_form (env.dt_SI * 1e12) (env.sld_mp (env.type_array j)).mass
          (selected_damp_lat env (env.type_array j))
          (selected_F_th_sigma env (env.type_array j) * sqrt env.temperature)
          p.2.1 p.2.2.1 p.2.2.2)),
       kick_closed_form (env.dt_SI * 1e12) (env.sld_mp (env.type_array j)).mass
          (selected_damp_lat env (env.type_array j))
          (selected_F_th_sigma env (env.type_array j) * sqrt env.temperature)
          p.2.1 p.2.2.1 p.2.2.2,
       p.2.2.1, p.2.2.2))
    (fun i j s hji => by
      simp only [update_position_velocity_atom_velo_ne sqrt env i j s hji,
        update_position_velocity_atom_coord_ne sqrt env i j s hji]; rfl)
    (fun i s => by
      simp only [update_position_velocity_atom_coord_self,
        update_position_velocity_atom_velo_self]; rfl)
    0 env.num_atoms st i
  have h1 := congrArg Prod.fst h
  simp only [Nat.zero_le, true_and] at h1
  rw [update_position_velocity_velo]
  rw [update_position_velocity, h1]
  split_ifs <;> rfl

theorem update_position_velocity_atom_fission (sqrt : K → K) (env : Env K) (i : Nat)
    (st : SLD K) :
    update_position_velocity_atom sqrt env i st
      = position_drift_atom env i (update_velocity_atom sqrt env i st) := by
  simp only [update_position_velocity_atom, position_drift_atom, update_velocity_atom,
    Function.update_same]

theorem update_velocity_atom_drift_commute (sqrt : K → K) (env : Env K) (i j : Nat)
    (st : SLD K) (h : i < j) :
    update_velocity_atom sqrt env j (position_drift_atom env i st)
      = position_drift_atom env i (update_velocity_atom sqrt env j st) := by
  have hij : i ≠ j := by omega
  simp only [position_drift_atom, update_velocity_atom, Function.update_noteq hij]

/-- The first lattice loop is the velocity kick of all atoms followed by the position drift
of all atoms. -/
theorem update_position_velocity_fission (sqrt : K → K) (env : Env K) (st : SLD K) :
    update_position_velocity sqrt env st = position_drift env (update_velocity sqrt env st) := by
  unfold update_position_velocity position_drift update_velocity for_range
  exact loop_from_fission (update_position_velocity_atom sqrt env)
    (update_velocity_atom sqrt env) (position_drift_atom env)
    (fun i s => update_position_velocity_atom_fission sqrt env i s)
    (fun i j s h => update_velocity_atom_drift_commute sqrt env i j s h) _ _ _

theorem run_ops_append (sqrt : K → K) (env : Env K) (lat : Lattice K) (l1 l2 : List Op)
    (st : SLD K) :
    run_ops sqrt env lat (l1 ++ l2) st = run_ops sqrt env lat l2 (run_ops sqrt env lat l1 st) := by
  simp [run_ops, List.foldl_append]

theorem run_ops_rotations_up (sqrt : K → K) (env : Env K) (lat : Lattice K) (st : SLD K) :
    run_ops sqrt env lat (rotations_up env.num_atoms) st = forward_sweep sqrt env lat st := by
  unfold run_ops rotations_up forward_sweep
  rw [for_range_eq_foldl, List.foldl_map]
  rfl

theorem run_ops_rotations_down (sqrt : K → K) (env : Env K) (lat : Lattice K) (st : SLD K) :
    run_ops sqrt env lat (rotations_down env.num_atoms) st = backward_sweep sqrt env lat st := by
  unfold run_ops rotations_down rotations_up backward_sweep
  rw [loop_down_eq_foldl, ← List.map_reverse, List.foldl_map]
  rfl

/-- The step is the execution, from left to right, of its list of operations. -/
theorem suzuki_trotter_eq_run_ops (sqrt : K → K) (env : Env K) (lat : Lattice K)
    (st : SLD K) :
    suzuki_trotter sqrt env lat st
      = run_ops sqrt env lat (suzuki_trotter_ops env.num_atoms)
          (generate_thermal_noise lat st) := by
  unfold suzuki_trotter_ops
  simp only [run_ops_append, run_ops_rotations_up, run_ops_rotations_down]
  simp only [run_ops, List.foldl_cons, List.foldl_nil, Op.run]
  unfold suzuki_trotter spin_sweeps lattice_first lattice_second
  simp only [update_position_velocity_fission]

theorem count_rotate_singleton (i n : Nat) :
    List.count (Op.rotate i) [Op.rotate n] = if n = i then 1 else 0 := by
  by_cases h : n = i
  · subst h
    simp
  · have h1 : Op.rotate i ≠ Op.rotate n := fun e => h (Op.rotate.inj e).symm
    rw [if_neg h, List.count_cons_of_ne h1]
    rfl

theorem rotations_up_count (N i : Nat) :
    (rotations_up N).count (Op.rotate i) = if i < N then 1 else 0 := by
  unfold rotations_up
  induction N with
  | zero => simp
  | succ n ih =>
    rw [List.range_succ, List.map_append, List.count_append, ih, List.map_singleton,
      count_rotate_singleton]
    by_cases h : i < n
    · have h1 : i < n + 1 := by omega
      have h2 : n ≠ i := by omega
      rw [if_pos h, if_pos h1, if_neg h2]
    · by_cases h3 : n = i
      · subst h3
        simp
      · have h1 : ¬ i < n + 1 := by omega
        rw [if_neg h, if_neg h1, if_neg h3]

theorem rotations_down_count (N i : Nat) :
    (rotations_down N).count (Op.rotate i) = if i < N then 1 else 0 := by
  unfold rotations_down
  rw [List.count_reverse, rotations_up_count]

theorem suzuki_trotter_ops_count (N i : Nat) :
    (suzuki_trotter_ops N).count (Op.rotate i) = if i < N then 4 else 0 := by
  unfold suzuki_trotter_ops
  simp only [List.count_append, rotations_up_count, rotations_down_count]
  by_cases h : i < N <;> simp [h]

theorem rotations_up_elementary (N : Nat) :
    (rotations_up N).filter Op.elementary = rotations_up N := by
  rw [List.filter_eq_self]
  intro op hop
  unfold rotations_up at hop
  rw [List.mem_map] at hop
  obtain ⟨i, _, rfl⟩ := hop
  rfl

theorem rotations_down_elementary (N : Nat) :
    (rotations_down N).filter Op.elementary = rotations_down N := by
  unfold rotations_down
  rw [List.filter_reverse, rotations_up_elementary]

theorem suzuki_trotter_ops_elementary (N : Nat) :
    (suzuki_trotter_ops N).filter Op.elementary = symmetric_sequence N := by
  unfold suzuki_trotter_ops symmetric_sequence
  simp only [List.filter_append, rotations_up_elementary, rotations_down_elementary]
  simp [List.filter, Op.elementary]

theorem symmetric_sequence_reverse (N : Nat) :
    (symmetric_sequence N).reverse = symmetric_sequence N := by
  unfold symmetric_sequence rotations_down
  simp [List.reverse_append, List.append_assoc]

theorem suzuki_trotter_normSq (sqrt : K → K) (env : Env K) (lat : Lattice K) (st : SLD K)
    (i : Nat) :
    Vec3.normSq ((suzuki_trotter sqrt env lat st).spin i) = Vec3.normSq (st.spin i) := by
  unfold suzuki_trotter
  simp only []
  rw [spin_sweeps_normSq, lattice_second_spin, lattice_first_spin, spin_sweeps_normSq]
  rfl

theorem suzuki_trotter_coord_eq (sqrt : K → K) (env : Env K) (lat : Lattice K) (st : SLD K) :
    (suzuki_trotter sqrt env lat st).coord
      = (lattice_first sqrt env lat
          (spin_sweeps sqrt env lat (generate_thermal_noise lat st))).coord := by
  unfold suzuki_trotter
  simp only []
  rw [spin_sweeps_coord, lattice_second_coord]

theorem lattice_first_coord (sqrt : K → K) (env : Env K) (lat : Lattice K) (st : SLD K)
    (i : Nat) :
    (lattice_first sqrt env lat st).coord i
      = if i < env.num_atoms then
          Vec3.add (st.coord i)
            (Vec3.smul (env.dt_SI * 1e12) ((lattice_first sqrt env lat st).velo i))
        else st.coord i := by
  unfold lattice_first
  rw [update_position_velocity_coord, recompute_forces_coord]

end StepLemmas
section StepClaims

variable {K : Type} [LinearOrderedField K]

theorem forward_sweep_spin (sqrt : K → K) (env : Env K) (lat : Lattice K) (st : SLD K)
    (i : Nat) (hi : i < env.num_atoms) :
    (forward_sweep sqrt env lat st).spin i
      = (spin_update_atom sqrt env lat i
          ((List.range i).foldl (fun s atom => spin_update_atom sqrt env lat atom s) st)).spin i := by
  unfold forward_sweep for_range
  have hN : env.num_atoms - 0 = i + (1 + (env.num_atoms - i - 1)) := by omega
  rw [hN, loop_from_add, loop_from_add]
  rw [loop_from_preserve_above (fun s : SLD K => s.spin i) (spin_update_atom sqrt env lat) i
    (fun j s hj => spin_update_atom_spin_ne sqrt env lat j s i (by omega)) _ _ _ (by omega)]
  simp only [loop_from, Nat.zero_add]
  rw [← for_range_eq_foldl]
  rfl

/-- C12: every spin has the same squared length, hence the same length, after a complete
`suzuki_trotter` step as before it.  The step is the execution of its list of operations, in
which the rotation of an atom `i < num_atoms` occurs exactly four times (once per sweep); each
rotation preserves the length of every spin, and the two lattice sub-steps leave the spins
unchanged. -/
theorem suzuki_trotter_preserves_spin_length (sqrt : K → K) (env : Env K) (lat : Lattice K)
    (st : SLD K) (i : Nat) :
    Vec3.normSq ((suzuki_trotter sqrt env lat st).spin i) = Vec3.normSq (st.spin i)
    ∧ suzuki_trotter sqrt env lat st
        = run_ops sqrt env lat (suzuki_trotter_ops env.num_atoms)
            (generate_thermal_noise lat st)
    ∧ (suzuki_trotter_ops env.num_atoms).count (Op.rotate i)
        = (if i < env.num_atoms then 4 else 0)
    ∧ (∀ atom s, Vec3.normSq ((Op.run sqrt env lat (Op.rotate atom) s).spin i)
        = Vec3.normSq (s.spin i))
    ∧ (∀ s, (lattice_first sqrt env lat s).spin = s.spin
        ∧ (lattice_second sqrt env lat s).spin = s.spin) :=
  ⟨suzuki_trotter_normSq sqrt env lat st i, suzuki_trotter_eq_run_ops sqrt env lat st,
   suzuki_trotter_ops_count env.num_atoms i,
   fun atom s => spin_update_atom_normSq sqrt env lat atom s i,
   fun s => ⟨lattice_first_spin sqrt env lat s, lattice_second_spin sqrt env lat s⟩⟩

/-- C13: the forward sweep is the left fold of the single-atom update over the atom indices
`0, 1, ..., N-1` and the backward sweep the same fold over `N-1, ..., 0`; the single-atom
update is `compute_fields`, `add_spin_noise`, `cayley_update` on `[atom, atom+1)`, so field and
renormalisation are recomputed at every visit; and the spin that the forward sweep leaves on
an atom `i < N` is the one written by the update of atom `i` applied to the state in which the
atoms `0, ..., i-1` are already rotated. -/
theorem sweeps_are_sequential_folds (sqrt : K → K) (env : Env K) (lat : Lattice K)
    (st : SLD K) :
    forward_sweep sqrt env lat st
      = (List.range env.num_atoms).foldl
          (fun s atom => spin_update_atom sqrt env lat atom s) st
    ∧ backward_sweep sqrt env lat st
      = (List.range env.num_atoms).reverse.foldl
          (fun s atom => spin_update_atom sqrt env lat atom s) st
    ∧ (∀ atom s, spin_update_atom sqrt env lat atom s
        = cayley_update atom (atom + 1) (cay_dt env)
            (add_spin_noise sqrt env atom (atom + 1) (env.dt_SI * 1e12)
              (compute_fields sqrt env lat atom (atom + 1) s)))
    ∧ (∀ i, i < env.num_atoms →
        (forward_sweep sqrt env lat st).spin i
          = (spin_update_atom sqrt env lat i
              ((List.range i).foldl
                (fun s atom => spin_update_atom sqrt env lat atom s) st)).spin i) :=
  ⟨for_range_eq_foldl _ _ _, loop_down_eq_foldl _ _ _, fun _ _ => rfl,
   fun i hi => forward_sweep_spin sqrt env lat st i hi⟩

theorem sweeps_are_sequential_folds_witness :
    (1 < (Env.pair : Env ℝ).num_atoms)
    ∧ (forward_sweep Real.sqrt (Env.pair : Env ℝ) Lattice.chain
          (SLD.chain (fun _ => ⟨0, 0, 1⟩))).spin 1
        = (spin_update_atom Real.sqrt Env.pair Lattice.chain 1
            ((List.range 1).foldl
              (fun s atom => spin_update_atom Real.sqrt Env.pair Lattice.chain atom s)
              (SLD.chain (fun _ => ⟨0, 0, 1⟩)))).spin 1 :=
  ⟨by decide,
   (sweeps_are_sequential_folds Real.sqrt Env.pair Lattice.chain
     (SLD.chain (fun _ => ⟨0, 0, 1⟩))).2.2.2 1 (by decide)⟩

/-- C14: one `suzuki_trotter` step is the execution, in order, of its list of operations
(after the noise vectors are filled), whose elementary operations (rotations `R_i`, kick `V`,
drift `X`) form the sequence `R_0..R_{N-1}, R_{N-1}..R_0, V, X, V, R_0..R_{N-1}, R_{N-1}..R_0`;
this sequence equals its own reverse.  The first lattice loop, which kicks and drifts atom by
atom, equals the kick of all atoms followed by the drift of all atoms. -/
theorem suzuki_trotter_symmetric_composition (sqrt : K → K) (env : Env K) (lat : Lattice K)
    (st : SLD K) :
    suzuki_trotter sqrt env lat st
      = run_ops sqrt env lat (suzuki_trotter_ops env.num_atoms)
          (generate_thermal_noise lat st)
    ∧ (suzuki_trotter_ops env.num_atoms).filter Op.elementary
      = symmetric_sequence env.num_atoms
    ∧ (symmetric_sequence env.num_atoms).reverse = symmetric_sequence env.num_atoms
    ∧ (∀ s, update_position_velocity sqrt env s
        = position_drift env (update_velocity sqrt env s)) :=
  ⟨suzuki_trotter_eq_run_ops sqrt env lat st, suzuki_trotter_ops_elementary env.num_atoms,
   symmetric_sequence_reverse env.num_atoms,
   fun s => update_position_velocity_fission sqrt env s⟩

/-- C15: in the first lattice loop, for every atom `i < num_atoms`, the new velocity is
`f_eta * v + (dt/(2m)) * force + (dt/2) * sigma_F * sqrt(T) * F_th` with
`f_eta = 1 - damp * dt / 2`, `dt = mp::dt_SI * 1e12` (picoseconds) and `m`, `damp`, `sigma_F`
the coefficients of the atom's material selected by the equilibration test; and the new
position is the old one plus `dt` times the new velocity. -/
theorem update_position_velocity_kick_drift (sqrt : K → K) (env : Env K) (st : SLD K)
    (i : Nat) (hi : i < env.num_atoms) :
    (update_position_velocity sqrt env st).velo i
      = kick_closed_form (env.dt_SI * 1e12) (env.sld_mp (env.type_array i)).mass
          (selected_damp_lat env (env.type_array i))
          (selected_F_th_sigma env (env.type_array i) * sqrt env.temperature)
          (st.velo i) (st.force i) (st.F_th i)
    ∧ (update_position_velocity sqrt env st).coord i
      = Vec3.add (st.coord i)
          (Vec3.smul (env.dt_SI * 1e12) ((update_position_velocity sqrt env st).velo i)) := by
  constructor
  · rw [update_position_velocity_velo, if_pos hi]
  · rw [update_position_velocity_coord, if_pos hi]

theorem update_position_velocity_kick_drift_witness :
    (0 < (Env.sample : Env ℝ).num_atoms)
    ∧ (update_position_velocity Real.sqrt (Env.sample : Env ℝ)
        (SLD.uniform ⟨0, 0, 1⟩ ⟨0, 0, 0⟩ ⟨0, 0, 0⟩ ⟨1, 0, 0⟩ ⟨0, 1, 0⟩ ⟨0, 0, 1⟩)).velo 0
      = kick_closed_form ((Env.sample : Env ℝ).dt_SI * 1e12)
          ((Env.sample : Env ℝ).sld_mp ((Env.sample : Env ℝ).type_array 0)).mass
          (selected_damp_lat (Env.sample : Env ℝ) ((Env.sample : Env ℝ).type_array 0))
          (selected_F_th_sigma (Env.sample : Env ℝ) ((Env.sample : Env ℝ).type_array 0)
            * Real.sqrt (Env.sample : Env ℝ).temperature)
          ((SLD.uniform ⟨0, 0, 1⟩ ⟨0, 0, 0⟩ ⟨0, 0, 0⟩ ⟨1, 0, 0⟩ ⟨0, 1, 0⟩ ⟨0, 0, 1⟩
            : SLD ℝ).velo 0)
          ((SLD.uniform ⟨0, 0, 1⟩ ⟨0, 0, 0⟩ ⟨0, 0, 0⟩ ⟨1, 0, 0⟩ ⟨0, 1, 0⟩ ⟨0, 0, 1⟩
            : SLD ℝ).force 0)
          ((SLD.uniform ⟨0, 0, 1⟩ ⟨0, 0, 0⟩ ⟨0, 0, 0⟩ ⟨1, 0, 0⟩ ⟨0, 1, 0⟩ ⟨0, 0, 1⟩
            : SLD ℝ).F_th 0)
    ∧ (update_position_velocity Real.sqrt (Env.sample : Env ℝ)
        (SLD.uniform ⟨0, 0, 1⟩ ⟨0, 0, 0⟩ ⟨0, 0, 0⟩ ⟨1, 0, 0⟩ ⟨0, 1, 0⟩ ⟨0, 0, 1⟩)).coord 0
      = Vec3.add
          ((SLD.uniform ⟨0, 0, 1⟩ ⟨0, 0, 0⟩ ⟨0, 0, 0⟩ ⟨1, 0, 0⟩ ⟨0, 1, 0⟩ ⟨0, 0, 1⟩
            : SLD ℝ).coord 0)
          (Vec3.smul ((Env.sample : Env ℝ).dt_SI * 1e12)
            ((update_position_velocity Real.sqrt (Env.sample : Env ℝ)
              (SLD.uniform ⟨0, 0, 1⟩ ⟨0, 0, 0⟩ ⟨0, 0, 0⟩ ⟨1, 0, 0⟩ ⟨0, 1, 0⟩
                ⟨0, 0, 1⟩)).velo 0)) :=
  ⟨by decide,
   update_position_velocity_kick_drift Real.sqrt Env.sample
     (SLD.uniform ⟨0, 0, 1⟩ ⟨0, 0, 0⟩ ⟨0, 0, 0⟩ ⟨1, 0, 0⟩ ⟨0, 1, 0⟩ ⟨0, 0, 1⟩) 0 (by decide)⟩

/-- C16: the position of every atom at the end of a `suzuki_trotter` step is its position
after the first lattice sub-step, which for an atom `i < num_atoms` is the position at the
start of the step plus `dt` (picoseconds) times the velocity after the first kick, and for
other indices the position at the start; the second lattice sub-step and the spin sweeps leave
all positions unchanged, and the spin sweeps leave all velocities unchanged. -/
theorem suzuki_trotter_moves_positions_once (sqrt : K → K) (env : Env K) (lat : Lattice K)
    (st : SLD K) (i : Nat) :
    (suzuki_trotter sqrt env lat st).coord i
      = (lattice_first sqrt env lat
          (spin_sweeps sqrt env lat (generate_thermal_noise lat st))).coord i
    ∧ (lattice_first sqrt env lat
          (spin_sweeps sqrt env lat (generate_thermal_noise lat st))).coord i
      = (if i < env.num_atoms then
          Vec3.add (st.coord i)
            (Vec3.smul (env.dt_SI * 1e12)
              ((lattice_first sqrt env lat
                (spin_sweeps sqrt env lat (generate_thermal_noise lat st))).velo i))
        else st.coord i)
    ∧ (∀ s, (lattice_second sqrt env lat s).coord = s.coord)
    ∧ (∀ s, (spin_sweeps sqrt env lat s).coord = s.coord
        ∧ (spin_sweeps sqrt env lat s).velo = s.velo) := by
  refine ⟨congrFun (suzuki_trotter_coord_eq sqrt env lat st) i, ?_,
    fun s => lattice_second_coord sqrt env lat s,
    fun s => ⟨spin_sweeps_coord sqrt env lat s, spin_sweeps_velo sqrt env lat s⟩⟩
  rw [lattice_first_coord, spin_sweeps_coord]
  rfl

end StepClaims
section CayleyRelations

variable {K : Type} [LinearOrderedField K]

/-- The implicit-midpoint relation of the closed form: `S' = S + A × (S + S')/2`. -/
theorem cayley_closed_form_midpoint (A S : Vec3 K) :
    cayley_closed_form A S
      = Vec3.add S (Vec3.cross A (Vec3.smul (1 / 2) (Vec3.add S (cayley_closed_form A S)))) := by
  obtain ⟨ax, ay, az⟩ := A
  obtain ⟨sx, sy, sz⟩ := S
  have hpos : (0 : K) < 1 + (ax * ax + ay * ay + az * az) / 4 := by
    nlinarith [mul_self_nonneg ax, mul_self_nonneg ay, mul_self_nonneg az]
  have hne : (1 : K) + (ax * ax + ay * ay + az * az) / 4 ≠ 0 := ne_of_gt hpos
  have hc : 1 / (1 + (ax * ax + ay * ay + az * az) / 4)
      * (1 + (ax * ax + ay * ay + az * az) / 4) = 1 := by
    rw [one_div, inv_mul_cancel₀ hne]
  simp only [cayley_closed_form, Vec3.smul, Vec3.add, Vec3.cross, Vec3.dot, Vec3.normSq]
  generalize 1 / (1 + (ax * ax + ay * ay + az * az) / 4) = c at hc ⊢
  refine Vec3.ext ?_ ?_ ?_
  · show c * ((1 - (ax * ax + ay * ay + az * az) / 4) * sx + (ay * sz - az * sy)
        + (ax * sx + ay * sy + az * sz) / 2 * ax) = _
    linear_combination (sx + (ay * sz - az * sy) / 2) * hc
  · show c * ((1 - (ax * ax + ay * ay + az * az) / 4) * sy + (az * sx - ax * sz)
        + (ax * sx + ay * sy + az * sz) / 2 * ay) = _
    linear_combination (sy + (az * sx - ax * sz) / 2) * hc
  · show c * ((1 - (ax * ax + ay * ay + az * az) / 4) * sz + (ax * sy - ay * sx)
        + (ax * sx + ay * sy + az * sz) / 2 * az) = _
    linear_combination (sz + (ax * sy - ay * sx) / 2) * hc

/-- The Cayley form of the relation: `(I - [A]/2) S' = (I + [A]/2) S` with `[A] v = A × v`. -/
theorem cayley_closed_form_cayley (A S : Vec3 K) :
    Vec3.add (cayley_closed_form A S)
        (Vec3.smul (-(1 / 2)) (Vec3.cross A (cayley_closed_form A S)))
      = Vec3.add S (Vec3.smul (1 / 2) (Vec3.cross A S)) := by
  have h := cayley_closed_form_midpoint A S
  generalize cayley_closed_form A S = T at h ⊢
  obtain ⟨ax, ay, az⟩ := A
  obtain ⟨sx, sy, sz⟩ := S
  obtain ⟨tx, ty, tz⟩ := T
  simp only [Vec3.smul, Vec3.add, Vec3.cross, Vec3.mk.injEq] at h ⊢
  obtain ⟨h1, h2, h3⟩ := h
  refine ⟨?_, ?_, ?_⟩
  · linear_combination h1
  · linear_combination h2
  · linear_combination h3

/-- C25: for every atom `i` of the range, every spin, field and rotation time, the spin `S'`
written by `cayley_update` and the spin `S` read satisfy, with `A = F[i]*dt`, the
implicit-midpoint relation `S' = S + A × (S + S')/2` and its Cayley form
`S' - (A × S')/2 = S + (A × S)/2`, that is `(I - [A]/2) S' = (I + [A]/2) S`. -/
theorem cayley_update_implicit_midpoint (start_index end_index : Nat) (dt : K) (st : SLD K)
    (i : Nat) (hi : start_index ≤ i ∧ i < end_index) :
    (cayley_update start_index end_index dt st).spin i
      = Vec3.add (st.spin i)
          (Vec3.cross (Vec3.smul dt (st.field i))
            (Vec3.smul (1 / 2)
              (Vec3.add (st.spin i) ((cayley_update start_index end_index dt st).spin i))))
    ∧ Vec3.add ((cayley_update start_index end_index dt st).spin i)
        (Vec3.smul (-(1 / 2))
          (Vec3.cross (Vec3.smul dt (st.field i))
            ((cayley_update start_index end_index dt st).spin i)))
      = Vec3.add (st.spin i)
          (Vec3.smul (1 / 2) (Vec3.cross (Vec3.smul dt (st.field i)) (st.spin i))) := by
  rw [cayley_update_spin, if_pos hi]
  exact ⟨cayley_closed_form_midpoint _ _, cayley_closed_form_cayley _ _⟩

theorem cayley_update_implicit_midpoint_witness :
    (0 ≤ 0 ∧ 0 < 1)
    ∧ (cayley_update 0 1 (1 : ℚ)
        (SLD.uniform ⟨1, 0, 0⟩ ⟨0, 0, 2⟩ ⟨0, 0, 0⟩ ⟨0, 0, 0⟩ ⟨0, 0, 0⟩ ⟨0, 0, 0⟩)).spin 0
      = Vec3.add
          ((SLD.uniform ⟨1, 0, 0⟩ ⟨0, 0, 2⟩ ⟨0, 0, 0⟩ ⟨0, 0, 0⟩ ⟨0, 0, 0⟩ ⟨0, 0, 0⟩ : SLD ℚ).spin 0)
          (Vec3.cross
            (Vec3.smul 1
              ((SLD.uniform ⟨1, 0, 0⟩ ⟨0, 0, 2⟩ ⟨0, 0, 0⟩ ⟨0, 0, 0⟩ ⟨0, 0, 0⟩ ⟨0, 0, 0⟩
                : SLD ℚ).field 0))
            (Vec3.smul (1 / 2)
              (Vec3.add
                ((SLD.uniform ⟨1, 0, 0⟩ ⟨0, 0, 2⟩ ⟨0, 0, 0⟩ ⟨0, 0, 0⟩ ⟨0, 0, 0⟩ ⟨0, 0, 0⟩
                  : SLD ℚ).spin 0)
                ((cayley_update 0 1 (1 : ℚ)
                  (SLD.uniform ⟨1, 0, 0⟩ ⟨0, 0, 2⟩ ⟨0, 0, 0⟩ ⟨0, 0, 0⟩ ⟨0, 0, 0⟩
                    ⟨0, 0, 0⟩)).spin 0)))) :=
  ⟨⟨by decide, by decide⟩,
   (cayley_update_implicit_midpoint 0 1 (1 : ℚ)
     (SLD.uniform ⟨1, 0, 0⟩ ⟨0, 0, 2⟩ ⟨0, 0, 0⟩ ⟨0, 0, 0⟩ ⟨0, 0, 0⟩ ⟨0, 0, 0⟩) 0
     ⟨by decide, by decide⟩).1⟩

theorem cay_dt_abs (env : Env K) : |cay_dt env| = |env.dt| / 4 := by
  unfold cay_dt
  rw [abs_div, abs_neg]
  norm_num

/-- C26: every rotation of the step is `cayley_update(atom, atom+1, cay_dt, ...)` with the one
value `cay_dt = -mp::dt/4`, whose magnitude is `|dt|/4`: the spin it writes is the closed form
with `A = cay_dt * F`.  The step is the execution of its list of operations, in which the
rotation of an atom `i < num_atoms` occurs four times, so the rotation times of an atom add up
to magnitude `4 * |cay_dt| = |dt|`. -/
theorem suzuki_trotter_rotation_time (sqrt : K → K) (env : Env K) (lat : Lattice K)
    (st : SLD K) (i : Nat) :
    (∀ atom s, Op.run sqrt env lat (Op.rotate atom) s
        = cayley_update atom (atom + 1) (cay_dt env)
            (add_spin_noise sqrt env atom (atom + 1) (env.dt_SI * 1e12)
              (compute_fields sqrt env lat atom (atom + 1) s)))
    ∧ (∀ atom s, (Op.run sqrt env lat (Op.rotate atom) s).spin atom
        = cayley_closed_form
            (Vec3.smul (cay_dt env)
              ((add_spin_noise sqrt env atom (atom + 1) (env.dt_SI * 1e12)
                (compute_fields sqrt env lat atom (atom + 1) s)).field atom))
            (s.spin atom))
    ∧ cay_dt env = -env.dt / 4
    ∧ |cay_dt env| = |env.dt| / 4
    ∧ suzuki_trotter sqrt env lat st
        = run_ops sqrt env lat (suzuki_trotter_ops env.num_atoms)
            (generate_thermal_noise lat st)
    ∧ (suzuki_trotter_ops env.num_atoms).count (Op.rotate i)
        = (if i < env.num_atoms then 4 else 0)
    ∧ 4 * |cay_dt env| = |env.dt| := by
  refine ⟨fun _ _ => rfl, fun atom s => ?_, ?_, cay_dt_abs env,
    suzuki_trotter_eq_run_ops sqrt env lat st, suzuki_trotter_ops_count env.num_atoms i, ?_⟩
  · show (spin_update_atom sqrt env lat atom s).spin atom = _
    rw [spin_update_atom_spin, if_pos rfl]
  · unfold cay_dt
    norm_num
  · rw [cay_dt_abs]
    ring

end CayleyRelations
section StageTheorems

variable {K : Type} [LinearOrderedField K]

/-- The increment computed by every stage loop is the increment of the specification. -/
theorem RK4_increment_eq_stage_increment (sqrt : K → K) (env : Env K) (j : Nat)
    (S H xi : Vec3 K) :
    RK4_increment sqrt env (LSF_RK4_sigma sqrt env) j S H xi.x xi.y xi.z
      = stage_increment sqrt env.gamma_SI (env.material (env.type_array j)).alpha
          (env.material (env.type_array j)).mu_s_SI env.temperature env.dt_SI S H xi := by
  simp only [RK4_increment, delta_S, stage_increment, LSF_RK4_sigma, Vec3.smul, Vec3.add,
    Vec3.cross]
  refine Vec3.ext ?_ ?_ ?_ <;> norm_num <;> ring

theorem LSF_RK4_mpi_K1_eq (sqrt : K → K) (c : Collab K) (env : Env K) (st : LSF K) :
    LSF_RK4_mpi_K1 sqrt c env st
      = stage_loop 1 env.num_core_atoms (env.num_core_atoms + env.num_bdry_atoms)
          (K1_atom sqrt env (LSF_RK4_sigma sqrt env))
          (LSF_RK4_mpi_before_K1_bdry sqrt c env st) := rfl

theorem LSF_RK4_mpi_before_K1_core_spin (c : Collab K) (env : Env K) (st : LSF K) :
    (LSF_RK4_mpi_before_K1_core c env st).spin = st.spin := by
  funext j
  simp [LSF_RK4_mpi_before_K1_core]

theorem LSF_RK4_mpi_before_K1_bdry_k1 (sqrt : K → K) (c : Collab K) (env : Env K)
    (st : LSF K) (i : Nat) :
    (LSF_RK4_mpi_before_K1_bdry sqrt c env st).k1 i
      = (stage_loop 1 0 env.num_core_atoms (K1_atom sqrt env (LSF_RK4_sigma sqrt env))
          (LSF_RK4_mpi_before_K1_core c env st)).k1 i := by
  simp [LSF_RK4_mpi_before_K1_bdry]

theorem LSF_RK4_mpi_before_K1_bdry_spin (sqrt : K → K) (c : Collab K) (env : Env K)
    (st : LSF K) (i : Nat) (hi : i < env.num_core_atoms + env.num_bdry_atoms) :
    (LSF_RK4_mpi_before_K1_bdry sqrt c env st).spin i
      = (stage_loop 1 0 env.num_core_atoms (K1_atom sqrt env (LSF_RK4_sigma sqrt env))
          (LSF_RK4_mpi_before_K1_core c env st)).spin i := by
  have hnot : ¬ (env.num_core_atoms + env.num_bdry_atoms ≤ i) := Nat.not_le.mpr hi
  simp [LSF_RK4_mpi_before_K1_bdry, mpi_complete_halo_swap_spin, hnot]

/-- The `k1` part for a core atom. -/
theorem LSF_RK4_mpi_K1_core (sqrt : K → K) (c : Collab K) (env : Env K) (st : LSF K)
    (i : Nat) (hi : i < env.num_core_atoms) :
    (LSF_RK4_mpi_K1 sqrt c env st).k1 i
      = stage_increment sqrt env.gamma_SI (env.material (env.type_array i)).alpha
          (env.material (env.type_array i)).mu_s_SI env.temperature env.dt_SI
          ((LSF_RK4_mpi_before_K1_core c env st).spin i)
          (local_H i (LSF_RK4_mpi_before_K1_core c env st))
          ((LSF_RK4_mpi_before_K1_core c env st).t i)
    ∧ (LSF_RK4_mpi_K1 sqrt c env st).spin i
      = Vec3.add ((LSF_RK4_mpi_before_K1_core c env st).spin i)
          (Vec3.smul 0.5 ((LSF_RK4_mpi_K1 sqrt c env st).k1 i))
    ∧ (LSF_RK4_mpi_before_K1_core c env st).spin i = st.spin i := by
  have h1 : ¬ (env.num_core_atoms ≤ i ∧ i < env.num_core_atoms + env.num_bdry_atoms) := by
    omega
  have h2 : 0 ≤ i ∧ i < env.num_core_atoms := ⟨Nat.zero_le i, hi⟩
  have hk : (LSF_RK4_mpi_K1 sqrt c env st).k1 i
      = RK4_increment sqrt env (LSF_RK4_sigma sqrt env) i
          ((LSF_RK4_mpi_before_K1_core c env st).spin i)
          (local_H i (LSF_RK4_mpi_before_K1_core c env st))
          ((LSF_RK4_mpi_before_K1_core c env st).t i).x
          ((LSF_RK4_mpi_before_K1_core c env st).t i).y
          ((LSF_RK4_mpi_before_K1_core c env st).t i).z := by
    rw [LSF_RK4_mpi_K1_eq, stage_loop_K1_k1, if_neg h1, LSF_RK4_mpi_before_K1_bdry_k1,
      stage_loop_K1_k1, if_pos h2, local_H_eq]
  refine ⟨?_, ?_, congrFun (LSF_RK4_mpi_before_K1_core_spin c env st) i⟩
  · rw [hk, RK4_increment_eq_stage_increment]
  · rw [hk, LSF_RK4_mpi_K1_eq, stage_loop_K1_spin, if_neg h1,
      LSF_RK4_mpi_before_K1_bdry_spin sqrt c env st i (by omega), stage_loop_K1_spin,
      if_pos h2, local_H_eq]

/-- The `k1` part for a boundary atom. -/
theorem LSF_RK4_mpi_K1_bdry (sqrt : K → K) (c : Collab K) (env : Env K) (st : LSF K)
    (i : Nat) (hc : env.num_core_atoms ≤ i)
    (hi : i < env.num_core_atoms + env.num_bdry_atoms) :
    (LSF_RK4_mpi_K1 sqrt c env st).k1 i
      = stage_increment sqrt env.gamma_SI (env.material (env.type_array i)).alpha
          (env.material (env.type_array i)).mu_s_SI env.temperature env.dt_SI
          ((LSF_RK4_mpi_before_K1_bdry sqrt c env st).spin i)
          (local_H i (LSF_RK4_mpi_before_K1_bdry sqrt c env st))
          ((LSF_RK4_mpi_before_K1_bdry sqrt c env st).t i)
    ∧ (LSF_RK4_mpi_K1 sqrt c env st).spin i
      = Vec3.add ((LSF_RK4_mpi_before_K1_bdry sqrt c env st).spin i)
          (Vec3.smul 0.5 ((LSF_RK4_mpi_K1 sqrt c env st).k1 i))
    ∧ (LSF_RK4_mpi_before_K1_bdry sqrt c env st).spin i = st.spin i := by
  have h1 : env.num_core_atoms ≤ i ∧ i < env.num_core_atoms + env.num_bdry_atoms := ⟨hc, hi⟩
  have h2 : ¬ (0 ≤ i ∧ i < env.num_core_atoms) := by omega
  have hk : (LSF_RK4_mpi_K1 sqrt c env st).k1 i
      = RK4_increment sqrt env (LSF_RK4_sigma sqrt env) i
          ((LSF_RK4_mpi_before_K1_bdry sqrt c env st).spin i)
          (local_H i (LSF_RK4_mpi_before_K1_bdry sqrt c env st))
          ((LSF_RK4_mpi_before_K1_bdry sqrt c env st).t i).x
          ((LSF_RK4_mpi_before_K1_bdry sqrt c env st).t i).y
          ((LSF_RK4_mpi_before_K1_bdry sqrt c env st).t i).z := by
    rw [LSF_RK4_mpi_K1_eq, stage_loop_K1_k1, if_pos h1, local_H_eq]
  refine ⟨?_, ?_, ?_⟩
  · rw [hk, RK4_increment_eq_stage_increment]
  · rw [hk, LSF_RK4_mpi_K1_eq, stage_loop_K1_spin, if_pos h1, local_H_eq]
  · rw [LSF_RK4_mpi_before_K1_bdry_spin sqrt c env st i hi, stage_loop_K1_spin, if_neg h2,
      LSF_RK4_mpi_before_K1_core_spin]

/-- C21: in the `k1` part of `LSF_RK4_mpi`, for every core atom, and for every boundary atom
after the first halo completion, `k1 = dt * (-γ (S × H) + γ α H + ξ sqrt(2 kB T γ/dt)
sqrt(α/μ))`, where `S`, `H` (the sum of the spin-field, external-field and LSF-field entries)
and `ξ` are the atom's entries at the start of its loop; the spin left by the part is
`S + 0.5 * k1`, and `S` is still the spin the atom had on entry of the step. -/
theorem LSF_RK4_mpi_K1_increment (sqrt : K → K) (c : Collab K) (env : Env K) (st : LSF K) :
    (∀ i, i < env.num_core_atoms →
      (LSF_RK4_mpi_K1 sqrt c env st).k1 i
        = stage_increment sqrt env.gamma_SI (env.material (env.type_array i)).alpha
            (env.material (env.type_array i)).mu_s_SI env.temperature env.dt_SI
            ((LSF_RK4_mpi_before_K1_core c env st).spin i)
            (local_H i (LSF_RK4_mpi_before_K1_core c env st))
            ((LSF_RK4_mpi_before_K1_core c env st).t i)
      ∧ (LSF_RK4_mpi_K1 sqrt c env st).spin i
        = Vec3.add ((LSF_RK4_mpi_before_K1_core c env st).spin i)
            (Vec3.smul 0.5 ((LSF_RK4_mpi_K1 sqrt c env st).k1 i))
      ∧ (LSF_RK4_mpi_before_K1_core c env st).spin i = st.spin i)
    ∧ (∀ i, env.num_core_atoms ≤ i → i < env.num_core_atoms + env.num_bdry_atoms →
      (LSF_RK4_mpi_K1 sqrt c env st).k1 i
        = stage_increment sqrt env.gamma_SI (env.material (env.type_array i)).alpha
            (env.material (env.type_array i)).mu_s_SI env.temperature env.dt_SI
            ((LSF_RK4_mpi_before_K1_bdry sqrt c env st).spin i)
            (local_H i (LSF_RK4_mpi_before_K1_bdry sqrt c env st))
            ((LSF_RK4_mpi_before_K1_bdry sqrt c env st).t i)
      ∧ (LSF_RK4_mpi_K1 sqrt c env st).spin i
        = Vec3.add ((LSF_RK4_mpi_before_K1_bdry sqrt c env st).spin i)
            (Vec3.smul 0.5 ((LSF_RK4_mpi_K1 sqrt c env st).k1 i))
      ∧ (LSF_RK4_mpi_before_K1_bdry sqrt c env st).spin i = st.spin i) :=
  ⟨fun i hi => LSF_RK4_mpi_K1_core sqrt c env st i hi,
   fun i hc hi => LSF_RK4_mpi_K1_bdry sqrt c env st i hc hi⟩

theorem LSF_RK4_mpi_K1_increment_witness :
    (1 ≤ 1 ∧ 1 < 1 + 1)
    ∧ (LSF_RK4_mpi_K1 Real.sqrt Collab.pair_exchange (Env.precession 1 1)
        (LSF.fresh (fun j => if j = 0 then ⟨1, 0, 0⟩ else ⟨0, 1, 0⟩))).spin 1
      = Vec3.add
          ((LSF_RK4_mpi_before_K1_bdry Real.sqrt Collab.pair_exchange (Env.precession 1 1)
            (LSF.fresh (fun j => if j = 0 then ⟨1, 0, 0⟩ else ⟨0, 1, 0⟩))).spin 1)
          (Vec3.smul 0.5
            ((LSF_RK4_mpi_K1 Real.sqrt Collab.pair_exchange (Env.precession 1 1)
              (LSF.fresh (fun j => if j = 0 then ⟨1, 0, 0⟩ else ⟨0, 1, 0⟩))).k1 1)) :=
  ⟨⟨le_refl 1, by decide⟩,
   ((LSF_RK4_mpi_K1_increment Real.sqrt Collab.pair_exchange (Env.precession 1 1)
      (LSF.fresh (fun j => if j = 0 then ⟨1, 0, 0⟩ else ⟨0, 1, 0⟩))).2 1
      (le_refl 1) (by decide)).2.1⟩

end StageTheorems
section StageAdvance

variable {K : Type} [LinearOrderedField K]

theorem LSF_RK4_mpi_K1_spin_k1 (sqrt : K → K) (c : Collab K) (env : Env K) (st : LSF K)
    (i : Nat) (hi : i < env.num_core_atoms + env.num_bdry_atoms) :
    (LSF_RK4_mpi_K1 sqrt c env st).spin i
      = Vec3.add (st.spin i) (Vec3.smul 0.5 ((LSF_RK4_mpi_K1 sqrt c env st).k1 i)) := by
  by_cases hcore : i < env.num_core_atoms
  · obtain ⟨_, h2, h3⟩ := LSF_RK4_mpi_K1_core sqrt c env st i hcore
    rw [h2, h3]
  · obtain ⟨_, h2, h3⟩ := LSF_RK4_mpi_K1_bdry sqrt c env st i (Nat.le_of_not_lt hcore) hi
    rw [h2, h3]

/-- The `k2` part adds `0.5 * k2` to the spin it finds. -/
theorem LSF_RK4_mpi_K2_spin_k2 (sqrt : K → K) (c : Collab K) (env : Env K) (st : LSF K)
    (i : Nat) (hi : i < env.num_core_atoms + env.num_bdry_atoms) :
    (LSF_RK4_mpi_K2 sqrt c env st).spin i
      = Vec3.add (st.spin i) (Vec3.smul 0.5 ((LSF_RK4_mpi_K2 sqrt c env st).k2 i)) := by
  have hnot : ¬ (env.num_core_atoms + env.num_bdry_atoms ≤ i) := Nat.not_le.mpr hi
  by_cases hcore : i < env.num_core_atoms
  · have hb : ¬ (env.num_core_atoms ≤ i) := Nat.not_le.mpr hcore
    simp [LSF_RK4_mpi_K2, stage_loop_K2_spin, stage_loop_K2_k2, mpi_complete_halo_swap_spin,
      hcore, hb, hnot]
  · have hb : env.num_core_atoms ≤ i := Nat.le_of_not_lt hcore
    simp [LSF_RK4_mpi_K2, stage_loop_K2_spin, stage_loop_K2_k2, mpi_complete_halo_swap_spin,
      hcore, hb, hi, hnot]

/-- The spin after the `k2` part: the start-of-step spin plus `0.5 * k1` plus `0.5 * k2`. -/
theorem LSF_RK4_mpi_K2_spin_accumulated (sqrt : K → K) (c : Collab K) (env : Env K)
    (st : LSF K) (i : Nat) (hi : i < env.num_core_atoms + env.num_bdry_atoms) :
    (LSF_RK4_mpi_K2 sqrt c env (LSF_RK4_mpi_K1 sqrt c env st)).spin i
      = Vec3.add
          (Vec3.add ((LSF_RK4_mpi_K2 sqrt c env (LSF_RK4_mpi_K1 sqrt c env st)).initial_spin i)
            (Vec3.smul 0.5 ((LSF_RK4_mpi_K2 sqrt c env (LSF_RK4_mpi_K1 sqrt c env st)).k1 i)))
          (Vec3.smul 0.5 ((LSF_RK4_mpi_K2 sqrt c env (LSF_RK4_mpi_K1 sqrt c env st)).k2 i)) := by
  rw [LSF_RK4_mpi_K2_spin_k2 sqrt c env _ i hi, LSF_RK4_mpi_K1_spin_k1 sqrt c env st i hi,
    LSF_RK4_mpi_K2_k1, LSF_RK4_mpi_K2_initial_spin,
    LSF_RK4_mpi_K1_initial_spin sqrt c env st i hi]

theorem LSF_RK4_mpi_K3_fields (sqrt : K → K) (c : Collab K) (env : Env K) (st : LSF K) :
    (LSF_RK4_mpi_K3 sqrt c env st).spin_field = st.spin_field
    ∧ (LSF_RK4_mpi_K3 sqrt c env st).external_field = st.external_field
    ∧ (LSF_RK4_mpi_K3 sqrt c env st).lsf = st.lsf := by
  simp [LSF_RK4_mpi_K3]

/-- The `k3` part forms `k3` from the spin it finds and the field entries it finds. -/
theorem LSF_RK4_mpi_K3_k3_spin (sqrt : K → K) (c : Collab K) (env : Env K) (st : LSF K)
    (i : Nat) (hi : i < env.num_core_atoms + env.num_bdry_atoms) :
    (LSF_RK4_mpi_K3 sqrt c env st).k3 i
      = stage_increment sqrt env.gamma_SI (env.material (env.type_array i)).alpha
          (env.material (env.type_array i)).mu_s_SI env.temperature env.dt_SI
          (st.spin i) (local_H i st) (st.t i)
    ∧ (LSF_RK4_mpi_K3 sqrt c env st).spin i
      = Vec3.add (st.spin i) ((LSF_RK4_mpi_K3 sqrt c env st).k3 i) := by
  have hnot : ¬ (env.num_core_atoms + env.num_bdry_atoms ≤ i) := Nat.not_le.mpr hi
  rw [← RK4_increment_eq_stage_increment]
  by_cases hcore : i < env.num_core_atoms
  · have hb : ¬ (env.num_core_atoms ≤ i) := Nat.not_le.mpr hcore
    simp [LSF_RK4_mpi_K3, stage_loop_K3_spin, stage_loop_K3_k3, mpi_complete_halo_swap_spin,
      hcore, hb, hnot]
  · have hb : env.num_core_atoms ≤ i := Nat.le_of_not_lt hcore
    simp [LSF_RK4_mpi_K3, stage_loop_K3_spin, stage_loop_K3_k3, mpi_complete_halo_swap_spin,
      hcore, hb, hi, hnot]

end StageAdvance

section StageCounterexamples

set_option maxHeartbeats 1000000 in
theorem LSF_RK4_mpi_K2_single_atom_value :
    (LSF_RK4_mpi_K2 Real.sqrt (Collab.constant_field ⟨0, 0, 1⟩) (Env.precession 1 0)
      (LSF_RK4_mpi_K1 Real.sqrt (Collab.constant_field ⟨0, 0, 1⟩) (Env.precession 1 0)
        (LSF.fresh (fun _ => ⟨1, 0, 0⟩)))).spin 0 = ⟨3 / 4, 1, 0⟩
    ∧ (LSF_RK4_mpi_K2 Real.sqrt (Collab.constant_field ⟨0, 0, 1⟩) (Env.precession 1 0)
      (LSF_RK4_mpi_K1 Real.sqrt (Collab.constant_field ⟨0, 0, 1⟩) (Env.precession 1 0)
        (LSF.fresh (fun _ => ⟨1, 0, 0⟩)))).initial_spin 0 = ⟨1, 0, 0⟩
    ∧ (LSF_RK4_mpi_K2 Real.sqrt (Collab.constant_field ⟨0, 0, 1⟩) (Env.precession 1 0)
      (LSF_RK4_mpi_K1 Real.sqrt (Collab.constant_field ⟨0, 0, 1⟩) (Env.precession 1 0)
        (LSF.fresh (fun _ => ⟨1, 0, 0⟩)))).k2 0 = ⟨-(1 / 2), 1, 0⟩ := by
  refine ⟨?_, ?_, ?_⟩ <;>
  · simp [LSF_RK4_mpi_K2, LSF_RK4_mpi_K1, stage_loop_K1_spin, stage_loop_K2_spin,
      stage_loop_K1_k1, stage_loop_K2_k2,
      mpi_complete_halo_swap_spin, calculate_spin_fields_spin_field,
      calculate_external_fields_external_field, calculate_lsf_rk4_field_lsf,
      store_initial_spins_initial_spin, generate_noise_t,
      RK4_increment, delta_S, lsf_field_value, LSF_RK4_sigma, Vec3.add, Vec3.smul,
      Env.precession, Collab.constant_field]
    try norm_num

end StageCounterexamples
section StageCounterexamples2

set_option maxHeartbeats 1000000 in
theorem LSF_RK4_mpi_K3_longitudinal_value :
    (LSF_RK4_mpi_K3 Real.sqrt (Collab.constant_field ⟨0, 0, 0⟩) (Env.longitudinal 1 0)
      (LSF_RK4_mpi_K2 Real.sqrt (Collab.constant_field ⟨0, 0, 0⟩) (Env.longitudinal 1 0)
        (LSF_RK4_mpi_K1 Real.sqrt (Collab.constant_field ⟨0, 0, 0⟩) (Env.longitudinal 1 0)
          (LSF.fresh (fun _ => ⟨1, 0, 0⟩))))).k3 0 = ⟨-(1 / 2), 0, 0⟩ := by
  simp [LSF_RK4_mpi_K3, LSF_RK4_mpi_K2, LSF_RK4_mpi_K1, stage_loop_K1_spin, stage_loop_K2_spin,
    stage_loop_K1_k1, stage_loop_K2_k2, stage_loop_K3_k3,
    mpi_complete_halo_swap_spin, calculate_spin_fields_spin_field,
    calculate_external_fields_external_field, calculate_lsf_rk4_field_lsf,
    store_initial_spins_initial_spin, generate_noise_t,
    RK4_increment, delta_S, lsf_field_value, LSF_RK4_sigma, Vec3.add, Vec3.smul,
    Env.longitudinal, Env.precession, Collab.constant_field]
  norm_num

set_option maxHeartbeats 1000000 in
theorem LSF_RK4_mpi_K3_longitudinal_expected :
    stage_increment Real.sqrt (Env.longitudinal 1 0 : Env ℝ).gamma_SI
      ((Env.longitudinal 1 0 : Env ℝ).material ((Env.longitudinal 1 0 : Env ℝ).type_array 0)).alpha
      ((Env.longitudinal 1 0 : Env ℝ).material
        ((Env.longitudinal 1 0 : Env ℝ).type_array 0)).mu_s_SI
      (Env.longitudinal 1 0 : Env ℝ).temperature (Env.longitudinal 1 0 : Env ℝ).dt_SI
      ((LSF_RK4_mpi_K2 Real.sqrt (Collab.constant_field ⟨0, 0, 0⟩) (Env.longitudinal 1 0)
        (LSF_RK4_mpi_K1 Real.sqrt (Collab.constant_field ⟨0, 0, 0⟩) (Env.longitudinal 1 0)
          (LSF.fresh (fun _ => ⟨1, 0, 0⟩)))).spin 0)
      (local_H 0
        (recalculate_spin_dependent_fields (Collab.constant_field ⟨0, 0, 0⟩)
          (Env.longitudinal 1 0) 0 1
          (LSF_RK4_mpi_K2 Real.sqrt (Collab.constant_field ⟨0, 0, 0⟩) (Env.longitudinal 1 0)
            (LSF_RK4_mpi_K1 Real.sqrt (Collab.constant_field ⟨0, 0, 0⟩) (Env.longitudinal 1 0)
              (LSF.fresh (fun _ => ⟨1, 0, 0⟩))))))
      ((LSF_RK4_mpi_K2 Real.sqrt (Collab.constant_field ⟨0, 0, 0⟩) (Env.longitudinal 1 0)
        (LSF_RK4_mpi_K1 Real.sqrt (Collab.constant_field ⟨0, 0, 0⟩) (Env.longitudinal 1 0)
          (LSF.fresh (fun _ => ⟨1, 0, 0⟩)))).t 0)
      = ⟨-(1 / 4), 0, 0⟩ := by
  simp [recalculate_spin_dependent_fields, stage_increment, Vec3.cross,
    LSF_RK4_mpi_K2, LSF_RK4_mpi_K1, stage_loop_K1_spin, stage_loop_K2_spin,
    stage_loop_K1_k1, stage_loop_K2_k2,
    mpi_complete_halo_swap_spin, calculate_spin_fields_spin_field,
    calculate_external_fields_external_field, calculate_lsf_rk4_field_lsf,
    store_initial_spins_initial_spin, generate_noise_t,
    RK4_increment, delta_S, lsf_field_value, LSF_RK4_sigma, Vec3.add, Vec3.smul,
    Env.longitudinal, Env.precession, Collab.constant_field]
  norm_num

end StageCounterexamples2
section StageClaims

variable {K : Type} [LinearOrderedField K]

/-- C22 (refuted on the code): the `k2` loops add `0.5 * k2` to the spin they find, which is
already `initial + 0.5 * k1`; so after the `k2` part the spin of every local atom is
`initial_spin + 0.5 * k1 + 0.5 * k2`, not `initial_spin + 0.5 * k2`.  For one atom with spin
`(1,0,0)` precessing in the field `(0,0,1)` the spin after the `k2` part is `(3/4, 1, 0)`,
whereas `initial_spin + 0.5 * k2 = (3/4, 1/2, 0)`. -/
theorem LSF_RK4_mpi_K2_spin_not_from_initial (sqrt : K → K) (c : Collab K) (env : Env K)
    (st : LSF K) :
    (∀ i, i < env.num_core_atoms + env.num_bdry_atoms →
      (LSF_RK4_mpi_K2 sqrt c env (LSF_RK4_mpi_K1 sqrt c env st)).spin i
        = Vec3.add
            (Vec3.add
              ((LSF_RK4_mpi_K2 sqrt c env (LSF_RK4_mpi_K1 sqrt c env st)).initial_spin i)
              (Vec3.smul 0.5
                ((LSF_RK4_mpi_K2 sqrt c env (LSF_RK4_mpi_K1 sqrt c env st)).k1 i)))
            (Vec3.smul 0.5 ((LSF_RK4_mpi_K2 sqrt c env (LSF_RK4_mpi_K1 sqrt c env st)).k2 i)))
    ∧ (LSF_RK4_mpi_K2 Real.sqrt (Collab.constant_field ⟨0, 0, 1⟩) (Env.precession 1 0)
        (LSF_RK4_mpi_K1 Real.sqrt (Collab.constant_field ⟨0, 0, 1⟩) (Env.precession 1 0)
          (LSF.fresh (fun _ => ⟨1, 0, 0⟩)))).spin 0 = ⟨3 / 4, 1, 0⟩
    ∧ Vec3.add
        ((LSF_RK4_mpi_K2 Real.sqrt (Collab.constant_field ⟨0, 0, 1⟩) (Env.precession 1 0)
          (LSF_RK4_mpi_K1 Real.sqrt (Collab.constant_field ⟨0, 0, 1⟩) (Env.precession 1 0)
            (LSF.fresh (fun _ => ⟨1, 0, 0⟩)))).initial_spin 0)
        (Vec3.smul 0.5
          ((LSF_RK4_mpi_K2 Real.sqrt (Collab.constant_field ⟨0, 0, 1⟩) (Env.precession 1 0)
            (LSF_RK4_mpi_K1 Real.sqrt (Collab.constant_field ⟨0, 0, 1⟩) (Env.precession 1 0)
              (LSF.fresh (fun _ => ⟨1, 0, 0⟩)))).k2 0))
      = ⟨3 / 4, 1 / 2, 0⟩
    ∧ (LSF_RK4_mpi_K2 Real.sqrt (Collab.constant_field ⟨0, 0, 1⟩) (Env.precession 1 0)
        (LSF_RK4_mpi_K1 Real.sqrt (Collab.constant_field ⟨0, 0, 1⟩) (Env.precession 1 0)
          (LSF.fresh (fun _ => ⟨1, 0, 0⟩)))).spin 0
      ≠ Vec3.add
        ((LSF_RK4_mpi_K2 Real.sqrt (Collab.constant_field ⟨0, 0, 1⟩) (Env.precession 1 0)
          (LSF_RK4_mpi_K1 Real.sqrt (Collab.constant_field ⟨0, 0, 1⟩) (Env.precession 1 0)
            (LSF.fresh (fun _ => ⟨1, 0, 0⟩)))).initial_spin 0)
        (Vec3.smul 0.5
          ((LSF_RK4_mpi_K2 Real.sqrt (Collab.constant_field ⟨0, 0, 1⟩) (Env.precession 1 0)
            (LSF_RK4_mpi_K1 Real.sqrt (Collab.constant_field ⟨0, 0, 1⟩) (Env.precession 1 0)
              (LSF.fresh (fun _ => ⟨1, 0, 0⟩)))).k2 0)) := by
  obtain ⟨h1, h2, h3⟩ := LSF_RK4_mpi_K2_single_atom_value
  have h4 : Vec3.add
        ((LSF_RK4_mpi_K2 Real.sqrt (Collab.constant_field ⟨0, 0, 1⟩) (Env.precession 1 0)
          (LSF_RK4_mpi_K1 Real.sqrt (Collab.constant_field ⟨0, 0, 1⟩) (Env.precession 1 0)
            (LSF.fresh (fun _ => ⟨1, 0, 0⟩)))).initial_spin 0)
        (Vec3.smul 0.5
          ((LSF_RK4_mpi_K2 Real.sqrt (Collab.constant_field ⟨0, 0, 1⟩) (Env.precession 1 0)
            (LSF_RK4_mpi_K1 Real.sqrt (Collab.constant_field ⟨0, 0, 1⟩) (Env.precession 1 0)
              (LSF.fresh (fun _ => ⟨1, 0, 0⟩)))).k2 0))
      = (⟨3 / 4, 1 / 2, 0⟩ : Vec3 ℝ) := by
    rw [h2, h3]
    simp only [Vec3.add, Vec3.smul]
    refine Vec3.ext ?_ ?_ ?_ <;> norm_num
  refine ⟨fun i hi => LSF_RK4_mpi_K2_spin_accumulated sqrt c env st i hi, h1, h4, ?_⟩
  rw [h1, h4]
  intro h
  have hy := congrArg Vec3.y h
  norm_num at hy

/-- C23 (refuted on the code): the `k3` part of `LSF_RK4_mpi` calls neither
`calculate_spin_fields` nor `calculate_lsf_rk4_field`; it leaves the three field arrays as the
`k2` part left them, so `k3 = dt * Delta(S, H)` with `S` the spin after the `k2` advance but `H`
the entries computed before that advance; the spin is then advanced by the full `k3`.  For one
atom with spin `(1,0,0)`, unit damping and LSF field `-S`, the code stores `k3 = (-1/2, 0, 0)`,
whereas the field recalculated from the spin after the `k2` advance gives `(-1/4, 0, 0)`. -/
theorem LSF_RK4_mpi_K3_fields_not_recomputed (sqrt : K → K) (c : Collab K) (env : Env K)
    (st : LSF K) :
    ((LSF_RK4_mpi_K3 sqrt c env st).spin_field = st.spin_field
      ∧ (LSF_RK4_mpi_K3 sqrt c env st).external_field = st.external_field
      ∧ (LSF_RK4_mpi_K3 sqrt c env st).lsf = st.lsf)
    ∧ (∀ i, i < env.num_core_atoms + env.num_bdry_atoms →
      (LSF_RK4_mpi_K3 sqrt c env st).k3 i
        = stage_increment sqrt env.gamma_SI (env.material (env.type_array i)).alpha
            (env.material (env.type_array i)).mu_s_SI env.temperature env.dt_SI
            (st.spin i) (local_H i st) (st.t i)
      ∧ (LSF_RK4_mpi_K3 sqrt c env st).spin i
        = Vec3.add (st.spin i) ((LSF_RK4_mpi_K3 sqrt c env st).k3 i))
    ∧ (LSF_RK4_mpi_K3 Real.sqrt (Collab.constant_field ⟨0, 0, 0⟩) (Env.longitudinal 1 0)
        (LSF_RK4_mpi_K2 Real.sqrt (Collab.constant_field ⟨0, 0, 0⟩) (Env.longitudinal 1 0)
          (LSF_RK4_mpi_K1 Real.sqrt (Collab.constant_field ⟨0, 0, 0⟩) (Env.longitudinal 1 0)
            (LSF.fresh (fun _ => ⟨1, 0, 0⟩))))).k3 0 = ⟨-(1 / 2), 0, 0⟩
    ∧ stage_increment Real.sqrt (Env.longitudinal 1 0 : Env ℝ).gamma_SI
        ((Env.longitudinal 1 0 : Env ℝ).material
          ((Env.longitudinal 1 0 : Env ℝ).type_array 0)).alpha
        ((Env.longitudinal 1 0 : Env ℝ).material
          ((Env.longitudinal 1 0 : Env ℝ).type_array 0)).mu_s_SI
        (Env.longitudinal 1 0 : Env ℝ).temperature (Env.longitudinal 1 0 : Env ℝ).dt_SI
        ((LSF_RK4_mpi_K2 Real.sqrt (Collab.constant_field ⟨0, 0, 0⟩) (Env.longitudinal 1 0)
          (LSF_RK4_mpi_K1 Real.sqrt (Collab.constant_field ⟨0, 0, 0⟩) (Env.longitudinal 1 0)
            (LSF.fresh (fun _ => ⟨1, 0, 0⟩)))).spin 0)
        (local_H 0
          (recalculate_spin_dependent_fields (Collab.constant_field ⟨0, 0, 0⟩)
            (Env.longitudinal 1 0) 0 1
            (LSF_RK4_mpi_K2 Real.sqrt (Collab.constant_field ⟨0, 0, 0⟩) (Env.longitudinal 1 0)
              (LSF_RK4_mpi_K1 Real.sqrt (Collab.constant_field ⟨0, 0, 0⟩)
                (Env.longitudinal 1 0) (LSF.fresh (fun _ => ⟨1, 0, 0⟩))))))
        ((LSF_RK4_mpi_K2 Real.sqrt (Collab.constant_field ⟨0, 0, 0⟩) (Env.longitudinal 1 0)
          (LSF_RK4_mpi_K1 Real.sqrt (Collab.constant_field ⟨0, 0, 0⟩) (Env.longitudinal 1 0)
            (LSF.fresh (fun _ => ⟨1, 0, 0⟩)))).t 0)
      = ⟨-(1 / 4), 0, 0⟩ :=
  ⟨LSF_RK4_mpi_K3_fields sqrt c env st,
   fun i hi => LSF_RK4_mpi_K3_k3_spin sqrt c env st i hi,
   LSF_RK4_mpi_K3_longitudinal_value, LSF_RK4_mpi_K3_longitudinal_expected⟩

theorem LSF_RK4_mpi_gaussian_count (sqrt : K → K) (c : Collab K) (env : Env K) (st : LSF K) :
    (LSF_RK4_mpi sqrt c env st).gaussian_count
      = st.gaussian_count + 3 * (env.num_core_atoms + env.num_bdry_atoms) := by
  simp [LSF_RK4_mpi, LSF_RK4_mpi_step, LSF_RK4_mpi_K4, LSF_RK4_mpi_K3, LSF_RK4_mpi_K2,
    LSF_RK4_mpi_K1, generate_noise_gaussian_count]
  omega

theorem LSF_RK4_mpi_later_parts_t (sqrt : K → K) (c : Collab K) (env : Env K) (st : LSF K) :
    ((LSF_RK4_mpi_K2 sqrt c env st).t = st.t
      ∧ (LSF_RK4_mpi_K2 sqrt c env st).gaussian_count = st.gaussian_count)
    ∧ ((LSF_RK4_mpi_K3 sqrt c env st).t = st.t
      ∧ (LSF_RK4_mpi_K3 sqrt c env st).gaussian_count = st.gaussian_count)
    ∧ ((LSF_RK4_mpi_K4 sqrt c env st).t = st.t
      ∧ (LSF_RK4_mpi_K4 sqrt c env st).gaussian_count = st.gaussian_count)
    ∧ ((LSF_RK4_mpi_step env st).t = st.t
      ∧ (LSF_RK4_mpi_step env st).gaussian_count = st.gaussian_count) := by
  simp [LSF_RK4_mpi_K2, LSF_RK4_mpi_K3, LSF_RK4_mpi_K4, LSF_RK4_mpi_step]

theorem LSF_RK4_mpi_t (sqrt : K → K) (c : Collab K) (env : Env K) (st : LSF K) (i : Nat) :
    (LSF_RK4_mpi sqrt c env st).t i = (LSF_RK4_mpi_K1 sqrt c env st).t i := by
  simp [LSF_RK4_mpi, LSF_RK4_mpi_K2, LSF_RK4_mpi_K3, LSF_RK4_mpi_K4, LSF_RK4_mpi_step]

theorem LSF_RK4_mpi_K1_t_core (sqrt : K → K) (c : Collab K) (env : Env K) (st : LSF K)
    (i : Nat) (hi : i < env.num_core_atoms) :
    (LSF_RK4_mpi_K1 sqrt c env st).t i
      = ⟨c.gaussian (st.gaussian_count + i),
         c.gaussian (st.gaussian_count + env.num_core_atoms + i),
         c.gaussian (st.gaussian_count + env.num_core_atoms + env.num_core_atoms + i)⟩ := by
  have hb : ¬ (env.num_core_atoms ≤ i) := Nat.not_le.mpr hi
  simp [LSF_RK4_mpi_K1, generate_noise_t, hi, hb]

theorem LSF_RK4_mpi_K1_t_bdry (sqrt : K → K) (c : Collab K) (env : Env K) (st : LSF K)
    (i : Nat) (hc : env.num_core_atoms ≤ i)
    (hi : i < env.num_core_atoms + env.num_bdry_atoms) :
    (LSF_RK4_mpi_K1 sqrt c env st).t i
      = ⟨c.gaussian (st.gaussian_count + 3 * env.num_core_atoms + (i - env.num_core_atoms)),
         c.gaussian (st.gaussian_count + 3 * env.num_core_atoms + env.num_bdry_atoms
           + (i - env.num_core_atoms)),
         c.gaussian (st.gaussian_count + 3 * env.num_core_atoms + env.num_bdry_atoms
           + env.num_bdry_atoms + (i - env.num_core_atoms))⟩ := by
  simp [LSF_RK4_mpi_K1, generate_noise_t, generate_noise_gaussian_count, hi, hc]

theorem LSF_RK4_mpi_events_noise_order (core bdry : Nat) :
    noise_order (LSF_RK4_mpi_events core bdry)
      = [Event.noise 0 core, Event.stage 1 0 core, Event.complete_halo_swap,
         Event.noise core (core + bdry), Event.stage 1 core (core + bdry),
         Event.complete_halo_swap, Event.complete_halo_swap, Event.complete_halo_swap] := by
  simp [noise_order, LSF_RK4_mpi_events]

end StageClaims
section NoiseClaims

variable {K : Type} [LinearOrderedField K]

/-- Every stage loop forms its increment from the noise triple `(tx, ty, tz)` of the atom. -/
theorem stage_loops_read_t (sqrt : K → K) (env : Env K) (k a b : Nat) (s : LSF K) (j : Nat)
    (ha : a ≤ j) (hb : j < b) :
    (stage_loop k a b (K1_atom sqrt env (LSF_RK4_sigma sqrt env)) s).k1 j
      = stage_increment sqrt env.gamma_SI (env.material (env.type_array j)).alpha
          (env.material (env.type_array j)).mu_s_SI env.temperature env.dt_SI
          (s.spin j) (local_H j s) (s.t j)
    ∧ (stage_loop k a b (K2_atom sqrt env (LSF_RK4_sigma sqrt env)) s).k2 j
      = stage_increment sqrt env.gamma_SI (env.material (env.type_array j)).alpha
          (env.material (env.type_array j)).mu_s_SI env.temperature env.dt_SI
          (s.spin j) (local_H j s) (s.t j)
    ∧ (stage_loop k a b (K3_atom sqrt env (LSF_RK4_sigma sqrt env)) s).k3 j
      = stage_increment sqrt env.gamma_SI (env.material (env.type_array j)).alpha
          (env.material (env.type_array j)).mu_s_SI env.temperature env.dt_SI
          (s.spin j) (local_H j s) (s.t j)
    ∧ (stage_loop k a b (K4_atom sqrt env (LSF_RK4_sigma sqrt env)) s).k4 j
      = stage_increment sqrt env.gamma_SI (env.material (env.type_array j)).alpha
          (env.material (env.type_array j)).mu_s_SI env.temperature env.dt_SI
          (s.spin j) (local_H j s) (s.t j) := by
  have h : a ≤ j ∧ j < b := ⟨ha, hb⟩
  simp only [stage_loop_K1_k1, stage_loop_K2_k2, stage_loop_K3_k3, stage_loop_K4_k4, if_pos h,
    local_H_eq, RK4_increment_eq_stage_increment, and_self]

/-- C24: one `LSF_RK4_mpi` step draws `3 * (num_core_atoms + num_bdry_atoms)` Gaussian variates.
The triple of a core atom is drawn in the three passes `tx`, `ty`, `tz` over the core range,
logged before the `k1` loop of the core; the triple of a boundary atom in the three passes over
the boundary range, logged after the first halo completion and before the `k1` loop of the
boundary.  The parts `k2`, `k3`, `k4` and the final combination leave the noise arrays and
the number of variates drawn unchanged, and every stage loop forms its increment from the
atom's entry of the noise arrays. -/
theorem LSF_RK4_mpi_noise_drawn_once (sqrt : K → K) (c : Collab K) (env : Env K)
    (st : LSF K) :
    (LSF_RK4_mpi sqrt c env st).gaussian_count
      = st.gaussian_count + 3 * (env.num_core_atoms + env.num_bdry_atoms)
    ∧ (∀ i, i < env.num_core_atoms →
      (LSF_RK4_mpi sqrt c env st).t i
        = ⟨c.gaussian (st.gaussian_count + i),
           c.gaussian (st.gaussian_count + env.num_core_atoms + i),
           c.gaussian (st.gaussian_count + env.num_core_atoms + env.num_core_atoms + i)⟩)
    ∧ (∀ i, env.num_core_atoms ≤ i → i < env.num_core_atoms + env.num_bdry_atoms →
      (LSF_RK4_mpi sqrt c env st).t i
        = ⟨c.gaussian (st.gaussian_count + 3 * env.num_core_atoms + (i - env.num_core_atoms)),
           c.gaussian (st.gaussian_count + 3 * env.num_core_atoms + env.num_bdry_atoms
             + (i - env.num_core_atoms)),
           c.gaussian (st.gaussian_count + 3 * env.num_core_atoms + env.num_bdry_atoms
             + env.num_bdry_atoms + (i - env.num_core_atoms))⟩)
    ∧ (LSF_RK4_mpi sqrt c env st).trace
        = st.trace ++ LSF_RK4_mpi_events env.num_core_atoms env.num_bdry_atoms
    ∧ noise_order (LSF_RK4_mpi_events env.num_core_atoms env.num_bdry_atoms)
        = [Event.noise 0 env.num_core_atoms, Event.stage 1 0 env.num_core_atoms,
           Event.complete_halo_swap,
           Event.noise env.num_core_atoms (env.num_core_atoms + env.num_bdry_atoms),
           Event.stage 1 env.num_core_atoms (env.num_core_atoms + env.num_bdry_atoms),
           Event.complete_halo_swap, Event.complete_halo_swap, Event.complete_halo_swap]
    ∧ (∀ s : LSF K,
      ((LSF_RK4_mpi_K2 sqrt c env s).t = s.t
        ∧ (LSF_RK4_mpi_K2 sqrt c env s).gaussian_count = s.gaussian_count)
      ∧ ((LSF_RK4_mpi_K3 sqrt c env s).t = s.t
        ∧ (LSF_RK4_mpi_K3 sqrt c env s).gaussian_count = s.gaussian_count)
      ∧ ((LSF_RK4_mpi_K4 sqrt c env s).t = s.t
        ∧ (LSF_RK4_mpi_K4 sqrt c env s).gaussian_count = s.gaussian_count)
      ∧ ((LSF_RK4_mpi_step env s).t = s.t
        ∧ (LSF_RK4_mpi_step env s).gaussian_count = s.gaussian_count))
    ∧ (∀ (k a b : Nat) (s : LSF K) (j : Nat), a ≤ j → j < b →
      (stage_loop k a b (K1_atom sqrt env (LSF_RK4_sigma sqrt env)) s).k1 j
        = stage_increment sqrt env.gamma_SI (env.material (env.type_array j)).alpha
            (env.material (env.type_array j)).mu_s_SI env.temperature env.dt_SI
            (s.spin j) (local_H j s) (s.t j)
      ∧ (stage_loop k a b (K2_atom sqrt env (LSF_RK4_sigma sqrt env)) s).k2 j
        = stage_increment sqrt env.gamma_SI (env.material (env.type_array j)).alpha
            (env.material (env.type_array j)).mu_s_SI env.temperature env.dt_SI
            (s.spin j) (local_H j s) (s.t j)
      ∧ (stage_loop k a b (K3_atom sqrt env (LSF_RK4_sigma sqrt env)) s).k3 j
        = stage_increment sqrt env.gamma_SI (env.material (env.type_array j)).alpha
            (env.material (env.type_array j)).mu_s_SI env.temperature env.dt_SI
            (s.spin j) (local_H j s) (s.t j)
      ∧ (stage_loop k a b (K4_atom sqrt env (LSF_RK4_sigma sqrt env)) s).k4 j
        = stage_increment sqrt env.gamma_SI (env.material (env.type_array j)).alpha
            (env.material (env.type_array j)).mu_s_SI env.temperature env.dt_SI
            (s.spin j) (local_H j s) (s.t j)) :=
  ⟨LSF_RK4_mpi_gaussian_count sqrt c env st,
   fun i hi => by rw [LSF_RK4_mpi_t, LSF_RK4_mpi_K1_t_core sqrt c env st i hi],
   fun i hc hi => by rw [LSF_RK4_mpi_t, LSF_RK4_mpi_K1_t_bdry sqrt c env st i hc hi],
   LSF_RK4_mpi_trace sqrt c env st,
   LSF_RK4_mpi_events_noise_order env.num_core_atoms env.num_bdry_atoms,
   fun s => LSF_RK4_mpi_later_parts_t sqrt c env s,
   fun k a b s j ha hb => stage_loops_read_t sqrt env k a b s j ha hb⟩

theorem LSF_RK4_mpi_noise_drawn_once_witness :
    (1 ≤ 1 ∧ 1 < 1 + 1)
    ∧ (LSF_RK4_mpi Real.sqrt Collab.pair_exchange (Env.precession 1 1)
        (LSF.fresh (fun j => if j = 0 then ⟨1, 0, 0⟩ else ⟨0, 1, 0⟩))).t 1
      = ⟨(Collab.pair_exchange : Collab ℝ).gaussian
            ((LSF.fresh (fun j => if j = 0 then (⟨1, 0, 0⟩ : Vec3 ℝ) else ⟨0, 1, 0⟩)).gaussian_count
              + 3 * (Env.precession 1 1 : Env ℝ).num_core_atoms
              + (1 - (Env.precession 1 1 : Env ℝ).num_core_atoms)),
         (Collab.pair_exchange : Collab ℝ).gaussian
            ((LSF.fresh (fun j => if j = 0 then (⟨1, 0, 0⟩ : Vec3 ℝ) else ⟨0, 1, 0⟩)).gaussian_count
              + 3 * (Env.precession 1 1 : Env ℝ).num_core_atoms
              + (Env.precession 1 1 : Env ℝ).num_bdry_atoms
              + (1 - (Env.precession 1 1 : Env ℝ).num_core_atoms)),
         (Collab.pair_exchange : Collab ℝ).gaussian
            ((LSF.fresh (fun j => if j = 0 then (⟨1, 0, 0⟩ : Vec3 ℝ) else ⟨0, 1, 0⟩)).gaussian_count
              + 3 * (Env.precession 1 1 : Env ℝ).num_core_atoms
              + (Env.precession 1 1 : Env ℝ).num_bdry_atoms
              + (Env.precession 1 1 : Env ℝ).num_bdry_atoms
              + (1 - (Env.precession 1 1 : Env ℝ).num_core_atoms))⟩ :=
  ⟨⟨le_refl 1, by decide⟩,
   (LSF_RK4_mpi_noise_drawn_once Real.sqrt Collab.pair_exchange (Env.precession 1 1)
      (LSF.fresh (fun j => if j = 0 then ⟨1, 0, 0⟩ else ⟨0, 1, 0⟩))).2.2.1 1
      (le_refl 1) (by decide)⟩

end NoiseClaims
section ExchangeTheorems

variable {K : Type} [LinearOrderedField K]

/-- One pass of the neighbour loop: the accumulators grow by the term of the position if it
contributes, and are unchanged otherwise. -/
theorem compute_exchange_neighbour_eq (sqrt : K → K) (env : Env K) (lat : Lattice K)
    (cfg : Config K) (i n : Nat) (a : ExchangeSums K) :
    (compute_exchange_neighbour sqrt env lat cfg i n a).hx
        = a.hx + (if lat.neighbour_list_array n ≠ i
            ∧ exchange_r_sqr lat cfg i n < lat.r_cut_fields ^ 2
          then exchange_J sqrt env lat cfg i n * (cfg.spin (lat.neighbour_list_array n)).x
          else 0)
    ∧ (compute_exchange_neighbour sqrt env lat cfg i n a).hy
        = a.hy + (if lat.neighbour_list_array n ≠ i
            ∧ exchange_r_sqr lat cfg i n < lat.r_cut_fields ^ 2
          then exchange_J sqrt env lat cfg i n * (cfg.spin (lat.neighbour_list_array n)).y
          else 0)
    ∧ (compute_exchange_neighbour sqrt env lat cfg i n a).hz
        = a.hz + (if lat.neighbour_list_array n ≠ i
            ∧ exchange_r_sqr lat cfg i n < lat.r_cut_fields ^ 2
          then exchange_J sqrt env lat cfg i n * (cfg.spin (lat.neighbour_list_array n)).z
          else 0)
    ∧ (compute_exchange_neighbour sqrt env lat cfg i n a).sumJ
        = a.sumJ + (if lat.neighbour_list_array n ≠ i
            ∧ exchange_r_sqr lat cfg i n < lat.r_cut_fields ^ 2
          then exchange_J sqrt env lat cfg i n else 0)
    ∧ (compute_exchange_neighbour sqrt env lat cfg i n a).energy
        = a.energy + (if lat.neighbour_list_array n ≠ i
            ∧ exchange_r_sqr lat cfg i n < lat.r_cut_fields ^ 2
          then exchange_J sqrt env lat cfg i n
            * Vec3.dot (cfg.spin i) (cfg.spin (lat.neighbour_list_array n))
          else 0) := by
  have hsq : lat.r_cut_fields ^ 2 = lat.r_cut_fields * lat.r_cut_fields := by ring
  by_cases hj : lat.neighbour_list_array n ≠ i
  · by_cases hr : exchange_r_sqr lat cfg i n < lat.r_cut_fields ^ 2
    · have hr2 : (separation lat cfg i (lat.neighbour_list_array n)).x
            * (separation lat cfg i (lat.neighbour_list_array n)).x
          + (separation lat cfg i (lat.neighbour_list_array n)).y
            * (separation lat cfg i (lat.neighbour_list_array n)).y
          + (separation lat cfg i (lat.neighbour_list_array n)).z
            * (separation lat cfg i (lat.neighbour_list_array n)).z
          < lat.r_cut_fields * lat.r_cut_fields := by
        rw [← hsq]; exact hr
      have hc : lat.neighbour_list_array n ≠ i
          ∧ exchange_r_sqr lat cfg i n < lat.r_cut_fields ^ 2 := ⟨hj, hr⟩
      simp only [if_pos hc]
      have e1 : (1.0 : K) = 1 := by norm_num
      simp only [compute_exchange_neighbour, if_pos hj, if_pos hr2,
        exchange_J, exchange_r_sqr, Vec3.normSq, Vec3.dot, Config.spin, e1]
      refine ⟨?_, ?_, ?_, ?_, ?_⟩ <;> ring
    · have hr2 : ¬ ((separation lat cfg i (lat.neighbour_list_array n)).x
            * (separation lat cfg i (lat.neighbour_list_array n)).x
          + (separation lat cfg i (lat.neighbour_list_array n)).y
            * (separation lat cfg i (lat.neighbour_list_array n)).y
          + (separation lat cfg i (lat.neighbour_list_array n)).z
            * (separation lat cfg i (lat.neighbour_list_array n)).z
          < lat.r_cut_fields * lat.r_cut_fields) := by
        rw [← hsq]; exact hr
      have hc : ¬ (lat.neighbour_list_array n ≠ i
          ∧ exchange_r_sqr lat cfg i n < lat.r_cut_fields ^ 2) := fun h => hr h.2
      simp only [compute_exchange_neighbour, if_pos hj, if_neg hr2, if_neg hc, add_zero,
        and_self]
  · have hc : ¬ (lat.neighbour_list_array n ≠ i
        ∧ exchange_r_sqr lat cfg i n < lat.r_cut_fields ^ 2) := fun h => hj h.1
    simp only [compute_exchange_neighbour, if_neg hj, if_neg hc, add_zero, and_self]

/-- A sum over a filtered list is the sum of the terms guarded by the filter condition. -/
theorem sum_filter_map_eq (p : Nat → Prop) [DecidablePred p] (f : Nat → K) (l : List Nat) :
    ((l.filter (fun n => decide (p n))).map f).sum
      = (l.map (fun n => if p n then f n else 0)).sum := by
  induction l with
  | nil => rfl
  | cons n l ih =>
    by_cases h : p n
    · simp [List.filter_cons, h, ih]
    · simp [List.filter_cons, h, ih]

/-- The neighbour loop over a list of positions adds up the guarded terms. -/
theorem compute_exchange_foldl (sqrt : K → K) (env : Env K) (lat : Lattice K)
    (cfg : Config K) (i : Nat) (l : List Nat) :
    ∀ a : ExchangeSums K,
      (l.foldl (fun s n => compute_exchange_neighbour sqrt env lat cfg i n s) a).hx
          = a.hx + (l.map (fun n => if lat.neighbour_list_array n ≠ i
              ∧ exchange_r_sqr lat cfg i n < lat.r_cut_fields ^ 2
            then exchange_J sqrt env lat cfg i n * (cfg.spin (lat.neighbour_list_array n)).x
            else 0)).sum
      ∧ (l.foldl (fun s n => compute_exchange_neighbour sqrt env lat cfg i n s) a).hy
          = a.hy + (l.map (fun n => if lat.neighbour_list_array n ≠ i
              ∧ exchange_r_sqr lat cfg i n < lat.r_cut_fields ^ 2
            then exchange_J sqrt env lat cfg i n * (cfg.spin (lat.neighbour_list_array n)).y
            else 0)).sum
      ∧ (l.foldl (fun s n => compute_exchange_neighbour sqrt env lat cfg i n s) a).hz
          = a.hz + (l.map (fun n => if lat.neighbour_list_array n ≠ i
              ∧ exchange_r_sqr lat cfg i n < lat.r_cut_fields ^ 2
            then exchange_J sqrt env lat cfg i n * (cfg.spin (lat.neighbour_list_array n)).z
            else 0)).sum
      ∧ (l.foldl (fun s n => compute_exchange_neighbour sqrt env lat cfg i n s) a).sumJ
          = a.sumJ + (l.map (fun n => if lat.neighbour_list_array n ≠ i
              ∧ exchange_r_sqr lat cfg i n < lat.r_cut_fields ^ 2
            then exchange_J sqrt env lat cfg i n else 0)).sum
      ∧ (l.foldl (fun s n => compute_exchange_neighbour sqrt env lat cfg i n s) a).energy
          = a.energy + (l.map (fun n => if lat.neighbour_list_array n ≠ i
              ∧ exchange_r_sqr lat cfg i n < lat.r_cut_fields ^ 2
            then exchange_J sqrt env lat cfg i n
              * Vec3.dot (cfg.spin i) (cfg.spin (lat.neighbour_list_array n))
            else 0)).sum := by
  induction l with
  | nil => intro a; simp
  | cons n l ih =>
    intro a
    obtain ⟨e1, e2, e3, e4, e5⟩ := compute_exchange_neighbour_eq sqrt env lat cfg i n a
    obtain ⟨i1, i2, i3, i4, i5⟩ := ih (compute_exchange_neighbour sqrt env lat cfg i n a)
    simp only [List.foldl_cons, List.map_cons, List.sum_cons]
    rw [i1, i2, i3, i4, i5, e1, e2, e3, e4, e5]
    refine ⟨?_, ?_, ?_, ?_, ?_⟩ <;> ring

/-- The accumulators of `compute_exchange` after the neighbour loop of atom `i`. -/
theorem compute_exchange_sums_eq (sqrt : K → K) (env : Env K) (lat : Lattice K)
    (cfg : Config K) (i : Nat) :
    (⟨(compute_exchange_sums sqrt env lat cfg i).hx, (compute_exchange_sums sqrt env lat cfg i).hy,
        (compute_exchange_sums sqrt env lat cfg i).hz⟩ : Vec3 K)
      = exchange_field sqrt env lat cfg i
    ∧ (compute_exchange_sums sqrt env lat cfg i).sumJ = exchange_sumJ sqrt env lat cfg i
    ∧ (compute_exchange_sums sqrt env lat cfg i).energy
      = exchange_energy_sum sqrt env lat cfg i := by
  unfold compute_exchange_sums for_range
  simp only []
  rw [loop_from_eq_foldl]
  obtain ⟨i1, i2, i3, i4, i5⟩ := compute_exchange_foldl sqrt env lat cfg i
    (List.range' (lat.neighbour_list_start_index i)
      ((lat.neighbour_list_end_index i + 1).toNat - lat.neighbour_list_start_index i))
    ⟨0, 0, 0, 0, 0, 0, 0, 0⟩
  simp only [zero_add] at i1 i2 i3 i4 i5
  rw [i1, i2, i3, i4, i5]
  simp only [exchange_field, exchange_sumJ, exchange_energy_sum, exchange_positions,
    neighbour_positions, sum_filter_map_eq, and_self]

/-- The effect of `compute_exchange` on the field, `sumJ` and `exch_eng` entries of an atom. -/
theorem compute_exchange_effect (sqrt : K → K) (env : Env K) (lat : Lattice K)
    (a b : Nat) (st : SLD K) (i : Nat) :
    (compute_exchange sqrt env lat a b st).field i
      = (if a ≤ i ∧ i < b then Vec3.add (st.field i) (exchange_field sqrt env lat st.config i)
        else st.field i)
    ∧ (compute_exchange sqrt env lat a b st).sumJ i
      = (if a ≤ i ∧ i < b then exchange_sumJ sqrt env lat st.config i else st.sumJ i)
    ∧ (compute_exchange sqrt env lat a b st).exch_eng i
      = (if a ≤ i ∧ i < b then -(1 / 2) * exchange_energy_sum sqrt env lat st.config i
        else st.exch_eng i) := by
  have h := compute_exchange_slice_eq sqrt env lat a b st i
  obtain ⟨f1, f2, f3⟩ := compute_exchange_sums_eq sqrt env lat st.config i
  have hf := congrArg FieldSlice.field h
  have hJ := congrArg FieldSlice.sumJ h
  have hE := congrArg FieldSlice.exch_eng h
  by_cases hi : a ≤ i ∧ i < b
  · simp only [if_pos hi] at hf hJ hE ⊢
    refine ⟨?_, ?_, ?_⟩
    · show (SLD.slice i (compute_exchange sqrt env lat a b st)).field = _
      rw [hf, ← f1]
      simp [compute_exchange_slice, SLD.slice, Vec3.add, SLD.field]
    · show (SLD.slice i (compute_exchange sqrt env lat a b st)).sumJ = _
      rw [hJ, ← f2]
      simp [compute_exchange_slice, SLD.slice]
    · show (SLD.slice i (compute_exchange sqrt env lat a b st)).exch_eng = _
      rw [hE, ← f3]
      simp [compute_exchange_slice, SLD.slice]
      norm_num
  · simp only [if_neg hi] at hf hJ hE ⊢
    exact ⟨hf, hJ, hE⟩

end ExchangeTheorems
section StepNoiseTheorems

variable {K : Type} [LinearOrderedField K]

theorem generate_eq (lat : Lattice K) (size count : Nat) :
    (∀ j, (generate lat size count).1 j
        = if j < size then lat.gaussian (count + j) else 0)
    ∧ (generate lat size count).2 = count + size := by
  obtain ⟨h1, h2⟩ := for_range_counter (fun p : (Nat → K) × Nat => p.1) (fun p => p.2)
    (generate_entry lat) lat.gaussian
    (fun i p j => by
      simp only [generate_entry]
      by_cases h : j = i
      · subst h; simp
      · simp [Function.update_noteq h, h])
    (fun _ _ => rfl) 0 size (fun _ => 0, count)
  refine ⟨fun j => ?_, ?_⟩
  · have := h1 j
    simp only [Nat.zero_le, true_and, Nat.sub_zero] at this
    exact this
  · simpa using h2

theorem generate_thermal_noise_gaussian_count (lat : Lattice K) (st : SLD K) :
    (generate_thermal_noise lat st).gaussian_count
      = st.gaussian_count + 6 * lat.spin_array_size := by
  simp only [generate_thermal_noise, (generate_eq lat _ _).2]
  omega

theorem generate_thermal_noise_H_th (lat : Lattice K) (st : SLD K) (i : Nat)
    (hi : i < lat.spin_array_size) :
    (generate_thermal_noise lat st).H_th i
      = ⟨lat.gaussian (st.gaussian_count + i),
         lat.gaussian (st.gaussian_count + lat.spin_array_size + i),
         lat.gaussian (st.gaussian_count + 2 * lat.spin_array_size + i)⟩ := by
  simp only [generate_thermal_noise, SLD.H_th, (generate_eq lat _ _).1, (generate_eq lat _ _).2,
    if_pos hi]
  have e : st.gaussian_count + lat.spin_array_size + lat.spin_array_size
      = st.gaussian_count + 2 * lat.spin_array_size := by omega
  rw [e]

theorem generate_thermal_noise_F_th (lat : Lattice K) (st : SLD K) (i : Nat)
    (hi : i < lat.spin_array_size) :
    (generate_thermal_noise lat st).F_th i
      = ⟨lat.gaussian (st.gaussian_count + 3 * lat.spin_array_size + i),
         lat.gaussian (st.gaussian_count + 4 * lat.spin_array_size + i),
         lat.gaussian (st.gaussian_count + 5 * lat.spin_array_size + i)⟩ := by
  simp only [generate_thermal_noise, SLD.F_th, (generate_eq lat _ _).1, (generate_eq lat _ _).2,
    if_pos hi]
  have e3 : st.gaussian_count + lat.spin_array_size + lat.spin_array_size
      + lat.spin_array_size = st.gaussian_count + 3 * lat.spin_array_size := by omega
  have e4 : st.gaussian_count + 3 * lat.spin_array_size + lat.spin_array_size
      = st.gaussian_count + 4 * lat.spin_array_size := by omega
  have e5 : st.gaussian_count + 4 * lat.spin_array_size + lat.spin_array_size
      = st.gaussian_count + 5 * lat.spin_array_size := by omega
  rw [e3, e4, e5]

theorem compute_fields_noise (sqrt : K → K) (env : Env K) (lat : Lattice K) (a b : Nat)
    (st : SLD K) : (compute_fields sqrt env lat a b st).noise = st.noise := by
  have h := compute_fields_others sqrt env lat a b st
  simp only [SLD.others, Prod.mk.injEq] at h
  simp only [SLD.noise, h.2.1.1, h.2.1.2.1, h.2.1.2.2, h.2.2.1.1, h.2.2.1.2.1, h.2.2.1.2.2,
    h.2.2.2.2]

theorem spin_update_atom_noise (sqrt : K → K) (env : Env K) (lat : Lattice K) (atom : Nat)
    (st : SLD K) : (spin_update_atom sqrt env lat atom st).noise = st.noise := by
  unfold spin_update_atom cayley_update add_spin_noise
  simp only []
  rw [for_range_preserve SLD.noise (cayley_update_atom (cay_dt env)) (fun _ _ => rfl),
    for_range_preserve SLD.noise (add_spin_noise_atom sqrt env) (fun _ _ => rfl),
    compute_fields_noise]

theorem recompute_forces_noise (sqrt : K → K) (env : Env K) (lat : Lattice K) (st : SLD K) :
    (recompute_forces sqrt env lat st).noise = st.noise := by
  unfold recompute_forces compute_forces
  simp only []
  rw [for_range_preserve SLD.noise (compute_forces_atom lat) (fun _ _ => rfl),
    compute_fields_noise]
  rfl

/-- No operation of the step writes the noise vectors or draws a variate. -/
theorem Op.run_noise (sqrt : K → K) (env : Env K) (lat : Lattice K) (op : Op) (st : SLD K) :
    (Op.run sqrt env lat op st).noise = st.noise := by
  cases op with
  | rotate atom => exact spin_update_atom_noise sqrt env lat atom st
  | kick =>
    exact for_range_preserve SLD.noise (update_velocity_atom sqrt env) (fun _ _ => rfl) _ _ _
  | drift =>
    exact for_range_preserve SLD.noise (position_drift_atom env) (fun _ _ => rfl) _ _ _
  | zero_fields => rfl
  | new_forces => exact recompute_forces_noise sqrt env lat st

theorem run_ops_noise (sqrt : K → K) (env : Env K) (lat : Lattice K) (ops : List Op) :
    ∀ st : SLD K, (run_ops sqrt env lat ops st).noise = st.noise := by
  induction ops with
  | nil => intro st; rfl
  | cons op ops ih =>
    intro st
    show (run_ops sqrt env lat ops (Op.run sqrt env lat op st)).noise = _
    rw [ih, Op.run_noise]

theorem suzuki_trotter_noise (sqrt : K → K) (env : Env K) (lat : Lattice K) (st : SLD K) :
    (suzuki_trotter sqrt env lat st).noise = (generate_thermal_noise lat st).noise := by
  rw [suzuki_trotter_eq_run_ops, run_ops_noise]

/-- The field about which a rotation turns the spin of its atom is renormalised with the
spin-noise triple of that atom. -/
theorem spin_update_atom_uses_H_th (sqrt : K → K) (env : Env K) (lat : Lattice K)
    (atom : Nat) (st : SLD K) :
    (add_spin_noise sqrt env atom (atom + 1) (env.dt_SI * 1e12)
        (compute_fields sqrt env lat atom (atom + 1) st)).field atom
      = spin_noise_closed_form (selected_lambda env (env.type_array atom))
          (selected_H_th_sigma env (env.type_array atom) * sqrt env.temperature)
          ((compute_fields sqrt env lat atom (atom + 1) st).field atom)
          (st.H_th atom) (st.spin atom) := by
  have hi : atom ≤ atom ∧ atom < atom + 1 := by omega
  rw [add_spin_noise_field, if_pos hi, compute_fields_spin]
  have h := compute_fields_noise sqrt env lat atom (atom + 1) st
  simp only [SLD.noise, Prod.mk.injEq] at h
  have hH : (compute_fields sqrt env lat atom (atom + 1) st).H_th atom = st.H_th atom := by
    simp only [SLD.H_th, h.1.1, h.1.2.1, h.1.2.2]
  rw [hH]

end StepNoiseTheorems
section Noninterference

variable {K : Type} [LinearOrderedField K]

theorem loop_from_rel {σ : Type} (R : σ → σ → Prop) (body : Nat → σ → σ)
    (h : ∀ i s1 s2, R s1 s2 → R (body i s1) (body i s2)) :
    ∀ n a s1 s2, R s1 s2 → R (loop_from body n a s1) (loop_from body n a s2) := by
  intro n
  induction n with
  | zero => intro a s1 s2 hr; exact hr
  | succ n ih => intro a s1 s2 hr; exact ih (a + 1) _ _ (h a s1 s2 hr)

theorem for_range_rel {σ : Type} (R : σ → σ → Prop) (body : Nat → σ → σ)
    (h : ∀ i s1 s2, R s1 s2 → R (body i s1) (body i s2)) (a b : Nat) (s1 s2 : σ)
    (hr : R s1 s2) : R (for_range a b body s1) (for_range a b body s2) :=
  loop_from_rel R body h _ _ _ _ hr

theorem loop_down_rel {σ : Type} (R : σ → σ → Prop) (body : Nat → σ → σ)
    (h : ∀ i s1 s2, R s1 s2 → R (body i s1) (body i s2)) :
    ∀ n s1 s2, R s1 s2 → R (loop_down body n s1) (loop_down body n s2) := by
  intro n
  induction n with
  | zero => intro s1 s2 hr; exact hr
  | succ n ih => intro s1 s2 hr; exact ih _ _ (h n s1 s2 hr)

theorem agree_fields_compute_exchange_atom (sqrt : K → K) (env : Env K) (lat : Lattice K)
    (i : Nat) (s1 s2 : SLD K) (h : SLD.agree_fields s1 s2) :
    SLD.agree_fields (compute_exchange_atom sqrt env lat i s1) (compute_exchange_atom sqrt env lat i s2) := by
  simp only [SLD.agree_fields, SLD.agree] at h ⊢
  obtain ⟨⟨h1, h2, h3, h4, h5, h6, h7, h8, h9, h10, h11, h12, h13, h14, h15, h16⟩,
    g1, g2, g3⟩ := h
  simp only [compute_exchange_atom, SLD.config, h1, h2, h3, h4, h5, h6, h7, h8, h9, h10, h11,
    h12, h13, h14, h15, h16, g1, g2, g3, and_self]

theorem agree_forces_compute_exchange_atom (sqrt : K → K) (env : Env K) (lat : Lattice K)
    (i : Nat) (s1 s2 : SLD K) (h : SLD.agree_forces s1 s2) :
    SLD.agree_forces (compute_exchange_atom sqrt env lat i s1) (compute_exchange_atom sqrt env lat i s2) := by
  simp only [SLD.agree_forces, SLD.agree_fields, SLD.agree] at h ⊢
  obtain ⟨⟨⟨h1, h2, h3, h4, h5, h6, h7, h8, h9, h10, h11, h12, h13, h14, h15, h16⟩,
    g1, g2, g3⟩, f1, f2, f3⟩ := h
  simp only [compute_exchange_atom, SLD.config, h1, h2, h3, h4, h5, h6, h7, h8, h9, h10, h11,
    h12, h13, h14, h15, h16, g1, g2, g3, f1, f2, f3, and_self]

theorem agree_fields_compute_sld_coupling_atom (sqrt : K → K) (env : Env K) (lat : Lattice K)
    (i : Nat) (s1 s2 : SLD K) (h : SLD.agree_fields s1 s2) :
    SLD.agree_fields (compute_sld_coupling_atom sqrt env lat i s1) (compute_sld_coupling_atom sqrt env lat i s2) := by
  simp only [SLD.agree_fields, SLD.agree] at h ⊢
  obtain ⟨⟨h1, h2, h3, h4, h5, h6, h7, h8, h9, h10, h11, h12, h13, h14, h15, h16⟩,
    g1, g2, g3⟩ := h
  simp only [compute_sld_coupling_atom, SLD.config, h1, h2, h3, h4, h5, h6, h7, h8, h9, h10, h11,
    h12, h13, h14, h15, h16, g1, g2, g3, and_self]

theorem agree_forces_compute_sld_coupling_atom (sqrt : K → K) (env : Env K) (lat : Lattice K)
    (i : Nat) (s1 s2 : SLD K) (h : SLD.agree_forces s1 s2) :
    SLD.agree_forces (compute_sld_coupling_atom sqrt env lat i s1) (compute_sld_coupling_atom sqrt env lat i s2) := by
  simp only [SLD.agree_forces, SLD.agree_fields, SLD.agree] at h ⊢
  obtain ⟨⟨⟨h1, h2, h3, h4, h5, h6, h7, h8, h9, h10, h11, h12, h13, h14, h15, h16⟩,
    g1, g2, g3⟩, f1, f2, f3⟩ := h
  simp only [compute_sld_coupling_atom, SLD.config, h1, h2, h3, h4, h5, h6, h7, h8, h9, h10, h11,
    h12, h13, h14, h15, h16, g1, g2, g3, f1, f2, f3, and_self]

theorem agree_fields_compute_sld_coupling_neel_atom (sqrt : K → K) (env : Env K) (lat : Lattice K)
    (i : Nat) (s1 s2 : SLD K) (h : SLD.agree_fields s1 s2) :
    SLD.agree_fields (compute_sld_coupling_neel_atom sqrt env lat i s1) (compute_sld_coupling_neel_atom sqrt env lat i s2) := by
  simp only [SLD.agree_fields, SLD.agree] at h ⊢
  obtain ⟨⟨h1, h2, h3, h4, h5, h6, h7, h8, h9, h10, h11, h12, h13, h14, h15, h16⟩,
    g1, g2, g3⟩ := h
  simp only [compute_sld_coupling_neel_atom, SLD.config, h1, h2, h3, h4, h5, h6, h7, h8, h9, h10, h11,
    h12, h13, h14, h15, h16, g1, g2, g3, and_self]

theorem agree_forces_compute_sld_coupling_neel_atom (sqrt : K → K) (env : Env K) (lat : Lattice K)
    (i : Nat) (s1 s2 : SLD K) (h : SLD.agree_forces s1 s2) :
    SLD.agree_forces (compute_sld_coupling_neel_atom sqrt env lat i s1) (compute_sld_coupling_neel_atom sqrt env lat i s2) := by
  simp only [SLD.agree_forces, SLD.agree_fields, SLD.agree] at h ⊢
  obtain ⟨⟨⟨h1, h2, h3, h4, h5, h6, h7, h8, h9, h10, h11, h12, h13, h14, h15, h16⟩,
    g1, g2, g3⟩, f1, f2, f3⟩ := h
  simp only [compute_sld_coupling_neel_atom, SLD.config, h1, h2, h3, h4, h5, h6, h7, h8, h9, h10, h11,
    h12, h13, h14, h15, h16, g1, g2, g3, f1, f2, f3, and_self]

theorem agree_fields_add_external_field_atom (lat : Lattice K)
    (i : Nat) (s1 s2 : SLD K) (h : SLD.agree_fields s1 s2) :
    SLD.agree_fields (add_external_field_atom lat i s1) (add_external_field_atom lat i s2) := by
  simp only [SLD.agree_fields, SLD.agree] at h ⊢
  obtain ⟨⟨h1, h2, h3, h4, h5, h6, h7, h8, h9, h10, h11, h12, h13, h14, h15, h16⟩,
    g1, g2, g3⟩ := h
  simp only [add_external_field_atom, SLD.config, h1, h2, h3, h4, h5, h6, h7, h8, h9, h10, h11,
    h12, h13, h14, h15, h16, g1, g2, g3, and_self]

theorem agree_forces_add_external_field_atom (lat : Lattice K)
    (i : Nat) (s1 s2 : SLD K) (h : SLD.agree_forces s1 s2) :
    SLD.agree_forces (add_external_field_atom lat i s1) (add_external_field_atom lat i s2) := by
  simp only [SLD.agree_forces, SLD.agree_fields, SLD.agree] at h ⊢
  obtain ⟨⟨⟨h1, h2, h3, h4, h5, h6, h7, h8, h9, h10, h11, h12, h13, h14, h15, h16⟩,
    g1, g2, g3⟩, f1, f2, f3⟩ := h
  simp only [add_external_field_atom, SLD.config, h1, h2, h3, h4, h5, h6, h7, h8, h9, h10, h11,
    h12, h13, h14, h15, h16, g1, g2, g3, f1, f2, f3, and_self]

theorem agree_fields_anisotropy_term_atom (env : Env K) (term : Nat → Vec3 K → Vec3 K)
    (i : Nat) (s1 s2 : SLD K) (h : SLD.agree_fields s1 s2) :
    SLD.agree_fields (anisotropy_term_atom env term i s1) (anisotropy_term_atom env term i s2) := by
  simp only [SLD.agree_fields, SLD.agree] at h ⊢
  obtain ⟨⟨h1, h2, h3, h4, h5, h6, h7, h8, h9, h10, h11, h12, h13, h14, h15, h16⟩,
    g1, g2, g3⟩ := h
  simp only [anisotropy_term_atom, SLD.config, h1, h2, h3, h4, h5, h6, h7, h8, h9, h10, h11,
    h12, h13, h14, h15, h16, g1, g2, g3, and_self]

theorem agree_forces_anisotropy_term_atom (env : Env K) (term : Nat → Vec3 K → Vec3 K)
    (i : Nat) (s1 s2 : SLD K) (h : SLD.agree_forces s1 s2) :
    SLD.agree_forces (anisotropy_term_atom env term i s1) (anisotropy_term_atom env term i s2) := by
  simp only [SLD.agree_forces, SLD.agree_fields, SLD.agree] at h ⊢
  obtain ⟨⟨⟨h1, h2, h3, h4, h5, h6, h7, h8, h9, h10, h11, h12, h13, h14, h15, h16⟩,
    g1, g2, g3⟩, f1, f2, f3⟩ := h
  simp only [anisotropy_term_atom, SLD.config, h1, h2, h3, h4, h5, h6, h7, h8, h9, h10, h11,
    h12, h13, h14, h15, h16, g1, g2, g3, f1, f2, f3, and_self]

theorem agree_fields_add_spin_noise_atom (sqrt : K → K) (env : Env K)
    (i : Nat) (s1 s2 : SLD K) (h : SLD.agree_fields s1 s2) :
    SLD.agree_fields (add_spin_noise_atom sqrt env i s1) (add_spin_noise_atom sqrt env i s2) := by
  simp only [SLD.agree_fields, SLD.agree] at h ⊢
  obtain ⟨⟨h1, h2, h3, h4, h5, h6, h7, h8, h9, h10, h11, h12, h13, h14, h15, h16⟩,
    g1, g2, g3⟩ := h
  simp only [add_spin_noise_atom, SLD.config, h1, h2, h3, h4, h5, h6, h7, h8, h9, h10, h11,
    h12, h13, h14, h15, h16, g1, g2, g3, and_self]

theorem agree_fields_cayley_update_atom (dt : K)
    (i : Nat) (s1 s2 : SLD K) (h : SLD.agree_fields s1 s2) :
    SLD.agree_fields (cayley_update_atom dt i s1) (cayley_update_atom dt i s2) := by
  simp only [SLD.agree_fields, SLD.agree] at h ⊢
  obtain ⟨⟨h1, h2, h3, h4, h5, h6, h7, h8, h9, h10, h11, h12, h13, h14, h15, h16⟩,
    g1, g2, g3⟩ := h
  simp only [cayley_update_atom, SLD.config, h1, h2, h3, h4, h5, h6, h7, h8, h9, h10, h11,
    h12, h13, h14, h15, h16, g1, g2, g3, and_self]

theorem agree_forces_compute_forces_atom (lat : Lattice K)
    (i : Nat) (s1 s2 : SLD K) (h : SLD.agree_forces s1 s2) :
    SLD.agree_forces (compute_forces_atom lat i s1) (compute_forces_atom lat i s2) := by
  simp only [SLD.agree_forces, SLD.agree_fields, SLD.agree] at h ⊢
  obtain ⟨⟨⟨h1, h2, h3, h4, h5, h6, h7, h8, h9, h10, h11, h12, h13, h14, h15, h16⟩,
    g1, g2, g3⟩, f1, f2, f3⟩ := h
  simp only [compute_forces_atom, SLD.config, h1, h2, h3, h4, h5, h6, h7, h8, h9, h10, h11,
    h12, h13, h14, h15, h16, g1, g2, g3, f1, f2, f3, and_self]

theorem agree_forces_update_position_velocity_atom (sqrt : K → K) (env : Env K)
    (i : Nat) (s1 s2 : SLD K) (h : SLD.agree_forces s1 s2) :
    SLD.agree_forces (update_position_velocity_atom sqrt env i s1) (update_position_velocity_atom sqrt env i s2) := by
  simp only [SLD.agree_forces, SLD.agree_fields, SLD.agree] at h ⊢
  obtain ⟨⟨⟨h1, h2, h3, h4, h5, h6, h7, h8, h9, h10, h11, h12, h13, h14, h15, h16⟩,
    g1, g2, g3⟩, f1, f2, f3⟩ := h
  simp only [update_position_velocity_atom, SLD.config, h1, h2, h3, h4, h5, h6, h7, h8, h9, h10, h11,
    h12, h13, h14, h15, h16, g1, g2, g3, f1, f2, f3, and_self]

theorem agree_forces_update_velocity_atom (sqrt : K → K) (env : Env K)
    (i : Nat) (s1 s2 : SLD K) (h : SLD.agree_forces s1 s2) :
    SLD.agree_forces (update_velocity_atom sqrt env i s1) (update_velocity_atom sqrt env i s2) := by
  simp only [SLD.agree_forces, SLD.agree_fields, SLD.agree] at h ⊢
  obtain ⟨⟨⟨h1, h2, h3, h4, h5, h6, h7, h8, h9, h10, h11, h12, h13, h14, h15, h16⟩,
    g1, g2, g3⟩, f1, f2, f3⟩ := h
  simp only [update_velocity_atom, SLD.config, h1, h2, h3, h4, h5, h6, h7, h8, h9, h10, h11,
    h12, h13, h14, h15, h16, g1, g2, g3, f1, f2, f3, and_self]

theorem agree_fields_compute_exchange (sqrt : K → K) (env : Env K) (lat : Lattice K)
    (a b : Nat) (s1 s2 : SLD K) (h : SLD.agree_fields s1 s2) :
    SLD.agree_fields (compute_exchange sqrt env lat a b s1) (compute_exchange sqrt env lat a b s2) :=
  for_range_rel SLD.agree_fields (compute_exchange_atom sqrt env lat)
    (fun i t1 t2 ht => agree_fields_compute_exchange_atom sqrt env lat i t1 t2 ht) a b s1 s2 h

theorem agree_fields_compute_sld_coupling (sqrt : K → K) (env : Env K) (lat : Lattice K)
    (a b : Nat) (s1 s2 : SLD K) (h : SLD.agree_fields s1 s2) :
    SLD.agree_fields (compute_sld_coupling sqrt env lat a b s1) (compute_sld_coupling sqrt env lat a b s2) :=
  for_range_rel SLD.agree_fields (compute_sld_coupling_atom sqrt env lat)
    (fun i t1 t2 ht => agree_fields_compute_sld_coupling_atom sqrt env lat i t1 t2 ht) a b s1 s2 h

theorem agree_fields_compute_sld_coupling_neel (sqrt : K → K) (env : Env K) (lat : Lattice K)
    (a b : Nat) (s1 s2 : SLD K) (h : SLD.agree_fields s1 s2) :
    SLD.agree_fields (compute_sld_coupling_neel sqrt env lat a b s1) (compute_sld_coupling_neel sqrt env lat a b s2) :=
  for_range_rel SLD.agree_fields (compute_sld_coupling_neel_atom sqrt env lat)
    (fun i t1 t2 ht => agree_fields_compute_sld_coupling_neel_atom sqrt env lat i t1 t2 ht) a b s1 s2 h

theorem agree_fields_anisotropy_terms (env : Env K) (a b : Nat)
    (l : List (Nat → Vec3 K → Vec3 K)) :
    ∀ s1 s2 : SLD K, SLD.agree_fields s1 s2 →
      SLD.agree_fields
        (l.foldl (fun s term => for_range a b (anisotropy_term_atom env term) s) s1)
        (l.foldl (fun s term => for_range a b (anisotropy_term_atom env term) s) s2) := by
  induction l with
  | nil => intro s1 s2 h; exact h
  | cons term l ih =>
    intro s1 s2 h
    simp only [List.foldl_cons]
    exact ih _ _ (for_range_rel SLD.agree_fields (anisotropy_term_atom env term)
      (fun i t1 t2 ht => agree_fields_anisotropy_term_atom env term i t1 t2 ht) a b s1 s2 h)

theorem agree_fields_compute_fields (sqrt : K → K) (env : Env K) (lat : Lattice K)
    (a b : Nat) (s1 s2 : SLD K) (h : SLD.agree_fields s1 s2) :
    SLD.agree_fields (compute_fields sqrt env lat a b s1) (compute_fields sqrt env lat a b s2) := by
  unfold compute_fields anisotropy_fields
  simp only []
  apply agree_fields_anisotropy_terms
  have e1 := agree_fields_compute_exchange sqrt env lat a b s1 s2 h
  have e2 : SLD.agree_fields
      (if lat.pseudodipolar then
        compute_sld_coupling sqrt env lat a b (compute_exchange sqrt env lat a b s1)
        else compute_exchange sqrt env lat a b s1)
      (if lat.pseudodipolar then
        compute_sld_coupling sqrt env lat a b (compute_exchange sqrt env lat a b s2)
        else compute_exchange sqrt env lat a b s2) := by
    split_ifs
    · exact agree_fields_compute_sld_coupling sqrt env lat a b _ _ e1
    · exact e1
  generalize (if lat.pseudodipolar then
        compute_sld_coupling sqrt env lat a b (compute_exchange sqrt env lat a b s1)
        else compute_exchange sqrt env lat a b s1) = t1 at e2 ⊢
  generalize (if lat.pseudodipolar then
        compute_sld_coupling sqrt env lat a b (compute_exchange sqrt env lat a b s2)
        else compute_exchange sqrt env lat a b s2) = t2 at e2 ⊢
  have e3 : SLD.agree_fields
      (if lat.full_neel then compute_sld_coupling_neel sqrt env lat a b t1 else t1)
      (if lat.full_neel then compute_sld_coupling_neel sqrt env lat a b t2 else t2) := by
    split_ifs
    · exact agree_fields_compute_sld_coupling_neel sqrt env lat a b _ _ e2
    · exact e2
  generalize (if lat.full_neel then compute_sld_coupling_neel sqrt env lat a b t1 else t1)
    = u1 at e3 ⊢
  generalize (if lat.full_neel then compute_sld_coupling_neel sqrt env lat a b t2 else t2)
    = u2 at e3 ⊢
  split_ifs
  · exact for_range_rel SLD.agree_fields (add_external_field_atom lat)
      (fun i t1 t2 ht => agree_fields_add_external_field_atom lat i t1 t2 ht) a b u1 u2 e3
  · exact e3

theorem agree_forces_compute_exchange (sqrt : K → K) (env : Env K) (lat : Lattice K)
    (a b : Nat) (s1 s2 : SLD K) (h : SLD.agree_forces s1 s2) :
    SLD.agree_forces (compute_exchange sqrt env lat a b s1) (compute_exchange sqrt env lat a b s2) :=
  for_range_rel SLD.agree_forces (compute_exchange_atom sqrt env lat)
    (fun i t1 t2 ht => agree_forces_compute_exchange_atom sqrt env lat i t1 t2 ht) a b s1 s2 h

theorem agree_forces_compute_sld_coupling (sqrt : K → K) (env : Env K) (lat : Lattice K)
    (a b : Nat) (s1 s2 : SLD K) (h : SLD.agree_forces s1 s2) :
    SLD.agree_forces (compute_sld_coupling sqrt env lat a b s1) (compute_sld_coupling sqrt env lat a b s2) :=
  for_range_rel SLD.agree_forces (compute_sld_coupling_atom sqrt env lat)
    (fun i t1 t2 ht => agree_forces_compute_sld_coupling_atom sqrt env lat i t1 t2 ht) a b s1 s2 h

theorem agree_forces_compute_sld_coupling_neel (sqrt : K → K) (env : Env K) (lat : Lattice K)
    (a b : Nat) (s1 s2 : SLD K) (h : SLD.agree_forces s1 s2) :
    SLD.agree_forces (compute_sld_coupling_neel sqrt env lat a b s1) (compute_sld_coupling_neel sqrt env lat a b s2) :=
  for_range_rel SLD.agree_forces (compute_sld_coupling_neel_atom sqrt env lat)
    (fun i t1 t2 ht => agree_forces_compute_sld_coupling_neel_atom sqrt env lat i t1 t2 ht) a b s1 s2 h

theorem agree_forces_anisotropy_terms (env : Env K) (a b : Nat)
    (l : List (Nat → Vec3 K → Vec3 K)) :
    ∀ s1 s2 : SLD K, SLD.agree_forces s1 s2 →
      SLD.agree_forces
        (l.foldl (fun s term => for_range a b (anisotropy_term_atom env term) s) s1)
        (l.foldl (fun s term => for_range a b (anisotropy_term_atom env term) s) s2) := by
  induction l with
  | nil => intro s1 s2 h; exact h
  | cons term l ih =>
    intro s1 s2 h
    simp only [List.foldl_cons]
    exact ih _ _ (for_range_rel SLD.agree_forces (anisotropy_term_atom env term)
      (fun i t1 t2 ht => agree_forces_anisotropy_term_atom env term i t1 t2 ht) a b s1 s2 h)

theorem agree_forces_compute_fields (sqrt : K → K) (env : Env K) (lat : Lattice K)
    (a b : Nat) (s1 s2 : SLD K) (h : SLD.agree_forces s1 s2) :
    SLD.agree_forces (compute_fields sqrt env lat a b s1) (compute_fields sqrt env lat a b s2) := by
  unfold compute_fields anisotropy_fields
  simp only []
  apply agree_forces_anisotropy_terms
  have e1 := agree_forces_compute_exchange sqrt env lat a b s1 s2 h
  have e2 : SLD.agree_forces
      (if lat.pseudodipolar then
        compute_sld_coupling sqrt env lat a b (compute_exchange sqrt env lat a b s1)
        else compute_exchange sqrt env lat a b s1)
      (if lat.pseudodipolar then
        compute_sld_coupling sqrt env lat a b (compute_exchange sqrt env lat a b s2)
        else compute_exchange sqrt env lat a b s2) := by
    split_ifs
    · exact agree_forces_compute_sld_coupling sqrt env lat a b _ _ e1
    · exact e1
  generalize (if lat.pseudodipolar then
        compute_sld_coupling sqrt env lat a b (compute_exchange sqrt env lat a b s1)
        else compute_exchange sqrt env lat a b s1) = t1 at e2 ⊢
  generalize (if lat.pseudodipolar then
        compute_sld_coupling sqrt env lat a b (compute_exchange sqrt env lat a b s2)
        else compute_exchange sqrt env lat a b s2) = t2 at e2 ⊢
  have e3 : SLD.agree_forces
      (if lat.full_neel then compute_sld_coupling_neel sqrt env lat a b t1 else t1)
      (if lat.full_neel then compute_sld_coupling_neel sqrt env lat a b t2 else t2) := by
    split_ifs
    · exact agree_forces_compute_sld_coupling_neel sqrt env lat a b _ _ e2
    · exact e2
  generalize (if lat.full_neel then compute_sld_coupling_neel sqrt env lat a b t1 else t1)
    = u1 at e3 ⊢
  generalize (if lat.full_neel then compute_sld_coupling_neel sqrt env lat a b t2 else t2)
    = u2 at e3 ⊢
  split_ifs
  · exact for_range_rel SLD.agree_forces (add_external_field_atom lat)
      (fun i t1 t2 ht => agree_forces_add_external_field_atom lat i t1 t2 ht) a b u1 u2 e3
  · exact e3

end Noninterference
section NoninterferenceStep

variable {K : Type} [LinearOrderedField K]

theorem agree_generate_thermal_noise (lat : Lattice K) (s1 s2 : SLD K)
    (h : SLD.same_inputs s1 s2) :
    SLD.agree (generate_thermal_noise lat s1) (generate_thermal_noise lat s2) := by
  obtain ⟨hc, v1, v2, v3, hg⟩ := h
  simp only [SLD.config, Config.mk.injEq] at hc
  obtain ⟨c1, c2, c3, c4, c5, c6⟩ := hc
  simp only [SLD.agree, generate_thermal_noise, c1, c2, c3, c4, c5, c6, v1, v2, v3, hg,
    and_self]

theorem agree_fields_fill_fields (s1 s2 : SLD K) (h : SLD.agree s1 s2) :
    SLD.agree_fields (fill_fields s1) (fill_fields s2) := by
  simp only [SLD.agree] at h
  obtain ⟨h1, h2, h3, h4, h5, h6, h7, h8, h9, h10, h11, h12, h13, h14, h15, h16⟩ := h
  simp only [SLD.agree_fields, SLD.agree, fill_fields, h1, h2, h3, h4, h5, h6, h7, h8, h9,
    h10, h11, h12, h13, h14, h15, h16, and_self]

theorem agree_forces_fill_forces (s1 s2 : SLD K) (h : SLD.agree_fields s1 s2) :
    SLD.agree_forces (fill_forces s1) (fill_forces s2) := by
  simp only [SLD.agree_fields, SLD.agree] at h
  obtain ⟨⟨h1, h2, h3, h4, h5, h6, h7, h8, h9, h10, h11, h12, h13, h14, h15, h16⟩,
    g1, g2, g3⟩ := h
  simp only [SLD.agree_forces, SLD.agree_fields, SLD.agree, fill_forces, h1, h2, h3, h4, h5,
    h6, h7, h8, h9, h10, h11, h12, h13, h14, h15, h16, g1, g2, g3, and_self]

theorem agree_fields_spin_update_atom (sqrt : K → K) (env : Env K) (lat : Lattice K)
    (atom : Nat) (s1 s2 : SLD K) (h : SLD.agree_fields s1 s2) :
    SLD.agree_fields (spin_update_atom sqrt env lat atom s1)
      (spin_update_atom sqrt env lat atom s2) := by
  unfold spin_update_atom cayley_update add_spin_noise
  simp only []
  exact for_range_rel SLD.agree_fields (cayley_update_atom (cay_dt env))
    (fun i t1 t2 ht => agree_fields_cayley_update_atom (cay_dt env) i t1 t2 ht) _ _ _ _
    (for_range_rel SLD.agree_fields (add_spin_noise_atom sqrt env)
      (fun i t1 t2 ht => agree_fields_add_spin_noise_atom sqrt env i t1 t2 ht) _ _ _ _
      (agree_fields_compute_fields sqrt env lat atom (atom + 1) s1 s2 h))

theorem agree_fields_spin_sweeps (sqrt : K → K) (env : Env K) (lat : Lattice K)
    (s1 s2 : SLD K) (h : SLD.agree s1 s2) :
    SLD.agree_fields (spin_sweeps sqrt env lat s1) (spin_sweeps sqrt env lat s2) := by
  unfold spin_sweeps backward_sweep forward_sweep
  simp only []
  have e1 := agree_fields_fill_fields s1 s2 h
  have e2 := for_range_rel SLD.agree_fields (spin_update_atom sqrt env lat)
    (fun i t1 t2 ht => agree_fields_spin_update_atom sqrt env lat i t1 t2 ht)
    0 env.num_atoms _ _ e1
  have e3 := agree_fields_fill_fields _ _ e2.1
  exact loop_down_rel SLD.agree_fields (spin_update_atom sqrt env lat)
    (fun i t1 t2 ht => agree_fields_spin_update_atom sqrt env lat i t1 t2 ht)
    env.num_atoms _ _ e3

theorem agree_forces_recompute_forces (sqrt : K → K) (env : Env K) (lat : Lattice K)
    (s1 s2 : SLD K) (h : SLD.agree_fields s1 s2) :
    SLD.agree_forces (recompute_forces sqrt env lat s1) (recompute_forces sqrt env lat s2) := by
  unfold recompute_forces compute_forces
  simp only []
  exact for_range_rel SLD.agree_forces (compute_forces_atom lat)
    (fun i t1 t2 ht => agree_forces_compute_forces_atom lat i t1 t2 ht) _ _ _ _
    (agree_forces_compute_fields sqrt env lat 0 env.num_atoms _ _
      (agree_forces_fill_forces s1 s2 h))

theorem agree_forces_lattice_first (sqrt : K → K) (env : Env K) (lat : Lattice K)
    (s1 s2 : SLD K) (h : SLD.agree_fields s1 s2) :
    SLD.agree_forces (lattice_first sqrt env lat s1) (lattice_first sqrt env lat s2) := by
  unfold lattice_first update_position_velocity
  exact for_range_rel SLD.agree_forces (update_position_velocity_atom sqrt env)
    (fun i t1 t2 ht => agree_forces_update_position_velocity_atom sqrt env i t1 t2 ht)
    _ _ _ _ (agree_forces_recompute_forces sqrt env lat s1 s2 h)

theorem agree_forces_lattice_second (sqrt : K → K) (env : Env K) (lat : Lattice K)
    (s1 s2 : SLD K) (h : SLD.agree_fields s1 s2) :
    SLD.agree_forces (lattice_second sqrt env lat s1) (lattice_second sqrt env lat s2) := by
  unfold lattice_second update_velocity
  exact for_range_rel SLD.agree_forces (update_velocity_atom sqrt env)
    (fun i t1 t2 ht => agree_forces_update_velocity_atom sqrt env i t1 t2 ht)
    _ _ _ _ (agree_forces_recompute_forces sqrt env lat s1 s2 h)

/-- Two steps from states with the same inputs end in states that agree on spins, positions,
velocities, noise vectors and field arrays. -/
theorem agree_fields_suzuki_trotter (sqrt : K → K) (env : Env K) (lat : Lattice K)
    (s1 s2 : SLD K) (h : SLD.same_inputs s1 s2) :
    SLD.agree_fields (suzuki_trotter sqrt env lat s1) (suzuki_trotter sqrt env lat s2) := by
  unfold suzuki_trotter
  simp only []
  have e0 := agree_generate_thermal_noise lat s1 s2 h
  have e1 := agree_fields_spin_sweeps sqrt env lat _ _ e0
  have e2 := agree_forces_lattice_first sqrt env lat _ _ e1
  have e3 := agree_forces_lattice_second sqrt env lat _ _ e2.1
  exact agree_fields_spin_sweeps sqrt env lat _ _ e3.1.1

theorem SLD.agree_views (s1 s2 : SLD K) (h : SLD.agree s1 s2) :
    s1.spin = s2.spin ∧ s1.coord = s2.coord ∧ s1.velo = s2.velo := by
  simp only [SLD.agree] at h
  obtain ⟨h1, h2, h3, h4, h5, h6, h7, h8, h9, _⟩ := h
  refine ⟨?_, ?_, ?_⟩
  · funext j; simp only [SLD.spin, h1, h2, h3]
  · funext j; simp only [SLD.coord, h4, h5, h6]
  · funext j; simp only [SLD.velo, h7, h8, h9]

/-- C28: two `suzuki_trotter` steps from states with the same spins, positions, velocities and
position in the Gaussian stream, whatever their field and force arrays (and per-atom sums,
energies and old noise vectors) hold, produce the same spins, positions and velocities.  Each
pair of sweeps starts by zeroing the field arrays, and each recomputation of the forces before
a velocity kick starts by zeroing the force arrays. -/
theorem suzuki_trotter_scratch_independent (sqrt : K → K) (env : Env K) (lat : Lattice K)
    (s1 s2 : SLD K) (h : SLD.same_inputs s1 s2) :
    (suzuki_trotter sqrt env lat s1).spin = (suzuki_trotter sqrt env lat s2).spin
    ∧ (suzuki_trotter sqrt env lat s1).coord = (suzuki_trotter sqrt env lat s2).coord
    ∧ (suzuki_trotter sqrt env lat s1).velo = (suzuki_trotter sqrt env lat s2).velo
    ∧ (∀ s : SLD K, spin_sweeps sqrt env lat s
        = backward_sweep sqrt env lat
            (fill_fields (forward_sweep sqrt env lat (fill_fields s))))
    ∧ (∀ s : SLD K, recompute_forces sqrt env lat s
        = compute_forces lat 0 env.num_atoms
            (compute_fields sqrt env lat 0 env.num_atoms (fill_forces s)))
    ∧ (∀ (s : SLD K) (j : Nat),
        (fill_fields s).field j = ⟨0, 0, 0⟩ ∧ (fill_forces s).force j = ⟨0, 0, 0⟩) := by
  obtain ⟨e1, e2, e3⟩ := SLD.agree_views _ _ (agree_fields_suzuki_trotter sqrt env lat s1 s2 h).1
  refine ⟨e1, e2, e3, fun _ => rfl, fun _ => rfl, fun s j => ⟨?_, ?_⟩⟩
  · simp only [fill_fields, SLD.field]
    refine Vec3.ext ?_ ?_ ?_ <;> norm_num
  · simp only [fill_forces, SLD.force]
    refine Vec3.ext ?_ ?_ ?_ <;> norm_num

theorem suzuki_trotter_scratch_independent_witness :
    SLD.same_inputs (SLD.chain (fun _ => (⟨0, 0, 1⟩ : Vec3 ℝ)))
      (SLD.chain_used (fun _ => ⟨0, 0, 1⟩))
    ∧ (suzuki_trotter Real.sqrt (Env.pair : Env ℝ) Lattice.chain
        (SLD.chain (fun _ => ⟨0, 0, 1⟩))).spin
      = (suzuki_trotter Real.sqrt (Env.pair : Env ℝ) Lattice.chain
        (SLD.chain_used (fun _ => ⟨0, 0, 1⟩))).spin :=
  ⟨⟨rfl, rfl, rfl, rfl, rfl⟩,
   (suzuki_trotter_scratch_independent Real.sqrt Env.pair Lattice.chain
     (SLD.chain (fun _ => ⟨0, 0, 1⟩)) (SLD.chain_used (fun _ => ⟨0, 0, 1⟩))
     ⟨rfl, rfl, rfl, rfl, rfl⟩).1⟩

end NoninterferenceStep
section Rotational43Theorems

variable {K : Type} [LinearOrderedField K]

theorem fourth_order_theta_third_order_phi_fields_field (an : Anisotropy K)
    (atom_material_array : Nat → Nat) (a b : Nat) (st : SLD K) (j : Nat) :
    (fourth_order_theta_third_order_phi_fields an atom_material_array a b st).field j
      = if an.enable_rotational_4_3_order = true ∧ a ≤ j ∧ j < b then
          Vec3.add (st.field j)
            (fourth_order_theta_third_order_phi_field_value an (atom_material_array j)
              (st.spin j).x (st.spin j).y (st.spin j).z)
        else st.field j := by
  unfold fourth_order_theta_third_order_phi_fields
  by_cases he : an.enable_rotational_4_3_order = true
  · have h := for_range_slice (fun j (s : SLD K) => (s.field j, s.spin j))
      (fourth_order_theta_third_order_phi_fields_atom an atom_material_array)
      (fun j p => (Vec3.add p.1
        (fourth_order_theta_third_order_phi_field_value an (atom_material_array j)
          p.2.x p.2.y p.2.z), p.2))
      (fun i j s hji => by
        simp [fourth_order_theta_third_order_phi_fields_atom, SLD.field, SLD.spin,
          Function.update_noteq hji])
      (fun i s => by
        simp [fourth_order_theta_third_order_phi_fields_atom, SLD.field, SLD.spin, Vec3.add])
      a b st j
    have h1 := congrArg Prod.fst h
    simp only [] at h1
    simp only [he, Bool.not_true, Bool.false_eq_true, if_false, true_and]
    rw [h1]
    split_ifs <;> rfl
  · have he2 : an.enable_rotational_4_3_order = false := by
      cases hv : an.enable_rotational_4_3_order
      · rfl
      · exact absurd hv he
    simp [he2]

theorem fourth_order_theta_third_order_phi_fields_disabled (an : Anisotropy K)
    (atom_material_array : Nat → Nat) (a b : Nat) (st : SLD K)
    (he : an.enable_rotational_4_3_order = false) :
    fourth_order_theta_third_order_phi_fields an atom_material_array a b st = st := by
  simp [fourth_order_theta_third_order_phi_fields, he]

theorem fourth_order_theta_third_order_phi_fields_spin (an : Anisotropy K)
    (atom_material_array : Nat → Nat) (a b : Nat) (st : SLD K) :
    (fourth_order_theta_third_order_phi_fields an atom_material_array a b st).spin = st.spin := by
  unfold fourth_order_theta_third_order_phi_fields
  split_ifs
  · rfl
  · exact for_range_preserve (fun s : SLD K => s.spin)
      (fourth_order_theta_third_order_phi_fields_atom an atom_material_array)
      (fun _ _ => rfl) a b st

/-- The enabled routine is one instance of the catalogue routine modelled by
`anisotropy_term_atom`. -/
theorem fourth_order_theta_third_order_phi_fields_is_term (an : Anisotropy K) (env : Env K)
    (a b : Nat) (st : SLD K) (he : an.enable_rotational_4_3_order = true) :
    fourth_order_theta_third_order_phi_fields an env.type_array a b st
      = for_range a b
          (anisotropy_term_atom env
            (fun mat S => fourth_order_theta_third_order_phi_field_value an mat S.x S.y S.z))
          st := by
  simp only [fourth_order_theta_third_order_phi_fields, he, Bool.not_true, Bool.false_eq_true,
    if_false]
  rfl

end Rotational43Theorems

section Rotational43Gradient

/-- The three partial derivatives of the energy with respect to the spin components are the
negatives of the components of the added field. -/
theorem fourth_order_theta_third_order_phi_energy_hasDerivAt (an : Anisotropy ℝ)
    (atom mat : Nat) (sx sy sz : ℝ) :
    HasDerivAt (fun x => fourth_order_theta_third_order_phi_energy an atom mat x sy sz)
        (-(fourth_order_theta_third_order_phi_field_value an mat sx sy sz).x) sx
    ∧ HasDerivAt (fun y => fourth_order_theta_third_order_phi_energy an atom mat sx y sz)
        (-(fourth_order_theta_third_order_phi_field_value an mat sx sy sz).y) sy
    ∧ HasDerivAt (fun z => fourth_order_theta_third_order_phi_energy an atom mat sx sy z)
        (-(fourth_order_theta_third_order_phi_field_value an mat sx sy sz).z) sz := by
  obtain ⟨en, ku, kr, kl, k, en6, k6⟩ := an
  simp only [fourth_order_theta_third_order_phi_energy,
    fourth_order_theta_third_order_phi_field_value, three, six]
  generalize (ku mat).x = ex
  generalize (ku mat).y = ey
  generalize (ku mat).z = ez
  generalize (kr mat).x = fx
  generalize (kr mat).y = fy
  generalize (kr mat).z = fz
  generalize (kl mat).x = gx
  generalize (kl mat).y = gy
  generalize (kl mat).z = gz
  generalize k mat = k4
  refine ⟨?_, ?_, ?_⟩
  · have hSx : HasDerivAt (fun x : ℝ => x * fx + sy * fy + sz * fz) fx sx := by
      simpa using (((hasDerivAt_id sx).mul_const fx).add_const (sy * fy)).add_const (sz * fz)
    have hSy : HasDerivAt (fun x : ℝ => x * gx + sy * gy + sz * gz) gx sx := by
      simpa using (((hasDerivAt_id sx).mul_const gx).add_const (sy * gy)).add_const (sz * gz)
    have hSz : HasDerivAt (fun x : ℝ => x * ex + sy * ey + sz * ez) ex sx := by
      simpa using (((hasDerivAt_id sx).mul_const ex).add_const (sy * ey)).add_const (sz * ez)
    have h := (((hSx.const_mul (-k4)).mul hSz).mul
      ((hSx.mul hSx).sub ((hSy.const_mul (3.0 : ℝ)).mul hSy)))
    convert h using 1
    norm_num
    ring
  · have hSx : HasDerivAt (fun y : ℝ => sx * fx + y * fy + sz * fz) fy sy := by
      simpa using (((hasDerivAt_id sy).mul_const fy).const_add (sx * fx)).add_const (sz * fz)
    have hSy : HasDerivAt (fun y : ℝ => sx * gx + y * gy + sz * gz) gy sy := by
      simpa using (((hasDerivAt_id sy).mul_const gy).const_add (sx * gx)).add_const (sz * gz)
    have hSz : HasDerivAt (fun y : ℝ => sx * ex + y * ey + sz * ez) ey sy := by
      simpa using (((hasDerivAt_id sy).mul_const ey).const_add (sx * ex)).add_const (sz * ez)
    have h := (((hSx.const_mul (-k4)).mul hSz).mul
      ((hSx.mul hSx).sub ((hSy.const_mul (3.0 : ℝ)).mul hSy)))
    convert h using 1
    norm_num
    ring
  · have hSx : HasDerivAt (fun z : ℝ => sx * fx + sy * fy + z * fz) fz sz := by
      simpa using ((hasDerivAt_id sz).mul_const fz).const_add (sx * fx + sy * fy)
    have hSy : HasDerivAt (fun z : ℝ => sx * gx + sy * gy + z * gz) gz sz := by
      simpa using ((hasDerivAt_id sz).mul_const gz).const_add (sx * gx + sy * gy)
    have hSz : HasDerivAt (fun z : ℝ => sx * ex + sy * ey + z * ez) ez sz := by
      simpa using ((hasDerivAt_id sz).mul_const ez).const_add (sx * ex + sy * ey)
    have h := (((hSx.const_mul (-k4)).mul hSz).mul
      ((hSx.mul hSx).sub ((hSy.const_mul (3.0 : ℝ)).mul hSy)))
    convert h using 1
    norm_num
    ring

end Rotational43Gradient
section MoreClaims

variable {K : Type} [LinearOrderedField K]

/-- C27: when the noise vectors have one entry per atom (`atoms::x_spin_array.size()` equal to
`num_atoms = N`), one `suzuki_trotter` step draws `6 N` Gaussian variates, all of them before
the list of operations of the step is executed, in the order `Hx[0..N)`, `Hy`, `Hz`, `Fx`,
`Fy`, `Fz`; no operation of the step writes a noise vector or draws a variate; every rotation
renormalises the field of its atom with the spin-noise triple of that atom, and every
velocity kick uses the force-noise triple of the atom. -/
theorem suzuki_trotter_noise_drawn_once (sqrt : K → K) (env : Env K) (lat : Lattice K)
    (st : SLD K) (hsize : lat.spin_array_size = env.num_atoms) :
    (suzuki_trotter sqrt env lat st).gaussian_count = st.gaussian_count + 6 * env.num_atoms
    ∧ (∀ i, i < env.num_atoms →
      (generate_thermal_noise lat st).H_th i
        = ⟨lat.gaussian (st.gaussian_count + i),
           lat.gaussian (st.gaussian_count + env.num_atoms + i),
           lat.gaussian (st.gaussian_count + 2 * env.num_atoms + i)⟩
      ∧ (generate_thermal_noise lat st).F_th i
        = ⟨lat.gaussian (st.gaussian_count + 3 * env.num_atoms + i),
           lat.gaussian (st.gaussian_count + 4 * env.num_atoms + i),
           lat.gaussian (st.gaussian_count + 5 * env.num_atoms + i)⟩)
    ∧ suzuki_trotter sqrt env lat st
        = run_ops sqrt env lat (suzuki_trotter_ops env.num_atoms)
            (generate_thermal_noise lat st)
    ∧ (∀ (op : Op) (s : SLD K), (Op.run sqrt env lat op s).noise = s.noise)
    ∧ (suzuki_trotter sqrt env lat st).noise = (generate_thermal_noise lat st).noise
    ∧ (∀ (atom : Nat) (s : SLD K),
      (add_spin_noise sqrt env atom (atom + 1) (env.dt_SI * 1e12)
          (compute_fields sqrt env lat atom (atom + 1) s)).field atom
        = spin_noise_closed_form (selected_lambda env (env.type_array atom))
            (selected_H_th_sigma env (env.type_array atom) * sqrt env.temperature)
            ((compute_fields sqrt env lat atom (atom + 1) s).field atom)
            (s.H_th atom) (s.spin atom))
    ∧ (∀ (s : SLD K) (i : Nat), i < env.num_atoms →
      (Op.run sqrt env lat Op.kick s).velo i
        = kick_closed_form (env.dt_SI * 1e12) (env.sld_mp (env.type_array i)).mass
            (selected_damp_lat env (env.type_array i))
            (selected_F_th_sigma env (env.type_array i) * sqrt env.temperature)
            (s.velo i) (s.force i) (s.F_th i)) := by
  refine ⟨?_, fun i hi => ⟨?_, ?_⟩, suzuki_trotter_eq_run_ops sqrt env lat st,
    fun op s => Op.run_noise sqrt env lat op s, suzuki_trotter_noise sqrt env lat st,
    fun atom s => spin_update_atom_uses_H_th sqrt env lat atom s, fun s i hi => ?_⟩
  · have h := suzuki_trotter_noise sqrt env lat st
    simp only [SLD.noise, Prod.mk.injEq] at h
    rw [h.2.2, generate_thermal_noise_gaussian_count, hsize]
  · rw [generate_thermal_noise_H_th lat st i (by omega), hsize]
  · rw [generate_thermal_noise_F_th lat st i (by omega), hsize]
  · show (update_velocity sqrt env s).velo i = _
    rw [update_velocity_velo, if_pos hi]

theorem suzuki_trotter_noise_drawn_once_witness :
    ((Lattice.chain : Lattice ℝ).spin_array_size = (Env.pair : Env ℝ).num_atoms)
    ∧ (suzuki_trotter Real.sqrt (Env.pair : Env ℝ) Lattice.chain
        (SLD.chain (fun _ => ⟨0, 0, 1⟩))).gaussian_count
      = (SLD.chain (fun _ => (⟨0, 0, 1⟩ : Vec3 ℝ))).gaussian_count
        + 6 * (Env.pair : Env ℝ).num_atoms :=
  ⟨rfl,
   (suzuki_trotter_noise_drawn_once Real.sqrt Env.pair Lattice.chain
     (SLD.chain (fun _ => ⟨0, 0, 1⟩)) rfl).1⟩

/-- C29: for every atom `i` of the range, `compute_exchange` adds to `fields[i]` the sum of
`J0 (1 - r/r_cut)³ S_j` over the list positions `n` from `neighbour_list_start_index[i]` to
`neighbour_list_end_index[i]` inclusive with `j = neighbour_list_array[n] ≠ i` and wrapped
squared separation `r² < r_cut²` (other positions contribute nothing); it stores the sum of
these couplings in `sumJ[i]` and `-1/2` times the sum of `J (S_i · S_j)` in `exch_eng[i]`. -/
theorem compute_exchange_sums_spec (sqrt : K → K) (env : Env K) (lat : Lattice K)
    (start_index end_index : Nat) (st : SLD K) (i : Nat)
    (hi : start_index ≤ i ∧ i < end_index) :
    (compute_exchange sqrt env lat start_index end_index st).field i
      = Vec3.add (st.field i) (exchange_field sqrt env lat st.config i)
    ∧ (compute_exchange sqrt env lat start_index end_index st).sumJ i
      = exchange_sumJ sqrt env lat st.config i
    ∧ (compute_exchange sqrt env lat start_index end_index st).exch_eng i
      = -(1 / 2) * exchange_energy_sum sqrt env lat st.config i := by
  have h := compute_exchange_effect sqrt env lat start_index end_index st i
  simp only [if_pos hi] at h
  exact h

theorem compute_exchange_sums_spec_witness :
    (0 ≤ 0 ∧ 0 < 2)
    ∧ (compute_exchange Real.sqrt (Env.pair : Env ℝ) Lattice.chain 0 2
        (SLD.chain (fun _ => ⟨0, 0, 1⟩))).sumJ 0
      = exchange_sumJ Real.sqrt (Env.pair : Env ℝ) Lattice.chain
          (SLD.chain (fun _ => (⟨0, 0, 1⟩ : Vec3 ℝ))).config 0 :=
  ⟨⟨le_refl 0, by decide⟩,
   (compute_exchange_sums_spec Real.sqrt Env.pair Lattice.chain 0 2
     (SLD.chain (fun _ => ⟨0, 0, 1⟩)) 0 ⟨le_refl 0, by decide⟩).2.1⟩

end MoreClaims

section Rotational43Claim

/-- C30: `fourth_order_theta_third_order_phi_fields` adds to the field of every atom of the
range, when the routine is enabled, the vector whose components are the negatives of the
partial derivatives, with respect to the spin components `sx`, `sy`, `sz`, of the energy
returned by `fourth_order_theta_third_order_phi_energy` for the material and spin of the atom,
for every spin and all basis vectors `e`, `f`, `g`; it leaves the spins and the fields of the
other atoms unchanged, and changes nothing when the enable flag is false. -/
theorem fourth_order_theta_third_order_phi_fields_negative_gradient (an : Anisotropy ℝ)
    (atom_material_array : Nat → Nat) (start_index end_index : Nat) (st : SLD ℝ) (j : Nat) :
    (fourth_order_theta_third_order_phi_fields an atom_material_array start_index end_index
        st).field j
      = (if an.enable_rotational_4_3_order = true ∧ start_index ≤ j ∧ j < end_index then
          Vec3.add (st.field j)
            (fourth_order_theta_third_order_phi_field_value an (atom_material_array j)
              (st.spin j).x (st.spin j).y (st.spin j).z)
        else st.field j)
    ∧ (fourth_order_theta_third_order_phi_fields an atom_material_array start_index end_index
        st).spin = st.spin
    ∧ fourth_order_theta_third_order_phi_fields
        { an with enable_rotational_4_3_order := false } atom_material_array start_index
        end_index st = st
    ∧ (∀ (atom mat : Nat) (sx sy sz : ℝ),
      HasDerivAt (fun x => fourth_order_theta_third_order_phi_energy an atom mat x sy sz)
          (-(fourth_order_theta_third_order_phi_field_value an mat sx sy sz).x) sx
      ∧ HasDerivAt (fun y => fourth_order_theta_third_order_phi_energy an atom mat sx y sz)
          (-(fourth_order_theta_third_order_phi_field_value an mat sx sy sz).y) sy
      ∧ HasDerivAt (fun z => fourth_order_theta_third_order_phi_energy an atom mat sx sy z)
          (-(fourth_order_theta_third_order_phi_field_value an mat sx sy sz).z) sz) :=
  ⟨fourth_order_theta_third_order_phi_fields_field an atom_material_array _ _ st j,
   fourth_order_theta_third_order_phi_fields_spin an atom_material_array _ _ st,
   fourth_order_theta_third_order_phi_fields_disabled _ atom_material_array _ _ st rfl,
   fun atom mat sx sy sz =>
     fourth_order_theta_third_order_phi_energy_hasDerivAt an atom mat sx sy sz⟩

end Rotational43Claim
section Rotational61OddTheorems

variable {K : Type} [LinearOrderedField K]

theorem sixth_order_theta_first_order_phi_odd_fields_field (an : Anisotropy K)
    (atom_material_array : Nat → Nat) (a b : Nat) (st : SLD K) (j : Nat) :
    (sixth_order_theta_first_order_phi_odd_fields an atom_material_array a b st).field j
      = if an.enable_rotational_6_1_order_odd = true ∧ a ≤ j ∧ j < b then
          Vec3.add (st.field j)
            (sixth_order_theta_first_order_phi_odd_field_value an (atom_material_array j)
              (st.spin j).x (st.spin j).y (st.spin j).z)
        else st.field j := by
  unfold sixth_order_theta_first_order_phi_odd_fields
  by_cases he : an.enable_rotational_6_1_order_odd = true
  · have h := for_range_slice (fun j (s : SLD K) => (s.field j, s.spin j))
      (sixth_order_theta_first_order_phi_odd_fields_atom an atom_material_array)
      (fun j p => (Vec3.add p.1
        (sixth_order_theta_first_order_phi_odd_field_value an (atom_material_array j)
          p.2.x p.2.y p.2.z), p.2))
      (fun i j s hji => by
        simp [sixth_order_theta_first_order_phi_odd_fields_atom, SLD.field, SLD.spin,
          Function.update_noteq hji])
      (fun i s => by
        simp [sixth_order_theta_first_order_phi_odd_fields_atom, SLD.field, SLD.spin,
          Vec3.add])
      a b st j
    have h1 := congrArg Prod.fst h
    simp only [] at h1
    simp only [he, Bool.not_true, Bool.false_eq_true, if_false, true_and]
    rw [h1]
    split_ifs <;> rfl
  · have he2 : an.enable_rotational_6_1_order_odd = false := by
      cases hv : an.enable_rotational_6_1_order_odd
      · rfl
      · exact absurd hv he
    simp [he2]

theorem sixth_order_theta_first_order_phi_odd_fields_disabled (an : Anisotropy K)
    (atom_material_array : Nat → Nat) (a b : Nat) (st : SLD K)
    (he : an.enable_rotational_6_1_order_odd = false) :
    sixth_order_theta_first_order_phi_odd_fields an atom_material_array a b st = st := by
  simp [sixth_order_theta_first_order_phi_odd_fields, he]

theorem sixth_order_theta_first_order_phi_odd_fields_spin (an : Anisotropy K)
    (atom_material_array : Nat → Nat) (a b : Nat) (st : SLD K) :
    (sixth_order_theta_first_order_phi_odd_fields an atom_material_array a b st).spin
      = st.spin := by
  unfold sixth_order_theta_first_order_phi_odd_fields
  split_ifs
  · rfl
  · exact for_range_preserve (fun s : SLD K => s.spin)
      (sixth_order_theta_first_order_phi_odd_fields_atom an atom_material_array)
      (fun _ _ => rfl) a b st

/-- The energy routine returns the formula `-k Sy Sz (Sz^4 - (10/11) Sz^2 + 5/33)` with
`Sz = s.e` and `Sy = s.g`. -/
theorem sixth_order_theta_first_order_phi_odd_energy_eq (an : Anisotropy K) (atom mat : Nat)
    (sx sy sz : K) :
    sixth_order_theta_first_order_phi_odd_energy an atom mat sx sy sz
      = sixth_order_odd_energy_formula (an.k6r1_odd mat) (an.ku_vector mat) (an.kl_vector mat)
          ⟨sx, sy, sz⟩ := by
  have e10 : (10.0 : K) = 10 := by norm_num
  have e11 : (11.0 : K) = 11 := by norm_num
  have e5 : (5.0 : K) = 5 := by norm_num
  have e33 : (33.0 : K) = 33 := by norm_num
  simp only [sixth_order_theta_first_order_phi_odd_energy, sixth_order_odd_energy_formula,
    Vec3.dot, tenoeleven, fiveothirtythree, e10, e11, e5, e33]
  ring

end Rotational61OddTheorems

section Rotational61OddGradient

/-- The three partial derivatives of the energy with respect to the spin components are the
negatives of the components of the added field. -/
theorem sixth_order_theta_first_order_phi_odd_energy_hasDerivAt (an : Anisotropy ℝ)
    (atom mat : Nat) (sx sy sz : ℝ) :
    HasDerivAt (fun x => sixth_order_theta_first_order_phi_odd_energy an atom mat x sy sz)
        (-(sixth_order_theta_first_order_phi_odd_field_value an mat sx sy sz).x) sx
    ∧ HasDerivAt (fun y => sixth_order_theta_first_order_phi_odd_energy an atom mat sx y sz)
        (-(sixth_order_theta_first_order_phi_odd_field_value an mat sx sy sz).y) sy
    ∧ HasDerivAt (fun z => sixth_order_theta_first_order_phi_odd_energy an atom mat sx sy z)
        (-(sixth_order_theta_first_order_phi_odd_field_value an mat sx sy sz).z) sz := by
  obtain ⟨en, ku, kr, kl, k, en6, k6⟩ := an
  simp only [sixth_order_theta_first_order_phi_odd_energy,
    sixth_order_theta_first_order_phi_odd_field_value, five, oneothirtythree,
    fiveothirtythree, sixoeleven, tenoeleven]
  generalize (ku mat).x = ex
  generalize (ku mat).y = ey
  generalize (ku mat).z = ez
  generalize (kl mat).x = gx
  generalize (kl mat).y = gy
  generalize (kl mat).z = gz
  generalize k6 mat = k1
  refine ⟨?_, ?_, ?_⟩
  · have hSy : HasDerivAt (fun x : ℝ => x * gx + sy * gy + sz * gz) gx sx := by
      simpa using (((hasDerivAt_id sx).mul_const gx).add_const (sy * gy)).add_const (sz * gz)
    have hSz : HasDerivAt (fun x : ℝ => x * ex + sy * ey + sz * ez) ex sx := by
      simpa using (((hasDerivAt_id sx).mul_const ex).add_const (sy * ey)).add_const (sz * ez)
    have h := (((hSy.const_mul (-k1)).mul hSz).mul
      ((((hSz.mul hSz).mul (hSz.mul hSz)).sub
        ((hSz.mul hSz).const_mul ((10.0 : ℝ) / 11.0))).add_const ((5.0 : ℝ) / 33.0)))
    convert h using 1
    norm_num
    ring
  · have hSy : HasDerivAt (fun y : ℝ => sx * gx + y * gy + sz * gz) gy sy := by
      simpa using (((hasDerivAt_id sy).mul_const gy).const_add (sx * gx)).add_const (sz * gz)
    have hSz : HasDerivAt (fun y : ℝ => sx * ex + y * ey + sz * ez) ey sy := by
      simpa using (((hasDerivAt_id sy).mul_const ey).const_add (sx * ex)).add_const (sz * ez)
    have h := (((hSy.const_mul (-k1)).mul hSz).mul
      ((((hSz.mul hSz).mul (hSz.mul hSz)).sub
        ((hSz.mul hSz).const_mul ((10.0 : ℝ) / 11.0))).add_const ((5.0 : ℝ) / 33.0)))
    convert h using 1
    norm_num
    ring
  · have hSy : HasDerivAt (fun z : ℝ => sx * gx + sy * gy + z * gz) gz sz := by
      simpa using ((hasDerivAt_id sz).mul_const gz).const_add (sx * gx + sy * gy)
    have hSz : HasDerivAt (fun z : ℝ => sx * ex + sy * ey + z * ez) ez sz := by
      simpa using ((hasDerivAt_id sz).mul_const ez).const_add (sx * ex + sy * ey)
    have h := (((hSy.const_mul (-k1)).mul hSz).mul
      ((((hSz.mul hSz).mul (hSz.mul hSz)).sub
        ((hSz.mul hSz).const_mul ((10.0 : ℝ) / 11.0))).add_const ((5.0 : ℝ) / 33.0)))
    convert h using 1
    norm_num
    ring

end Rotational61OddGradient

section Rotational61OddClaim

/-- C31: `sixth_order_theta_first_order_phi_odd_fields` adds to the field of every atom of the
range (and of no other atom) the vector `sixth_order_theta_first_order_phi_odd_field_value` of
the atom's material and spin, leaves the spins unchanged, and changes nothing when the enable
flag is false.  The energy routine returns `-k Sy Sz (Sz^4 - (10/11) Sz^2 + 5/33)` with
`Sz = s.e`, `Sy = s.g`, and for every material, spin and basis vectors the partial derivatives
of that energy with respect to `sx`, `sy`, `sz` are the negatives of the components of the
added vector: the added field is the negative gradient of the energy. -/
theorem sixth_order_theta_first_order_phi_odd_fields_negative_gradient (an : Anisotropy ℝ)
    (atom_material_array : Nat → Nat) (start_index end_index : Nat) (st : SLD ℝ) (j : Nat) :
    (sixth_order_theta_first_order_phi_odd_fields an atom_material_array start_index end_index
        st).field j
      = (if an.enable_rotational_6_1_order_odd = true ∧ start_index ≤ j ∧ j < end_index then
          Vec3.add (st.field j)
            (sixth_order_theta_first_order_phi_odd_field_value an (atom_material_array j)
              (st.spin j).x (st.spin j).y (st.spin j).z)
        else st.field j)
    ∧ (sixth_order_theta_first_order_phi_odd_fields an atom_material_array start_index
        end_index st).spin = st.spin
    ∧ sixth_order_theta_first_order_phi_odd_fields
        { an with enable_rotational_6_1_order_odd := false } atom_material_array start_index
        end_index st = st
    ∧ (∀ (atom mat : Nat) (sx sy sz : ℝ),
      sixth_order_theta_first_order_phi_odd_energy an atom mat sx sy sz
        = sixth_order_odd_energy_formula (an.k6r1_odd mat) (an.ku_vector mat)
            (an.kl_vector mat) ⟨sx, sy, sz⟩
      ∧ HasDerivAt (fun x => sixth_order_theta_first_order_phi_odd_energy an atom mat x sy sz)
          (-(sixth_order_theta_first_order_phi_odd_field_value an mat sx sy sz).x) sx
      ∧ HasDerivAt (fun y => sixth_order_theta_first_order_phi_odd_energy an atom mat sx y sz)
          (-(sixth_order_theta_first_order_phi_odd_field_value an mat sx sy sz).y) sy
      ∧ HasDerivAt (fun z => sixth_order_theta_first_order_phi_odd_energy an atom mat sx sy z)
          (-(sixth_order_theta_first_order_phi_odd_field_value an mat sx sy sz).z) sz) :=
  ⟨sixth_order_theta_first_order_phi_odd_fields_field an atom_material_array _ _ st j,
   sixth_order_theta_first_order_phi_odd_fields_spin an atom_material_array _ _ st,
   sixth_order_theta_first_order_phi_odd_fields_disabled _ atom_material_array _ _ st rfl,
   fun atom mat sx sy sz =>
     ⟨sixth_order_theta_first_order_phi_odd_energy_eq an atom mat sx sy sz,
      sixth_order_theta_first_order_phi_odd_energy_hasDerivAt an atom mat sx sy sz⟩⟩

end Rotational61OddClaim
section AnisotropyVectorsTheorems

/-- The routine returns exactly when the tolerance checks pass, and then returns the three
normalised vectors. -/
theorem set_anisotropy_vectors_eq_some (v1 v2 v3 : Vec3 ℝ) (mat : Nat) (w1 w2 w3 : Vec3 ℝ) :
    set_anisotropy_vectors Real.sqrt v1 v2 v3 mat = some (w1, w2, w3)
      ↔ (-1e-9 ≤ Vec3.dot v1 v2 ∧ Vec3.dot v1 v2 ≤ 1e-9
          ∧ 1e-9 ≤ Real.sqrt (Vec3.normSq v1) ∧ 1e-9 ≤ Real.sqrt (Vec3.normSq v2)
          ∧ 1e-9 ≤ Real.sqrt (Vec3.normSq (Vec3.cross v1 v2)))
        ∧ w1 = Vec3.smul (1 / Real.sqrt (Vec3.normSq v1)) v1
        ∧ w2 = Vec3.smul (1 / Real.sqrt (Vec3.normSq v2)) v2
        ∧ w3 = Vec3.smul (1 / Real.sqrt (Vec3.normSq (Vec3.cross v1 v2)))
            (Vec3.cross v1 v2) := by
  obtain ⟨a1, a2, a3⟩ := v1
  obtain ⟨b1, b2, b3⟩ := v2
  simp only [set_anisotropy_vectors, Vec3.dot, Vec3.normSq, Vec3.cross, Vec3.smul]
  constructor
  · intro h
    split_ifs at h with h1 h2
    simp only [not_or, not_lt] at h1 h2
    simp only [Option.some.injEq, Prod.mk.injEq] at h
    obtain ⟨e1, e2, e3⟩ := h
    refine ⟨⟨h1.2, h1.1, h2.1, h2.2.1, h2.2.2⟩, ?_, ?_, ?_⟩
    · rw [← e1]; simp only [Vec3.mk.injEq]; refine ⟨?_, ?_, ?_⟩ <;> ring
    · rw [← e2]; simp only [Vec3.mk.injEq]; refine ⟨?_, ?_, ?_⟩ <;> ring
    · rw [← e3]; simp only [Vec3.mk.injEq]; refine ⟨?_, ?_, ?_⟩ <;> ring
  · rintro ⟨⟨c1, c2, c3, c4, c5⟩, e1, e2, e3⟩
    have h1 : ¬ (a1 * b1 + a2 * b2 + a3 * b3 > 1e-9 ∨ a1 * b1 + a2 * b2 + a3 * b3 < -1e-9) := by
      simp only [not_or, not_lt]; exact ⟨c2, c1⟩
    have h2 : ¬ (Real.sqrt (a1 * a1 + a2 * a2 + a3 * a3) < 1e-9
        ∨ Real.sqrt (b1 * b1 + b2 * b2 + b3 * b3) < 1e-9
        ∨ Real.sqrt ((a2 * b3 - a3 * b2) * (a2 * b3 - a3 * b2)
            + (a3 * b1 - a1 * b3) * (a3 * b1 - a1 * b3)
            + (a1 * b2 - a2 * b1) * (a1 * b2 - a2 * b1)) < 1e-9) := by
      simp only [not_or, not_lt]; exact ⟨c3, c4, c5⟩
    rw [if_neg h1, if_neg h2, e1, e2, e3]
    simp only [Option.some.injEq, Prod.mk.injEq, Vec3.mk.injEq]
    refine ⟨⟨?_, ?_, ?_⟩, ⟨?_, ?_, ?_⟩, ⟨?_, ?_, ?_⟩⟩ <;> ring

end AnisotropyVectorsTheorems

section AnisotropyVectorsClaim

/-- A vector divided by its length, when the length is positive, has unit length. -/
theorem normSq_smul_inv_sqrt (v : Vec3 ℝ) (h : 0 < Real.sqrt (Vec3.normSq v)) :
    Vec3.normSq (Vec3.smul (1 / Real.sqrt (Vec3.normSq v)) v) = 1 := by
  have hn : 0 ≤ Vec3.normSq v := by
    simp only [Vec3.normSq, Vec3.dot]
    nlinarith [mul_self_nonneg v.x, mul_self_nonneg v.y, mul_self_nonneg v.z]
  have hs : Real.sqrt (Vec3.normSq v) * Real.sqrt (Vec3.normSq v) = Vec3.normSq v :=
    Real.mul_self_sqrt hn
  have hne : Real.sqrt (Vec3.normSq v) ≠ 0 := ne_of_gt h
  generalize Real.sqrt (Vec3.normSq v) = m at hs hne
  simp only [Vec3.normSq, Vec3.dot, Vec3.smul] at hs ⊢
  field_simp
  linear_combination -hs

/-- The properties of the vectors returned by `set_anisotropy_vectors`. -/
theorem set_anisotropy_vectors_properties (v1 v2 v3 : Vec3 ℝ) (mat : Nat) (w1 w2 w3 : Vec3 ℝ)
    (h : set_anisotropy_vectors Real.sqrt v1 v2 v3 mat = some (w1, w2, w3)) :
    (-1e-9 ≤ Vec3.dot v1 v2 ∧ Vec3.dot v1 v2 ≤ 1e-9
      ∧ 1e-9 ≤ Real.sqrt (Vec3.normSq v1) ∧ 1e-9 ≤ Real.sqrt (Vec3.normSq v2)
      ∧ 1e-9 ≤ Real.sqrt (Vec3.normSq (Vec3.cross v1 v2)))
    ∧ w1 = Vec3.smul (1 / Real.sqrt (Vec3.normSq v1)) v1
    ∧ w2 = Vec3.smul (1 / Real.sqrt (Vec3.normSq v2)) v2
    ∧ w3 = Vec3.smul (1 / Real.sqrt (Vec3.normSq (Vec3.cross v1 v2))) (Vec3.cross v1 v2)
    ∧ Vec3.normSq w1 = 1 ∧ Vec3.normSq w2 = 1 ∧ Vec3.normSq w3 = 1
    ∧ Vec3.dot w1 w3 = 0 ∧ Vec3.dot w2 w3 = 0
    ∧ Vec3.dot w1 w2
        = Vec3.dot v1 v2 / (Real.sqrt (Vec3.normSq v1) * Real.sqrt (Vec3.normSq v2))
    ∧ (orthonormal_set w1 w2 w3 ↔ Vec3.dot v1 v2 = 0)
    ∧ |Vec3.dot w1 w2|
        ≤ 1e-9 / (Real.sqrt (Vec3.normSq v1) * Real.sqrt (Vec3.normSq v2)) := by
  obtain ⟨hg, e1, e2, e3⟩ := (set_anisotropy_vectors_eq_some v1 v2 v3 mat w1 w2 w3).mp h
  obtain ⟨c1, c2, c3, c4, c5⟩ := hg
  have p1 : 0 < Real.sqrt (Vec3.normSq v1) := lt_of_lt_of_le (by norm_num) c3
  have p2 : 0 < Real.sqrt (Vec3.normSq v2) := lt_of_lt_of_le (by norm_num) c4
  have p3 : 0 < Real.sqrt (Vec3.normSq (Vec3.cross v1 v2)) := lt_of_lt_of_le (by norm_num) c5
  have n1 : Vec3.normSq w1 = 1 := by rw [e1]; exact normSq_smul_inv_sqrt v1 p1
  have n2 : Vec3.normSq w2 = 1 := by rw [e2]; exact normSq_smul_inv_sqrt v2 p2
  have n3 : Vec3.normSq w3 = 1 := by rw [e3]; exact normSq_smul_inv_sqrt _ p3
  have d13 : Vec3.dot w1 w3 = 0 := by
    rw [e1, e3]
    simp only [Vec3.dot, Vec3.smul, Vec3.cross]
    ring
  have d23 : Vec3.dot w2 w3 = 0 := by
    rw [e2, e3]
    simp only [Vec3.dot, Vec3.smul, Vec3.cross]
    ring
  have d12 : Vec3.dot w1 w2
      = Vec3.dot v1 v2 / (Real.sqrt (Vec3.normSq v1) * Real.sqrt (Vec3.normSq v2)) := by
    rw [e1, e2]
    generalize Real.sqrt (Vec3.normSq v1) = m1 at p1
    generalize Real.sqrt (Vec3.normSq v2) = m2 at p2
    have h1 : m1 ≠ 0 := ne_of_gt p1
    have h2 : m2 ≠ 0 := ne_of_gt p2
    simp only [Vec3.dot, Vec3.smul]
    field_simp
  have hpos : 0 < Real.sqrt (Vec3.normSq v1) * Real.sqrt (Vec3.normSq v2) := mul_pos p1 p2
  have hb : |Vec3.dot w1 w2|
      ≤ 1e-9 / (Real.sqrt (Vec3.normSq v1) * Real.sqrt (Vec3.normSq v2)) := by
    rw [d12, abs_div, abs_of_pos hpos]
    exact div_le_div_of_nonneg_right (abs_le.mpr ⟨c1, c2⟩) (le_of_lt hpos)
  refine ⟨⟨c1, c2, c3, c4, c5⟩, e1, e2, e3, n1, n2, n3, d13, d23, d12, ?_, hb⟩
  constructor
  · intro ho
    have h0 : Vec3.dot w1 w2 = 0 := ho.2.2.2.1
    rw [d12] at h0
    rcases div_eq_zero_iff.mp h0 with h0 | h0
    · exact h0
    · exact absurd h0 (ne_of_gt hpos)
  · intro hz
    refine ⟨n1, n2, n3, ?_, d13, d23⟩
    rw [d12, hz, zero_div]

end AnisotropyVectorsClaim
section AnisotropyVectorsResults

/-- C32 (as amended): whenever `set_anisotropy_vectors` returns (the scalar product of the
inputs lies in `[-1e-9, 1e-9]` and the lengths of `v1`, `v2` and `v1 × v2` are at least
`1e-9`), the outputs are the inputs `v1`, `v2` and their vector product `v1 × v2`, each
divided by its length; each output has unit length and the third is orthogonal to the first
two.  The scalar product of the first two outputs is `(v1 · v2) / (|v1| |v2|)` of the inputs,
of magnitude at most `1e-9 / (|v1| |v2|)` (at most `1e-9` for inputs of unit length), so the
outputs form an orthonormal set exactly when the inputs are exactly orthogonal. -/
theorem set_anisotropy_vectors_normalised (v1 v2 v3 : Vec3 ℝ) (mat : Nat) (w1 w2 w3 : Vec3 ℝ)
    (h : set_anisotropy_vectors Real.sqrt v1 v2 v3 mat = some (w1, w2, w3)) :
    (-1e-9 ≤ Vec3.dot v1 v2 ∧ Vec3.dot v1 v2 ≤ 1e-9
      ∧ 1e-9 ≤ Real.sqrt (Vec3.normSq v1) ∧ 1e-9 ≤ Real.sqrt (Vec3.normSq v2)
      ∧ 1e-9 ≤ Real.sqrt (Vec3.normSq (Vec3.cross v1 v2)))
    ∧ w1 = Vec3.smul (1 / Real.sqrt (Vec3.normSq v1)) v1
    ∧ w2 = Vec3.smul (1 / Real.sqrt (Vec3.normSq v2)) v2
    ∧ w3 = Vec3.smul (1 / Real.sqrt (Vec3.normSq (Vec3.cross v1 v2))) (Vec3.cross v1 v2)
    ∧ Vec3.normSq w1 = 1 ∧ Vec3.normSq w2 = 1 ∧ Vec3.normSq w3 = 1
    ∧ Vec3.dot w1 w3 = 0 ∧ Vec3.dot w2 w3 = 0
    ∧ Vec3.dot w1 w2
        = Vec3.dot v1 v2 / (Real.sqrt (Vec3.normSq v1) * Real.sqrt (Vec3.normSq v2))
    ∧ (orthonormal_set w1 w2 w3 ↔ Vec3.dot v1 v2 = 0)
    ∧ |Vec3.dot w1 w2|
        ≤ 1e-9 / (Real.sqrt (Vec3.normSq v1) * Real.sqrt (Vec3.normSq v2)) :=
  set_anisotropy_vectors_properties v1 v2 v3 mat w1 w2 w3 h

theorem set_anisotropy_vectors_normalised_witness :
    set_anisotropy_vectors Real.sqrt (⟨0, 0, 1⟩ : Vec3 ℝ) ⟨1, 0, 0⟩ ⟨0, 0, 0⟩ 0
        = some (⟨0, 0, 1⟩, ⟨1, 0, 0⟩, ⟨0, 1, 0⟩)
    ∧ (orthonormal_set (⟨0, 0, 1⟩ : Vec3 ℝ) ⟨1, 0, 0⟩ ⟨0, 1, 0⟩
        ↔ Vec3.dot (⟨0, 0, 1⟩ : Vec3 ℝ) ⟨1, 0, 0⟩ = 0) :=
  ⟨by simp [set_anisotropy_vectors]; norm_num,
   (set_anisotropy_vectors_normalised ⟨0, 0, 1⟩ ⟨1, 0, 0⟩ ⟨0, 0, 0⟩ 0 ⟨0, 0, 1⟩ ⟨1, 0, 0⟩
      ⟨0, 1, 0⟩ (by simp [set_anisotropy_vectors]; norm_num)).2.2.2.2.2.2.2.2.2.2.1⟩

/-- C32 (counterexample to the claim as stated): the unit vectors `v1 = (1, 0, 0)` and
`v2 = (c, s, 0)` with `c = 2e10 / (1e20 + 1)` (about `2e-10`) and `s = (1e20 - 1) / (1e20 + 1)`,
`c² + s² = 1`, have scalar product `c`, inside the tolerance `1e-9`, and `v1`, `v2`, `v1 × v2`
have lengths `1`, `1` and `s`; the routine returns `v1`, `v2` and `(0, 0, 1)`, and the first
two vectors returned have scalar product `c`, which is not zero: the outputs are not an
orthonormal set. -/
theorem set_anisotropy_vectors_not_orthonormal :
    Vec3.normSq (⟨1, 0, 0⟩ : Vec3 ℝ) = 1
    ∧ Vec3.normSq (⟨20000000000 / 100000000000000000001,
        99999999999999999999 / 100000000000000000001, 0⟩ : Vec3 ℝ) = 1
    ∧ set_anisotropy_vectors Real.sqrt (⟨1, 0, 0⟩ : Vec3 ℝ)
        ⟨20000000000 / 100000000000000000001, 99999999999999999999 / 100000000000000000001, 0⟩
        ⟨0, 0, 0⟩ 0
      = some (⟨1, 0, 0⟩,
          ⟨20000000000 / 100000000000000000001, 99999999999999999999 / 100000000000000000001,
            0⟩,
          ⟨0, 0, 1⟩)
    ∧ Vec3.dot (⟨1, 0, 0⟩ : Vec3 ℝ)
        ⟨20000000000 / 100000000000000000001, 99999999999999999999 / 100000000000000000001, 0⟩
      = 20000000000 / 100000000000000000001
    ∧ ¬ orthonormal_set (⟨1, 0, 0⟩ : Vec3 ℝ)
        ⟨20000000000 / 100000000000000000001, 99999999999999999999 / 100000000000000000001, 0⟩
        ⟨0, 0, 1⟩ := by
  have n1 : Vec3.normSq (⟨1, 0, 0⟩ : Vec3 ℝ) = 1 := by
    simp only [Vec3.normSq, Vec3.dot]; norm_num
  have n2 : Vec3.normSq (⟨20000000000 / 100000000000000000001,
      99999999999999999999 / 100000000000000000001, 0⟩ : Vec3 ℝ) = 1 := by
    simp only [Vec3.normSq, Vec3.dot]; norm_num
  have s3 : Real.sqrt (Vec3.normSq (Vec3.cross (⟨1, 0, 0⟩ : Vec3 ℝ)
      ⟨20000000000 / 100000000000000000001, 99999999999999999999 / 100000000000000000001,
        0⟩))
      = 99999999999999999999 / 100000000000000000001 := by
    have e : Vec3.normSq (Vec3.cross (⟨1, 0, 0⟩ : Vec3 ℝ)
        ⟨20000000000 / 100000000000000000001, 99999999999999999999 / 100000000000000000001,
          0⟩)
        = (99999999999999999999 / 100000000000000000001) ^ 2 := by
      simp only [Vec3.normSq, Vec3.dot, Vec3.cross]; norm_num
    rw [e]; exact Real.sqrt_sq (by norm_num)
  have hd : Vec3.dot (⟨1, 0, 0⟩ : Vec3 ℝ)
      ⟨20000000000 / 100000000000000000001, 99999999999999999999 / 100000000000000000001, 0⟩
      = 20000000000 / 100000000000000000001 := by
    simp only [Vec3.dot]; norm_num
  refine ⟨n1, n2, ?_, hd, ?_⟩
  · rw [set_anisotropy_vectors_eq_some, s3, n1, n2, Real.sqrt_one, hd]
    refine ⟨⟨?_, ?_, ?_, ?_, ?_⟩, ?_, ?_, ?_⟩
    · norm_num
    · norm_num
    · norm_num
    · norm_num
    · norm_num
    · simp only [Vec3.smul, Vec3.mk.injEq]; norm_num
    · simp only [Vec3.smul, Vec3.mk.injEq]; norm_num
    · simp only [Vec3.smul, Vec3.cross, Vec3.mk.injEq]; norm_num
  · intro ho
    have h0 : Vec3.dot (⟨1, 0, 0⟩ : Vec3 ℝ)
        ⟨20000000000 / 100000000000000000001, 99999999999999999999 / 100000000000000000001,
          0⟩ = 0 := ho.2.2.2.1
    rw [hd] at h0
    norm_num at h0

end AnisotropyVectorsResults
section InputParameterTheorems

variable {K : Type} [LinearOrderedField K]

/-- The value returned for the keyword `surface-anisotropy-threshold` with value `native`. -/
theorem match_input_parameter_native (c : InputChecks K) (unit : String) (line : Int)
    (st : NeelSettings K) :
    match_input_parameter c "anisotropy" "surface-anisotropy-threshold" "native" unit line st
      = some (false, { st with native_neel_anisotropy_threshold := true }) := by
  simp [match_input_parameter, int_to_bool, EXIT_SUCCESS]

/-- Whenever the routine returns, the value returned is `true` exactly when the key is
`anisotropy`, the word is one of the keywords, and the pair is not
`surface-anisotropy-threshold = native`. -/
theorem match_input_parameter_value (c : InputChecks K) (key word value unit : String)
    (line : Int) (st : NeelSettings K) :
    (match_input_parameter c key word value unit line st).map Prod.fst
      = (match_input_parameter c key word value unit line st).map
          (fun _ => decide (key = "anisotropy" ∧ word ∈ input_keywords
            ∧ ¬ (word = "surface-anisotropy-threshold" ∧ value = "native"))) := by
  unfold match_input_parameter input_keywords
  simp only []
  by_cases hk : key = "anisotropy"
  · by_cases h1 : word = "surface-anisotropy-threshold"
    · by_cases hv : value = "native"
      · simp [hk, h1, hv, int_to_bool, EXIT_SUCCESS]
      · simp [hk, h1, hv, Option.map_map, Function.comp]; rfl
    · by_cases h2 : word = "surface-anisotropy-nearest-neighbour-range"
      · simp [hk, h1, h2, Option.map_map, Function.comp]; rfl
      · by_cases h3 : word = "enable-bulk-neel-anisotropy"
        · simp [hk, h1, h2, h3]
        · by_cases h4 : word = "neel-anisotropy-exponential-factor"
          · simp [hk, h1, h2, h3, h4, Option.map_map, Function.comp]; rfl
          · by_cases h5 : word = "neel-anisotropy-exponential-range"
            · simp [hk, h1, h2, h3, h4, h5, Option.map_map, Function.comp]; rfl
            · simp [hk, h1, h2, h3, h4, h5]
  · simp [hk]

end InputParameterTheorems
section InputParameterClaim

variable {K : Type} [LinearOrderedField K]

/-- C33 (refuted on the code): for the key `anisotropy`, the keyword
`surface-anisotropy-threshold` and the value `native`, `match_input_parameter` sets
`native_neel_anisotropy_threshold` and executes `return EXIT_SUCCESS;`, that is, returns
`false`, whatever the other arguments; with any other value the same keyword returns `true`
when the check accepts the value.  In general, whenever the routine returns, the value
returned is `true` exactly when the key is `anisotropy`, the word is one of the five keywords
and the pair is not `surface-anisotropy-threshold = native`. -/
theorem match_input_parameter_native_returns_false (c : InputChecks K)
    (key word value unit : String) (line : Int) (st : NeelSettings K) :
    match_input_parameter c "anisotropy" "surface-anisotropy-threshold" "native" unit line st
      = some (false, { st with native_neel_anisotropy_threshold := true })
    ∧ match_input_parameter (InputChecks.accepting (fun _ => 0)) "anisotropy"
        "surface-anisotropy-threshold" "0" unit line st
      = some (true, { st with neel_anisotropy_threshold := 0 })
    ∧ (match_input_parameter c key word value unit line st).map Prod.fst
      = (match_input_parameter c key word value unit line st).map
          (fun _ => decide (key = "anisotropy" ∧ word ∈ input_keywords
            ∧ ¬ (word = "surface-anisotropy-threshold" ∧ value = "native"))) :=
  ⟨match_input_parameter_native c unit line st,
   by simp [match_input_parameter, InputChecks.accepting],
   match_input_parameter_value c key word value unit line st⟩

end InputParameterClaim
section MaterialParameterTheorems

variable {K : Type} [LinearOrderedField K]

theorem match_material_parameter_orthonormal_2_1 (sqrt : K → K) (M_PI : K)
    (c : InputChecks K)
    (rest : String → String → String → Int → Nat → Nat → Nat → MaterialInput K →
      Option (Bool × MaterialInput K))
    (value unit : String) (line : Int) (super_index sub_index max_materials : Nat)
    (st : MaterialInput K) :
    match_material_parameter sqrt M_PI c rest
        "2-1-orthonormal-tesseral-harmonic-anisotropy-constant" value unit line super_index
        sub_index max_materials st
      = (c.check_for_valid_value (-c.atof value * (0.25) * sqrt (15.0 / M_PI))
          "2-1-orthonormal-tesseral-harmonic-anisotropy-constant" line "material:" unit "energy"
          (-1e-17) 1e-17 "material" " < +/-1.0e-17 J/atom").map
        (fun v => (true, { st with
          mp := Function.update st.mp super_index { st.mp super_index with k2r1 := v }
          enable_rotational_2_1_order := true })) := by
  simp [match_material_parameter]

theorem match_material_parameter_orthonormal_2_1_odd (sqrt : K → K) (M_PI : K)
    (c : InputChecks K)
    (rest : String → String → String → Int → Nat → Nat → Nat → MaterialInput K →
      Option (Bool × MaterialInput K))
    (value unit : String) (line : Int) (super_index sub_index max_materials : Nat)
    (st : MaterialInput K) :
    match_material_parameter sqrt M_PI c rest
        "2--1-orthonormal-tesseral-harmonic-anisotropy-constant" value unit line super_index
        sub_index max_materials st
      = (c.check_for_valid_value (-c.atof value * (0.25) * sqrt (15.0 / M_PI))
          "2--1-orthonormal-tesseral-harmonic-anisotropy-constant" line "material:" unit "energy"
          (-1e-17) 1e-17 "material" " < +/-1.0e-17 J/atom").map
        (fun v => (true, { st with
          mp := Function.update st.mp super_index { st.mp super_index with k2r1_odd := v }
          enable_rotational_2_1_order_odd := true })) := by
  simp [match_material_parameter]

theorem match_material_parameter_orthonormal_2_2 (sqrt : K → K) (M_PI : K)
    (c : InputChecks K)
    (rest : String → String → String → Int → Nat → Nat → Nat → MaterialInput K →
      Option (Bool × MaterialInput K))
    (value unit : String) (line : Int) (super_index sub_index max_materials : Nat)
    (st : MaterialInput K) :
    match_material_parameter sqrt M_PI c rest
        "2-2-orthonormal-tesseral-harmonic-anisotropy-constant" value unit line super_index
        sub_index max_materials st
      = (c.check_for_valid_value (-c.atof value * 0.25 * sqrt (15.0 / M_PI))
          "2-2-orthonormal-tesseral-harmonic-anisotropy-constant" line "material:" unit "energy"
          (-1e-17) 1e-17 "material" " < +/-1.0e-17 J/atom").map
        (fun v => (true, { st with
          mp := Function.update st.mp super_index { st.mp super_index with k2r2 := v }
          enable_rotational_2_2_order := true })) := by
  simp [match_material_parameter]

theorem match_material_parameter_orthonormal_2_2_odd (sqrt : K → K) (M_PI : K)
    (c : InputChecks K)
    (rest : String → String → String → Int → Nat → Nat → Nat → MaterialInput K →
      Option (Bool × MaterialInput K))
    (value unit : String) (line : Int) (super_index sub_index max_materials : Nat)
    (st : MaterialInput K) :
    match_material_parameter sqrt M_PI c rest
        "2--2-orthonormal-tesseral-harmonic-anisotropy-constant" value unit line super_index
        sub_index max_materials st
      = (c.check_for_valid_value (-c.atof value * 0.25 * sqrt (15.0 / M_PI))
          "2--2-orthonormal-tesseral-harmonic-anisotropy-constant" line "material:" unit "energy"
          (-1e-17) 1e-17 "material" " < +/-1.0e-17 J/atom").map
        (fun v => (true, { st with
          mp := Function.update st.mp super_index { st.mp super_index with k2r2_odd := v }
          enable_rotational_2_2_order_odd := true })) := by
  simp [match_material_parameter]

theorem match_material_parameter_orthonormal_4_1 (sqrt : K → K) (M_PI : K)
    (c : InputChecks K)
    (rest : String → String → String → Int → Nat → Nat → Nat → MaterialInput K →
      Option (Bool × MaterialInput K))
    (value unit : String) (line : Int) (super_index sub_index max_materials : Nat)
    (st : MaterialInput K) :
    match_material_parameter sqrt M_PI c rest
        "4-1-orthonormal-tesseral-harmonic-anisotropy-constant" value unit line super_index
        sub_index max_materials st
      = (c.check_for_valid_value (-c.atof value * (3.0 * 7.0 / 8.0) * sqrt (10.0 / M_PI))
          "4-1-orthonormal-tesseral-harmonic-anisotropy-constant" line "material:" unit "energy"
          (-1e-17) 1e-17 "material" " < +/-1.0e-17 J/atom").map
        (fun v => (true, { st with
          mp := Function.update st.mp super_index { st.mp super_index with k4r1 := v }
          enable_rotational_4_1_order := true })) := by
  simp [match_material_parameter]

theorem match_material_parameter_orthonormal_4_1_odd (sqrt : K → K) (M_PI : K)
    (c : InputChecks K)
    (rest : String → String → String → Int → Nat → Nat → Nat → MaterialInput K →
      Option (Bool × MaterialInput K))
    (value unit : String) (line : Int) (super_index sub_index max_materials : Nat)
    (st : MaterialInput K) :
    match_material_parameter sqrt M_PI c rest
        "4--1-orthonormal-tesseral-harmonic-anisotropy-constant" value unit line super_index
        sub_index max_materials st
      = (c.check_for_valid_value (-c.atof value * (3.0 * 7.0 / 8.0) * sqrt (10.0 / M_PI))
          "4--1-orthonormal-tesseral-harmonic-anisotropy-constant" line "material:" unit "energy"
          (-1e-17) 1e-17 "material" " < +/-1.0e-17 J/atom").map
        (fun v => (true, { st with
          mp := Function.update st.mp super_index { st.mp super_index with k4r1_odd := v }
          enable_rotational_4_1_order_odd := true })) := by
  simp [match_material_parameter]

theorem match_material_parameter_orthonormal_4_2 (sqrt : K → K) (M_PI : K)
    (c : InputChecks K)
    (rest : String → String → String → Int → Nat → Nat → Nat → MaterialInput K →
      Option (Bool × MaterialInput K))
    (value unit : String) (line : Int) (super_index sub_index max_materials : Nat)
    (st : MaterialInput K) :
    match_material_parameter sqrt M_PI c rest
        "4-2-orthonormal-tesseral-harmonic-anisotropy-constant" value unit line super_index
        sub_index max_materials st
      = (c.check_for_valid_value (-c.atof value * (3.0 * 7.0) * sqrt (5.0 / M_PI))
          "4-2-orthonormal-tesseral-harmonic-anisotropy-constant" line "material:" unit "energy"
          (-1e-17) 1e-17 "material" " < +/-1.0e-17 J/atom").map
        (fun v => (true, { st with
          mp := Function.update st.mp super_index { st.mp super_index with k4r2 := v }
          enable_rotational_4_2_order := true })) := by
  simp [match_material_parameter]

theorem match_material_parameter_orthonormal_4_2_odd (sqrt : K → K) (M_PI : K)
    (c : InputChecks K)
    (rest : String → String → String → Int → Nat → Nat → Nat → MaterialInput K →
      Option (Bool × MaterialInput K))
    (value unit : String) (line : Int) (super_index sub_index max_materials : Nat)
    (st : MaterialInput K) :
    match_material_parameter sqrt M_PI c rest
        "4--2-orthonormal-tesseral-harmonic-anisotropy-constant" value unit line super_index
        sub_index max_materials st
      = (c.check_for_valid_value (-c.atof value * (3.0 * 7.0) * sqrt (5.0 / M_PI))
          "4--2-orthonormal-tesseral-harmonic-anisotropy-constant" line "material:" unit "energy"
          (-1e-17) 1e-17 "material" " < +/-1.0e-17 J/atom").map
        (fun v => (true, { st with
          mp := Function.update st.mp super_index { st.mp super_index with k4r2_odd := v }
          enable_rotational_4_2_order_odd := true })) := by
  simp [match_material_parameter]

theorem match_material_parameter_orthonormal_4_3 (sqrt : K → K) (M_PI : K)
    (c : InputChecks K)
    (rest : String → String → String → Int → Nat → Nat → Nat → MaterialInput K →
      Option (Bool × MaterialInput K))
    (value unit : String) (line : Int) (super_index sub_index max_materials : Nat)
    (st : MaterialInput K) :
    match_material_parameter sqrt M_PI c rest
        "4-3-orthonormal-tesseral-harmonic-anisotropy-constant" value unit line super_index
        sub_index max_materials st
      = (c.check_for_valid_value (-c.atof value * (3.0 / 8.0) * sqrt (70.0 / M_PI))
          "4-3-orthonormal-tesseral-harmonic-anisotropy-constant" line "material:" unit "energy"
          (-1e-17) 1e-17 "material" " < +/-1.0e-17 J/atom").map
        (fun v => (true, { st with
          mp := Function.update st.mp super_index { st.mp super_index with k4r3 := v }
          enable_rotational_4_3_order := true })) := by
  simp [match_material_parameter]

theorem match_material_parameter_orthonormal_4_3_odd (sqrt : K → K) (M_PI : K)
    (c : InputChecks K)
    (rest : String → String → String → Int → Nat → Nat → Nat → MaterialInput K →
      Option (Bool × MaterialInput K))
    (value unit : String) (line : Int) (super_index sub_index max_materials : Nat)
    (st : MaterialInput K) :
    match_material_parameter sqrt M_PI c rest
        "4--3-orthonormal-tesseral-harmonic-anisotropy-constant" value unit line super_index
        sub_index max_materials st
      = (c.check_for_valid_value (-c.atof value * (3.0 / 8.0) * sqrt (70.0 / M_PI))
          "4--3-orthonormal-tesseral-harmonic-anisotropy-constant" line "material:" unit "energy"
          (-1e-17) 1e-17 "material" " < +/-1.0e-17 J/atom").map
        (fun v => (true, { st with
          mp := Function.update st.mp super_index { st.mp super_index with k4r3_odd := v }
          enable_rotational_4_3_order_odd := true })) := by
  simp [match_material_parameter]

theorem match_material_parameter_orthonormal_4_4 (sqrt : K → K) (M_PI : K)
    (c : InputChecks K)
    (rest : String → String → String → Int → Nat → Nat → Nat → MaterialInput K →
      Option (Bool × MaterialInput K))
    (value unit : String) (line : Int) (super_index sub_index max_materials : Nat)
    (st : MaterialInput K) :
    match_material_parameter sqrt M_PI c rest
        "4-4-orthonormal-tesseral-harmonic-anisotropy-constant" value unit line super_index
        sub_index max_materials st
      = (c.check_for_valid_value (-c.atof value * (3.0 / 16.0) * sqrt (35.0 / M_PI))
          "4-4-orthonormal-tesseral-harmonic-anisotropy-constant" line "material:" unit "energy"
          (-1e-17) 1e-17 "material" " < +/-1.0e-17 J/atom").map
        (fun v => (true, { st with
          mp := Function.update st.mp super_index { st.mp super_index with k4r4 := v }
          enable_rotational_4_4_order := true })) := by
  simp [match_material_parameter]

theorem match_material_parameter_orthonormal_4_4_odd (sqrt : K → K) (M_PI : K)
    (c : InputChecks K)
    (rest : String → String → String → Int → Nat → Nat → Nat → MaterialInput K →
      Option (Bool × MaterialInput K))
    (value unit : String) (line : Int) (super_index sub_index max_materials : Nat)
    (st : MaterialInput K) :
    match_material_parameter sqrt M_PI c rest
        "4--4-orthonormal-tesseral-harmonic-anisotropy-constant" value unit line super_index
        sub_index max_materials st
      = (c.check_for_valid_value (c.atof value * (3.0 / 16.0) * sqrt (35.0 / M_PI))
          "4--4-orthonormal-tesseral-harmonic-anisotropy-constant" line "material:" unit "energy"
          (-1e-17) 1e-17 "material" " < +/-1.0e-17 J/atom").map
        (fun v => (true, { st with
          mp := Function.update st.mp super_index { st.mp super_index with k4r4_odd := v }
          enable_rotational_4_4_order_odd := true })) := by
  simp [match_material_parameter]

theorem match_material_parameter_orthonormal_6_1 (sqrt : K → K) (M_PI : K)
    (c : InputChecks K)
    (rest : String → String → String → Int → Nat → Nat → Nat → MaterialInput K →
      Option (Bool × MaterialInput K))
    (value unit : String) (line : Int) (super_index sub_index max_materials : Nat)
    (st : MaterialInput K) :
    match_material_parameter sqrt M_PI c rest
        "6-1-orthonormal-tesseral-harmonic-anisotropy-constant" value unit line super_index
        sub_index max_materials st
      = (c.check_for_valid_value (-c.atof value * (33.0 / 16.0) * sqrt (273.0 / M_PI))
          "6-1-orthonormal-tesseral-harmonic-anisotropy-constant" line "material:" unit "energy"
          (-1e-17) 1e-17 "material" " < +/-1.0e-17 J/atom").map
        (fun v => (true, { st with
          mp := Function.update st.mp super_index { st.mp super_index with k6r1 := v }
          enable_rotational_6_1_order := true })) := by
  simp [match_material_parameter]

theorem match_material_parameter_orthonormal_6_1_odd (sqrt : K → K) (M_PI : K)
    (c : InputChecks K)
    (rest : String → String → String → Int → Nat → Nat → Nat → MaterialInput K →
      Option (Bool × MaterialInput K))
    (value unit : String) (line : Int) (super_index sub_index max_materials : Nat)
    (st : MaterialInput K) :
    match_material_parameter sqrt M_PI c rest
        "6--1-orthonormal-tesseral-harmonic-anisotropy-constant" value unit line super_index
        sub_index max_materials st
      = (c.check_for_valid_value (-c.atof value * (33.0 / 16.0) * sqrt (273.0 / M_PI))
          "6--1-orthonormal-tesseral-harmonic-anisotropy-constant" line "material:" unit "energy"
          (-1e-17) 1e-17 "material" " < +/-1.0e-17 J/atom").map
        (fun v => (true, { st with
          mp := Function.update st.mp super_index { st.mp super_index with k6r1_odd := v }
          enable_rotational_6_1_order_odd := true })) := by
  simp [match_material_parameter]

theorem match_material_parameter_orthonormal_6_2 (sqrt : K → K) (M_PI : K)
    (c : InputChecks K)
    (rest : String → String → String → Int → Nat → Nat → Nat → MaterialInput K →
      Option (Bool × MaterialInput K))
    (value unit : String) (line : Int) (super_index sub_index max_materials : Nat)
    (st : MaterialInput K) :
    match_material_parameter sqrt M_PI c rest
        "6-2-orthonormal-tesseral-harmonic-anisotropy-constant" value unit line super_index
        sub_index max_materials st
      = (c.check_for_valid_value (-c.atof value * (33.0 / 64.0) * sqrt (2730.0 / M_PI))
          "6-2-orthonormal-tesseral-harmonic-anisotropy-constant" line "material:" unit "energy"
          (-1e-17) 1e-17 "material" " < +/-1.0e-17 J/atom").map
        (fun v => (true, { st with
          mp := Function.update st.mp super_index { st.mp super_index with k6r2 := v }
          enable_rotational_6_2_order := true })) := by
  simp [match_material_parameter]

theorem match_material_parameter_orthonormal_6_2_odd (sqrt : K → K) (M_PI : K)
    (c : InputChecks K)
    (rest : String → String → String → Int → Nat → Nat → Nat → MaterialInput K →
      Option (Bool × MaterialInput K))
    (value unit : String) (line : Int) (super_index sub_index max_materials : Nat)
    (st : MaterialInput K) :
    match_material_parameter sqrt M_PI c rest
        "6--2-orthonormal-tesseral-harmonic-anisotropy-constant" value unit line super_index
        sub_index max_materials st
      = (c.check_for_valid_value (-c.atof value * (33.0 / 64.0) * sqrt (2730.0 / M_PI))
          "6--2-orthonormal-tesseral-harmonic-anisotropy-constant" line "material:" unit "energy"
          (-1e-17) 1e-17 "material" " < +/-1.0e-17 J/atom").map
        (fun v => (true, { st with
          mp := Function.update st.mp super_index { st.mp super_index with k6r2_odd := v }
          enable_rotational_6_2_order_odd := true })) := by
  simp [match_material_parameter]

theorem match_material_parameter_orthonormal_6_3 (sqrt : K → K) (M_PI : K)
    (c : InputChecks K)
    (rest : String → String → String → Int → Nat → Nat → Nat → MaterialInput K →
      Option (Bool × MaterialInput K))
    (value unit : String) (line : Int) (super_index sub_index max_materials : Nat)
    (st : MaterialInput K) :
    match_material_parameter sqrt M_PI c rest
        "6-3-orthonormal-tesseral-harmonic-anisotropy-constant" value unit line super_index
        sub_index max_materials st
      = (c.check_for_valid_value (-c.atof value * (11.0 / 32.0) * sqrt (2730.0 / M_PI))
          "6-3-orthonormal-tesseral-harmonic-anisotropy-constant" line "material:" unit "energy"
          (-1e-17) 1e-17 "material" " < +/-1.0e-17 J/atom").map
        (fun v => (true, { st with
          mp := Function.update st.mp super_index { st.mp super_index with k6r3 := v }
          enable_rotational_6_3_order := true })) := by
  simp [match_material_parameter]

theorem match_material_parameter_orthonormal_6_3_odd (sqrt : K → K) (M_PI : K)
    (c : InputChecks K)
    (rest : String → String → String → Int → Nat → Nat → Nat → MaterialInput K →
      Option (Bool × MaterialInput K))
    (value unit : String) (line : Int) (super_index sub_index max_materials : Nat)
    (st : MaterialInput K) :
    match_material_parameter sqrt M_PI c rest
        "6--3-orthonormal-tesseral-harmonic-anisotropy-constant" value unit line super_index
        sub_index max_materials st
      = (c.check_for_valid_value (-c.atof value * (11.0 / 32.0) * sqrt (2730.0 / M_PI))
          "6--3-orthonormal-tesseral-harmonic-anisotropy-constant" line "material:" unit "energy"
          (-1e-17) 1e-17 "material" " < +/-1.0e-17 J/atom").map
        (fun v => (true, { st with
          mp := Function.update st.mp super_index { st.mp super_index with k6r3_odd := v }
          enable_rotational_6_3_order_odd := true })) := by
  simp [match_material_parameter]

theorem match_material_parameter_orthonormal_6_4 (sqrt : K → K) (M_PI : K)
    (c : InputChecks K)
    (rest : String → String → String → Int → Nat → Nat → Nat → MaterialInput K →
      Option (Bool × MaterialInput K))
    (value unit : String) (line : Int) (super_index sub_index max_materials : Nat)
    (st : MaterialInput K) :
    match_material_parameter sqrt M_PI c rest
        "6-4-orthonormal-tesseral-harmonic-anisotropy-constant" value unit line super_index
        sub_index max_materials st
      = (c.check_for_valid_value (-c.atof value * (3.0 * 11.0 / 32.0) * sqrt (91.0 / M_PI))
          "6-4-orthonormal-tesseral-harmonic-anisotropy-constant" line "material:" unit "energy"
          (-1e-17) 1e-17 "material" " < +/-1.0e-17 J/atom").map
        (fun v => (true, { st with
          mp := Function.update st.mp super_index { st.mp super_index with k6r4 := v }
          enable_rotational_6_4_order := true })) := by
  simp [match_material_parameter]

theorem match_material_parameter_orthonormal_6_4_odd (sqrt : K → K) (M_PI : K)
    (c : InputChecks K)
    (rest : String → String → String → Int → Nat → Nat → Nat → MaterialInput K →
      Option (Bool × MaterialInput K))
    (value unit : String) (line : Int) (super_index sub_index max_materials : Nat)
    (st : MaterialInput K) :
    match_material_parameter sqrt M_PI c rest
        "6--4-orthonormal-tesseral-harmonic-anisotropy-constant" value unit line super_index
        sub_index max_materials st
      = (c.check_for_valid_value (-c.atof value * (3.0 * 11.0 / 32.0) * sqrt (91.0 / M_PI))
          "6--4-orthonormal-tesseral-harmonic-anisotropy-constant" line "material:" unit "energy"
          (-1e-17) 1e-17 "material" " < +/-1.0e-17 J/atom").map
        (fun v => (true, { st with
          mp := Function.update st.mp super_index { st.mp super_index with k6r4_odd := v }
          enable_rotational_6_4_order_odd := true })) := by
  simp [match_material_parameter]

theorem match_material_parameter_orthonormal_6_5 (sqrt : K → K) (M_PI : K)
    (c : InputChecks K)
    (rest : String → String → String → Int → Nat → Nat → Nat → MaterialInput K →
      Option (Bool × MaterialInput K))
    (value unit : String) (line : Int) (super_index sub_index max_materials : Nat)
    (st : MaterialInput K) :
    match_material_parameter sqrt M_PI c rest
        "6-5-orthonormal-tesseral-harmonic-anisotropy-constant" value unit line super_index
        sub_index max_materials st
      = (c.check_for_valid_value (-c.atof value * (3.0 / 32.0) * sqrt (2002.0 / M_PI))
          "6-5-orthonormal-tesseral-harmonic-anisotropy-constant" line "material:" unit "energy"
          (-1e-17) 1e-17 "material" " < +/-1.0e-17 J/atom").map
        (fun v => (true, { st with
          mp := Function.update st.mp super_index { st.mp super_index with k6r5 := v }
          enable_rotational_6_5_order := true })) := by
  simp [match_material_parameter]

theorem match_material_parameter_orthonormal_6_5_odd (sqrt : K → K) (M_PI : K)
    (c : InputChecks K)
    (rest : String → String → String → Int → Nat → Nat → Nat → MaterialInput K →
      Option (Bool × MaterialInput K))
    (value unit : String) (line : Int) (super_index sub_index max_materials : Nat)
    (st : MaterialInput K) :
    match_material_parameter sqrt M_PI c rest
        "6--5-orthonormal-tesseral-harmonic-anisotropy-constant" value unit line super_index
        sub_index max_materials st
      = (c.check_for_valid_value (-c.atof value * (3.0 / 32.0) * sqrt (2002.0 / M_PI))
          "6--5-orthonormal-tesseral-harmonic-anisotropy-constant" line "material:" unit "energy"
          (-1e-17) 1e-17 "material" " < +/-1.0e-17 J/atom").map
        (fun v => (true, { st with
          mp := Function.update st.mp super_index { st.mp super_index with k6r5_odd := v }
          enable_rotational_6_5_order_odd := true })) := by
  simp [match_material_parameter]

theorem match_material_parameter_orthonormal_6_6 (sqrt : K → K) (M_PI : K)
    (c : InputChecks K)
    (rest : String → String → String → Int → Nat → Nat → Nat → MaterialInput K →
      Option (Bool × MaterialInput K))
    (value unit : String) (line : Int) (super_index sub_index max_materials : Nat)
    (st : MaterialInput K) :
    match_material_parameter sqrt M_PI c rest
        "6-6-orthonormal-tesseral-harmonic-anisotropy-constant" value unit line super_index
        sub_index max_materials st
      = (c.check_for_valid_value (-c.atof value * (1.0 / 64.0) * sqrt (6006.0 / M_PI))
          "6-6-orthonormal-tesseral-harmonic-anisotropy-constant" line "material:" unit "energy"
          (-1e-17) 1e-17 "material" " < +/-1.0e-17 J/atom").map
        (fun v => (true, { st with
          mp := Function.update st.mp super_index { st.mp super_index with k6r6 := v }
          enable_rotational_6_6_order := true })) := by
  simp [match_material_parameter]

theorem match_material_parameter_orthonormal_6_6_odd (sqrt : K → K) (M_PI : K)
    (c : InputChecks K)
    (rest : String → String → String → Int → Nat → Nat → Nat → MaterialInput K →
      Option (Bool × MaterialInput K))
    (value unit : String) (line : Int) (super_index sub_index max_materials : Nat)
    (st : MaterialInput K) :
    match_material_parameter sqrt M_PI c rest
        "6--6-orthonormal-tesseral-harmonic-anisotropy-constant" value unit line super_index
        sub_index max_materials st
      = (c.check_for_valid_value (-c.atof value * (1.0 / 64.0) * sqrt (6006.0 / M_PI))
          "6--6-orthonormal-tesseral-harmonic-anisotropy-constant" line "material:" unit "energy"
          (-1e-17) 1e-17 "material" " < +/-1.0e-17 J/atom").map
        (fun v => (true, { st with
          mp := Function.update st.mp super_index { st.mp super_index with k6r6_odd := v }
          enable_rotational_6_6_order_odd := true })) := by
  simp [match_material_parameter]

end MaterialParameterTheorems
section MaterialParameterClaim

variable {K : Type} [LinearOrderedField K]

theorem stored_constant_orthonormal_2_1 (sqrt : K → K) (M_PI : K) (atof : String → K)
    (rest : String → String → String → Int → Nat → Nat → Nat → MaterialInput K →
      Option (Bool × MaterialInput K))
    (value unit : String) (line : Int) (super_index sub_index max_materials : Nat)
    (st : MaterialInput K) :
    stored_constant AnisotropyConstants.k2r1 super_index
        (match_material_parameter sqrt M_PI (InputChecks.accepting atof) rest
          "2-1-orthonormal-tesseral-harmonic-anisotropy-constant" value unit line super_index
          sub_index max_materials st)
      = some (true, -atof value * (0.25) * sqrt (15.0 / M_PI)) := by
  rw [match_material_parameter_orthonormal_2_1]
  simp [stored_constant, InputChecks.accepting]

theorem stored_constant_orthonormal_2_1_odd (sqrt : K → K) (M_PI : K) (atof : String → K)
    (rest : String → String → String → Int → Nat → Nat → Nat → MaterialInput K →
      Option (Bool × MaterialInput K))
    (value unit : String) (line : Int) (super_index sub_index max_materials : Nat)
    (st : MaterialInput K) :
    stored_constant AnisotropyConstants.k2r1_odd super_index
        (match_material_parameter sqrt M_PI (InputChecks.accepting atof) rest
          "2--1-orthonormal-tesseral-harmonic-anisotropy-constant" value unit line super_index
          sub_index max_materials st)
      = some (true, -atof value * (0.25) * sqrt (15.0 / M_PI)) := by
  rw [match_material_parameter_orthonormal_2_1_odd]
  simp [stored_constant, InputChecks.accepting]

theorem stored_constant_orthonormal_2_2 (sqrt : K → K) (M_PI : K) (atof : String → K)
    (rest : String → String → String → Int → Nat → Nat → Nat → MaterialInput K →
      Option (Bool × MaterialInput K))
    (value unit : String) (line : Int) (super_index sub_index max_materials : Nat)
    (st : MaterialInput K) :
    stored_constant AnisotropyConstants.k2r2 super_index
        (match_material_parameter sqrt M_PI (InputChecks.accepting atof) rest
          "2-2-orthonormal-tesseral-harmonic-anisotropy-constant" value unit line super_index
          sub_index max_materials st)
      = some (true, -atof value * 0.25 * sqrt (15.0 / M_PI)) := by
  rw [match_material_parameter_orthonormal_2_2]
  simp [stored_constant, InputChecks.accepting]

theorem stored_constant_orthonormal_2_2_odd (sqrt : K → K) (M_PI : K) (atof : String → K)
    (rest : String → String → String → Int → Nat → Nat → Nat → MaterialInput K →
      Option (Bool × MaterialInput K))
    (value unit : String) (line : Int) (super_index sub_index max_materials : Nat)
    (st : MaterialInput K) :
    stored_constant AnisotropyConstants.k2r2_odd super_index
        (match_material_parameter sqrt M_PI (InputChecks.accepting atof) rest
          "2--2-orthonormal-tesseral-harmonic-anisotropy-constant" value unit line super_index
          sub_index max_materials st)
      = some (true, -atof value * 0.25 * sqrt (15.0 / M_PI)) := by
  rw [match_material_parameter_orthonormal_2_2_odd]
  simp [stored_constant, InputChecks.accepting]

theorem stored_constant_orthonormal_4_1 (sqrt : K → K) (M_PI : K) (atof : String → K)
    (rest : String → String → String → Int → Nat → Nat → Nat → MaterialInput K →
      Option (Bool × MaterialInput K))
    (value unit : String) (line : Int) (super_index sub_index max_materials : Nat)
    (st : MaterialInput K) :
    stored_constant AnisotropyConstants.k4r1 super_index
        (match_material_parameter sqrt M_PI (InputChecks.accepting atof) rest
          "4-1-orthonormal-tesseral-harmonic-anisotropy-constant" value unit line super_index
          sub_index max_materials st)
      = some (true, -atof value * (3.0 * 7.0 / 8.0) * sqrt (10.0 / M_PI)) := by
  rw [match_material_parameter_orthonormal_4_1]
  simp [stored_constant, InputChecks.accepting]

theorem stored_constant_orthonormal_4_1_odd (sqrt : K → K) (M_PI : K) (atof : String → K)
    (rest : String → String → String → Int → Nat → Nat → Nat → MaterialInput K →
      Option (Bool × MaterialInput K))
    (value unit : String) (line : Int) (super_index sub_index max_materials : Nat)
    (st : MaterialInput K) :
    stored_constant AnisotropyConstants.k4r1_odd super_index
        (match_material_parameter sqrt M_PI (InputChecks.accepting atof) rest
          "4--1-orthonormal-tesseral-harmonic-anisotropy-constant" value unit line super_index
          sub_index max_materials st)
      = some (true, -atof value * (3.0 * 7.0 / 8.0) * sqrt (10.0 / M_PI)) := by
  rw [match_material_parameter_orthonormal_4_1_odd]
  simp [stored_constant, InputChecks.accepting]

theorem stored_constant_orthonormal_4_2 (sqrt : K → K) (M_PI : K) (atof : String → K)
    (rest : String → String → String → Int → Nat → Nat → Nat → MaterialInput K →
      Option (Bool × MaterialInput K))
    (value unit : String) (line : Int) (super_index sub_index max_materials : Nat)
    (st : MaterialInput K) :
    stored_constant AnisotropyConstants.k4r2 super_index
        (match_material_parameter sqrt M_PI (InputChecks.accepting atof) rest
          "4-2-orthonormal-tesseral-harmonic-anisotropy-constant" value unit line super_index
          sub_index max_materials st)
      = some (true, -atof value * (3.0 * 7.0) * sqrt (5.0 / M_PI)) := by
  rw [match_material_parameter_orthonormal_4_2]
  simp [stored_constant, InputChecks.accepting]

theorem stored_constant_orthonormal_4_2_odd (sqrt : K → K) (M_PI : K) (atof : String → K)
    (rest : String → String → String → Int → Nat → Nat → Nat → MaterialInput K →
      Option (Bool × MaterialInput K))
    (value unit : String) (line : Int) (super_index sub_index max_materials : Nat)
    (st : MaterialInput K) :
    stored_constant AnisotropyConstants.k4r2_odd super_index
        (match_material_parameter sqrt M_PI (InputChecks.accepting atof) rest
          "4--2-orthonormal-tesseral-harmonic-anisotropy-constant" value unit line super_index
          sub_index max_materials st)
      = some (true, -atof value * (3.0 * 7.0) * sqrt (5.0 / M_PI)) := by
  rw [match_material_parameter_orthonormal_4_2_odd]
  simp [stored_constant, InputChecks.accepting]

theorem stored_constant_orthonormal_4_3 (sqrt : K → K) (M_PI : K) (atof : String → K)
    (rest : String → String → String → Int → Nat → Nat → Nat → MaterialInput K →
      Option (Bool × MaterialInput K))
    (value unit : String) (line : Int) (super_index sub_index max_materials : Nat)
    (st : MaterialInput K) :
    stored_constant AnisotropyConstants.k4r3 super_index
        (match_material_parameter sqrt M_PI (InputChecks.accepting atof) rest
          "4-3-orthonormal-tesseral-harmonic-anisotropy-constant" value unit line super_index
          sub_index max_materials st)
      = some (true, -atof value * (3.0 / 8.0) * sqrt (70.0 / M_PI)) := by
  rw [match_material_parameter_orthonormal_4_3]
  simp [stored_constant, InputChecks.accepting]

theorem stored_constant_orthonormal_4_3_odd (sqrt : K → K) (M_PI : K) (atof : String → K)
    (rest : String → String → String → Int → Nat → Nat → Nat → MaterialInput K →
      Option (Bool × MaterialInput K))
    (value unit : String) (line : Int) (super_index sub_index max_materials : Nat)
    (st : MaterialInput K) :
    stored_constant AnisotropyConstants.k4r3_odd super_index
        (match_material_parameter sqrt M_PI (InputChecks.accepting atof) rest
          "4--3-orthonormal-tesseral-harmonic-anisotropy-constant" value unit line super_index
          sub_index max_materials st)
      = some (true, -atof value * (3.0 / 8.0) * sqrt (70.0 / M_PI)) := by
  rw [match_material_parameter_orthonormal_4_3_odd]
  simp [stored_constant, InputChecks.accepting]

theorem stored_constant_orthonormal_4_4 (sqrt : K → K) (M_PI : K) (atof : String → K)
    (rest : String → String → String → Int → Nat → Nat → Nat → MaterialInput K →
      Option (Bool × MaterialInput K))
    (value unit : String) (line : Int) (super_index sub_index max_materials : Nat)
    (st : MaterialInput K) :
    stored_constant AnisotropyConstants.k4r4 super_index
        (match_material_parameter sqrt M_PI (InputChecks.accepting atof) rest
          "4-4-orthonormal-tesseral-harmonic-anisotropy-constant" value unit line super_index
          sub_index max_materials st)
      = some (true, -atof value * (3.0 / 16.0) * sqrt (35.0 / M_PI)) := by
  rw [match_material_parameter_orthonormal_4_4]
  simp [stored_constant, InputChecks.accepting]

theorem stored_constant_orthonormal_4_4_odd (sqrt : K → K) (M_PI : K) (atof : String → K)
    (rest : String → String → String → Int → Nat → Nat → Nat → MaterialInput K →
      Option (Bool × MaterialInput K))
    (value unit : String) (line : Int) (super_index sub_index max_materials : Nat)
    (st : MaterialInput K) :
    stored_constant AnisotropyConstants.k4r4_odd super_index
        (match_material_parameter sqrt M_PI (InputChecks.accepting atof) rest
          "4--4-orthonormal-tesseral-harmonic-anisotropy-constant" value unit line super_index
          sub_index max_materials st)
      = some (true, atof value * (3.0 / 16.0) * sqrt (35.0 / M_PI)) := by
  rw [match_material_parameter_orthonormal_4_4_odd]
  simp [stored_constant, InputChecks.accepting]

theorem stored_constant_orthonormal_6_1 (sqrt : K → K) (M_PI : K) (atof : String → K)
    (rest : String → String → String → Int → Nat → Nat → Nat → MaterialInput K →
      Option (Bool × MaterialInput K))
    (value unit : String) (line : Int) (super_index sub_index max_materials : Nat)
    (st : MaterialInput K) :
    stored_constant AnisotropyConstants.k6r1 super_index
        (match_material_parameter sqrt M_PI (InputChecks.accepting atof) rest
          "6-1-orthonormal-tesseral-harmonic-anisotropy-constant" value unit line super_index
          sub_index max_materials st)
      = some (true, -atof value * (33.0 / 16.0) * sqrt (273.0 / M_PI)) := by
  rw [match_material_parameter_orthonormal_6_1]
  simp [stored_constant, InputChecks.accepting]

theorem stored_constant_orthonormal_6_1_odd (sqrt : K → K) (M_PI : K) (atof : String → K)
    (rest : String → String → String → Int → Nat → Nat → Nat → MaterialInput K →
      Option (Bool × MaterialInput K))
    (value unit : String) (line : Int) (super_index sub_index max_materials : Nat)
    (st : MaterialInput K) :
    stored_constant AnisotropyConstants.k6r1_odd super_index
        (match_material_parameter sqrt M_PI (InputChecks.accepting atof) rest
          "6--1-orthonormal-tesseral-harmonic-anisotropy-constant" value unit line super_index
          sub_index max_materials st)
      = some (true, -atof value * (33.0 / 16.0) * sqrt (273.0 / M_PI)) := by
  rw [match_material_parameter_orthonormal_6_1_odd]
  simp [stored_constant, InputChecks.accepting]

theorem stored_constant_orthonormal_6_2 (sqrt : K → K) (M_PI : K) (atof : String → K)
    (rest : String → String → String → Int → Nat → Nat → Nat → MaterialInput K →
      Option (Bool × MaterialInput K))
    (value unit : String) (line : Int) (super_index sub_index max_materials : Nat)
    (st : MaterialInput K) :
    stored_constant AnisotropyConstants.k6r2 super_index
        (match_material_parameter sqrt M_PI (InputChecks.accepting atof) rest
          "6-2-orthonormal-tesseral-harmonic-anisotropy-constant" value unit line super_index
          sub_index max_materials st)
      = some (true, -atof value * (33.0 / 64.0) * sqrt (2730.0 / M_PI)) := by
  rw [match_material_parameter_orthonormal_6_2]
  simp [stored_constant, InputChecks.accepting]

theorem stored_constant_orthonormal_6_2_odd (sqrt : K → K) (M_PI : K) (atof : String → K)
    (rest : String → String → String → Int → Nat → Nat → Nat → MaterialInput K →
      Option (Bool × MaterialInput K))
    (value unit : String) (line : Int) (super_index sub_index max_materials : Nat)
    (st : MaterialInput K) :
    stored_constant AnisotropyConstants.k6r2_odd super_index
        (match_material_parameter sqrt M_PI (InputChecks.accepting atof) rest
          "6--2-orthonormal-tesseral-harmonic-anisotropy-constant" value unit line super_index
          sub_index max_materials st)
      = some (true, -atof value * (33.0 / 64.0) * sqrt (2730.0 / M_PI)) := by
  rw [match_material_parameter_orthonormal_6_2_odd]
  simp [stored_constant, InputChecks.accepting]

theorem stored_constant_orthonormal_6_3 (sqrt : K → K) (M_PI : K) (atof : String → K)
    (rest : String → String → String → Int → Nat → Nat → Nat → MaterialInput K →
      Option (Bool × MaterialInput K))
    (value unit : String) (line : Int) (super_index sub_index max_materials : Nat)
    (st : MaterialInput K) :
    stored_constant AnisotropyConstants.k6r3 super_index
        (match_material_parameter sqrt M_PI (InputChecks.accepting atof) rest
          "6-3-orthonormal-tesseral-harmonic-anisotropy-constant" value unit line super_index
          sub_index max_materials st)
      = some (true, -atof value * (11.0 / 32.0) * sqrt (2730.0 / M_PI)) := by
  rw [match_material_parameter_orthonormal_6_3]
  simp [stored_constant, InputChecks.accepting]

theorem stored_constant_orthonormal_6_3_odd (sqrt : K → K) (M_PI : K) (atof : String → K)
    (rest : String → String → String → Int → Nat → Nat → Nat → MaterialInput K →
      Option (Bool × MaterialInput K))
    (value unit : String) (line : Int) (super_index sub_index max_materials : Nat)
    (st : MaterialInput K) :
    stored_constant AnisotropyConstants.k6r3_odd super_index
        (match_material_parameter sqrt M_PI (InputChecks.accepting atof) rest
          "6--3-orthonormal-tesseral-harmonic-anisotropy-constant" value unit line super_index
          sub_index max_materials st)
      = some (true, -atof value * (11.0 / 32.0) * sqrt (2730.0 / M_PI)) := by
  rw [match_material_parameter_orthonormal_6_3_odd]
  simp [stored_constant, InputChecks.accepting]

theorem stored_constant_orthonormal_6_4 (sqrt : K → K) (M_PI : K) (atof : String → K)
    (rest : String → String → String → Int → Nat → Nat → Nat → MaterialInput K →
      Option (Bool × MaterialInput K))
    (value unit : String) (line : Int) (super_index sub_index max_materials : Nat)
    (st : MaterialInput K) :
    stored_constant AnisotropyConstants.k6r4 super_index
        (match_material_parameter sqrt M_PI (InputChecks.accepting atof) rest
          "6-4-orthonormal-tesseral-harmonic-anisotropy-constant" value unit line super_index
          sub_index max_materials st)
      = some (true, -atof value * (3.0 * 11.0 / 32.0) * sqrt (91.0 / M_PI)) := by
  rw [match_material_parameter_orthonormal_6_4]
  simp [stored_constant, InputChecks.accepting]

theorem stored_constant_orthonormal_6_4_odd (sqrt : K → K) (M_PI : K) (atof : String → K)
    (rest : String → String → String → Int → Nat → Nat → Nat → MaterialInput K →
      Option (Bool × MaterialInput K))
    (value unit : String) (line : Int) (super_index sub_index max_materials : Nat)
    (st : MaterialInput K) :
    stored_constant AnisotropyConstants.k6r4_odd super_index
        (match_material_parameter sqrt M_PI (InputChecks.accepting atof) rest
          "6--4-orthonormal-tesseral-harmonic-anisotropy-constant" value unit line super_index
          sub_index max_materials st)
      = some (true, -atof value * (3.0 * 11.0 / 32.0) * sqrt (91.0 / M_PI)) := by
  rw [match_material_parameter_orthonormal_6_4_odd]
  simp [stored_constant, InputChecks.accepting]

theorem stored_constant_orthonormal_6_5 (sqrt : K → K) (M_PI : K) (atof : String → K)
    (rest : String → String → String → Int → Nat → Nat → Nat → MaterialInput K →
      Option (Bool × MaterialInput K))
    (value unit : String) (line : Int) (super_index sub_index max_materials : Nat)
    (st : MaterialInput K) :
    stored_constant AnisotropyConstants.k6r5 super_index
        (match_material_parameter sqrt M_PI (InputChecks.accepting atof) rest
          "6-5-orthonormal-tesseral-harmonic-anisotropy-constant" value unit line super_index
          sub_index max_materials st)
      = some (true, -atof value * (3.0 / 32.0) * sqrt (2002.0 / M_PI)) := by
  rw [match_material_parameter_orthonormal_6_5]
  simp [stored_constant, InputChecks.accepting]

theorem stored_constant_orthonormal_6_5_odd (sqrt : K → K) (M_PI : K) (atof : String → K)
    (rest : String → String → String → Int → Nat → Nat → Nat → MaterialInput K →
      Option (Bool × MaterialInput K))
    (value unit : String) (line : Int) (super_index sub_index max_materials : Nat)
    (st : MaterialInput K) :
    stored_constant AnisotropyConstants.k6r5_odd super_index
        (match_material_parameter sqrt M_PI (InputChecks.accepting atof) rest
          "6--5-orthonormal-tesseral-harmonic-anisotropy-constant" value unit line super_index
          sub_index max_materials st)
      = some (true, -atof value * (3.0 / 32.0) * sqrt (2002.0 / M_PI)) := by
  rw [match_material_parameter_orthonormal_6_5_odd]
  simp [stored_constant, InputChecks.accepting]

theorem stored_constant_orthonormal_6_6 (sqrt : K → K) (M_PI : K) (atof : String → K)
    (rest : String → String → String → Int → Nat → Nat → Nat → MaterialInput K →
      Option (Bool × MaterialInput K))
    (value unit : String) (line : Int) (super_index sub_index max_materials : Nat)
    (st : MaterialInput K) :
    stored_constant AnisotropyConstants.k6r6 super_index
        (match_material_parameter sqrt M_PI (InputChecks.accepting atof) rest
          "6-6-orthonormal-tesseral-harmonic-anisotropy-constant" value unit line super_index
          sub_index max_materials st)
      = some (true, -atof value * (1.0 / 64.0) * sqrt (6006.0 / M_PI)) := by
  rw [match_material_parameter_orthonormal_6_6]
  simp [stored_constant, InputChecks.accepting]

theorem stored_constant_orthonormal_6_6_odd (sqrt : K → K) (M_PI : K) (atof : String → K)
    (rest : String → String → String → Int → Nat → Nat → Nat → MaterialInput K →
      Option (Bool × MaterialInput K))
    (value unit : String) (line : Int) (super_index sub_index max_materials : Nat)
    (st : MaterialInput K) :
    stored_constant AnisotropyConstants.k6r6_odd super_index
        (match_material_parameter sqrt M_PI (InputChecks.accepting atof) rest
          "6--6-orthonormal-tesseral-harmonic-anisotropy-constant" value unit line super_index
          sub_index max_materials st)
      = some (true, -atof value * (1.0 / 64.0) * sqrt (6006.0 / M_PI)) := by
  rw [match_material_parameter_orthonormal_6_6_odd]
  simp [stored_constant, InputChecks.accepting]

/-- The constants stored by the twelve pairs of orthonormal keywords when the check accepts
the value as it is. -/
theorem stored_constant_orthonormal_pairs (sqrt : K → K) (M_PI : K) (atof : String → K)
    (rest : String → String → String → Int → Nat → Nat → Nat → MaterialInput K →
      Option (Bool × MaterialInput K))
    (value unit : String) (line : Int) (super_index sub_index max_materials : Nat)
    (st : MaterialInput K) :
    stored_constant AnisotropyConstants.k2r1 super_index
        (match_material_parameter sqrt M_PI (InputChecks.accepting atof) rest
          "2-1-orthonormal-tesseral-harmonic-anisotropy-constant" value unit line super_index
          sub_index max_materials st)
      = some (true, -atof value * (0.25) * sqrt (15.0 / M_PI))
    ∧
    stored_constant AnisotropyConstants.k2r1_odd super_index
        (match_material_parameter sqrt M_PI (InputChecks.accepting atof) rest
          "2--1-orthonormal-tesseral-harmonic-anisotropy-constant" value unit line super_index
          sub_index max_materials st)
      = some (true, -atof value * (0.25) * sqrt (15.0 / M_PI))
    ∧
    stored_constant AnisotropyConstants.k2r2 super_index
        (match_material_parameter sqrt M_PI (InputChecks.accepting atof) rest
          "2-2-orthonormal-tesseral-harmonic-anisotropy-constant" value unit line super_index
          sub_index max_materials st)
      = some (true, -atof value * 0.25 * sqrt (15.0 / M_PI))
    ∧
    stored_constant AnisotropyConstants.k2r2_odd super_index
        (match_material_parameter sqrt M_PI (InputChecks.accepting atof) rest
          "2--2-orthonormal-tesseral-harmonic-anisotropy-constant" value unit line super_index
          sub_index max_materials st)
      = some (true, -atof value * 0.25 * sqrt (15.0 / M_PI))
    ∧
    stored_constant AnisotropyConstants.k4r1 super_index
        (match_material_parameter sqrt M_PI (InputChecks.accepting atof) rest
          "4-1-orthonormal-tesseral-harmonic-anisotropy-constant" value unit line super_index
          sub_index max_materials st)
      = some (true, -atof value * (3.0 * 7.0 / 8.0) * sqrt (10.0 / M_PI))
    ∧
    stored_constant AnisotropyConstants.k4r1_odd super_index
        (match_material_parameter sqrt M_PI (InputChecks.accepting atof) rest
          "4--1-orthonormal-tesseral-harmonic-anisotropy-constant" value unit line super_index
          sub_index max_materials st)
      = some (true, -atof value * (3.0 * 7.0 / 8.0) * sqrt (10.0 / M_PI))
    ∧
    stored_constant AnisotropyConstants.k4r2 super_index
        (match_material_parameter sqrt M_PI (InputChecks.accepting atof) rest
          "4-2-orthonormal-tesseral-harmonic-anisotropy-constant" value unit line super_index
          sub_index max_materials st)
      = some (true, -atof value * (3.0 * 7.0) * sqrt (5.0 / M_PI))
    ∧
    stored_constant AnisotropyConstants.k4r2_odd super_index
        (match_material_parameter sqrt M_PI (InputChecks.accepting atof) rest
          "4--2-orthonormal-tesseral-harmonic-anisotropy-constant" value unit line super_index
          sub_index max_materials st)
      = some (true, -atof value * (3.0 * 7.0) * sqrt (5.0 / M_PI))
    ∧
    stored_constant AnisotropyConstants.k4r3 super_index
        (match_material_parameter sqrt M_PI (InputChecks.accepting atof) rest
          "4-3-orthonormal-tesseral-harmonic-anisotropy-constant" value unit line super_index
          sub_index max_materials st)
      = some (true, -atof value * (3.0 / 8.0) * sqrt (70.0 / M_PI))
    ∧
    stored_constant AnisotropyConstants.k4r3_odd super_index
        (match_material_parameter sqrt M_PI (InputChecks.accepting atof) rest
          "4--3-orthonormal-tesseral-harmonic-anisotropy-constant" value unit line super_index
          sub_index max_materials st)
      = some (true, -atof value * (3.0 / 8.0) * sqrt (70.0 / M_PI))
    ∧
    stored_constant AnisotropyConstants.k4r4 super_index
        (match_material_parameter sqrt M_PI (InputChecks.accepting atof) rest
          "4-4-orthonormal-tesseral-harmonic-anisotropy-constant" value unit line super_index
          sub_index max_materials st)
      = some (true, -atof value * (3.0 / 16.0) * sqrt (35.0 / M_PI))
    ∧
    stored_constant AnisotropyConstants.k4r4_odd super_index
        (match_material_parameter sqrt M_PI (InputChecks.accepting atof) rest
          "4--4-orthonormal-tesseral-harmonic-anisotropy-constant" value unit line super_index
          sub_index max_materials st)
      = some (true, atof value * (3.0 / 16.0) * sqrt (35.0 / M_PI))
    ∧
    stored_constant AnisotropyConstants.k6r1 super_index
        (match_material_parameter sqrt M_PI (InputChecks.accepting atof) rest
          "6-1-orthonormal-tesseral-harmonic-anisotropy-constant" value unit line super_index
          sub_index max_materials st)
      = some (true, -atof value * (33.0 / 16.0) * sqrt (273.0 / M_PI))
    ∧
    stored_constant AnisotropyConstants.k6r1_odd super_index
        (match_material_parameter sqrt M_PI (InputChecks.accepting atof) rest
          "6--1-orthonormal-tesseral-harmonic-anisotropy-constant" value unit line super_index
          sub_index max_materials st)
      = some (true, -atof value * (33.0 / 16.0) * sqrt (273.0 / M_PI))
    ∧
    stored_constant AnisotropyConstants.k6r2 super_index
        (match_material_parameter sqrt M_PI (InputChecks.accepting atof) rest
          "6-2-orthonormal-tesseral-harmonic-anisotropy-constant" value unit line super_index
          sub_index max_materials st)
      = some (true, -atof value * (33.0 / 64.0) * sqrt (2730.0 / M_PI))
    ∧
    stored_constant AnisotropyConstants.k6r2_odd super_index
        (match_material_parameter sqrt M_PI (InputChecks.accepting atof) rest
          "6--2-orthonormal-tesseral-harmonic-anisotropy-constant" value unit line super_index
          sub_index max_materials st)
      = some (true, -atof value * (33.0 / 64.0) * sqrt (2730.0 / M_PI))
    ∧
    stored_constant AnisotropyConstants.k6r3 super_index
        (match_material_parameter sqrt M_PI (InputChecks.accepting atof) rest
          "6-3-orthonormal-tesseral-harmonic-anisotropy-constant" value unit line super_index
          sub_index max_materials st)
      = some (true, -atof value * (11.0 / 32.0) * sqrt (2730.0 / M_PI))
    ∧
    stored_constant AnisotropyConstants.k6r3_odd super_index
        (match_material_parameter sqrt M_PI (InputChecks.accepting atof) rest
          "6--3-orthonormal-tesseral-harmonic-anisotropy-constant" value unit line super_index
          sub_index max_materials st)
      = some (true, -atof value * (11.0 / 32.0) * sqrt (2730.0 / M_PI))
    ∧
    stored_constant AnisotropyConstants.k6r4 super_index
        (match_material_parameter sqrt M_PI (InputChecks.accepting atof) rest
          "6-4-orthonormal-tesseral-harmonic-anisotropy-constant" value unit line super_index
          sub_index max_materials st)
      = some (true, -atof value * (3.0 * 11.0 / 32.0) * sqrt (91.0 / M_PI))
    ∧
    stored_constant AnisotropyConstants.k6r4_odd super_index
        (match_material_parameter sqrt M_PI (InputChecks.accepting atof) rest
          "6--4-orthonormal-tesseral-harmonic-anisotropy-constant" value unit line super_index
          sub_index max_materials st)
      = some (true, -atof value * (3.0 * 11.0 / 32.0) * sqrt (91.0 / M_PI))
    ∧
    stored_constant AnisotropyConstants.k6r5 super_index
        (match_material_parameter sqrt M_PI (InputChecks.accepting atof) rest
          "6-5-orthonormal-tesseral-harmonic-anisotropy-constant" value unit line super_index
          sub_index max_materials st)
      = some (true, -atof value * (3.0 / 32.0) * sqrt (2002.0 / M_PI))
    ∧
    stored_constant AnisotropyConstants.k6r5_odd super_index
        (match_material_parameter sqrt M_PI (InputChecks.accepting atof) rest
          "6--5-orthonormal-tesseral-harmonic-anisotropy-constant" value unit line super_index
          sub_index max_materials st)
      = some (true, -atof value * (3.0 / 32.0) * sqrt (2002.0 / M_PI))
    ∧
    stored_constant AnisotropyConstants.k6r6 super_index
        (match_material_parameter sqrt M_PI (InputChecks.accepting atof) rest
          "6-6-orthonormal-tesseral-harmonic-anisotropy-constant" value unit line super_index
          sub_index max_materials st)
      = some (true, -atof value * (1.0 / 64.0) * sqrt (6006.0 / M_PI))
    ∧
    stored_constant AnisotropyConstants.k6r6_odd super_index
        (match_material_parameter sqrt M_PI (InputChecks.accepting atof) rest
          "6--6-orthonormal-tesseral-harmonic-anisotropy-constant" value unit line super_index
          sub_index max_materials st)
      = some (true, -atof value * (1.0 / 64.0) * sqrt (6006.0 / M_PI)) :=
  ⟨stored_constant_orthonormal_2_1 sqrt M_PI atof rest value unit line super_index
    sub_index max_materials st,
   stored_constant_orthonormal_2_1_odd sqrt M_PI atof rest value unit line super_index
    sub_index max_materials st,
   stored_constant_orthonormal_2_2 sqrt M_PI atof rest value unit line super_index
    sub_index max_materials st,
   stored_constant_orthonormal_2_2_odd sqrt M_PI atof rest value unit line super_index
    sub_index max_materials st,
   stored_constant_orthonormal_4_1 sqrt M_PI atof rest value unit line super_index
    sub_index max_materials st,
   stored_constant_orthonormal_4_1_odd sqrt M_PI atof rest value unit line super_index
    sub_index max_materials st,
   stored_constant_orthonormal_4_2 sqrt M_PI atof rest value unit line super_index
    sub_index max_materials st,
   stored_constant_orthonormal_4_2_odd sqrt M_PI atof rest value unit line super_index
    sub_index max_materials st,
   stored_constant_orthonormal_4_3 sqrt M_PI atof rest value unit line super_index
    sub_index max_materials st,
   stored_constant_orthonormal_4_3_odd sqrt M_PI atof rest value unit line super_index
    sub_index max_materials st,
   stored_constant_orthonormal_4_4 sqrt M_PI atof rest value unit line super_index
    sub_index max_materials st,
   stored_constant_orthonormal_4_4_odd sqrt M_PI atof rest value unit line super_index
    sub_index max_materials st,
   stored_constant_orthonormal_6_1 sqrt M_PI atof rest value unit line super_index
    sub_index max_materials st,
   stored_constant_orthonormal_6_1_odd sqrt M_PI atof rest value unit line super_index
    sub_index max_materials st,
   stored_constant_orthonormal_6_2 sqrt M_PI atof rest value unit line super_index
    sub_index max_materials st,
   stored_constant_orthonormal_6_2_odd sqrt M_PI atof rest value unit line super_index
    sub_index max_materials st,
   stored_constant_orthonormal_6_3 sqrt M_PI atof rest value unit line super_index
    sub_index max_materials st,
   stored_constant_orthonormal_6_3_odd sqrt M_PI atof rest value unit line super_index
    sub_index max_materials st,
   stored_constant_orthonormal_6_4 sqrt M_PI atof rest value unit line super_index
    sub_index max_materials st,
   stored_constant_orthonormal_6_4_odd sqrt M_PI atof rest value unit line super_index
    sub_index max_materials st,
   stored_constant_orthonormal_6_5 sqrt M_PI atof rest value unit line super_index
    sub_index max_materials st,
   stored_constant_orthonormal_6_5_odd sqrt M_PI atof rest value unit line super_index
    sub_index max_materials st,
   stored_constant_orthonormal_6_6 sqrt M_PI atof rest value unit line super_index
    sub_index max_materials st,
   stored_constant_orthonormal_6_6_odd sqrt M_PI atof rest value unit line super_index
    sub_index max_materials st⟩

end MaterialParameterClaim
section MaterialParameterResult

/-- For the pair `4-4`, `4--4` the two stored constants agree only when the value read is
zero. -/
theorem stored_constant_orthonormal_4_4_differ (atof : String → ℝ)
    (rest : String → String → String → Int → Nat → Nat → Nat → MaterialInput ℝ →
      Option (Bool × MaterialInput ℝ))
    (value unit : String) (line : Int) (super_index sub_index max_materials : Nat)
    (st : MaterialInput ℝ) :
    (stored_constant AnisotropyConstants.k4r4 super_index
        (match_material_parameter Real.sqrt Real.pi (InputChecks.accepting atof) rest
          "4-4-orthonormal-tesseral-harmonic-anisotropy-constant" value unit line super_index
          sub_index max_materials st)
      = stored_constant AnisotropyConstants.k4r4_odd super_index
        (match_material_parameter Real.sqrt Real.pi (InputChecks.accepting atof) rest
          "4--4-orthonormal-tesseral-harmonic-anisotropy-constant" value unit line super_index
          sub_index max_materials st))
    ↔ atof value = 0 := by
  rw [stored_constant_orthonormal_4_4, stored_constant_orthonormal_4_4_odd]
  have hpos : 0 < Real.sqrt (35.0 / Real.pi) := by
    apply Real.sqrt_pos.mpr
    have := Real.pi_pos
    positivity
  simp only [Option.some.injEq, Prod.mk.injEq, true_and]
  constructor
  · intro h
    have h2 : atof value * ((3.0 / 16.0) * Real.sqrt (35.0 / Real.pi)) = 0 := by
      linear_combination (-1 / 2 : ℝ) * h
    rcases mul_eq_zero.mp h2 with h3 | h3
    · exact h3
    · exfalso
      have : 0 < (3.0 / 16.0 : ℝ) * Real.sqrt (35.0 / Real.pi) := by positivity
      exact absurd h3 (ne_of_gt this)
  · intro h
    rw [h]
    ring

/-- C34 (refuted on the code): with a check that accepts the value as it is, the keywords
`l-m-orthonormal-tesseral-harmonic-anisotropy-constant` and
`l--m-orthonormal-tesseral-harmonic-anisotropy-constant` store the same constant, the negative
of the value read times the normalisation factor, for the eleven pairs `2-1`, `2-2`, `4-1`,
`4-2`, `4-3`, `6-1`, ..., `6-6`; for the pair `4-4` the even keyword stores
`-value * (3/16) sqrt(35/pi)` and the odd keyword stores `+value * (3/16) sqrt(35/pi)`, so the
two constants are equal only when the value read is zero. -/
theorem match_material_parameter_orthonormal_4_4_odd_sign (atof : String → ℝ)
    (rest : String → String → String → Int → Nat → Nat → Nat → MaterialInput ℝ →
      Option (Bool × MaterialInput ℝ))
    (value unit : String) (line : Int) (super_index sub_index max_materials : Nat)
    (st : MaterialInput ℝ) :
    (
      stored_constant AnisotropyConstants.k2r1 super_index
          (match_material_parameter Real.sqrt Real.pi (InputChecks.accepting atof) rest
            "2-1-orthonormal-tesseral-harmonic-anisotropy-constant" value unit line super_index
            sub_index max_materials st)
        = some (true, -atof value * (0.25) * Real.sqrt (15.0 / Real.pi))
      ∧
      stored_constant AnisotropyConstants.k2r1_odd super_index
          (match_material_parameter Real.sqrt Real.pi (InputChecks.accepting atof) rest
            "2--1-orthonormal-tesseral-harmonic-anisotropy-constant" value unit line super_index
            sub_index max_materials st)
        = some (true, -atof value * (0.25) * Real.sqrt (15.0 / Real.pi))
      ∧
      stored_constant AnisotropyConstants.k2r2 super_index
          (match_material_parameter Real.sqrt Real.pi (InputChecks.accepting atof) rest
            "2-2-orthonormal-tesseral-harmonic-anisotropy-constant" value unit line super_index
            sub_index max_materials st)
        = some (true, -atof value * 0.25 * Real.sqrt (15.0 / Real.pi))
      ∧
      stored_constant AnisotropyConstants.k2r2_odd super_index
          (match_material_parameter Real.sqrt Real.pi (InputChecks.accepting atof) rest
            "2--2-orthonormal-tesseral-harmonic-anisotropy-constant" value unit line super_index
            sub_index max_materials st)
        = some (true, -atof value * 0.25 * Real.sqrt (15.0 / Real.pi))
      ∧
      stored_constant AnisotropyConstants.k4r1 super_index
          (match_material_parameter Real.sqrt Real.pi (InputChecks.accepting atof) rest
            "4-1-orthonormal-tesseral-harmonic-anisotropy-constant" value unit line super_index
            sub_index max_materials st)
        = some (true, -atof value * (3.0 * 7.0 / 8.0) * Real.sqrt (10.0 / Real.pi))
      ∧
      stored_constant AnisotropyConstants.k4r1_odd super_index
          (match_material_parameter Real.sqrt Real.pi (InputChecks.accepting atof) rest
            "4--1-orthonormal-tesseral-harmonic-anisotropy-constant" value unit line super_index
            sub_index max_materials st)
        = some (true, -atof value * (3.0 * 7.0 / 8.0) * Real.sqrt (10.0 / Real.pi))
      ∧
      stored_constant AnisotropyConstants.k4r2 super_index
          (match_material_parameter Real.sqrt Real.pi (InputChecks.accepting atof) rest
            "4-2-orthonormal-tesseral-harmonic-anisotropy-constant" value unit line super_index
            sub_index max_materials st)
        = some (true, -atof value * (3.0 * 7.0) * Real.sqrt (5.0 / Real.pi))
      ∧
      stored_constant AnisotropyConstants.k4r2_odd super_index
          (match_material_parameter Real.sqrt Real.pi (InputChecks.accepting atof) rest
            "4--2-orthonormal-tesseral-harmonic-anisotropy-constant" value unit line super_index
            sub_index max_materials st)
        = some (true, -atof value * (3.0 * 7.0) * Real.sqrt (5.0 / Real.pi))
      ∧
      stored_constant AnisotropyConstants.k4r3 super_index
          (match_material_parameter Real.sqrt Real.pi (InputChecks.accepting atof) rest
            "4-3-orthonormal-tesseral-harmonic-anisotropy-constant" value unit line super_index
            sub_index max_materials st)
        = some (true, -atof value * (3.0 / 8.0) * Real.sqrt (70.0 / Real.pi))
      ∧
      stored_constant AnisotropyConstants.k4r3_odd super_index
          (match_material_parameter Real.sqrt Real.pi (InputChecks.accepting atof) rest
            "4--3-orthonormal-tesseral-harmonic-anisotropy-constant" value unit line super_index
            sub_index max_materials st)
        = some (true, -atof value * (3.0 / 8.0) * Real.sqrt (70.0 / Real.pi))
      ∧
      stored_constant AnisotropyConstants.k4r4 super_index
          (match_material_parameter Real.sqrt Real.pi (InputChecks.accepting atof) rest
            "4-4-orthonormal-tesseral-harmonic-anisotropy-constant" value unit line super_index
            sub_index max_materials st)
        = some (true, -atof value * (3.0 / 16.0) * Real.sqrt (35.0 / Real.pi))
      ∧
      stored_constant AnisotropyConstants.k4r4_odd super_index
          (match_material_parameter Real.sqrt Real.pi (InputChecks.accepting atof) rest
            "4--4-orthonormal-tesseral-harmonic-anisotropy-constant" value unit line super_index
            sub_index max_materials st)
        = some (true, atof value * (3.0 / 16.0) * Real.sqrt (35.0 / Real.pi))
      ∧
      stored_constant AnisotropyConstants.k6r1 super_index
          (match_material_parameter Real.sqrt Real.pi (InputChecks.accepting atof) rest
            "6-1-orthonormal-tesseral-harmonic-anisotropy-constant" value unit line super_index
            sub_index max_materials st)
        = some (true, -atof value * (33.0 / 16.0) * Real.sqrt (273.0 / Real.pi))
      ∧
      stored_constant AnisotropyConstants.k6r1_odd super_index
          (match_material_parameter Real.sqrt Real.pi (InputChecks.accepting atof) rest
            "6--1-orthonormal-tesseral-harmonic-anisotropy-constant" value unit line super_index
            sub_index max_materials st)
        = some (true, -atof value * (33.0 / 16.0) * Real.sqrt (273.0 / Real.pi))
      ∧
      stored_constant AnisotropyConstants.k6r2 super_index
          (match_material_parameter Real.sqrt Real.pi (InputChecks.accepting atof) rest
            "6-2-orthonormal-tesseral-harmonic-anisotropy-constant" value unit line super_index
            sub_index max_materials st)
        = some (true, -atof value * (33.0 / 64.0) * Real.sqrt (2730.0 / Real.pi))
      ∧
      stored_constant AnisotropyConstants.k6r2_odd super_index
          (match_material_parameter Real.sqrt Real.pi (InputChecks.accepting atof) rest
            "6--2-orthonormal-tesseral-harmonic-anisotropy-constant" value unit line super_index
            sub_index max_materials st)
        = some (true, -atof value * (33.0 / 64.0) * Real.sqrt (2730.0 / Real.pi))
      ∧
      stored_constant AnisotropyConstants.k6r3 super_index
          (match_material_parameter Real.sqrt Real.pi (InputChecks.accepting atof) rest
            "6-3-orthonormal-tesseral-harmonic-anisotropy-constant" value unit line super_index
            sub_index max_materials st)
        = some (true, -atof value * (11.0 / 32.0) * Real.sqrt (2730.0 / Real.pi))
      ∧
      stored_constant AnisotropyConstants.k6r3_odd super_index
          (match_material_parameter Real.sqrt Real.pi (InputChecks.accepting atof) rest
            "6--3-orthonormal-tesseral-harmonic-anisotropy-constant" value unit line super_index
            sub_index max_materials st)
        = some (true, -atof value * (11.0 / 32.0) * Real.sqrt (2730.0 / Real.pi))
      ∧
      stored_constant AnisotropyConstants.k6r4 super_index
          (match_material_parameter Real.sqrt Real.pi (InputChecks.accepting atof) rest
            "6-4-orthonormal-tesseral-harmonic-anisotropy-constant" value unit line super_index
            sub_index max_materials st)
        = some (true, -atof value * (3.0 * 11.0 / 32.0) * Real.sqrt (91.0 / Real.pi))
      ∧
      stored_constant AnisotropyConstants.k6r4_odd super_index
          (match_material_parameter Real.sqrt Real.pi (InputChecks.accepting atof) rest
            "6--4-orthonormal-tesseral-harmonic-anisotropy-constant" value unit line super_index
            sub_index max_materials st)
        = some (true, -atof value * (3.0 * 11.0 / 32.0) * Real.sqrt (91.0 / Real.pi))
      ∧
      stored_constant AnisotropyConstants.k6r5 super_index
          (match_material_parameter Real.sqrt Real.pi (InputChecks.accepting atof) rest
            "6-5-orthonormal-tesseral-harmonic-anisotropy-constant" value unit line super_index
            sub_index max_materials st)
        = some (true, -atof value * (3.0 / 32.0) * Real.sqrt (2002.0 / Real.pi))
      ∧
      stored_constant AnisotropyConstants.k6r5_odd super_index
          (match_material_parameter Real.sqrt Real.pi (InputChecks.accepting atof) rest
            "6--5-orthonormal-tesseral-harmonic-anisotropy-constant" value unit line super_index
            sub_index max_materials st)
        = some (true, -atof value * (3.0 / 32.0) * Real.sqrt (2002.0 / Real.pi))
      ∧
      stored_constant AnisotropyConstants.k6r6 super_index
          (match_material_parameter Real.sqrt Real.pi (InputChecks.accepting atof) rest
            "6-6-orthonormal-tesseral-harmonic-anisotropy-constant" value unit line super_index
            sub_index max_materials st)
        = some (true, -atof value * (1.0 / 64.0) * Real.sqrt (6006.0 / Real.pi))
      ∧
      stored_constant AnisotropyConstants.k6r6_odd super_index
          (match_material_parameter Real.sqrt Real.pi (InputChecks.accepting atof) rest
            "6--6-orthonormal-tesseral-harmonic-anisotropy-constant" value unit line super_index
            sub_index max_materials st)
        = some (true, -atof value * (1.0 / 64.0) * Real.sqrt (6006.0 / Real.pi)))
    ∧ ((stored_constant AnisotropyConstants.k4r4 super_index
        (match_material_parameter Real.sqrt Real.pi (InputChecks.accepting atof) rest
          "4-4-orthonormal-tesseral-harmonic-anisotropy-constant" value unit line super_index
          sub_index max_materials st)
        = stored_constant AnisotropyConstants.k4r4_odd super_index
        (match_material_parameter Real.sqrt Real.pi (InputChecks.accepting atof) rest
          "4--4-orthonormal-tesseral-harmonic-anisotropy-constant" value unit line super_index
          sub_index max_materials st))
      ↔ atof value = 0) :=
  ⟨stored_constant_orthonormal_pairs Real.sqrt Real.pi atof rest value unit line super_index
      sub_index max_materials st,
   stored_constant_orthonormal_4_4_differ atof rest value unit line super_index sub_index
      max_materials st⟩

end MaterialParameterResult
section KernelGlobals

variable {K : Type} [LinearOrderedField K]

/-- The field kernels read neither `sim::time` nor `sim::H_applied`. -/
theorem compute_exchange_neighbour_globals (sqrt : K → K) (env : Env K) (lat : Lattice K)
    (t : Nat) (h : K) :
    compute_exchange_neighbour sqrt { env with time := t } { lat with H_applied := h }
      = compute_exchange_neighbour sqrt env lat := by
  funext cfg i n a
  simp only [compute_exchange_neighbour, separation]

theorem compute_sld_coupling_neighbour_globals (sqrt : K → K) (env : Env K) (lat : Lattice K)
    (t : Nat) (h : K) :
    compute_sld_coupling_neighbour sqrt { env with time := t } { lat with H_applied := h }
      = compute_sld_coupling_neighbour sqrt env lat := by
  funext cfg i n a
  simp only [compute_sld_coupling_neighbour, separation]

theorem compute_sld_coupling_neel_neighbour_globals (sqrt : K → K) (env : Env K)
    (lat : Lattice K) (t : Nat) (h : K) :
    compute_sld_coupling_neel_neighbour sqrt { env with time := t } { lat with H_applied := h }
      = compute_sld_coupling_neel_neighbour sqrt env lat := by
  funext cfg i n a
  simp only [compute_sld_coupling_neel_neighbour, separation]

theorem compute_exchange_sums_globals (sqrt : K → K) (env : Env K) (lat : Lattice K)
    (t : Nat) (h : K) :
    compute_exchange_sums sqrt { env with time := t } { lat with H_applied := h }
      = compute_exchange_sums sqrt env lat := by
  funext cfg i
  simp only [compute_exchange_sums, compute_exchange_neighbour_globals]

theorem compute_sld_coupling_sums_globals (sqrt : K → K) (env : Env K) (lat : Lattice K)
    (t : Nat) (h : K) :
    compute_sld_coupling_sums sqrt { env with time := t } { lat with H_applied := h }
      = compute_sld_coupling_sums sqrt env lat := by
  funext cfg i
  simp only [compute_sld_coupling_sums, compute_sld_coupling_neighbour_globals]

theorem compute_sld_coupling_neel_sums_globals (sqrt : K → K) (env : Env K) (lat : Lattice K)
    (t : Nat) (h : K) :
    compute_sld_coupling_neel_sums sqrt { env with time := t } { lat with H_applied := h }
      = compute_sld_coupling_neel_sums sqrt env lat := by
  funext cfg i
  simp only [compute_sld_coupling_neel_sums, compute_sld_coupling_neel_neighbour_globals]

theorem compute_exchange_atom_globals (sqrt : K → K) (env : Env K) (lat : Lattice K)
    (t : Nat) (h : K) :
    compute_exchange_atom sqrt { env with time := t } { lat with H_applied := h }
      = compute_exchange_atom sqrt env lat := by
  funext i st
  simp only [compute_exchange_atom, compute_exchange_sums_globals]

theorem compute_exchange_globals (sqrt : K → K) (env : Env K) (lat : Lattice K)
    (t : Nat) (h : K) :
    compute_exchange sqrt { env with time := t } { lat with H_applied := h }
      = compute_exchange sqrt env lat := by
  funext a b st
  simp only [compute_exchange, compute_exchange_atom_globals]

theorem compute_sld_coupling_atom_globals (sqrt : K → K) (env : Env K) (lat : Lattice K)
    (t : Nat) (h : K) :
    compute_sld_coupling_atom sqrt { env with time := t } { lat with H_applied := h }
      = compute_sld_coupling_atom sqrt env lat := by
  funext i st
  simp only [compute_sld_coupling_atom, compute_sld_coupling_sums_globals]

theorem compute_sld_coupling_globals (sqrt : K → K) (env : Env K) (lat : Lattice K)
    (t : Nat) (h : K) :
    compute_sld_coupling sqrt { env with time := t } { lat with H_applied := h }
      = compute_sld_coupling sqrt env lat := by
  funext a b st
  simp only [compute_sld_coupling, compute_sld_coupling_atom_globals]

theorem compute_sld_coupling_neel_atom_globals (sqrt : K → K) (env : Env K) (lat : Lattice K)
    (t : Nat) (h : K) :
    compute_sld_coupling_neel_atom sqrt { env with time := t } { lat with H_applied := h }
      = compute_sld_coupling_neel_atom sqrt env lat := by
  funext i st
  simp only [compute_sld_coupling_neel_atom, compute_sld_coupling_neel_sums_globals]

theorem compute_sld_coupling_neel_globals (sqrt : K → K) (env : Env K) (lat : Lattice K)
    (t : Nat) (h : K) :
    compute_sld_coupling_neel sqrt { env with time := t } { lat with H_applied := h }
      = compute_sld_coupling_neel sqrt env lat := by
  funext a b st
  simp only [compute_sld_coupling_neel, compute_sld_coupling_neel_atom_globals]

theorem anisotropy_fields_globals (env : Env K) (lat : Lattice K) (t : Nat) (h : K) :
    anisotropy_fields { env with time := t } { lat with H_applied := h }
      = anisotropy_fields env lat := by
  have e : ∀ term, anisotropy_term_atom { env with time := t } term
      = anisotropy_term_atom env term := by
    intro term
    funext atom st
    simp only [anisotropy_term_atom]
  funext a b st
  simp only [anisotropy_fields, e]

theorem compute_forces_globals (lat : Lattice K) (h : K) :
    compute_forces { lat with H_applied := h } = compute_forces lat := by
  have e : compute_forces_atom { lat with H_applied := h } = compute_forces_atom lat := by
    funext i st
    simp only [compute_forces_atom]
  funext a b st
  simp only [compute_forces, e]

theorem generate_thermal_noise_globals (lat : Lattice K) (h : K) :
    generate_thermal_noise { lat with H_applied := h } = generate_thermal_noise lat := by
  have e : generate_entry { lat with H_applied := h } = generate_entry lat := by
    funext i p
    simp only [generate_entry]
  funext st
  simp only [generate_thermal_noise, generate, e]

theorem compute_exchange_slice_globals (sqrt : K → K) (env : Env K) (lat : Lattice K)
    (t : Nat) (h : K) :
    compute_exchange_slice sqrt { env with time := t } { lat with H_applied := h }
      = compute_exchange_slice sqrt env lat := by
  funext i p
  simp only [compute_exchange_slice, compute_exchange_sums_globals]

theorem compute_sld_coupling_slice_globals (sqrt : K → K) (env : Env K) (lat : Lattice K)
    (t : Nat) (h : K) :
    compute_sld_coupling_slice sqrt { env with time := t } { lat with H_applied := h }
      = compute_sld_coupling_slice sqrt env lat := by
  funext i p
  simp only [compute_sld_coupling_slice, compute_sld_coupling_sums_globals]

theorem compute_sld_coupling_neel_slice_globals (sqrt : K → K) (env : Env K)
    (lat : Lattice K) (t : Nat) (h : K) :
    compute_sld_coupling_neel_slice sqrt { env with time := t } { lat with H_applied := h }
      = compute_sld_coupling_neel_slice sqrt env lat := by
  funext i p
  simp only [compute_sld_coupling_neel_slice, compute_sld_coupling_neel_sums_globals]

theorem anisotropy_fields_slice_globals (env : Env K) (lat : Lattice K) (t : Nat) (h : K) :
    anisotropy_fields_slice { env with time := t } { lat with H_applied := h }
      = anisotropy_fields_slice env lat := by
  have e : ∀ term, anisotropy_term_slice { env with time := t } term
      = anisotropy_term_slice env term := by
    intro term
    funext i p
    simp only [anisotropy_term_slice]
  funext i p
  simp only [anisotropy_fields_slice, e]

theorem compute_exchange_slice_time (sqrt : K → K) (env : Env K) (lat : Lattice K) (t : Nat) :
    compute_exchange_slice sqrt { env with time := t } lat
      = compute_exchange_slice sqrt env lat :=
  compute_exchange_slice_globals sqrt env lat t lat.H_applied

theorem compute_sld_coupling_slice_time (sqrt : K → K) (env : Env K) (lat : Lattice K)
    (t : Nat) :
    compute_sld_coupling_slice sqrt { env with time := t } lat
      = compute_sld_coupling_slice sqrt env lat :=
  compute_sld_coupling_slice_globals sqrt env lat t lat.H_applied

theorem compute_sld_coupling_neel_slice_time (sqrt : K → K) (env : Env K) (lat : Lattice K)
    (t : Nat) :
    compute_sld_coupling_neel_slice sqrt { env with time := t } lat
      = compute_sld_coupling_neel_slice sqrt env lat :=
  compute_sld_coupling_neel_slice_globals sqrt env lat t lat.H_applied

theorem anisotropy_fields_slice_time (env : Env K) (lat : Lattice K) (t : Nat) :
    anisotropy_fields_slice { env with time := t } lat = anisotropy_fields_slice env lat :=
  anisotropy_fields_slice_globals env lat t lat.H_applied

theorem compute_exchange_applied (sqrt : K → K) (env : Env K) (lat : Lattice K) (h : K) :
    compute_exchange sqrt env { lat with H_applied := h } = compute_exchange sqrt env lat :=
  compute_exchange_globals sqrt env lat env.time h

theorem compute_sld_coupling_applied (sqrt : K → K) (env : Env K) (lat : Lattice K) (h : K) :
    compute_sld_coupling sqrt env { lat with H_applied := h }
      = compute_sld_coupling sqrt env lat :=
  compute_sld_coupling_globals sqrt env lat env.time h

theorem compute_sld_coupling_neel_applied (sqrt : K → K) (env : Env K) (lat : Lattice K)
    (h : K) :
    compute_sld_coupling_neel sqrt env { lat with H_applied := h }
      = compute_sld_coupling_neel sqrt env lat :=
  compute_sld_coupling_neel_globals sqrt env lat env.time h

theorem anisotropy_fields_applied (env : Env K) (lat : Lattice K) (h : K) :
    anisotropy_fields env { lat with H_applied := h } = anisotropy_fields env lat :=
  anisotropy_fields_globals env lat env.time h

end KernelGlobals
section AppliedFieldTheorems

variable {K : Type} [LinearOrderedField K]

/-- An anisotropy routine adds the same vector whatever the field holds. -/
theorem anisotropy_term_slice_shift (env : Env K) (term : Nat → Vec3 K → Vec3 K) (i : Nat)
    (p : FieldSlice K) (c : Vec3 K) :
    anisotropy_term_slice env term i { p with field := Vec3.add p.field c }
      = { anisotropy_term_slice env term i p with
          field := Vec3.add (anisotropy_term_slice env term i p).field c } := by
  simp only [anisotropy_term_slice, Vec3.add]
  refine FieldSlice.ext ?_ rfl rfl rfl rfl rfl rfl
  refine Vec3.ext ?_ ?_ ?_ <;> simp only [] <;> ring

theorem anisotropy_terms_slice_shift (env : Env K) (i : Nat) (c : Vec3 K)
    (l : List (Nat → Vec3 K → Vec3 K)) :
    ∀ p : FieldSlice K,
      l.foldl (fun q term => anisotropy_term_slice env term i q)
          { p with field := Vec3.add p.field c }
        = { l.foldl (fun q term => anisotropy_term_slice env term i q) p with
            field := Vec3.add
              (l.foldl (fun q term => anisotropy_term_slice env term i q) p).field c } := by
  induction l with
  | nil => intro p; rfl
  | cons term l ih =>
    intro p
    simp only [List.foldl_cons]
    rw [anisotropy_term_slice_shift, ih]

/-- The slice computed by `compute_fields` at any time is the slice computed at
`time == equilibration_time` with the applied field added when `time > equilibration_time`. -/
theorem compute_fields_slice_time (sqrt : K → K) (env : Env K) (lat : Lattice K) (j : Nat)
    (p : FieldSlice K) :
    compute_fields_slice sqrt env lat j p
      = { compute_fields_slice sqrt { env with time := env.equilibration_time } lat j p with
          field := Vec3.add
            (compute_fields_slice sqrt { env with time := env.equilibration_time } lat j
              p).field
            (if env.time > env.equilibration_time then applied_field lat else ⟨0, 0, 0⟩) } := by
  have hirr : ¬ (env.equilibration_time > env.equilibration_time) := lt_irrefl _
  have hz : ∀ q : FieldSlice K, { q with field := Vec3.add q.field ⟨0, 0, 0⟩ } = q := by
    intro q
    refine FieldSlice.ext ?_ rfl rfl rfl rfl rfl rfl
    simp [Vec3.add]
  have e : ∀ q : FieldSlice K, add_external_field_slice lat q
      = { q with field := Vec3.add q.field (applied_field lat) } := fun q => rfl
  have ha : ∀ (q : FieldSlice K) (c : Vec3 K),
      anisotropy_fields_slice env lat j { q with field := Vec3.add q.field c }
        = { anisotropy_fields_slice env lat j q with
            field := Vec3.add (anisotropy_fields_slice env lat j q).field c } :=
    fun q c => anisotropy_terms_slice_shift env j c lat.anisotropy_terms q
  unfold compute_fields_slice
  simp only [if_neg hirr, compute_exchange_slice_time, compute_sld_coupling_slice_time,
    compute_sld_coupling_neel_slice_time, anisotropy_fields_slice_time]
  by_cases h : env.time > env.equilibration_time
  · simp only [if_pos h]
    rw [e, ha]
  · simp only [if_neg h]
    exact (hz _).symm

/-- At `time == equilibration_time` the routine does not read the applied field. -/
theorem compute_fields_at_equilibration_time (sqrt : K → K) (env : Env K) (lat : Lattice K)
    (h : K) (a b : Nat) (st : SLD K) :
    compute_fields sqrt { env with time := env.equilibration_time }
        { lat with H_applied := h } a b st
      = compute_fields sqrt { env with time := env.equilibration_time } lat a b st := by
  have hirr : ¬ (env.equilibration_time > env.equilibration_time) := lt_irrefl _
  unfold compute_fields
  simp only [if_neg hirr, compute_exchange_applied, compute_sld_coupling_applied,
    compute_sld_coupling_neel_applied, anisotropy_fields_applied]

theorem spin_update_atom_at_equilibration_time (sqrt : K → K) (env : Env K) (lat : Lattice K)
    (h : K) :
    spin_update_atom sqrt { env with time := env.equilibration_time }
        { lat with H_applied := h }
      = spin_update_atom sqrt { env with time := env.equilibration_time } lat := by
  funext atom st
  simp only [spin_update_atom, compute_fields_at_equilibration_time]

theorem suzuki_trotter_at_equilibration_time (sqrt : K → K) (env : Env K) (lat : Lattice K)
    (h : K) (st : SLD K) :
    suzuki_trotter sqrt { env with time := env.equilibration_time }
        { lat with H_applied := h } st
      = suzuki_trotter sqrt { env with time := env.equilibration_time } lat st := by
  simp only [suzuki_trotter, spin_sweeps, forward_sweep, backward_sweep, lattice_first,
    lattice_second, recompute_forces, spin_update_atom_at_equilibration_time,
    compute_fields_at_equilibration_time, compute_forces_globals,
    generate_thermal_noise_globals]

theorem compute_fields_field_time (sqrt : K → K) (env : Env K) (lat : Lattice K)
    (a b : Nat) (st : SLD K) (j : Nat) :
    SLD.slice j (compute_fields sqrt env lat a b st)
      = { SLD.slice j (compute_fields sqrt { env with time := env.equilibration_time } lat a b
            st) with
          field := Vec3.add
            ((compute_fields sqrt { env with time := env.equilibration_time } lat a b
              st).field j)
            (if env.time > env.equilibration_time ∧ a ≤ j ∧ j < b then applied_field lat
              else ⟨0, 0, 0⟩) } := by
  have hz : ∀ q : FieldSlice K, { q with field := Vec3.add q.field ⟨0, 0, 0⟩ } = q := by
    intro q
    refine FieldSlice.ext ?_ rfl rfl rfl rfl rfl rfl
    simp [Vec3.add]
  have hf : ∀ s : SLD K, s.field j = (SLD.slice j s).field := fun s => rfl
  rw [hf, compute_fields_slice_eq, compute_fields_slice_eq]
  by_cases hr : a ≤ j ∧ j < b
  · have hc : (env.time > env.equilibration_time ∧ a ≤ j ∧ j < b)
        ↔ env.time > env.equilibration_time := ⟨fun h => h.1, fun h => ⟨h, hr⟩⟩
    simp only [if_pos hr, hc]
    exact compute_fields_slice_time sqrt env lat j _
  · have hc : ¬ (env.time > env.equilibration_time ∧ a ≤ j ∧ j < b) := fun h => hr h.2
    simp only [if_neg hr, if_neg hc]
    exact (hz _).symm

end AppliedFieldTheorems
section AppliedFieldClaim

variable {K : Type} [LinearOrderedField K]

/-- C35: for every atom `j`, what `sld::compute_fields` computes at any time is what it computes
at `sim::time == sim::equilibration_time` with the applied field `H_applied * H_vec` added to
the field of `j` exactly when `sim::time > sim::equilibration_time` and `j` is in the range;
everything else it writes is the same.  At `sim::time == sim::equilibration_time` neither
`compute_fields` nor a whole `suzuki_trotter` step depends on `H_applied`, while
`add_spin_noise` already uses the production coefficients `(alpha, H_th_sigma)` and both
velocity kicks use `(damp_lat, F_th_sigma)`. -/
theorem compute_fields_applied_field_after_equilibration (sqrt : K → K) (env : Env K)
    (lat : Lattice K) (start_index end_index : Nat) (st : SLD K) (j : Nat) :
    SLD.slice j (compute_fields sqrt env lat start_index end_index st)
      = { SLD.slice j (compute_fields sqrt { env with time := env.equilibration_time } lat
            start_index end_index st) with
          field := Vec3.add
            ((compute_fields sqrt { env with time := env.equilibration_time } lat start_index
              end_index st).field j)
            (if env.time > env.equilibration_time ∧ start_index ≤ j ∧ j < end_index then
              applied_field lat
            else ⟨0, 0, 0⟩) }
    ∧ SLD.others (compute_fields sqrt env lat start_index end_index st)
      = SLD.others (compute_fields sqrt { env with time := env.equilibration_time } lat
          start_index end_index st)
    ∧ (∀ h : K,
        compute_fields sqrt { env with time := env.equilibration_time }
            { lat with H_applied := h } start_index end_index st
          = compute_fields sqrt { env with time := env.equilibration_time } lat start_index
              end_index st)
    ∧ (∀ h : K,
        suzuki_trotter sqrt { env with time := env.equilibration_time }
            { lat with H_applied := h } st
          = suzuki_trotter sqrt { env with time := env.equilibration_time } lat st)
    ∧ (∀ (dt : K) (s : SLD K),
        (add_spin_noise sqrt { env with time := env.equilibration_time } j (j + 1) dt s).field j
          = spin_noise_closed_form (env.material (env.type_array j)).alpha
              ((env.material (env.type_array j)).H_th_sigma * sqrt env.temperature)
              (s.field j) (s.H_th j) (s.spin j))
    ∧ (∀ s : SLD K,
        (update_position_velocity sqrt { env with time := env.equilibration_time } s).velo j
          = (if j < env.num_atoms then
              kick_closed_form (env.dt_SI * 1e12) (env.sld_mp (env.type_array j)).mass
                (env.sld_mp (env.type_array j)).damp_lat
                ((env.sld_mp (env.type_array j)).F_th_sigma * sqrt env.temperature)
                (s.velo j) (s.force j) (s.F_th j)
            else s.velo j)
        ∧ (update_velocity sqrt { env with time := env.equilibration_time } s).velo j
          = (if j < env.num_atoms then
              kick_closed_form (env.dt_SI * 1e12) (env.sld_mp (env.type_array j)).mass
                (env.sld_mp (env.type_array j)).damp_lat
                ((env.sld_mp (env.type_array j)).F_th_sigma * sqrt env.temperature)
                (s.velo j) (s.force j) (s.F_th j)
            else s.velo j)) := by
  have hmem : j ≤ j ∧ j < j + 1 := ⟨Nat.le_refl j, Nat.lt_succ_self j⟩
  refine ⟨compute_fields_field_time sqrt env lat start_index end_index st j, ?_,
    fun h => compute_fields_at_equilibration_time sqrt env lat h start_index end_index st,
    fun h => suzuki_trotter_at_equilibration_time sqrt env lat h st, ?_, ?_⟩
  · rw [compute_fields_others, compute_fields_others]
  · intro dt s
    rw [add_spin_noise_field, if_pos hmem,
      selected_lambda_above env env.equilibration_time _ (Nat.le_refl _),
      selected_H_th_sigma_above env env.equilibration_time _ (Nat.le_refl _)]
  · intro s
    constructor
    · rw [update_position_velocity_velo,
        selected_damp_lat_above env env.equilibration_time _ (Nat.le_refl _),
        selected_F_th_sigma_above env env.equilibration_time _ (Nat.le_refl _)]
    · rw [update_velocity_velo,
        selected_damp_lat_above env env.equilibration_time _ (Nat.le_refl _),
        selected_F_th_sigma_above env env.equilibration_time _ (Nat.le_refl _)]

end AppliedFieldClaim
section CayleyInvariants

variable {K : Type} [LinearOrderedField K]

/-- The closed form keeps the component of the spin along the field: `F · S' = F · S` for
`A = dt F`. -/
theorem cayley_closed_form_dot_field (dt : K) (F S : Vec3 K) :
    Vec3.dot F (cayley_closed_form (Vec3.smul dt F) S) = Vec3.dot F S := by
  obtain ⟨fx, fy, fz⟩ := F
  obtain ⟨sx, sy, sz⟩ := S
  have hpos : (0 : K) < 1 + (dt * fx * (dt * fx) + dt * fy * (dt * fy)
      + dt * fz * (dt * fz)) / 4 := by
    nlinarith [mul_self_nonneg (dt * fx), mul_self_nonneg (dt * fy), mul_self_nonneg (dt * fz)]
  have hne := ne_of_gt hpos
  have hc : 1 / (1 + (dt * fx * (dt * fx) + dt * fy * (dt * fy) + dt * fz * (dt * fz)) / 4)
      * (1 + (dt * fx * (dt * fx) + dt * fy * (dt * fy) + dt * fz * (dt * fz)) / 4) = 1 := by
    rw [one_div, inv_mul_cancel₀ hne]
  simp only [cayley_closed_form, Vec3.smul, Vec3.add, Vec3.cross, Vec3.dot, Vec3.normSq]
  generalize 1 / (1 + (dt * fx * (dt * fx) + dt * fy * (dt * fy) + dt * fz * (dt * fz)) / 4)
    = c at hc ⊢
  linear_combination (fx * sx + fy * sy + fz * sz) * hc

/-- The map `v ↦ v + (A × v)/2` is injective. -/
theorem half_cross_injective (A D : Vec3 K)
    (h : Vec3.add D (Vec3.smul (1 / 2) (Vec3.cross A D)) = ⟨0, 0, 0⟩) : D = ⟨0, 0, 0⟩ := by
  obtain ⟨ax, ay, az⟩ := A
  obtain ⟨dx, dy, dz⟩ := D
  simp only [Vec3.smul, Vec3.add, Vec3.cross, Vec3.mk.injEq] at h ⊢
  obtain ⟨h1, h2, h3⟩ := h
  have hs : dx * dx + dy * dy + dz * dz = 0 := by
    linear_combination dx * h1 + dy * h2 + dz * h3
  have hx : dx = 0 := by
    have : dx * dx ≤ 0 := by nlinarith [mul_self_nonneg dy, mul_self_nonneg dz]
    exact mul_self_eq_zero.mp (le_antisymm this (mul_self_nonneg dx))
  have hy : dy = 0 := by
    have : dy * dy ≤ 0 := by nlinarith [mul_self_nonneg dx, mul_self_nonneg dz]
    exact mul_self_eq_zero.mp (le_antisymm this (mul_self_nonneg dy))
  have hz : dz = 0 := by
    have : dz * dz ≤ 0 := by nlinarith [mul_self_nonneg dx, mul_self_nonneg dy]
    exact mul_self_eq_zero.mp (le_antisymm this (mul_self_nonneg dz))
  exact ⟨hx, hy, hz⟩

/-- The closed form with generator `-dt F` undoes the closed form with generator `dt F`. -/
theorem cayley_closed_form_reverse (dt : K) (F S : Vec3 K) :
    cayley_closed_form (Vec3.smul (-dt) F) (cayley_closed_form (Vec3.smul dt F) S) = S := by
  have h1 := cayley_closed_form_cayley (Vec3.smul dt F) S
  have h2 := cayley_closed_form_cayley (Vec3.smul (-dt) F)
    (cayley_closed_form (Vec3.smul dt F) S)
  generalize cayley_closed_form (Vec3.smul dt F) S = T at h1 h2 ⊢
  generalize cayley_closed_form (Vec3.smul (-dt) F) T = U at h2 ⊢
  have hD : Vec3.add (Vec3.add U (Vec3.smul (-1) S))
      (Vec3.smul (1 / 2) (Vec3.cross (Vec3.smul dt F) (Vec3.add U (Vec3.smul (-1) S))))
      = ⟨0, 0, 0⟩ := by
    obtain ⟨fx, fy, fz⟩ := F
    obtain ⟨sx, sy, sz⟩ := S
    obtain ⟨tx, ty, tz⟩ := T
    obtain ⟨ux, uy, uz⟩ := U
    simp only [Vec3.smul, Vec3.add, Vec3.cross, Vec3.mk.injEq] at h1 h2 ⊢
    obtain ⟨a1, a2, a3⟩ := h1
    obtain ⟨b1, b2, b3⟩ := h2
    refine ⟨?_, ?_, ?_⟩
    · linear_combination a1 + b1
    · linear_combination a2 + b2
    · linear_combination a3 + b3
  have h0 := half_cross_injective _ _ hD
  obtain ⟨sx, sy, sz⟩ := S
  obtain ⟨ux, uy, uz⟩ := U
  simp only [Vec3.smul, Vec3.add, Vec3.mk.injEq] at h0 ⊢
  obtain ⟨c1, c2, c3⟩ := h0
  refine ⟨?_, ?_, ?_⟩
  · linear_combination c1
  · linear_combination c2
  · linear_combination c3

theorem cayley_update_field (start_index end_index : Nat) (dt : K) (st : SLD K) :
    (cayley_update start_index end_index dt st).field = st.field :=
  for_range_preserve (fun s : SLD K => s.field) (cayley_update_atom dt)
    (fun _ _ => rfl) _ _ _

/-- C36: for every atom (inside or outside the range), every spin, field and rotation time,
the spin `S'` written by `cayley_update` has the same component along the field of the atom as
the spin `S` read: `F · S' = F · S`; the field itself is not changed by the update. -/
theorem cayley_update_preserves_field_component (start_index end_index : Nat) (dt : K)
    (st : SLD K) (i : Nat) :
    Vec3.dot (st.field i) ((cayley_update start_index end_index dt st).spin i)
        = Vec3.dot (st.field i) (st.spin i)
    ∧ (cayley_update start_index end_index dt st).field i = st.field i := by
  refine ⟨?_, congrFun (cayley_update_field start_index end_index dt st) i⟩
  rw [cayley_update_spin]
  split_ifs
  · exact cayley_closed_form_dot_field dt (st.field i) (st.spin i)
  · rfl

/-- C37: for every atom, spin, field and rotation time, `cayley_update` with rotation time
`dt` followed by `cayley_update` on the same range with rotation time `-dt` (the field arrays
are the same in both calls, the update does not write them) returns the spin on entry. -/
theorem cayley_update_reversible (start_index end_index : Nat) (dt : K) (st : SLD K)
    (i : Nat) :
    (cayley_update start_index end_index (-dt)
        (cayley_update start_index end_index dt st)).spin i = st.spin i
    ∧ (cayley_update start_index end_index dt st).field i = st.field i := by
  refine ⟨?_, congrFun (cayley_update_field start_index end_index dt st) i⟩
  rw [cayley_update_spin, congrFun (cayley_update_field start_index end_index dt st) i,
    cayley_update_spin]
  split_ifs
  · exact cayley_closed_form_reverse dt (st.field i) (st.spin i)
  · rfl

end CayleyInvariants
section LSFFieldTheorems

variable {K : Type} [Field K]

/-- The value written by `calculate_lsf_rk4_field` is the scalar multiple of the spin given by
the formula. -/
theorem lsf_field_value_eq_formula (env : Env K) (atom : Nat) (S : Vec3 K) :
    lsf_field_value env atom S
      = lsf_field_formula (env.lsf_second_order_coefficient (env.type_array atom))
          (env.lsf_fourth_order_coefficient (env.type_array atom))
          (env.lsf_sixth_order_coefficient (env.type_array atom))
          (env.material (env.type_array atom)).mu_s_SI S := by
  have e1 : (1.0 : K) = 1 := by norm_num
  have e2 : (2.0 : K) = 2 := by norm_num
  have e4 : (4.0 : K) = 4 := by norm_num
  have e6 : (6.0 : K) = 6 := by norm_num
  simp only [lsf_field_value, lsf_field_formula, Vec3.smul, Vec3.normSq, Vec3.dot, e1, e2, e4,
    e6]
  refine Vec3.ext ?_ ?_ ?_ <;> simp only [div_eq_mul_inv] <;> ring

/-- The vector product of a spin with its LSF field vanishes. -/
theorem cross_lsf_field_value (env : Env K) (atom : Nat) (S : Vec3 K) :
    Vec3.cross S (lsf_field_value env atom S) = ⟨0, 0, 0⟩ := by
  simp only [lsf_field_value, Vec3.cross]
  refine Vec3.ext ?_ ?_ ?_ <;> simp only [] <;> ring

/-- In "Calculate Delta S" the LSF field of the spin enters only the term `γ α H`. -/
theorem delta_S_lsf_field (sqrt : K → K) (env : Env K) (sigma : K) (atom : Nat)
    (S H : Vec3 K) (tx ty tz : K) :
    delta_S sqrt env sigma atom S (Vec3.add H (lsf_field_value env atom S)) tx ty tz
      = Vec3.add (delta_S sqrt env sigma atom S H tx ty tz)
          (Vec3.smul (env.gamma_SI * (env.material (env.type_array atom)).alpha)
            (lsf_field_value env atom S)) := by
  simp only [delta_S, lsf_field_value, Vec3.add, Vec3.smul]
  refine Vec3.ext ?_ ?_ ?_ <;> simp only [] <;> ring

theorem RK4_increment_lsf_field (sqrt : K → K) (env : Env K) (sigma : K) (atom : Nat)
    (S H : Vec3 K) (tx ty tz : K) :
    RK4_increment sqrt env sigma atom S (Vec3.add H (lsf_field_value env atom S)) tx ty tz
      = Vec3.add (RK4_increment sqrt env sigma atom S H tx ty tz)
          (Vec3.smul (env.dt_SI * env.gamma_SI * (env.material (env.type_array atom)).alpha)
            (lsf_field_value env atom S)) := by
  simp only [RK4_increment]
  rw [delta_S_lsf_field]
  simp only [Vec3.add, Vec3.smul]
  refine Vec3.ext ?_ ?_ ?_ <;> simp only [] <;> ring

theorem calculate_lsf_magnetic_field_lsf (env : Env K) (start stop : Nat) (st : LSF_serial K)
    (j : Nat) :
    (calculate_lsf_magnetic_field env start stop st).lsf j
      = if start ≤ j ∧ j < stop then lsf_field_value env j (st.spin j) else st.lsf j := by
  have h := for_range_slice (fun j (s : LSF_serial K) => (s.lsf j, s.spin j))
    (calculate_lsf_magnetic_field_atom env)
    (fun j p => (lsf_field_value env j p.2, p.2))
    (fun i j s hji => by
      simp [calculate_lsf_magnetic_field_atom, LSF_serial.lsf, LSF_serial.spin,
        Function.update_noteq hji])
    (fun i s => by
      simp [calculate_lsf_magnetic_field_atom, LSF_serial.lsf, LSF_serial.spin,
        lsf_field_value])
    start stop st j
  have h1 := congrArg Prod.fst h
  simp only [] at h1
  rw [calculate_lsf_magnetic_field, h1]
  split_ifs <;> rfl

theorem calculate_lsf_magnetic_field_spin (env : Env K) (start stop : Nat)
    (st : LSF_serial K) :
    (calculate_lsf_magnetic_field env start stop st).spin = st.spin :=
  for_range_preserve (fun s : LSF_serial K => s.spin) (calculate_lsf_magnetic_field_atom env)
    (fun _ _ => rfl) _ _ _

/-- C38: for every atom `j` of the range, `calculate_lsf_rk4_field` writes the scalar multiple
`-(2 L2 + 4 L4 |S|² + 6 L6 |S|⁴)/mu_s * S` of the spin `S` of the atom (other entries are
unchanged); for every spin `S × H_lsf(S) = 0`, so in the stage evaluation `Delta(S, H)` of
`LSF_RK4_mpi` the LSF field of the spin adds nothing to the precession term and enters only
through `γ α H`; right after the call the vector product of the spin and the LSF entry of
every atom of the range is zero; the serial `calculate_lsf_magnetic_field` writes the same
entries from the same spins. -/
theorem calculate_lsf_rk4_field_parallel_to_spin (sqrt : K → K) (env : Env K)
    (start_index end_index : Nat) (st : LSF K) (j : Nat) :
    (calculate_lsf_rk4_field env start_index end_index st).lsf j
      = (if start_index ≤ j ∧ j < end_index then
          lsf_field_formula (env.lsf_second_order_coefficient (env.type_array j))
            (env.lsf_fourth_order_coefficient (env.type_array j))
            (env.lsf_sixth_order_coefficient (env.type_array j))
            (env.material (env.type_array j)).mu_s_SI (st.spin j)
        else st.lsf j)
    ∧ (∀ S : Vec3 K,
        lsf_field_value env j S
          = lsf_field_formula (env.lsf_second_order_coefficient (env.type_array j))
              (env.lsf_fourth_order_coefficient (env.type_array j))
              (env.lsf_sixth_order_coefficient (env.type_array j))
              (env.material (env.type_array j)).mu_s_SI S
        ∧ Vec3.cross S (lsf_field_value env j S) = ⟨0, 0, 0⟩
        ∧ ∀ (sigma : K) (H : Vec3 K) (tx ty tz : K),
          RK4_increment sqrt env sigma j S (Vec3.add H (lsf_field_value env j S)) tx ty tz
            = Vec3.add (RK4_increment sqrt env sigma j S H tx ty tz)
                (Vec3.smul (env.dt_SI * env.gamma_SI * (env.material (env.type_array j)).alpha)
                  (lsf_field_value env j S)))
    ∧ Vec3.cross ((calculate_lsf_rk4_field env start_index end_index st).spin j)
        ((calculate_lsf_rk4_field env start_index end_index st).lsf j)
      = (if start_index ≤ j ∧ j < end_index then ⟨0, 0, 0⟩
        else Vec3.cross (st.spin j) (st.lsf j))
    ∧ (calculate_lsf_magnetic_field env start_index end_index st.serial_view).lsf j
      = (calculate_lsf_rk4_field env start_index end_index st).lsf j
    ∧ (calculate_lsf_magnetic_field env start_index end_index st.serial_view).spin j
      = (calculate_lsf_rk4_field env start_index end_index st).spin j := by
  refine ⟨?_, fun S => ⟨lsf_field_value_eq_formula env j S, cross_lsf_field_value env j S,
    fun sigma H tx ty tz => RK4_increment_lsf_field sqrt env sigma j S H tx ty tz⟩, ?_, ?_, ?_⟩
  · rw [calculate_lsf_rk4_field_lsf, lsf_field_value_eq_formula]
  · rw [calculate_lsf_rk4_field_lsf, calculate_lsf_rk4_field_spin]
    split_ifs
    · exact cross_lsf_field_value env j (st.spin j)
    · rfl
  · rw [calculate_lsf_rk4_field_lsf, calculate_lsf_magnetic_field_lsf]
    rfl
  · rw [calculate_lsf_magnetic_field_spin, calculate_lsf_rk4_field_spin]
    rfl

end LSFFieldTheorems
section CouplingEnergyTheorems

variable {K : Type} [LinearOrderedField K]

/-- The neighbour loop of `compute_sld_coupling` never changes `energy_c`. -/
theorem compute_sld_coupling_neighbour_energy_c (sqrt : K → K) (env : Env K) (lat : Lattice K)
    (cfg : Config K) (i n : Nat) (a : CouplingSums K) :
    (compute_sld_coupling_neighbour sqrt env lat cfg i n a).energy_c = a.energy_c := by
  unfold compute_sld_coupling_neighbour
  simp only []
  split_ifs <;> rfl

theorem compute_sld_coupling_sums_energy_c (sqrt : K → K) (env : Env K) (lat : Lattice K)
    (cfg : Config K) (i : Nat) :
    (compute_sld_coupling_sums sqrt env lat cfg i).energy_c = 0 := by
  unfold compute_sld_coupling_sums
  simp only []
  rw [for_range_preserve (fun a : CouplingSums K => a.energy_c)
    (compute_sld_coupling_neighbour sqrt env lat cfg i)
    (fun n a => compute_sld_coupling_neighbour_energy_c sqrt env lat cfg i n a)]

/-- One pass of the neighbour loop of `compute_sld_coupling_neel`: `energy_c` grows by the term
of the position if it contributes, and is unchanged otherwise. -/
theorem compute_sld_coupling_neel_neighbour_energy_c (sqrt : K → K) (env : Env K)
    (lat : Lattice K) (cfg : Config K) (i n : Nat) (a : CouplingSums K) :
    (compute_sld_coupling_neel_neighbour sqrt env lat cfg i n a).energy_c
      = a.energy_c + (if lat.neighbour_list_array n ≠ i
            ∧ exchange_r_sqr lat cfg i n < lat.r_cut_fields ^ 2
          then coupling_neel_energy_term sqrt env lat cfg i n else 0) := by
  have hsq : lat.r_cut_fields ^ 2 = lat.r_cut_fields * lat.r_cut_fields := by ring
  by_cases hj : lat.neighbour_list_array n ≠ i
  · by_cases hr : exchange_r_sqr lat cfg i n < lat.r_cut_fields ^ 2
    · have hr2 : (separation lat cfg i (lat.neighbour_list_array n)).x
            * (separation lat cfg i (lat.neighbour_list_array n)).x
          + (separation lat cfg i (lat.neighbour_list_array n)).y
            * (separation lat cfg i (lat.neighbour_list_array n)).y
          + (separation lat cfg i (lat.neighbour_list_array n)).z
            * (separation lat cfg i (lat.neighbour_list_array n)).z
          < lat.r_cut_fields * lat.r_cut_fields := by
        rw [← hsq]; exact hr
      have hc : lat.neighbour_list_array n ≠ i
          ∧ exchange_r_sqr lat cfg i n < lat.r_cut_fields ^ 2 := ⟨hj, hr⟩
      simp only [if_pos hc]
      simp only [compute_sld_coupling_neel_neighbour, if_pos hj, if_pos hr2,
        coupling_neel_energy_term]
      ring
    · have hr2 : ¬ ((separation lat cfg i (lat.neighbour_list_array n)).x
            * (separation lat cfg i (lat.neighbour_list_array n)).x
          + (separation lat cfg i (lat.neighbour_list_array n)).y
            * (separation lat cfg i (lat.neighbour_list_array n)).y
          + (separation lat cfg i (lat.neighbour_list_array n)).z
            * (separation lat cfg i (lat.neighbour_list_array n)).z
          < lat.r_cut_fields * lat.r_cut_fields) := by
        rw [← hsq]; exact hr
      have hc : ¬ (lat.neighbour_list_array n ≠ i
          ∧ exchange_r_sqr lat cfg i n < lat.r_cut_fields ^ 2) := fun h => hr h.2
      simp only [compute_sld_coupling_neel_neighbour, if_pos hj, if_neg hr2, if_neg hc,
        add_zero]
  · have hc : ¬ (lat.neighbour_list_array n ≠ i
        ∧ exchange_r_sqr lat cfg i n < lat.r_cut_fields ^ 2) := fun h => hj h.1
    simp only [compute_sld_coupling_neel_neighbour, if_neg hj, if_neg hc, add_zero]

theorem compute_sld_coupling_neel_foldl_energy_c (sqrt : K → K) (env : Env K)
    (lat : Lattice K) (cfg : Config K) (i : Nat) (l : List Nat) :
    ∀ a : CouplingSums K,
      (l.foldl (fun s n => compute_sld_coupling_neel_neighbour sqrt env lat cfg i n s)
          a).energy_c
        = a.energy_c + (l.map (fun n => if lat.neighbour_list_array n ≠ i
              ∧ exchange_r_sqr lat cfg i n < lat.r_cut_fields ^ 2
            then coupling_neel_energy_term sqrt env lat cfg i n else 0)).sum := by
  induction l with
  | nil => intro a; simp
  | cons n l ih =>
    intro a
    simp only [List.foldl_cons, List.map_cons, List.sum_cons]
    rw [ih, compute_sld_coupling_neel_neighbour_energy_c]
    ring

theorem compute_sld_coupling_neel_sums_energy_c (sqrt : K → K) (env : Env K)
    (lat : Lattice K) (cfg : Config K) (i : Nat) :
    (compute_sld_coupling_neel_sums sqrt env lat cfg i).energy_c
      = coupling_neel_energy_sum sqrt env lat cfg i := by
  unfold compute_sld_coupling_neel_sums for_range
  simp only []
  rw [loop_from_eq_foldl, compute_sld_coupling_neel_foldl_energy_c]
  simp only [zero_add, coupling_neel_energy_sum, exchange_positions, neighbour_positions,
    sum_filter_map_eq]

theorem compute_sld_coupling_coupl_eng (sqrt : K → K) (env : Env K) (lat : Lattice K)
    (a b : Nat) (st : SLD K) (i : Nat) :
    (compute_sld_coupling sqrt env lat a b st).coupl_eng i
      = if a ≤ i ∧ i < b then 0 else st.coupl_eng i := by
  have h := compute_sld_coupling_slice_eq sqrt env lat a b st i
  have h1 := congrArg FieldSlice.coupl_eng h
  simp only [SLD.slice] at h1
  rw [h1]
  split_ifs
  · simp only [compute_sld_coupling_slice, compute_sld_coupling_sums_energy_c, mul_zero]
  · rfl

theorem compute_sld_coupling_neel_coupl_eng (sqrt : K → K) (env : Env K) (lat : Lattice K)
    (a b : Nat) (st : SLD K) (i : Nat) :
    (compute_sld_coupling_neel sqrt env lat a b st).coupl_eng i
      = if a ≤ i ∧ i < b then -(1 / 2) * coupling_neel_energy_sum sqrt env lat st.config i
        else st.coupl_eng i := by
  have h := compute_sld_coupling_neel_slice_eq sqrt env lat a b st i
  have h1 := congrArg FieldSlice.coupl_eng h
  simp only [SLD.slice] at h1
  rw [h1]
  split_ifs
  · simp only [compute_sld_coupling_neel_slice, compute_sld_coupling_neel_sums_energy_c]
    norm_num
  · rfl

/-- C39: `compute_sld_coupling` stores `0` in `coupl_eng[i]` for every atom `i` of the range,
whatever the spins, positions and neighbour list (its accumulator `energy_c` is not changed by
the neighbour loop), and leaves the other entries as they are; `compute_sld_coupling_neel`
stores `-1/2` times the sum, over the list positions `n` from `neighbour_list_start_index[i]`
to `neighbour_list_end_index[i]` with `j ≠ i` and `r² < r_cut²`, of the three amounts it adds
to `energy_c` at `n`. -/
theorem compute_sld_coupling_energy_is_zero (sqrt : K → K) (env : Env K) (lat : Lattice K)
    (start_index end_index : Nat) (st : SLD K) (i : Nat) :
    (compute_sld_coupling sqrt env lat start_index end_index st).coupl_eng i
      = (if start_index ≤ i ∧ i < end_index then 0 else st.coupl_eng i)
    ∧ (∀ (n : Nat) (a : CouplingSums K),
        (compute_sld_coupling_neighbour sqrt env lat st.config i n a).energy_c = a.energy_c)
    ∧ (compute_sld_coupling_neel sqrt env lat start_index end_index st).coupl_eng i
      = (if start_index ≤ i ∧ i < end_index then
          -(1 / 2) * coupling_neel_energy_sum sqrt env lat st.config i
        else st.coupl_eng i) :=
  ⟨compute_sld_coupling_coupl_eng sqrt env lat start_index end_index st i,
   fun n a => compute_sld_coupling_neighbour_energy_c sqrt env lat st.config i n a,
   compute_sld_coupling_neel_coupl_eng sqrt env lat start_index end_index st i⟩

end CouplingEnergyTheorems

end Vampire
